import Mathlib

/-! ViennaRNA `data_structures.c`: matrix store and fold-compound lifecycle

A shallow embedding of `src/ViennaRNA/data_structures.c`: the allocation
vector, the dense and the sparse (distance-class partitioned) matrix
families with their allocation and teardown, the scale tables and the
fold-compound constructors, followed by theorems about them.

Conventions of the embedding

* `unsigned int` values are natural numbers, reduced `% 2^32` where the
  source computes with them; `int` values are integers.
* A C pointer is `Ptr`: null, or a block identifier together with an
  element offset.  Dynamic memory is an explicit `Heap`; every function
  that touches memory is a function `Heap → Outcome`, and a run either
  finishes (`Outcome.ok`) or stops at a `Fault` (`Outcome.fail`), in both
  cases together with the heap reached.
* Macros, enumerations and functions that `data_structures.c` takes from
  other files of the package are parameters (`Consts`, `FltOps`, `Ext`).
-/

namespace ViennaRNA

/-! ## Private macros of `data_structures.c` (lines 48-66) -/

def ALLOC_NOTHING : Nat := 0
def ALLOC_F : Nat := 1
def ALLOC_F5 : Nat := 2
def ALLOC_F3 : Nat := 4
def ALLOC_FC : Nat := 8
def ALLOC_C : Nat := 16
def ALLOC_FML : Nat := 32
def ALLOC_PROBS : Nat := 256
def ALLOC_AUX : Nat := 512
def ALLOC_CIRC : Nat := 1024
def ALLOC_HYBRID : Nat := 2048
def ALLOC_UNIQ : Nat := 4096

def ALLOC_MFE_DEFAULT : Nat := ALLOC_F5 ||| ALLOC_C ||| ALLOC_FML
def ALLOC_PF_WO_PROBS : Nat := ALLOC_F ||| ALLOC_C ||| ALLOC_FML
def ALLOC_PF_DEFAULT : Nat := ALLOC_PF_WO_PROBS ||| ALLOC_PROBS ||| ALLOC_AUX

/-- The value of `INT_MAX` for a 32-bit `int` (`limits.h`). -/
def INT_MAX : Nat := 2147483647

/-- Modulus of `unsigned int` arithmetic. -/
def UINT_MOD : Nat := 4294967296

/-- Macros that `data_structures.c` uses but that are defined in headers
of the package outside this file (`data_structures.h`, `energy_const.h`).
They are parameters of the embedding. -/
structure Consts where
  VRNA_OPTION_MFE : Nat
  VRNA_OPTION_PF : Nat
  VRNA_OPTION_HYBRID : Nat
  VRNA_OPTION_EVAL_ONLY : Nat
  INF : Int
  TURN : Nat
  UNIT : Int
  MINPSCORE : Int
  deriving Repr, DecidableEq

/-- The values the package headers give to the macros of `Consts`
(`VRNA_OPTION_MFE 1`, `VRNA_OPTION_PF 2`, `VRNA_OPTION_HYBRID 4`,
`VRNA_OPTION_EVAL_ONLY 8`, `INF 10000000`, `TURN 3`, `UNIT 100`,
`MINPSCORE -2 * UNIT`); used to evaluate the code on concrete inputs. -/
def viennaConsts : Consts :=
  { VRNA_OPTION_MFE := 1, VRNA_OPTION_PF := 2, VRNA_OPTION_HYBRID := 4,
    VRNA_OPTION_EVAL_ONLY := 8, INF := 10000000, TURN := 3, UNIT := 100,
    MINPSCORE := -200 }

/-- The fields of `vrna_md_t` (the model-details record) that
`data_structures.c` reads or writes; the record has further fields, which
no statement of this file touches.  `R` stands for `double`.  The table
`pair` is the array `md->pair[][]`, row by row. -/
structure ModelDetails (R : Type) where
  compute_bpp : Int
  circ : Int
  uniq_ML : Int
  gquad : Int
  min_loop_size : Int
  oldAliEn : Int
  ribo : Int
  noLP : Int
  max_bp_span : Int
  sfact : R
  cv_fact : R
  nc_fact : R
  pair : List (List Int)
  deriving Repr, DecidableEq

/-- The C test `if (x & BIT)` on `unsigned int` values. -/
def bitSet (x bit : Nat) : Bool := x &&& bit != 0

/-- Source `get_mx_alloc_vector` (lines 971-999).  The source writes through
the pointer `md_p`; here the record after the call is the second
component of the result. -/
def get_mx_alloc_vector {R : Type} (K : Consts) (md_p : ModelDetails R) (options : Nat) :
    Nat × ModelDetails R :=
  let v := ALLOC_NOTHING
  -- default MFE matrices ?
  let v := if bitSet options K.VRNA_OPTION_MFE then v ||| ALLOC_MFE_DEFAULT else v
  -- default PF matrices ?
  let v := if bitSet options K.VRNA_OPTION_PF then
      v ||| (if md_p.compute_bpp ≠ 0 then ALLOC_PF_DEFAULT else ALLOC_PF_WO_PROBS)
    else v
  let v := if bitSet options K.VRNA_OPTION_HYBRID then v ||| ALLOC_HYBRID else v
  -- matrices for circular folding ?
  let mdv : ModelDetails R × Nat :=
    if md_p.circ ≠ 0 then ({ md_p with uniq_ML := 1 }, v ||| ALLOC_CIRC) else (md_p, v)
  let md_p := mdv.1
  let v := mdv.2
  -- unique ML decomposition ?
  let v := if md_p.uniq_ML ≠ 0 then v ||| ALLOC_UNIQ else v
  (v, md_p)

/-- The allocation vector as the specification words it: the bitwise OR
of the default MFE bits when MFE mode is requested, the default PF bits
when PF mode is requested (with the probability and auxiliary bits exactly
when probability output is requested), the hybrid bit when hybrid mode is
requested, the circular bit for circular topology, and the
unique-decomposition bit for circular topology or when requested directly. -/
def alloc_vector_reference {R : Type} (K : Consts) (md : ModelDetails R) (options : Nat) :
    Nat :=
  (if bitSet options K.VRNA_OPTION_MFE then ALLOC_F5 ||| ALLOC_C ||| ALLOC_FML else 0)
  ||| (if bitSet options K.VRNA_OPTION_PF then
        (ALLOC_F ||| ALLOC_C ||| ALLOC_FML)
          ||| (if md.compute_bpp ≠ 0 then ALLOC_PROBS ||| ALLOC_AUX else 0)
       else 0)
  ||| (if bitSet options K.VRNA_OPTION_HYBRID then ALLOC_HYBRID else 0)
  ||| (if md.circ ≠ 0 then ALLOC_CIRC else 0)
  ||| (if md.circ ≠ 0 ∨ md.uniq_ML ≠ 0 then ALLOC_UNIQ else 0)

/-! ## Memory model -/

/-- A C pointer: `NULL`, or a block of dynamic memory together with an
offset counted in elements. -/
inductive Ptr where
  | null
  | mk (block : Nat) (off : Int)
  deriving Repr, DecidableEq

/-- How a run can stop abnormally.  `message` is a call of
`vrna_message_error`; the others are accesses that C leaves undefined. -/
inductive Fault where
  | message (msg : String)
  | null_deref
  | out_of_bounds
  | use_after_free
  | invalid_free
  | double_free
  | type_mismatch
  | int_overflow
  deriving Repr, DecidableEq

/-- One element of a block.  `R` is the type standing for `FLT_OR_DBL` and
`double`; `struct` is the single element of a block that holds a C
structure, whose fields the embedding keeps in a Lean record. -/
inductive Cell (R : Type) where
  | int (v : Int)
  | ptr (p : Ptr)
  | flt (x : R)
  | chr (c : Char)
  | struct
  deriving Repr, DecidableEq

/-- A block of dynamic memory: its elements, and whether it has been
released. -/
structure Block (R : Type) where
  cells : List (Cell R)
  freed : Bool
  deriving Repr, DecidableEq

/-- Dynamic memory: the blocks obtained so far (block `b` is `blocks[b]`),
and the blocks handed to `free`, in the order of the calls. -/
structure Heap (R : Type) where
  blocks : List (Block R)
  released : List Nat
  deriving Repr, DecidableEq

/-- The heap before the first allocation. -/
def Heap.empty {R : Type} : Heap R := { blocks := [], released := [] }

/-- Result of a run: a value and the heap reached, or a fault and the heap
reached when the run stopped. -/
inductive Outcome (R α : Type) where
  | ok (a : α) (h : Heap R)
  | fail (f : Fault) (h : Heap R)
  deriving Repr, DecidableEq

/-- A computation on the heap. -/
def M (R α : Type) : Type := Heap R → Outcome R α

/-- Sequencing: the second computation runs on the heap the first one left,
and a fault ends the run. -/
def M.bind {R α β : Type} (x : M R α) (f : α → M R β) : M R β :=
  fun h => match x h with
    | .ok a h1 => f a h1
    | .fail e h1 => .fail e h1

/-- A computation that returns a value and leaves the heap alone. -/
def M.pure {R α : Type} (a : α) : M R α := fun h => .ok a h

instance {R : Type} : Monad (M R) where
  pure := M.pure
  bind := M.bind

/-- Stop the run with a fault. -/
def raise {R α : Type} (f : Fault) : M R α := fun h => .fail f h

/-- Modelled from the spec: `vrna_message_error` (`utils.c`) is not among
the sources.  The specification says that errors "are surfaced as fatal
process termination with a descriptive message" and that they are
"fail-fast and terminal": the call ends the run and nothing after it is
executed. -/
def vrna_message_error {R α : Type} (message : String) : M R α :=
  raise (Fault.message message)

/-- Modelled from the spec: `vrna_alloc` (`utils.c`) is not among the
sources.  It either "allocates successfully or the process is considered
out of resources"; buffers are "zero/INF-initialized", the zero part being
the allocator's.  The embedding gives the new block the next unused
identifier and returns a pointer to its first element; the caller passes
the initial (zero) elements. -/
def vrna_alloc {R : Type} (cells : List (Cell R)) : M R Ptr :=
  fun h => .ok (Ptr.mk h.blocks.length 0)
    { h with blocks := h.blocks ++ [{ cells := cells, freed := false }] }

/-- The call `vrna_alloc(sizeof(int) * len)`. -/
def vrna_alloc_int {R : Type} (len : Nat) : M R Ptr :=
  vrna_alloc (List.replicate len (Cell.int 0))

/-- The call `vrna_alloc(sizeof(T *) * len)` for an array of pointers. -/
def vrna_alloc_ptr {R : Type} (len : Nat) : M R Ptr :=
  vrna_alloc (List.replicate len (Cell.ptr Ptr.null))

/-- The call `vrna_alloc(sizeof(FLT_OR_DBL) * len)`; `zero` is `0.0`. -/
def vrna_alloc_flt {R : Type} (zero : R) (len : Nat) : M R Ptr :=
  vrna_alloc (List.replicate len (Cell.flt zero))

/-- The call `vrna_alloc(sizeof(S))` for a structure `S`. -/
def vrna_alloc_struct {R : Type} : M R Ptr :=
  vrna_alloc [Cell.struct]

/-- The C library call `free(p)`: nothing for `NULL`; otherwise `p` has to
be the start of a block that has not been released yet. -/
def free {R : Type} (p : Ptr) : M R Unit :=
  fun h => match p with
    | .null => .ok () h
    | .mk b off =>
      if off ≠ 0 then .fail Fault.invalid_free h
      else match h.blocks[b]? with
        | none => .fail Fault.invalid_free h
        | some blk =>
          if blk.freed then .fail Fault.double_free h
          else .ok () { blocks := h.blocks.set b { blk with freed := true },
                        released := h.released ++ [b] }

/-- Read the element `p[i]`. -/
def load {R : Type} (p : Ptr) (i : Int) : M R (Cell R) :=
  fun h => match p with
    | .null => .fail Fault.null_deref h
    | .mk b off =>
      match h.blocks[b]? with
      | none => .fail Fault.out_of_bounds h
      | some blk =>
        if blk.freed then .fail Fault.use_after_free h
        else if off + i < 0 then .fail Fault.out_of_bounds h
        else match blk.cells[(off + i).toNat]? with
          | none => .fail Fault.out_of_bounds h
          | some c => .ok c h

/-- Write the element `p[i]`. -/
def store {R : Type} (p : Ptr) (i : Int) (c : Cell R) : M R Unit :=
  fun h => match p with
    | .null => .fail Fault.null_deref h
    | .mk b off =>
      match h.blocks[b]? with
      | none => .fail Fault.out_of_bounds h
      | some blk =>
        if blk.freed then .fail Fault.use_after_free h
        else if off + i < 0 then .fail Fault.out_of_bounds h
        else if blk.cells.length ≤ (off + i).toNat then .fail Fault.out_of_bounds h
        else .ok ()
          { blocks := h.blocks.set b { blk with cells := blk.cells.set (off + i).toNat c },
            released := h.released }

/-- Read `p[i]` as an `int`. -/
def loadInt {R : Type} (p : Ptr) (i : Int) : M R Int := do
  match (← load p i) with
  | .int v => pure v
  | _ => raise Fault.type_mismatch

/-- Read `p[i]` as a pointer. -/
def loadPtr {R : Type} (p : Ptr) (i : Int) : M R Ptr := do
  match (← load p i) with
  | .ptr q => pure q
  | _ => raise Fault.type_mismatch

/-- Read `p[i]` as a `FLT_OR_DBL`. -/
def loadFlt {R : Type} (p : Ptr) (i : Int) : M R R := do
  match (← load p i) with
  | .flt x => pure x
  | _ => raise Fault.type_mismatch

/-- Pointer arithmetic `p + k`; C defines it only inside a block, so for
`NULL` only `k = 0` is accepted. -/
def ptr_add {R : Type} (p : Ptr) (k : Int) : M R Ptr :=
  match p with
  | .null => if k = 0 then pure Ptr.null else raise Fault.null_deref
  | .mk b off => pure (Ptr.mk b (off + k))

/-- The loop `for (i = start; ...; i++) body(i)` for a loop that makes
`count` rounds. -/
def forRange {R : Type} (body : Nat → M R Unit) : Nat → Nat → M R Unit
  | 0, _ => pure ()
  | count + 1, start => do
      body start
      forRange body count (start + 1)

/-- Number of entries of the block `p` points to, when `p` is the start of
a block of the heap. -/
def Heap.extent {R : Type} (h : Heap R) (p : Ptr) : Option Nat :=
  match p with
  | .null => none
  | .mk b off => if off = 0 then (h.blocks[b]?).map (fun blk => blk.cells.length) else none

/-- The element `p[i]` in heap `h`, if `p` points into a block and the
position lies inside it. -/
def Heap.cell {R : Type} (h : Heap R) (p : Ptr) (i : Int) : Option (Cell R) :=
  match p with
  | .null => none
  | .mk b off =>
    match h.blocks[b]? with
    | none => none
    | some blk => if off + i < 0 then none else blk.cells[(off + i).toNat]?

/-! ## Data model -/

/-- The operations on `double` / `FLT_OR_DBL` that `data_structures.c`
uses.  The embedding is parametric in the arithmetic: a theorem proved for
every `FltOps R` holds for machine doubles as well as for exact numbers.
`lit q` is the floating literal written `q` in the source (`1.`, `7.27`),
`ofInt` the conversion of an integer value, `toInt` the conversion to
`int`; a block returned by `vrna_alloc` holds `lit 0`. -/
structure FltOps (R : Type) where
  lit : ℚ → R
  ofInt : Int → R
  toInt : R → Int
  neg : R → R
  add : R → R → R
  sub : R → R → R
  mul : R → R → R
  div : R → R → R
  lt : R → R → Bool
  exp : R → R
  pow : R → R → R

/-- The enumeration `vrna_mx_t` (declared in `data_structures.h`): the
dense family, the sparse family, and any other enumerator, which the
`switch` statements of this file send to `default:`. -/
inductive MxType where
  | VRNA_MX_DEFAULT
  | VRNA_MX_2DFOLD
  | other (tag : Nat)
  deriving Repr, DecidableEq

/-- The tag `vc->type` of a fold compound: single sequence, alignment, or
any other value (the `default:` branches). -/
inductive VcType where
  | VRNA_VC_TYPE_SINGLE
  | VRNA_VC_TYPE_ALIGNMENT
  | other (tag : Nat)
  deriving Repr, DecidableEq

/-- The six outer arrays of one sparse family `X`: `E` is the value array
(`E_X`, or `Q_X` in the partition function family), then `l_min_X`,
`l_max_X`, `k_min_X`, `k_max_X`, and `rem` is the remainder array
(`E_X_rem`, `Q_X_rem`). -/
structure SparseFam where
  E : Ptr
  l_min : Ptr
  l_max : Ptr
  k_min : Ptr
  k_max : Ptr
  rem : Ptr
  deriving Repr, DecidableEq

/-- All six arrays `NULL`. -/
def SparseFam.absent : SparseFam :=
  { E := Ptr.null, l_min := Ptr.null, l_max := Ptr.null,
    k_min := Ptr.null, k_max := Ptr.null, rem := Ptr.null }

/-- The fields of one circular exterior-loop family `X` of the sparse case
(`E_Fc`, `E_FcH`, `E_FcI`, `E_FcM`, `Q_c`, ...): the value array, `l_min_X`,
`l_max_X`, and the scalars `k_min_X`, `k_max_X`. -/
structure CircFam where
  E : Ptr
  l_min : Ptr
  l_max : Ptr
  k_min : Int
  k_max : Int
  deriving Repr, DecidableEq

/-- The fields of a zeroed structure. -/
def CircFam.zero : CircFam :=
  { E := Ptr.null, l_min := Ptr.null, l_max := Ptr.null, k_min := 0, k_max := 0 }

/-- The structure `vrna_mx_mfe_t`.  `self` is the block that holds the
structure.  The sparse arrays of `data_structures.c` are grouped by family:
`F5.E` is `E_F5`, `F5.l_min` is `l_min_F5`, ..., `F5.rem` is `E_F5_rem`;
`C`, `M`, `M1`, `M2`, `F3` likewise. -/
structure MfeMx where
  self : Ptr
  type : MxType
  length : Nat
  f5 : Ptr
  f3 : Ptr
  fc : Ptr
  c : Ptr
  fML : Ptr
  fM1 : Ptr
  fM2 : Ptr
  ggg : Ptr
  Fc : Int
  FcH : Int
  FcI : Int
  FcM : Int
  F5 : SparseFam
  F3 : SparseFam
  C : SparseFam
  M : SparseFam
  M1 : SparseFam
  M2 : SparseFam
  E_Fc : CircFam
  E_FcH : CircFam
  E_FcI : CircFam
  E_FcM : CircFam
  E_Fc_rem : Int
  E_FcH_rem : Int
  E_FcI_rem : Int
  E_FcM_rem : Int
  deriving Repr, DecidableEq

/-- A `vrna_mx_mfe_t` as `vrna_alloc` returns it: every field zero. -/
def MfeMx.zero (self : Ptr) : MfeMx :=
  { self := self, type := MxType.VRNA_MX_DEFAULT, length := 0,
    f5 := Ptr.null, f3 := Ptr.null, fc := Ptr.null, c := Ptr.null, fML := Ptr.null,
    fM1 := Ptr.null, fM2 := Ptr.null, ggg := Ptr.null,
    Fc := 0, FcH := 0, FcI := 0, FcM := 0,
    F5 := SparseFam.absent, F3 := SparseFam.absent, C := SparseFam.absent,
    M := SparseFam.absent, M1 := SparseFam.absent, M2 := SparseFam.absent,
    E_Fc := CircFam.zero, E_FcH := CircFam.zero, E_FcI := CircFam.zero,
    E_FcM := CircFam.zero,
    E_Fc_rem := 0, E_FcH_rem := 0, E_FcI_rem := 0, E_FcM_rem := 0 }

/-- The structure `vrna_mx_pf_t`, grouped like `MfeMx`: `Q.E` is `Q`,
`Q.l_min` is `l_min_Q`, ..., `Q.rem` is `Q_rem`; `Q_B`, `Q_M`, `Q_M1`, `Q_M2`
likewise. -/
structure PfMx (R : Type) where
  self : Ptr
  type : MxType
  length : Nat
  q : Ptr
  qb : Ptr
  qm : Ptr
  qm1 : Ptr
  qm2 : Ptr
  probs : Ptr
  G : Ptr
  q1k : Ptr
  qln : Ptr
  scale : Ptr
  expMLbase : Ptr
  Q : SparseFam
  Q_B : SparseFam
  Q_M : SparseFam
  Q_M1 : SparseFam
  Q_M2 : SparseFam
  Q_c : CircFam
  Q_cH : CircFam
  Q_cI : CircFam
  Q_cM : CircFam
  Q_c_rem : R
  Q_cH_rem : R
  Q_cI_rem : R
  Q_cM_rem : R
  deriving Repr, DecidableEq

/-- A `vrna_mx_pf_t` as `vrna_alloc` returns it: every field zero. -/
def PfMx.zero {R : Type} (zero : R) (self : Ptr) : PfMx R :=
  { self := self, type := MxType.VRNA_MX_DEFAULT, length := 0,
    q := Ptr.null, qb := Ptr.null, qm := Ptr.null, qm1 := Ptr.null, qm2 := Ptr.null,
    probs := Ptr.null, G := Ptr.null, q1k := Ptr.null, qln := Ptr.null,
    scale := Ptr.null, expMLbase := Ptr.null,
    Q := SparseFam.absent, Q_B := SparseFam.absent, Q_M := SparseFam.absent,
    Q_M1 := SparseFam.absent, Q_M2 := SparseFam.absent,
    Q_c := CircFam.zero, Q_cH := CircFam.zero, Q_cI := CircFam.zero, Q_cM := CircFam.zero,
    Q_c_rem := zero, Q_cH_rem := zero, Q_cI_rem := zero, Q_cM_rem := zero }

/-- What `data_structures.c` uses of a `vrna_param_t` block: the block and
its copy of the model details. -/
structure Params (R : Type) where
  self : Ptr
  model_details : ModelDetails R
  deriving Repr, DecidableEq

/-- What `data_structures.c` uses of a `vrna_exp_param_t` block. -/
structure ExpParams (R : Type) where
  self : Ptr
  model_details : ModelDetails R
  pf_scale : R
  kT : R
  temperature : R
  expMLbase : R
  deriving Repr, DecidableEq

/-- A C string the fold compound owns: the block that holds it and its
characters, without the terminating NUL. -/
structure CStr where
  ptr : Ptr
  val : List Char
  deriving Repr, DecidableEq

/-- The structure `vrna_fold_compound`.  `self` is the block that holds the
structure; `matrices`, `exp_matrices`, `params` and `exp_params` are `none`
for `NULL`. -/
structure FoldCompound (R : Type) where
  self : Ptr
  type : VcType
  length : Nat
  cutpoint : Int
  sequence : CStr
  sequence_encoding : Ptr
  sequence_encoding2 : Ptr
  ptype : Ptr
  ptype_pf_compat : Ptr
  sc : Ptr
  hc : Ptr
  sequences : Ptr
  sequences_val : List CStr
  n_seq : Nat
  cons_seq : CStr
  S_cons : Ptr
  pscore : Ptr
  oldAliEn : Int
  S : Ptr
  S5 : Ptr
  S3 : Ptr
  a2s : Ptr
  Ss : Ptr
  scs : Ptr
  iindx : Ptr
  jindx : Ptr
  params : Option (Params R)
  exp_params : Option (ExpParams R)
  matrices : Option MfeMx
  exp_matrices : Option (PfMx R)
  reference_pt1 : Ptr
  reference_pt2 : Ptr
  referenceBPs1 : Ptr
  referenceBPs2 : Ptr
  bpdist : Ptr
  mm1 : Ptr
  mm2 : Ptr
  maxD1 : Int
  maxD2 : Int
  deriving Repr, DecidableEq

/-- A `vrna_fold_compound` as `vrna_alloc` returns it: every field zero. -/
def FoldCompound.zero {R : Type} (self : Ptr) : FoldCompound R :=
  { self := self, type := VcType.VRNA_VC_TYPE_SINGLE, length := 0, cutpoint := 0,
    sequence := { ptr := Ptr.null, val := [] },
    sequence_encoding := Ptr.null, sequence_encoding2 := Ptr.null,
    ptype := Ptr.null, ptype_pf_compat := Ptr.null, sc := Ptr.null, hc := Ptr.null,
    sequences := Ptr.null, sequences_val := [], n_seq := 0,
    cons_seq := { ptr := Ptr.null, val := [] },
    S_cons := Ptr.null, pscore := Ptr.null, oldAliEn := 0,
    S := Ptr.null, S5 := Ptr.null, S3 := Ptr.null, a2s := Ptr.null, Ss := Ptr.null,
    scs := Ptr.null, iindx := Ptr.null, jindx := Ptr.null,
    params := none, exp_params := none, matrices := none, exp_matrices := none,
    reference_pt1 := Ptr.null, reference_pt2 := Ptr.null,
    referenceBPs1 := Ptr.null, referenceBPs2 := Ptr.null, bpdist := Ptr.null,
    mm1 := Ptr.null, mm2 := Ptr.null, maxD1 := 0, maxD2 := 0 }

/-! ## Allocation of the matrix families -/

/-- The value of `(unsigned int)sqrt((double)INT_MAX)`: the square root of
2147483647 is 46340.95..., which the cast truncates. -/
def SQRT_INT_MAX : Nat := 46340

/-- The size guard of both allocators, `n >= (unsigned int)sqrt((double)INT_MAX)`
(lines 1200 and 1395): `true` when the length is refused. -/
def size_guard (n : Nat) : Bool := decide (SQRT_INT_MAX ≤ n)

/-- Message of the size guard of `get_mfe_matrices_alloc` (line 1201). -/
def msg_mfe_range : String :=
  "get_mfe_matrices_alloc@data_structures.c: sequence length exceeds addressable range"

/-- Message of the size guard of `get_pf_matrices_alloc` (line 1396). -/
def msg_pf_range : String :=
  "get_pf_matrices_alloc@data_structures.c: sequence length exceeds addressable range"

/-- The statement `p = (bit set) ? vrna_alloc(sizeof(int) * len) : NULL` of
the dense branch of `get_mfe_matrices_alloc` (lines 1210-1243). -/
def alloc_int_if {R : Type} (present : Bool) (len : Nat) : M R Ptr :=
  if present then vrna_alloc_int len else pure Ptr.null

/-- The statement `p = (bit set) ? vrna_alloc(sizeof(FLT_OR_DBL) * len) : NULL`
of the dense branch of `get_pf_matrices_alloc` (lines 1406-1442). -/
def alloc_flt_if {R : Type} (zero : R) (present : Bool) (len : Nat) : M R Ptr :=
  if present then vrna_alloc_flt zero len else pure Ptr.null

/-- One family block of the sparse branch of `get_mfe_matrices_alloc`
(lines 1252-1358): when the bit is set, six arrays of `len` entries and the
loop that stores `INF` in the first `fill` entries of the remainder array
(`for(i = 0; i <= n; i++)`, that is `fill = n + 1`, for the linear families;
`for(i = 0; i < size; i++)`, that is `fill = size`, for the triangular ones);
otherwise six `NULL`s. -/
def alloc_sparse_mfe {R : Type} (K : Consts) (present : Bool) (len fill : Nat) :
    M R SparseFam :=
  if present then do
    let E ← vrna_alloc_ptr len
    let l_min ← vrna_alloc_ptr len
    let l_max ← vrna_alloc_ptr len
    let k_min ← vrna_alloc_int len
    let k_max ← vrna_alloc_int len
    let rem ← vrna_alloc_int len
    forRange (fun i => store rem (i : Int) (Cell.int K.INF)) fill 0
    pure { E := E, l_min := l_min, l_max := l_max, k_min := k_min, k_max := k_max,
           rem := rem }
  else
    pure SparseFam.absent

/-- One family block of the sparse branch of `get_pf_matrices_alloc`
(lines 1446-1525): six arrays of `len` entries or six `NULL`s; the remainder
array holds `FLT_OR_DBL` values and is left as `vrna_alloc` returns it. -/
def alloc_sparse_pf {R : Type} (zero : R) (present : Bool) (len : Nat) : M R SparseFam :=
  if present then do
    let E ← vrna_alloc_ptr len
    let l_min ← vrna_alloc_ptr len
    let l_max ← vrna_alloc_ptr len
    let k_min ← vrna_alloc_int len
    let k_max ← vrna_alloc_int len
    let rem ← vrna_alloc_flt zero len
    pure { E := E, l_min := l_min, l_max := l_max, k_min := k_min, k_max := k_max,
           rem := rem }
  else
    pure SparseFam.absent

/-- Source `get_mfe_matrices_alloc` (lines 1192-1383), without the
`COUNT_STATES` part, which is compiled out. -/
def get_mfe_matrices_alloc {R : Type} (K : Consts) (n : Nat) (type : MxType)
    (alloc_vector : Nat) : M R MfeMx := do
  if size_guard n then
    vrna_message_error msg_mfe_range
  let size := ((n + 1) * (n + 2)) % UINT_MOD / 2
  let lin_size := (n + 2) % UINT_MOD
  let self ← vrna_alloc_struct
  let vars : MfeMx := { MfeMx.zero self with length := n, type := type }
  match type with
  | MxType.VRNA_MX_DEFAULT =>
    let f5 ← alloc_int_if (bitSet alloc_vector ALLOC_F5) lin_size
    let f3 ← alloc_int_if (bitSet alloc_vector ALLOC_F3) lin_size
    let fc ← alloc_int_if (bitSet alloc_vector ALLOC_HYBRID) lin_size
    let c ← alloc_int_if (bitSet alloc_vector ALLOC_C) size
    let fML ← alloc_int_if (bitSet alloc_vector ALLOC_FML) size
    let fM1 ← alloc_int_if (bitSet alloc_vector ALLOC_UNIQ) size
    let fM2 ← alloc_int_if (bitSet alloc_vector ALLOC_CIRC) lin_size
    -- setting exterior loop energies for circular case to INF is always safe
    pure { vars with f5 := f5, f3 := f3, fc := fc, c := c, fML := fML, fM1 := fM1,
                     fM2 := fM2, FcH := K.INF, FcI := K.INF, FcM := K.INF, Fc := K.INF,
                     ggg := Ptr.null }
  | MxType.VRNA_MX_2DFOLD =>
    let F5 ← alloc_sparse_mfe K (bitSet alloc_vector ALLOC_F5) lin_size (n + 1)
    let F3 ← alloc_sparse_mfe K (bitSet alloc_vector ALLOC_F3) lin_size (n + 1)
    let C ← alloc_sparse_mfe K (bitSet alloc_vector ALLOC_C) size size
    let M_ ← alloc_sparse_mfe K (bitSet alloc_vector ALLOC_FML) size size
    let M1 ← alloc_sparse_mfe K (bitSet alloc_vector ALLOC_UNIQ) size size
    let M2 ← alloc_sparse_mfe K (bitSet alloc_vector ALLOC_CIRC) lin_size (n + 1)
    -- setting exterior loop energies for circular case to INF is always safe
    pure { vars with F5 := F5, F3 := F3, C := C, M := M_, M1 := M1, M2 := M2,
                     E_Fc := { vars.E_Fc with E := Ptr.null },
                     E_FcH := { vars.E_FcH with E := Ptr.null },
                     E_FcI := { vars.E_FcI with E := Ptr.null },
                     E_FcM := { vars.E_FcM with E := Ptr.null },
                     E_Fc_rem := K.INF, E_FcH_rem := K.INF, E_FcI_rem := K.INF,
                     E_FcM_rem := K.INF }
  | MxType.other _ =>
    pure vars

/-- Source `get_pf_matrices_alloc` (lines 1387-1550). -/
def get_pf_matrices_alloc {R : Type} (F : FltOps R) (n : Nat) (type : MxType)
    (alloc_vector : Nat) : M R (PfMx R) := do
  if size_guard n then
    vrna_message_error msg_pf_range
  let size := ((n + 1) * (n + 2)) % UINT_MOD / 2
  let lin_size := (n + 2) % UINT_MOD
  let self ← vrna_alloc_struct
  let vars : PfMx R := { PfMx.zero (F.lit 0) self with length := n, type := type }
  let vars ← (match type with
    | MxType.VRNA_MX_DEFAULT => do
      let q ← alloc_flt_if (F.lit 0) (bitSet alloc_vector ALLOC_F) size
      let qb ← alloc_flt_if (F.lit 0) (bitSet alloc_vector ALLOC_C) size
      let qm ← alloc_flt_if (F.lit 0) (bitSet alloc_vector ALLOC_FML) size
      let qm1 ← alloc_flt_if (F.lit 0) (bitSet alloc_vector ALLOC_UNIQ) size
      let qm2 ← alloc_flt_if (F.lit 0) (bitSet alloc_vector ALLOC_CIRC) lin_size
      let probs ← alloc_flt_if (F.lit 0) (bitSet alloc_vector ALLOC_PROBS) size
      let q1k ← alloc_flt_if (F.lit 0) (bitSet alloc_vector ALLOC_AUX) lin_size
      let qln ← alloc_flt_if (F.lit 0) (bitSet alloc_vector ALLOC_AUX) lin_size
      pure { vars with q := q, qb := qb, qm := qm, qm1 := qm1, qm2 := qm2,
                       probs := probs, q1k := q1k, qln := qln }
    | MxType.VRNA_MX_2DFOLD => do
      let Q ← alloc_sparse_pf (F.lit 0) (bitSet alloc_vector ALLOC_F) size
      let Q_B ← alloc_sparse_pf (F.lit 0) (bitSet alloc_vector ALLOC_C) size
      let Q_M ← alloc_sparse_pf (F.lit 0) (bitSet alloc_vector ALLOC_FML) size
      let Q_M1 ← alloc_sparse_pf (F.lit 0) (bitSet alloc_vector ALLOC_UNIQ) size
      let Q_M2 ← alloc_sparse_pf (F.lit 0) (bitSet alloc_vector ALLOC_CIRC) lin_size
      pure { vars with Q := Q, Q_B := Q_B, Q_M := Q_M, Q_M1 := Q_M1, Q_M2 := Q_M2,
                       Q_c := { vars.Q_c with E := Ptr.null },
                       Q_cH := { vars.Q_cH with E := Ptr.null },
                       Q_cI := { vars.Q_cI with E := Ptr.null },
                       Q_cM := { vars.Q_cM with E := Ptr.null },
                       Q_c_rem := (F.lit 0), Q_cH_rem := (F.lit 0), Q_cI_rem := (F.lit 0),
                       Q_cM_rem := (F.lit 0) }
    | MxType.other _ => pure vars : M R (PfMx R))
  -- always alloc the helper arrays for unpaired nucleotides in multi-
  -- branch loops and scaling
  let scale ← vrna_alloc_flt (F.lit 0) lin_size
  let expMLbase ← vrna_alloc_flt (F.lit 0) lin_size
  pure { vars with scale := scale, expMLbase := expMLbase }

/-! ## Teardown of the matrix families -/

/-- The statement `arr[idx] += k_min[idx]` on an array of pointers; the new
pointer is returned. -/
def bump_by_k_min {R : Type} (arr k_min : Ptr) (idx : Int) : M R Ptr := do
  let p ← loadPtr arr idx
  let k ← loadInt k_min idx
  let q ← ptr_add p k
  store arr idx (Cell.ptr q)
  pure q

/-- The inner loop of the teardown of one entry of a sparse family `X`
(for instance lines 144-148):

    for(cnt1 = ...; cnt1 <= self->k_max_X[idx]; cnt1++)
      if(self->l_min_X[idx][cnt1] < INF){
        self->E_X[idx][cnt1] += self->l_min_X[idx][cnt1]/2;
        free(self->E_X[idx][cnt1]);
      }

`cnt1` is an `int`: the loop makes at most `2^32` rounds before `cnt1++`
leaves the range of `int`, which is where a run that uses up the first
argument stops. -/
def free_inner_loop {R : Type} (K : Consts) (fam : SparseFam) (idx : Int) :
    Nat → Int → M R Unit
  | 0, _ => raise Fault.int_overflow
  | rounds + 1, cnt1 => do
      let k_max ← loadInt fam.k_max idx
      if cnt1 ≤ k_max then
        let lm ← loadPtr fam.l_min idx
        let l ← loadInt lm cnt1
        if l < K.INF then
          let e ← loadPtr fam.E idx
          let p ← loadPtr e cnt1
          let q ← ptr_add p (Int.tdiv l 2)
          store e cnt1 (Cell.ptr q)
          free q
        if (INT_MAX : Int) < cnt1 + 1 then
          raise Fault.int_overflow
        free_inner_loop K fam idx rounds (cnt1 + 1)
      else
        pure ()

/-- The body of the loop over the entries of a sparse family `X`, for the
entry at position `idx` (for instance lines 143-156):

    if(!self->E_X[idx]) continue;
    for(cnt1 = self->k_min_X[idx]; cnt1 <= self->k_max_X[idx]; cnt1++) ...
    if(self->k_min_X[idx] < INF){
      self->E_X[idx] += self->k_min_X[idx];
      free(self->E_X[idx]);
      self->l_min_X[idx] += self->k_min_X[idx];
      self->l_max_X[idx] += self->k_min_X[idx];
      free(self->l_min_X[idx]);
      free(self->l_max_X[idx]);
    } -/
def free_entry {R : Type} (K : Consts) (fam : SparseFam) (idx : Int) : M R Unit := do
  let e ← loadPtr fam.E idx
  if e = Ptr.null then
    pure ()
  else
    let k_min ← loadInt fam.k_min idx
    free_inner_loop K fam idx (UINT_MOD + 1) k_min
    let k_min ← loadInt fam.k_min idx
    if k_min < K.INF then
      let e ← bump_by_k_min fam.E fam.k_min idx
      free e
      let lmin ← bump_by_k_min fam.l_min fam.k_min idx
      let lmax ← bump_by_k_min fam.l_max fam.k_min idx
      free lmin
      free lmax

/-- The five calls `free(self->E_X); free(self->l_min_X); free(self->l_max_X);
free(self->k_min_X); free(self->k_max_X);` that end the block of a family
(for instance lines 158-162). -/
def free_outer {R : Type} (fam : SparseFam) : M R Unit := do
  free fam.E
  free fam.l_min
  free fam.l_max
  free fam.k_min
  free fam.k_max

/-- The block of a linear family (`E_F5`, `E_F3`, `E_M2`, `Q_M2`):

    if(self->E_X != NULL){
      for(i = 1; ...; i++){ entry i }
      free(...) five times
    }

`rounds` is the number of rounds of the loop over `i`. -/
def free_linear {R : Type} (K : Consts) (fam : SparseFam) (rounds : Nat) : M R Unit :=
  if fam.E ≠ Ptr.null then do
    forRange (fun i => free_entry K fam (i : Int)) rounds 1
    free_outer fam
  else
    pure ()

/-- The index `ij = vc->iindx[i] - j`, computed in `unsigned int`. -/
def index_iindx {R : Type} (iindx : Ptr) (i j : Nat) : M R Int := do
  let x ← loadInt iindx (i : Int)
  pure ((x - (j : Int)) % (UINT_MOD : Int))

/-- The index `ij = vc->jindx[j] + i`, computed in `unsigned int`. -/
def index_jindx {R : Type} (jindx : Ptr) (i j : Nat) : M R Int := do
  let x ← loadInt jindx (j : Int)
  pure ((x + (i : Int)) % (UINT_MOD : Int))

/-- The block of a triangular family (`E_C`, `E_M`, `E_M1`, `Q`, `Q_B`, `Q_M`,
`Q_M1`):

    if(self->E_X != NULL){
      for(i = 1; ...; i++){
        for(j = i; j <= vc->length; j++){
          ij = ...;
          entry ij
        }
      }
      free(...) five times
    }

`rows` is the number of rounds of the loop over `i` and `index i j` the
statement that computes `ij`. -/
def free_triangular {R : Type} (K : Consts) (fam : SparseFam)
    (index : Nat → Nat → M R Int) (rows length : Nat) : M R Unit :=
  if fam.E ≠ Ptr.null then do
    forRange (fun i =>
      forRange (fun j => do
        let ij ← index i j
        free_entry K fam ij) (length + 1 - i) i) rows 1
    free_outer fam
  else
    pure ()

/-- The inner loop of the block of a circular exterior-loop family `X`
(for instance lines 358-362):

    for(cnt1 = ...; cnt1 <= self->k_max_X; cnt1++)
      if(self->l_min_X[cnt1] < INF){
        self->E_X[cnt1] += self->l_min_X[cnt1]/2;
        free(self->E_X[cnt1]);
      } -/
def free_circ_loop {R : Type} (K : Consts) (fam : CircFam) : Nat → Int → M R Unit
  | 0, _ => raise Fault.int_overflow
  | rounds + 1, cnt1 =>
      if cnt1 ≤ fam.k_max then do
        let l ← loadInt fam.l_min cnt1
        if l < K.INF then
          let p ← loadPtr fam.E cnt1
          let q ← ptr_add p (Int.tdiv l 2)
          store fam.E cnt1 (Cell.ptr q)
          free q
        if (INT_MAX : Int) < cnt1 + 1 then
          raise Fault.int_overflow
        free_circ_loop K fam rounds (cnt1 + 1)
      else
        pure ()

/-- The block of a circular exterior-loop family `X` (`E_Fc`, `E_FcI`,
`E_FcH`, `E_FcM`, `Q_c`, `Q_cI`, `Q_cH`, `Q_cM`; for instance lines 357-371).
The fields the block changes belong to the structure that is released
right after, so their new values are not kept. -/
def free_circ {R : Type} (K : Consts) (fam : CircFam) : M R Unit :=
  if fam.E ≠ Ptr.null then do
    free_circ_loop K fam (UINT_MOD + 1) fam.k_min
    if fam.k_min < K.INF then
      let e ← ptr_add fam.E fam.k_min
      free e
      let lmin ← ptr_add fam.l_min fam.k_min
      let lmax ← ptr_add fam.l_max fam.k_min
      free lmin
      free lmax
  else
    pure ()

/-- The bound `vc->length-TURN-1` of the loops over `E_M2` and `Q_M2`
(lines 334 and 570).  It is compared with the `unsigned int` counter `i`,
so it is an `unsigned int` value. -/
def m2_bound (K : Consts) (length : Nat) : Nat :=
  (((length : Int) - (K.TURN : Int) - 1) % (UINT_MOD : Int)).toNat

/-- Source `vrna_free_mfe_matrices` (lines 102-437), without the
`COUNT_STATES` parts.  The argument is `none` for a `NULL` fold compound;
the result is the fold compound after the call. -/
def vrna_free_mfe_matrices {R : Type} (K : Consts) (vc : Option (FoldCompound R)) :
    M R (Option (FoldCompound R)) :=
  match vc with
  | none => pure none
  | some vc =>
    match vc.matrices with
    | none => pure (some vc)
    | some self => do
      match self.type with
      | MxType.VRNA_MX_DEFAULT =>
        free self.f5
        free self.f3
        free self.fc
        free self.c
        free self.fML
        free self.fM1
        free self.fM2
        free self.ggg
      | MxType.VRNA_MX_2DFOLD =>
        -- for(i = 1; i <= vc->length; i++)
        free_linear K self.F5 vc.length
        free_linear K self.F3 vc.length
        -- for(i = 1; i < vc->length; i++)
        free_triangular K self.C (index_iindx vc.iindx) (vc.length - 1) vc.length
        free_triangular K self.M (index_iindx vc.iindx) (vc.length - 1) vc.length
        free_triangular K self.M1 (index_iindx vc.iindx) (vc.length - 1) vc.length
        -- for(i = 1; i < vc->length-TURN-1; i++)
        free_linear K self.M2 (m2_bound K vc.length - 1)
        free_circ K self.E_Fc
        free_circ K self.E_FcI
        free_circ K self.E_FcH
        free_circ K self.E_FcM
        free self.F5.rem
        free self.F3.rem
        free self.C.rem
        free self.M.rem
        free self.M1.rem
        free self.M2.rem
      | MxType.other _ =>
        pure ()
      free self.self
      pure (some { vc with matrices := none })

/-- Source `vrna_free_pf_matrices` (lines 439-676). -/
def vrna_free_pf_matrices {R : Type} (K : Consts) (vc : Option (FoldCompound R)) :
    M R (Option (FoldCompound R)) :=
  match vc with
  | none => pure none
  | some vc =>
    match vc.exp_matrices with
    | none => pure (some vc)
    | some self => do
      match self.type with
      | MxType.VRNA_MX_DEFAULT =>
        free self.q
        free self.qb
        free self.qm
        free self.qm1
        free self.qm2
        free self.probs
        free self.G
        free self.q1k
        free self.qln
      | MxType.VRNA_MX_2DFOLD =>
        -- for(i = 1; i <= vc->length; i++)
        free_triangular K self.Q (index_iindx vc.iindx) vc.length vc.length
        -- for(i = 1; i < vc->length; i++)
        free_triangular K self.Q_B (index_iindx vc.iindx) (vc.length - 1) vc.length
        free_triangular K self.Q_M (index_iindx vc.iindx) (vc.length - 1) vc.length
        free_triangular K self.Q_M1 (index_jindx vc.jindx) (vc.length - 1) vc.length
        -- for(i = 1; i < vc->length-TURN-1; i++)
        free_linear K self.Q_M2 (m2_bound K vc.length - 1)
        free_circ K self.Q_c
        free_circ K self.Q_cI
        free_circ K self.Q_cH
        free_circ K self.Q_cM
        free self.Q.rem
        free self.Q_B.rem
        free self.Q_M.rem
        free self.Q_M1.rem
        free self.Q_M2.rem
      | MxType.other _ =>
        pure ()
      free self.expMLbase
      free self.scale
      free self.self
      pure (some { vc with exp_matrices := none })

/-! ## Scale tables -/

/-- Source `rescale_params` (lines 1002-1017).  `1.` is `lit 1`, the
integer `1` stored in `expMLbase[0]` is `ofInt 1`, and `(double)i` is
`ofInt i`.  The loop `for (i=2; i<=vc->length; i++)` makes
`vc->length - 1` rounds (none for a length below 2). -/
def rescale_params {R : Type} (F : FltOps R) (vc : FoldCompound R) : M R Unit :=
  match vc.exp_matrices with
  | none => raise Fault.null_deref
  | some m => do
    store m.scale 0 (Cell.flt (F.lit 1))
    match vc.exp_params with
    | none => raise Fault.null_deref
    | some pf =>
      store m.scale 1 (Cell.flt (F.div (F.lit 1) pf.pf_scale))
      store m.expMLbase 0 (Cell.flt (F.ofInt 1))
      store m.expMLbase 1 (Cell.flt (F.div pf.expMLbase pf.pf_scale))
      forRange (fun i => do
        let a ← loadFlt m.scale ((i / 2 : Nat) : Int)
        let b ← loadFlt m.scale ((i - i / 2 : Nat) : Int)
        store m.scale (i : Int) (Cell.flt (F.mul a b))
        let si ← loadFlt m.scale (i : Int)
        store m.expMLbase (i : Int)
          (Cell.flt (F.mul (F.pow pf.expMLbase (F.ofInt (i : Int))) si)))
        (vc.length - 1) 2

/-- Source `vrna_exp_params_rescale` (lines 939-963).  `mfe` is `none` for
a `NULL` pointer.  The result is the fold compound after the call. -/
def vrna_exp_params_rescale {R : Type} (F : FltOps R) (vc : Option (FoldCompound R))
    (mfe : Option R) : M R (Option (FoldCompound R)) :=
  match vc with
  | none => pure none
  | some vc =>
    match vc.exp_params with
    | none => pure (some vc)
    | some pf => do
      let kT := pf.kT
      let kT := if vc.type = VcType.VRNA_VC_TYPE_ALIGNMENT then
          F.div kT (F.ofInt (vc.n_seq : Int)) else kT
      let md := pf.model_details
      let pf_scale : R :=
        match mfe with
        | some e =>
          let kT := F.div kT (F.lit 1000)
          F.exp (F.div (F.div (F.neg (F.mul md.sfact e)) kT) (F.ofInt (vc.length : Int)))
        | none =>
          if F.lt pf.pf_scale (F.lit 1) then
            -- mean energy for random sequences: 184.3*length cal
            let sc := F.exp (F.div
              (F.neg (F.add (F.ofInt (-185))
                (F.mul (F.sub pf.temperature (F.lit 37)) (F.lit (727 / 100))))) kT)
            if F.lt sc (F.lit 1) then F.lit 1 else sc
          else pf.pf_scale
      let vc := { vc with exp_params := some { pf with pf_scale := pf_scale } }
      rescale_params F vc
      pure (some vc)

/-! ## Functions and global variables of other files -/

/-- The five arrays `vrna_ali_encode` returns for one sequence. -/
structure AliEncoding (R : Type) where
  S : List (Cell R)
  S5 : List (Cell R)
  S3 : List (Cell R)
  Ss : List (Cell R)
  a2s : List (Cell R)

/-- Functions and global variables that `data_structures.c` uses and that
other files of the package define.  They are parameters of the embedding.
A function that returns a new array is given by the elements of the array
(the embedding allocates the block); each of them is taken to return.
Functions that read the fold compound get the heap and the fold
compound. -/
structure Ext (R : Type) where
  fold_constrained : Int
  RibosumFile : Option (List Char)
  vrna_md_set_globals : ModelDetails R
  vrna_cut_point_remove : List Char → List Char × Int
  vrna_seq_encode : List Char → ModelDetails R → List (Cell R)
  vrna_seq_encode_simple : List Char → ModelDetails R → List (Cell R)
  vrna_get_ptypes : List (Cell R) → ModelDetails R → List (Cell R)
  get_ptypes : List (Cell R) → ModelDetails R → Int → List (Cell R)
  consensus : List (List Char) → List Char
  vrna_ali_encode : List Char → ModelDetails R → AliEncoding R
  vrna_get_iindx : Nat → List (Cell R)
  vrna_get_indx : Nat → List (Cell R)
  vrna_params_get : Option (ModelDetails R) → ModelDetails R
  vrna_exp_params_get : Option (ModelDetails R) → ExpParams R
  vrna_exp_params_ali_get : Nat → Option (ModelDetails R) → ExpParams R
  get_gquad_matrix : Heap R → FoldCompound R → List (Cell R)
  get_gquad_ali_matrix : Heap R → FoldCompound R → List (Cell R)
  get_gquad_pf_matrix : Heap R → FoldCompound R → List (Cell R)
  vrna_hc_init : Heap R → FoldCompound R → List (Cell R)
  readribosum : List Char → List (List R)
  get_ribosum : List (List Char) → Int → Int → List (List R)
  vrna_pt_get : List Char → List (Cell R)
  vrna_refBPcnt_matrix : List (Cell R) → Int → List (Cell R)
  vrna_refBPdist_matrix : List (Cell R) → List (Cell R) → Int → List (Cell R)
  maximumMatchingConstraint : List Char → List (Cell R) → List (Cell R)

/-- The C library call `strdup(s)`: a new block with the characters of `s`
and the terminating NUL. -/
def strdup {R : Type} (s : List Char) : M R CStr := do
  let p ← vrna_alloc (s.map Cell.chr ++ [Cell.chr (Char.ofNat 0)])
  pure { ptr := p, val := s }

/-- The value `strlen(s)` after its conversion to `int`. -/
def strlen_int (s : List Char) : Int :=
  if s.length % UINT_MOD ≤ INT_MAX then ((s.length % UINT_MOD : Nat) : Int)
  else ((s.length % UINT_MOD : Nat) : Int) - (UINT_MOD : Int)

/-- The value `strlen(s)` after its conversion to `unsigned int`. -/
def strlen_uint (s : List Char) : Nat := s.length % UINT_MOD

/-- The loop `for (i = start; ...; i++) st = body(i, st)` for a loop that
makes `count` rounds and carries the local variables `st`. -/
def foldRange {R σ : Type} (body : Nat → σ → M R σ) : Nat → Nat → σ → M R σ
  | 0, _, st => pure st
  | count + 1, start, st => do
      let st ← body start st
      foldRange body count (start + 1) st

/-! ## Covariance scores of an alignment -/

/-- Read `p[i]` as a `char`. -/
def loadChr {R : Type} (p : Ptr) (i : Int) : M R Char := do
  match (← load p i) with
  | .chr c => pure c
  | _ => raise Fault.type_mismatch

/-- The heap at this point of the run. -/
def getHeap {R : Type} : M R (Heap R) := fun h => .ok h h

/-- The macro `NONE` of `make_pscores` (line 1559): score for forbidden
pairs. -/
def NONE : Int := -10000

/-- The table `olddm` of `make_pscores` (lines 1564-1570): hamming distance
between pairs. -/
def olddm : List (List Int) :=
  [[0,0,0,0,0,0,0], [0,0,2,2,1,2,2], [0,2,0,1,2,2,2], [0,2,1,0,2,1,2],
   [0,1,2,2,0,2,1], [0,2,2,1,2,0,2], [0,2,2,2,1,2,0]]

/-- A matrix `float **` returned by `readribosum` or `get_ribosum`: one
block for each row and a block with the pointers to the rows. -/
def alloc_matrix {R : Type} (rows : List (List R)) : M R Ptr := do
  let ptrs ← rows.foldlM (fun (acc : List Ptr) row => do
    let p ← vrna_alloc (row.map Cell.flt)
    pure (acc ++ [p])) []
  vrna_alloc (ptrs.map Cell.ptr)

/-- The statement `pscore[indx[j]+i] = value`. -/
def set_pscore {R : Type} (pscore indx : Ptr) (i j : Int) (value : Int) : M R Unit := do
  let x ← loadInt indx j
  store pscore (x + i) (Cell.int value)

/-- The expression `pscore[indx[j]+i]`. -/
def get_pscore {R : Type} (pscore indx : Ptr) (i j : Int) : M R Int := do
  let x ← loadInt indx j
  loadInt pscore (x + i)

/-- The pair type of columns `i` and `j` in sequence `s` (lines 1603-1608):

    if (S[s][i]==0 && S[s][j]==0) type = 7; /* gap-gap  */
    else {
      if ((AS[s][i] == '~')||(AS[s][j] == '~')) type = 7;
      else type = md->pair[S[s][i]][S[s][j]];
    } -/
def pair_type {R : Type} (md : ModelDetails R) (S AS : Ptr) (s i j : Int) : M R Int := do
  let Ss ← loadPtr S s
  let si ← loadInt Ss i
  let gap ← (if si = 0 then do
      let sj ← loadInt Ss j
      pure (decide (sj = 0))
    else pure false : M R Bool)
  if gap then
    pure 7
  else
    let ASs ← loadPtr AS s
    let ci ← loadChr ASs i
    let tilde ← (if ci = '~' then pure true else do
      let cj ← loadChr ASs j
      pure (decide (cj = '~')) : M R Bool)
    if tilde then
      pure 7
    else
      let sj ← loadInt Ss j
      if si < 0 ∨ sj < 0 then raise Fault.out_of_bounds
      else match md.pair[si.toNat]? with
        | none => raise Fault.out_of_bounds
        | some row => match row[sj.toNat]? with
          | none => raise Fault.out_of_bounds
          | some t => pure t

/-- The loop `for (s=0; s<n_seq; s++) { ...; pfreq[type]++; }` (lines
1602-1610) on the local array `int pfreq[8]`. -/
def count_pair_types {R : Type} (md : ModelDetails R) (S AS : Ptr) (n_seq : Int)
    (i j : Int) : M R (List Int) :=
  foldRange (fun s (pfreq : List Int) => do
    let type ← pair_type md S AS (s : Int) i j
    if type < 0 then raise Fault.out_of_bounds
    else match pfreq[type.toNat]? with
      | none => raise Fault.out_of_bounds
      | some c => pure (pfreq.set type.toNat (c + 1)))
    n_seq.toNat 0 [0, 0, 0, 0, 0, 0, 0, 0]

/-- The loops `for (k=1,score=0; k<=6; k++) for (l=k; l<=6; l++)
score += pfreq[k]*pfreq[l]*dm[k][l];` (lines 1612-1614). -/
def pair_score {R : Type} (F : FltOps R) (dm : Ptr) (pfreq : List Int) : M R R :=
  foldRange (fun k (score : R) =>
    foldRange (fun l (score : R) => do
      let row ← loadPtr dm (k : Int)
      let d ← loadFlt row (l : Int)
      pure (F.add score (F.mul (F.ofInt (pfreq.getD k 0 * pfreq.getD l 0)) d)))
      (7 - k) k score)
    6 1 (F.ofInt 0)

/-- The `while` loop of the `noLP` pass of `make_pscores` (lines 1631-1638);
the local variables are `i`, `j`, `type`, `ntype`, `otype`.  `i` goes down
by one in every round, so `rounds = i` rounds are enough. -/
def noLP_walk {R : Type} (K : Consts) (F : FltOps R) (md : ModelDetails R)
    (pscore indx : Ptr) (n : Int) : Nat → Int → Int → Int → Int → Int → M R Unit
  | 0, _, _, _, _, _ => pure ()
  | rounds + 1, i, j, type, ntype, otype =>
    if 1 ≤ i ∧ j ≤ n then do
      let ntype ← (if 1 < i ∧ j < n then get_pscore pscore indx (i - 1) (j + 1)
                   else pure ntype : M R Int)
      if F.lt (F.ofInt otype) (F.mul md.cv_fact (F.ofInt K.MINPSCORE))
          && F.lt (F.ofInt ntype) (F.mul md.cv_fact (F.ofInt K.MINPSCORE)) then
        -- i.j can only form isolated pairs
        set_pscore pscore indx i j NONE
      noLP_walk K F md pscore indx n rounds (i - 1) (j + 1) ntype ntype type
    else
      pure ()

/-- Message of the errors at lines 1665 and 1673. -/
def msg_unbalanced : String :=
  "unbalanced brackets in constraints"

/-- Message of the error at line 1694. -/
def msg_unbalanced_string : String :=
  "unbalanced brackets in constraint string"

/-- The block of `make_pscores` that applies a constraint string (lines
1643-1696), for a non-null `structure` (here `structure_str`). -/
def apply_structure {R : Type} (K : Consts) (pscore indx : Ptr) (n : Int)
    (structure_str : List Char) : M R Unit := do
  let stack ← vrna_alloc_int (n + 1).toNat
  let stack2 ← vrna_alloc_int (n + 1).toNat
  let upstream (j : Nat) : M R Unit :=
    -- for (l=1; l<j-TURN; l++) pscore[indx[j]+l] = NONE;
    forRange (fun l => set_pscore pscore indx (l : Int) (j : Int) NONE)
      ((j : Int) - (K.TURN : Int) - 1).toNat 1
  let downstream (j : Nat) : M R Unit :=
    -- for (l=j+TURN+1; l<=n; l++) pscore[indx[l]+j] = NONE;
    forRange (fun l => set_pscore pscore indx (j : Int) (l : Int) NONE)
      (n - (j : Int) - (K.TURN : Int)).toNat (j + K.TURN + 1)
  let hxs ← foldRange (fun j (st : Int × Int) => do
    let hx := st.1
    let hx2 := st.2
    match structure_str[j - 1]? with
    | some 'x' =>
      upstream j
      downstream j
      pure (hx, hx2)
    | some '(' =>
      store stack hx (Cell.int (j : Int))
      store stack2 hx2 (Cell.int (j : Int))
      upstream j
      pure (hx + 1, hx2 + 1)
    | some '[' =>
      store stack2 hx2 (Cell.int (j : Int))
      upstream j
      pure (hx, hx2 + 1)
    | some '<' =>
      upstream j
      pure (hx, hx2)
    | some ']' =>
      if hx2 ≤ 0 then
        vrna_message_error msg_unbalanced
      let i ← loadInt stack2 (hx2 - 1)
      set_pscore pscore indx i (j : Int) NONE
      pure (hx, hx2 - 1)
    | some ')' =>
      if hx ≤ 0 then
        vrna_message_error msg_unbalanced
      let i ← loadInt stack (hx - 1)
      let psij ← get_pscore pscore indx i (j : Int)
      forRange (fun k =>
        forRange (fun l => set_pscore pscore indx (l : Int) (k : Int) NONE)
          ((j : Int) - i + 1).toNat i.toNat) (n - (j : Int) + 1).toNat j
      forRange (fun l =>
        forRange (fun k => set_pscore pscore indx (k : Int) (l : Int) NONE) i.toNat 1)
        ((j : Int) - i + 1).toNat i.toNat
      forRange (fun k => do
        set_pscore pscore indx (k : Int) (j : Int) NONE
        set_pscore pscore indx i (k : Int) NONE) ((j : Int) - i - 1).toNat (i.toNat + 1)
      set_pscore pscore indx i (j : Int) (if 0 < psij then psij else 0)
      downstream j
      pure (hx - 1, hx2)
    | some '>' =>
      downstream j
      pure (hx, hx2)
    | _ => pure (hx, hx2)) n.toNat 1 ((0 : Int), (0 : Int))
  if hxs.1 ≠ 0 then
    vrna_message_error msg_unbalanced_string
  free stack
  free stack2

/-- Source `make_pscores` (lines 1552-1703).  `float` and `double` values
are both values of `R`. -/
def make_pscores {R : Type} (K : Consts) (F : FltOps R) (E : Ext R) (vc : FoldCompound R) :
    M R Unit := do
  -- char *structure = NULL;
  let structure_str : Option (List Char) := none
  let S := vc.S
  let AS := vc.sequences
  let n_seq : Int := (vc.n_seq : Int)
  let md ← (match vc.params with
    | some p => pure p.model_details
    | none => match vc.exp_params with
      | some p => pure p.model_details
      | none => raise Fault.null_deref : M R (ModelDetails R))
  let pscore := vc.pscore
  let indx := vc.jindx
  let n : Int := (vc.length : Int)
  let dm ← (if md.ribo ≠ 0 then
      match E.RibosumFile with
      | some file => alloc_matrix (E.readribosum file)
      | none => alloc_matrix (E.get_ribosum (vc.sequences_val.map (fun q => q.val)) n_seq n)
    else do
      -- use usual matrix
      let dm ← vrna_alloc_ptr 7
      forRange (fun i => do
        let row ← vrna_alloc_flt (F.lit 0) 7
        store dm (i : Int) (Cell.ptr row)
        forRange (fun j =>
          store row (j : Int) (Cell.flt (F.ofInt ((olddm.getD i []).getD j 0)))) 7 0) 7 0
      pure dm : M R Ptr)
  let max_span := md.max_bp_span
  let max_span := if max_span < (K.TURN : Int) + 2 ∨ n < max_span then n else max_span
  -- for (i=1; i<n; i++)
  forRange (fun i => do
    -- for (j=i+1; (j<i+TURN+1) && (j<=n); j++)
    forRange (fun j => set_pscore pscore indx (i : Int) (j : Int) NONE)
      (min K.TURN (vc.length - i)) (i + 1)
    -- for (j=i+TURN+1; j<=n; j++)
    forRange (fun j => do
      let pfreq ← count_pair_types md S AS n_seq (i : Int) (j : Int)
      if n_seq < pfreq.getD 0 0 * 2 + pfreq.getD 7 0 then
        set_pscore pscore indx (i : Int) (j : Int) NONE
      else
        let score ← pair_score F dm pfreq
        -- counter examples score -1, gap-gap scores -0.25
        set_pscore pscore indx (i : Int) (j : Int)
          (F.toInt (F.mul md.cv_fact
            (F.sub (F.div (F.mul (F.ofInt K.UNIT) score) (F.ofInt n_seq))
              (F.mul (F.mul md.nc_fact (F.ofInt K.UNIT))
                (F.add (F.ofInt (pfreq.getD 0 0))
                  (F.mul (F.ofInt (pfreq.getD 7 0)) (F.lit (1 / 4))))))))
        if max_span < (j : Int) - (i : Int) + 1 then
          set_pscore pscore indx (i : Int) (j : Int) NONE)
      (vc.length - i - K.TURN) (i + K.TURN + 1))
    (vc.length - 1) 1
  -- remove unwanted pairs
  if md.noLP ≠ 0 then
    -- for (k=1; k<n-TURN-1; k++) for (l=1; l<=2; l++)
    forRange (fun k =>
      forRange (fun l => do
        let i : Int := (k : Int)
        let j : Int := i + (K.TURN : Int) + (l : Int)
        let type ← get_pscore pscore indx i j
        noLP_walk K F md pscore indx n k i j type 0 0) 2 1)
      (n - (K.TURN : Int) - 2).toNat 1
  if E.fold_constrained ≠ 0 then
    match structure_str with
    | some st => apply_structure K pscore indx n st
    | none => pure ()
  -- free dm
  forRange (fun i => do
    let row ← loadPtr dm (i : Int)
    free row) 7 0
  free dm

/-! ## Construction of a fold compound -/

/-- The block that a function of another file returns, given by its
elements. -/
def ext_block {R : Type} (cells : List (Cell R)) : M R Ptr := vrna_alloc cells

/-- Conversion of an `int` to `size_t` (64 bit). -/
def to_size_t (x : Int) : Int := x % 18446744073709551616

/-- Message of `vrna_get_fold_compound` (line 759). -/
def msg_fc_empty : String :=
  "vrna_get_fold_compound: sequence length must be greater 0"

/-- Message of `vrna_get_fold_compound_ali` (line 798). -/
def msg_ali_empty : String :=
  "vrna_get_fold_compound_ali: sequence length must be greater 0"

/-- Message of `vrna_get_fold_compound_ali` (line 801). -/
def msg_ali_unequal : String :=
  "vrna_get_fold_compound_ali: uneqal sequence lengths in alignment"

/-- Message of `vrna_get_fold_compound_2D` (line 843). -/
def msg_2D_empty : String :=
  "vrna_get_fold_compound_2D: sequence length must be greater 0"

/-- Message of `vrna_get_fold_compound_2D` (line 847). -/
def msg_2D_s1 : String :=
  "vrna_get_fold_compound_2D: sequence and s1 differ in length"

/-- Message of `vrna_get_fold_compound_2D` (line 851). -/
def msg_2D_s2 : String :=
  "vrna_get_fold_compound_2D: sequence and s2 differ in length"

/-- Source `add_params` (lines 1019-1033).  The parameter blocks come from
`vrna_params_get`, `vrna_exp_params_get` and `vrna_exp_params_ali_get`. -/
def add_params {R : Type} (K : Consts) (E : Ext R) (vc : FoldCompound R)
    (md_p : ModelDetails R) (options : Nat) : M R (FoldCompound R) := do
  let vc ← (if bitSet options K.VRNA_OPTION_MFE then do
      let self ← vrna_alloc_struct
      let params : Params R :=
        { self := self, model_details := E.vrna_params_get (some md_p) }
      pure { vc with params := some params }
    else pure vc : M R (FoldCompound R))
  if bitSet options K.VRNA_OPTION_PF then do
    let self ← vrna_alloc_struct
    let ep := if vc.type = VcType.VRNA_VC_TYPE_SINGLE then E.vrna_exp_params_get (some md_p)
      else E.vrna_exp_params_ali_get vc.n_seq (some md_p)
    pure { vc with exp_params := some { ep with self := self } }
  else
    pure vc

/-- Source `add_mfe_matrices` (lines 1169-1188); every call of this file
passes a fold compound, so the test `if(vc)` holds. -/
def add_mfe_matrices {R : Type} (K : Consts) (E : Ext R) (vc : FoldCompound R)
    (type : MxType) (alloc_vector : Nat) : M R (FoldCompound R) := do
  let m ← get_mfe_matrices_alloc K vc.length type alloc_vector
  let vc := { vc with matrices := some m }
  match vc.params with
  | none => raise Fault.null_deref
  | some params =>
    if params.model_details.gquad ≠ 0 then
      match vc.type with
      | VcType.VRNA_VC_TYPE_SINGLE =>
        let h ← getHeap
        let ggg ← ext_block (E.get_gquad_matrix h vc)
        pure { vc with matrices := some { m with ggg := ggg } }
      | VcType.VRNA_VC_TYPE_ALIGNMENT =>
        let h ← getHeap
        let ggg ← ext_block (E.get_gquad_ali_matrix h vc)
        pure { vc with matrices := some { m with ggg := ggg } }
      | VcType.other _ => pure vc
    else
      pure vc

/-- Source `add_pf_matrices` (lines 1150-1167); every call of this file
passes a fold compound, so the test `if(vc)` holds. -/
def add_pf_matrices {R : Type} (F : FltOps R) (E : Ext R) (vc : FoldCompound R)
    (type : MxType) (alloc_vector : Nat) : M R (FoldCompound R) := do
  let m ← get_pf_matrices_alloc F vc.length type alloc_vector
  let vc := { vc with exp_matrices := some m }
  match vc.exp_params with
  | none => raise Fault.null_deref
  | some exp_params =>
    let vc ← (if exp_params.model_details.gquad ≠ 0 then
        match vc.type with
        | VcType.VRNA_VC_TYPE_SINGLE => do
          let h ← getHeap
          let G ← ext_block (E.get_gquad_pf_matrix h vc)
          pure { vc with exp_matrices := some { m with G := G } }
        | _ => pure vc
      else pure vc : M R (FoldCompound R))
    match (← vrna_exp_params_rescale F (some vc) none) with
    | some vc => pure vc
    | none => pure vc

/-- The part of `set_fold_compound` for a single sequence (lines
1060-1086).  The result is the fold compound and the model details, which
the source changes through `md_p`. -/
def set_fold_compound_single {R : Type} (K : Consts) (E : Ext R) (vc : FoldCompound R)
    (md_p : ModelDetails R) (mx_type : MxType) (options : Nat) :
    M R (FoldCompound R × ModelDetails R) := do
  let sequence := vc.sequence
  let seq2 ← strdup sequence.val
  -- splice out the '&' if concatenated sequences and reset cp
  let r := E.vrna_cut_point_remove seq2.val
  let seq ← strdup r.1
  let cp := r.2
  let vc := { vc with cutpoint := cp }
  let md_p := if 0 < cp ∧ md_p.min_loop_size = (K.TURN : Int) then
      { md_p with min_loop_size := 0 } else md_p
  free vc.sequence.ptr
  let vc := { vc with sequence := seq, length := strlen_uint seq.val }
  let enc ← ext_block (E.vrna_seq_encode seq.val md_p)
  let enc2 ← ext_block (E.vrna_seq_encode_simple seq.val md_p)
  let vc := { vc with sequence_encoding := enc, sequence_encoding2 := enc2 }
  let vc ← (if !bitSet options K.VRNA_OPTION_EVAL_ONLY then do
      let ptype ← ext_block (E.vrna_get_ptypes (E.vrna_seq_encode_simple seq.val md_p) md_p)
      -- backward compatibility ptypes
      let compat ← (if bitSet options K.VRNA_OPTION_PF ∨ mx_type = MxType.VRNA_MX_2DFOLD then
          ext_block (E.get_ptypes (E.vrna_seq_encode_simple seq.val md_p) md_p 1)
        else pure Ptr.null : M R Ptr)
      pure { vc with ptype := ptype, ptype_pf_compat := compat }
    else
      pure { vc with ptype := Ptr.null, ptype_pf_compat := Ptr.null } : M R (FoldCompound R))
  let vc := { vc with sc := Ptr.null }
  free seq2.ptr
  pure (vc, md_p)

/-- The part of `set_fold_compound` for an alignment (lines 1088-1121). -/
def set_fold_compound_ali {R : Type} (E : Ext R) (vc : FoldCompound R)
    (md_p : ModelDetails R) : M R (FoldCompound R) := do
  let sequences := vc.sequences_val
  let length := vc.length
  let cons_seq ← strdup (E.consensus (sequences.map (fun q => q.val)))
  let S_cons ← ext_block (E.vrna_seq_encode_simple cons_seq.val md_p)
  let pscore ← vrna_alloc_int (((length * (length + 1)) % UINT_MOD / 2 + 2) % UINT_MOD)
  let S ← vrna_alloc_ptr (vc.n_seq + 1)
  let S5 ← vrna_alloc_ptr (vc.n_seq + 1)
  let S3 ← vrna_alloc_ptr (vc.n_seq + 1)
  let a2s ← vrna_alloc_ptr (vc.n_seq + 1)
  let Ss ← vrna_alloc_ptr (vc.n_seq + 1)
  forRange (fun s => do
    let enc := E.vrna_ali_encode ((sequences.getD s { ptr := Ptr.null, val := [] }).val) md_p
    let p ← ext_block enc.S
    store S (s : Int) (Cell.ptr p)
    let p5 ← ext_block enc.S5
    store S5 (s : Int) (Cell.ptr p5)
    let p3 ← ext_block enc.S3
    store S3 (s : Int) (Cell.ptr p3)
    let ps ← ext_block enc.Ss
    store Ss (s : Int) (Cell.ptr ps)
    let pa ← ext_block enc.a2s
    store a2s (s : Int) (Cell.ptr pa)) vc.n_seq 0
  store S5 (vc.n_seq : Int) (Cell.ptr Ptr.null)
  store S3 (vc.n_seq : Int) (Cell.ptr Ptr.null)
  store a2s (vc.n_seq : Int) (Cell.ptr Ptr.null)
  store Ss (vc.n_seq : Int) (Cell.ptr Ptr.null)
  store S (vc.n_seq : Int) (Cell.ptr Ptr.null)
  pure { vc with cons_seq := cons_seq, S_cons := S_cons, pscore := pscore,
                 oldAliEn := md_p.oldAliEn, S := S, S5 := S5, S3 := S3, a2s := a2s,
                 Ss := Ss, scs := Ptr.null }

/-- The first part of `set_fold_compound` (lines 1048-1125): the default
values and the `switch` on `vc->type`.  The result is the fold compound and
the model details, which the source changes through `md_p`. -/
def set_fold_compound_head {R : Type} (K : Consts) (E : Ext R)
    (vc : FoldCompound R) (md_p : ModelDetails R) (mx_type : MxType) (options : Nat) :
    M R (FoldCompound R × ModelDetails R) :=
  -- some default init values
  let vc := { vc with params := none, exp_params := none, matrices := none,
                      exp_matrices := none, hc := Ptr.null }
  match vc.type with
  | VcType.VRNA_VC_TYPE_SINGLE => set_fold_compound_single K E vc md_p mx_type options
  | VcType.VRNA_VC_TYPE_ALIGNMENT => do
    let vc ← set_fold_compound_ali E vc md_p
    pure (vc, md_p)
  | VcType.other _ => pure (vc, md_p)

/-- Source `set_fold_compound` (lines 1035-1148).  The hard constraints
that `vrna_hc_init` attaches are one block. -/
def set_fold_compound {R : Type} (K : Consts) (F : FltOps R) (E : Ext R)
    (vc : FoldCompound R) (md_p : ModelDetails R) (mx_type : MxType)
    (mx_alloc_vector : Nat) (options : Nat) : M R (FoldCompound R) := do
  let r ← set_fold_compound_head K E vc md_p mx_type options
  let vc := r.1
  let md_p := r.2
  let iindx ← ext_block (E.vrna_get_iindx vc.length)
  let jindx ← ext_block (E.vrna_get_indx vc.length)
  let vc := { vc with iindx := iindx, jindx := jindx }
  -- now come the energy parameters
  let vc ← add_params K E vc md_p options
  -- allocate memory for DP matrices
  let vc ← (if !bitSet options K.VRNA_OPTION_EVAL_ONLY then do
      let vc ← (if bitSet options K.VRNA_OPTION_MFE then
          add_mfe_matrices K E vc mx_type mx_alloc_vector
        else pure vc : M R (FoldCompound R))
      if bitSet options K.VRNA_OPTION_PF then
        add_pf_matrices F E vc mx_type mx_alloc_vector
      else pure vc
    else pure vc : M R (FoldCompound R))
  if vc.type = VcType.VRNA_VC_TYPE_ALIGNMENT then
    make_pscores K F E vc
  if !bitSet options K.VRNA_OPTION_EVAL_ONLY then
    -- add default hard constraints
    let h ← getHeap
    let hc ← ext_block (E.vrna_hc_init h vc)
    pure { vc with hc := hc }
  else
    pure vc

/-- Source `vrna_get_fold_compound` (lines 744-777).  `sequence` and `md_p`
are `none` for `NULL`; the result is `none` when the function returns
`NULL`. -/
def vrna_get_fold_compound {R : Type} (K : Consts) (F : FltOps R) (E : Ext R)
    (sequence : Option (List Char)) (md_p : Option (ModelDetails R)) (options : Nat) :
    M R (Option (FoldCompound R)) :=
  match sequence with
  | none => pure none
  | some sequence => do
    -- sanity check
    let length := strlen_int sequence
    if length = 0 then
      vrna_message_error msg_fc_empty
    let self ← vrna_alloc_struct
    let seq ← strdup sequence
    let vc : FoldCompound R :=
      { FoldCompound.zero self with
          type := VcType.VRNA_VC_TYPE_SINGLE,
          length := (length % (UINT_MOD : Int)).toNat, sequence := seq }
    -- get a copy of the model details (the global ones for a NULL md_p)
    let md := md_p.getD E.vrna_md_set_globals
    let r := get_mx_alloc_vector K md options
    let vc ← set_fold_compound K F E vc r.2 MxType.VRNA_MX_DEFAULT r.1 options
    pure (some vc)

/-- Source `vrna_get_fold_compound_ali` (lines 779-823).  `sequences` is the
list of the strings before the terminating `NULL` of the array. -/
def vrna_get_fold_compound_ali {R : Type} (K : Consts) (F : FltOps R) (E : Ext R)
    (sequences : Option (List (List Char))) (md_p : Option (ModelDetails R))
    (options : Nat) : M R (Option (FoldCompound R)) :=
  match sequences with
  | none => pure none
  | some sequences => do
    -- count the sequences
    let n_seq := sequences.length
    let first ← (match sequences[0]? with
      | some q => pure q
      | none => raise Fault.null_deref : M R (List Char))
    let length := strlen_int first
    -- sanity check
    if length = 0 then
      vrna_message_error msg_ali_empty
    forRange (fun s =>
      if (((sequences.getD s []).length : Nat) : Int) ≠ to_size_t length then
        vrna_message_error msg_ali_unequal
      else pure ()) n_seq 0
    let self ← vrna_alloc_struct
    let seqs ← vrna_alloc_ptr (n_seq + 1)
    let vals ← foldRange (fun s (acc : List CStr) => do
      let q ← strdup (sequences.getD s [])
      store seqs (s : Int) (Cell.ptr q.ptr)
      pure (acc ++ [q])) n_seq 0 []
    let vc : FoldCompound R :=
      { FoldCompound.zero self with
          type := VcType.VRNA_VC_TYPE_ALIGNMENT,
          n_seq := n_seq, length := (length % (UINT_MOD : Int)).toNat,
          sequences := seqs, sequences_val := vals }
    -- get a copy of the model details (the global ones for a NULL md_p)
    let md := md_p.getD E.vrna_md_set_globals
    let r := get_mx_alloc_vector K md options
    let vc ← set_fold_compound K F E vc r.2 MxType.VRNA_MX_DEFAULT r.1 options
    pure (some vc)

/-- Source `vrna_get_fold_compound_2D` (lines 825-888). -/
def vrna_get_fold_compound_2D {R : Type} (K : Consts) (F : FltOps R) (E : Ext R)
    (sequence s1 s2 : Option (List Char)) (md_p : Option (ModelDetails R))
    (options : Nat) : M R (Option (FoldCompound R)) :=
  match sequence with
  | none => pure none
  | some sequence => do
    -- sanity check
    let length := strlen_int sequence
    if length = 0 then
      vrna_message_error msg_2D_empty
    let s1 ← (match s1 with
      | some q => pure q
      | none => raise Fault.null_deref : M R (List Char))
    if strlen_int s1 ≠ length then
      vrna_message_error msg_2D_s1
    let s2 ← (match s2 with
      | some q => pure q
      | none => raise Fault.null_deref : M R (List Char))
    if strlen_int s2 ≠ length then
      vrna_message_error msg_2D_s2
    let self ← vrna_alloc_struct
    let seq ← strdup sequence
    let vc : FoldCompound R :=
      { FoldCompound.zero self with
          type := VcType.VRNA_VC_TYPE_SINGLE,
          length := (length % (UINT_MOD : Int)).toNat, sequence := seq }
    -- get a copy of the model details (the global ones for a NULL md_p)
    let md := md_p.getD E.vrna_md_set_globals
    -- always make uniq ML decomposition !
    let md := { md with uniq_ML := 1 }
    let r := get_mx_alloc_vector K md options
    let vc ← set_fold_compound K F E vc r.2 MxType.VRNA_MX_2DFOLD r.1 options
    -- set all fields that are unique to Distance class partitioning...
    let params ← (match vc.params with
      | some q => pure q
      | none => raise Fault.null_deref : M R (Params R))
    let turn := params.model_details.min_loop_size
    let reference_pt1 ← ext_block (E.vrna_pt_get s1)
    let reference_pt2 ← ext_block (E.vrna_pt_get s2)
    let referenceBPs1 ← ext_block (E.vrna_refBPcnt_matrix (E.vrna_pt_get s1) turn)
    let referenceBPs2 ← ext_block (E.vrna_refBPcnt_matrix (E.vrna_pt_get s2) turn)
    let bpdist ← ext_block
      (E.vrna_refBPdist_matrix (E.vrna_pt_get s1) (E.vrna_pt_get s2) turn)
    -- compute maximum matching with reference structure 1 disallowed
    let mm1 ← ext_block (E.maximumMatchingConstraint vc.sequence.val (E.vrna_pt_get s1))
    -- compute maximum matching with reference structure 2 disallowed
    let mm2 ← ext_block (E.maximumMatchingConstraint vc.sequence.val (E.vrna_pt_get s2))
    let i1 ← loadInt vc.iindx 1
    let a1 ← loadInt mm1 (i1 - length)
    let b1 ← loadInt referenceBPs1 (i1 - length)
    let i2 ← loadInt vc.iindx 1
    let a2 ← loadInt mm2 (i2 - length)
    let b2 ← loadInt referenceBPs2 (i2 - length)
    pure (some { vc with reference_pt1 := reference_pt1, reference_pt2 := reference_pt2,
                         referenceBPs1 := referenceBPs1, referenceBPs2 := referenceBPs2,
                         bpdist := bpdist, mm1 := mm1, mm2 := mm2,
                         maxD1 := (a1 + b1) % (UINT_MOD : Int),
                         maxD2 := (a2 + b2) % (UINT_MOD : Int) })

/-- Source `vrna_get_fold_compound_2D`, lines 838-870: the statements of the
constructor, for a sequence other than `NULL`, up to and including the call
of `set_fold_compound`.  The result is the fold compound after that call,
with the two reference structures. -/
def vrna_get_fold_compound_2D_head {R : Type} (K : Consts) (F : FltOps R) (E : Ext R)
    (sequence : List Char) (s1 s2 : Option (List Char)) (md_p : Option (ModelDetails R))
    (options : Nat) : M R (FoldCompound R × List Char × List Char) := do
  -- sanity check
  let length := strlen_int sequence
  if length = 0 then
    vrna_message_error msg_2D_empty
  let s1 ← (match s1 with
    | some q => pure q
    | none => raise Fault.null_deref : M R (List Char))
  if strlen_int s1 ≠ length then
    vrna_message_error msg_2D_s1
  let s2 ← (match s2 with
    | some q => pure q
    | none => raise Fault.null_deref : M R (List Char))
  if strlen_int s2 ≠ length then
    vrna_message_error msg_2D_s2
  let self ← vrna_alloc_struct
  let seq ← strdup sequence
  let vc : FoldCompound R :=
    { FoldCompound.zero self with
        type := VcType.VRNA_VC_TYPE_SINGLE,
        length := (length % (UINT_MOD : Int)).toNat, sequence := seq }
  -- get a copy of the model details (the global ones for a NULL md_p)
  let md := md_p.getD E.vrna_md_set_globals
  -- always make uniq ML decomposition !
  let md := { md with uniq_ML := 1 }
  let r := get_mx_alloc_vector K md options
  let vc ← set_fold_compound K F E vc r.2 MxType.VRNA_MX_2DFOLD r.1 options
  pure (vc, s1, s2)

/-- Source `vrna_get_fold_compound_2D`, lines 872-887: the statements that
follow the call of `set_fold_compound`; `length` is the local variable of
the constructor. -/
def vrna_get_fold_compound_2D_fields {R : Type} (E : Ext R) (length : Int)
    (vc : FoldCompound R) (s1 s2 : List Char) : M R (Option (FoldCompound R)) := do
  -- set all fields that are unique to Distance class partitioning...
  let params ← (match vc.params with
    | some q => pure q
    | none => raise Fault.null_deref : M R (Params R))
  let turn := params.model_details.min_loop_size
  let reference_pt1 ← ext_block (E.vrna_pt_get s1)
  let reference_pt2 ← ext_block (E.vrna_pt_get s2)
  let referenceBPs1 ← ext_block (E.vrna_refBPcnt_matrix (E.vrna_pt_get s1) turn)
  let referenceBPs2 ← ext_block (E.vrna_refBPcnt_matrix (E.vrna_pt_get s2) turn)
  let bpdist ← ext_block
    (E.vrna_refBPdist_matrix (E.vrna_pt_get s1) (E.vrna_pt_get s2) turn)
  -- compute maximum matching with reference structure 1 disallowed
  let mm1 ← ext_block (E.maximumMatchingConstraint vc.sequence.val (E.vrna_pt_get s1))
  -- compute maximum matching with reference structure 2 disallowed
  let mm2 ← ext_block (E.maximumMatchingConstraint vc.sequence.val (E.vrna_pt_get s2))
  let i1 ← loadInt vc.iindx 1
  let a1 ← loadInt mm1 (i1 - length)
  let b1 ← loadInt referenceBPs1 (i1 - length)
  let i2 ← loadInt vc.iindx 1
  let a2 ← loadInt mm2 (i2 - length)
  let b2 ← loadInt referenceBPs2 (i2 - length)
  pure (some { vc with reference_pt1 := reference_pt1, reference_pt2 := reference_pt2,
                       referenceBPs1 := referenceBPs1, referenceBPs2 := referenceBPs2,
                       bpdist := bpdist, mm1 := mm1, mm2 := mm2,
                       maxD1 := (a1 + b1) % (UINT_MOD : Int),
                       maxD2 := (a2 + b2) % (UINT_MOD : Int) })

/-! ## Allocation followed by teardown -/

/-- A fold compound gets its MFE matrices as `add_mfe_matrices` does
(`vc->matrices = get_mfe_matrices_alloc(vc->length, type, alloc_vector)`) and
`vrna_free_mfe_matrices(vc)` is called right after. -/
def alloc_then_free_mfe {R : Type} (K : Consts) (vc : FoldCompound R) (type : MxType)
    (alloc_vector : Nat) : M R (Option (FoldCompound R)) := do
  let m ← get_mfe_matrices_alloc K vc.length type alloc_vector
  vrna_free_mfe_matrices K (some { vc with matrices := some m })

/-- A fold compound gets its partition function matrices as
`add_pf_matrices` does
(`vc->exp_matrices = get_pf_matrices_alloc(vc->length, type, alloc_vector)`)
and `vrna_free_pf_matrices(vc)` is called right after. -/
def alloc_then_free_pf {R : Type} (K : Consts) (F : FltOps R) (vc : FoldCompound R)
    (type : MxType) (alloc_vector : Nat) : M R (Option (FoldCompound R)) := do
  let m ← get_pf_matrices_alloc F vc.length type alloc_vector
  vrna_free_pf_matrices K (some { vc with exp_matrices := some m })

/-! ## Sample instances, used to evaluate the code on concrete inputs -/

/-- Exact arithmetic on rational numbers for the operations that have a
rational result; `exp` and `pow` have none in general, and the functions
given here (`1 + x` and a power with the exponent rounded down) only make
the record complete. -/
def sampleOps : FltOps ℚ :=
  { lit := fun q => q,
    ofInt := fun i => (i : ℚ),
    toInt := fun x => Int.tdiv x.num (x.den : Int),
    neg := fun x => -x,
    add := fun x y => x + y,
    sub := fun x y => x - y,
    mul := fun x y => x * y,
    div := fun x y => x / y,
    lt := fun x y => decide (x < y),
    exp := fun x => 1 + x,
    pow := fun x y => x ^ (Int.toNat (Int.floor y)) }

/-- A model-details record: linear topology, no unique decomposition
requested, base pair probabilities requested. -/
def sampleMd : ModelDetails ℚ :=
  { compute_bpp := 1, circ := 0, uniq_ML := 0, gquad := 0, min_loop_size := 3,
    oldAliEn := 0, ribo := 0, noLP := 0, max_bp_span := -1,
    sfact := 107 / 100, cv_fact := 1, nc_fact := 1,
    pair := List.replicate 8 (List.replicate 8 0) }

/-- A parameter block for `sampleExt`. -/
def sampleExpParams (md : ModelDetails ℚ) : ExpParams ℚ :=
  { self := Ptr.null, model_details := md, pf_scale := -1, kT := 616,
    temperature := 37, expMLbase := 1 }

/-- Stand-ins for the functions of other files: sequences without cut
point, encodings and tables filled with zeros, and the index tables
`iindx[i] = ((n + 1 - i) * (n - i)) / 2 + n + 1` and
`jindx[i] = (i * (i - 1)) / 2` of the package. -/
def sampleExt : Ext ℚ :=
  { fold_constrained := 0,
    RibosumFile := none,
    vrna_md_set_globals := sampleMd,
    vrna_cut_point_remove := fun q => (q, -1),
    vrna_seq_encode := fun q _ => List.replicate (q.length + 2) (Cell.int 0),
    vrna_seq_encode_simple := fun q _ => List.replicate (q.length + 2) (Cell.int 0),
    vrna_get_ptypes := fun _ _ => [Cell.chr (Char.ofNat 0)],
    get_ptypes := fun _ _ _ => [Cell.chr (Char.ofNat 0)],
    consensus := fun qs => qs.headD [],
    vrna_ali_encode := fun q _ =>
      { S := List.replicate (q.length + 2) (Cell.int 0),
        S5 := List.replicate (q.length + 2) (Cell.int 0),
        S3 := List.replicate (q.length + 2) (Cell.int 0),
        Ss := q.map Cell.chr ++ [Cell.chr (Char.ofNat 0)],
        a2s := List.replicate (q.length + 2) (Cell.int 0) },
    vrna_get_iindx := fun n =>
      (List.range (n + 1)).map (fun i =>
        Cell.int (if i = 0 then 0 else (((n + 1 - i) * (n - i)) / 2 + n + 1 : Nat))),
    vrna_get_indx := fun n =>
      (List.range (n + 1)).map (fun i => Cell.int (((i * (i - 1)) / 2 : Nat))),
    vrna_params_get := fun md => md.getD sampleMd,
    vrna_exp_params_get := fun md => sampleExpParams (md.getD sampleMd),
    vrna_exp_params_ali_get := fun _ md => sampleExpParams (md.getD sampleMd),
    get_gquad_matrix := fun _ _ => [Cell.int 0],
    get_gquad_ali_matrix := fun _ _ => [Cell.int 0],
    get_gquad_pf_matrix := fun _ _ => [Cell.flt 0],
    vrna_hc_init := fun _ _ => [Cell.struct],
    readribosum := fun _ => List.replicate 7 (List.replicate 7 0),
    get_ribosum := fun _ _ _ => List.replicate 7 (List.replicate 7 0),
    vrna_pt_get := fun q => List.replicate (q.length + 2) (Cell.int 0),
    vrna_refBPcnt_matrix := fun pt _ =>
      List.replicate ((pt.length - 1) * pt.length / 2) (Cell.int 0),
    vrna_refBPdist_matrix := fun pt _ _ =>
      List.replicate ((pt.length - 1) * pt.length / 2) (Cell.int 0),
    maximumMatchingConstraint := fun q _ =>
      List.replicate ((q.length + 1) * (q.length + 2) / 2) (Cell.int 0) }

/-- Partition function matrices whose scale tables are the blocks 2 and 3
of `sampleScaleHeap`. -/
def sampleScaleMx : PfMx ℚ :=
  { PfMx.zero 0 (Ptr.mk 1 0) with scale := Ptr.mk 2 0, expMLbase := Ptr.mk 3 0 }

/-- Boltzmann factors with `pf_scale = 2` and `expMLbase = 3`. -/
def sampleScaleParams : ExpParams ℚ :=
  { sampleExpParams sampleMd with pf_scale := 2, expMLbase := 3 }

/-- A fold compound of length 3 with `sampleScaleMx` and
`sampleScaleParams`. -/
def sampleScaleVc : FoldCompound ℚ :=
  { FoldCompound.zero (Ptr.mk 0 0) with
      length := 3, exp_params := some sampleScaleParams,
      exp_matrices := some sampleScaleMx }

/-- A heap with the blocks of `sampleScaleVc`: the compound, the matrices,
and two scale tables of 5 entries each. -/
def sampleScaleHeap : Heap ℚ :=
  { blocks := [{ cells := [Cell.struct], freed := false },
               { cells := [Cell.struct], freed := false },
               { cells := List.replicate 5 (Cell.flt 0), freed := false },
               { cells := List.replicate 5 (Cell.flt 0), freed := false }],
    released := [] }


/-! ## Update of the parameter blocks -/

/-- Modelled from the spec: `vrna_params_copy` (`params.c`) is not among
the sources.  The fold compound "exclusively owns all matrix families and
parameter blocks; it never shares them", so the block it stores is a new
block, with the contents of the block supplied. -/
def vrna_params_copy {R : Type} (parameters : Params R) : M R (Params R) := do
  let self ← vrna_alloc_struct
  pure { parameters with self := self }

/-- Modelled from the spec: `vrna_exp_params_copy` (`params.c`) is not among
the sources; as `vrna_params_copy`, a new block with the contents of the
block supplied. -/
def vrna_exp_params_copy {R : Type} (params : ExpParams R) : M R (ExpParams R) := do
  let self ← vrna_alloc_struct
  pure { params with self := self }

/-- Source `vrna_params_update` (lines 890-910).  `vc` and `parameters` are
`none` for `NULL`; the result is the fold compound after the call.  The
block of `vrna_params_get(NULL)` is a new block whose model details are
`E.vrna_params_get none`, as in `add_params`. -/
def vrna_params_update {R : Type} (E : Ext R) (vc : Option (FoldCompound R))
    (parameters : Option (Params R)) : M R (Option (FoldCompound R)) :=
  match vc with
  | none => pure none
  | some vc => do
    match vc.params with
    | some old => free old.self
    | none => pure ()
    match parameters with
    | some p => do
      let c ← vrna_params_copy p
      pure (some { vc with params := some c })
    | none =>
      match vc.type with
      | VcType.VRNA_VC_TYPE_SINGLE => do
        let self ← vrna_alloc_struct
        let p : Params R := { self := self, model_details := E.vrna_params_get none }
        pure (some { vc with params := some p })
      | VcType.VRNA_VC_TYPE_ALIGNMENT => do
        let self ← vrna_alloc_struct
        let p : Params R := { self := self, model_details := E.vrna_params_get none }
        pure (some { vc with params := some p })
      | VcType.other _ => pure (some vc)

/-- Source `vrna_exp_params_update` (lines 912-937).  `vc` and `params` are
`none` for `NULL`; the result is the fold compound after the call. -/
def vrna_exp_params_update {R : Type} (F : FltOps R) (E : Ext R)
    (vc : Option (FoldCompound R)) (params : Option (ExpParams R)) :
    M R (Option (FoldCompound R)) :=
  match vc with
  | none => pure none
  | some vc => do
    match vc.exp_params with
    | some old => free old.self
    | none => pure ()
    let vc ← (match params with
      | some p => do
        let c ← vrna_exp_params_copy p
        pure { vc with exp_params := some c }
      | none =>
        match vc.type with
        | VcType.VRNA_VC_TYPE_SINGLE => do
          let self ← vrna_alloc_struct
          let ep := E.vrna_exp_params_get none
          let ep := if 0 < vc.cutpoint then
              { ep with model_details := { ep.model_details with min_loop_size := 0 } }
            else ep
          pure { vc with exp_params := some { ep with self := self } }
        | VcType.VRNA_VC_TYPE_ALIGNMENT => do
          let self ← vrna_alloc_struct
          let ep := E.vrna_exp_params_ali_get vc.n_seq none
          pure { vc with exp_params := some { ep with self := self } }
        | VcType.other _ => pure vc : M R (FoldCompound R))
    -- fill additional helper arrays for scaling etc.
    vrna_exp_params_rescale F (some vc) none

/-! ## The entries a teardown loop visits -/

/-- Run `body` on the elements of a list, in order. -/
def forEach {R α : Type} (body : α → M R Unit) : List α → M R Unit
  | [] => pure ()
  | x :: xs => do
      body x
      forEach body xs

/-- The positions `1, ..., rounds`. -/
def positions (rounds : Nat) : List Nat :=
  (List.range rounds).map (fun k => k + 1)

/-- The intervals `(i, j)` with `1 ≤ i ≤ rows` and `i ≤ j ≤ length`, row by
row. -/
def intervals (rows length : Nat) : List (Nat × Nat) :=
  (positions rows).flatMap (fun i => (List.range (length + 1 - i)).map (fun d => (i, i + d)))

/-- The teardown of a family, told by the entries it visits: when the family
is present, each entry of the list is computed and torn down, in order, and
then the five outer arrays are released. -/
def sweep {R : Type} (K : Consts) (fam : SparseFam) (entries : List (M R Int)) : M R Unit :=
  if fam.E ≠ Ptr.null then do
    forEach (fun ix => do
      let ij ← ix
      free_entry K fam ij) entries
    free_outer fam
  else
    pure ()

/-! ## What a run leaves behind -/

/-- The fault that stopped a run, if one did. -/
def Outcome.fault {R α : Type} : Outcome R α → Option Fault
  | .ok _ _ => none
  | .fail f _ => some f

/-- The value a run returned, if it returned. -/
def Outcome.value {R α : Type} : Outcome R α → Option α
  | .ok a _ => some a
  | .fail _ _ => none

/-- The heap when the run returned or stopped. -/
def Outcome.heap {R α : Type} : Outcome R α → Heap R
  | .ok _ h => h
  | .fail _ h => h

/-- The blocks of a heap that have not been released. -/
def Heap.live {R : Type} (h : Heap R) : List Nat :=
  (List.range h.blocks.length).filter (fun b =>
    match h.blocks[b]? with
    | some blk => !blk.freed
    | none => false)

/-- The scaling factor `pf_scale` of the Boltzmann parameters of a fold
compound, when it has some. -/
def FoldCompound.pf_scale {R : Type} (vc : Option (FoldCompound R)) : Option R :=
  vc.bind (fun c => c.exp_params.map (fun p => p.pf_scale))

/-- The fold compound `sampleScaleVc` with `pf_scale = 3`. -/
def sampleScaleVc3 : FoldCompound ℚ :=
  { sampleScaleVc with exp_params := some { sampleScaleParams with pf_scale := 3 } }

/-- A fold compound with a parameter block, which is block 1 of
`sampleParamsHeap`. -/
def sampleParamsVc : FoldCompound ℚ :=
  { FoldCompound.zero (Ptr.mk 0 0) with
      length := 9, params := some { self := Ptr.mk 1 0, model_details := sampleMd } }

/-- A heap with the blocks of `sampleParamsVc`. -/
def sampleParamsHeap : Heap ℚ :=
  { blocks := [{ cells := [Cell.struct], freed := false },
               { cells := [Cell.struct], freed := false }],
    released := [] }

/-- A stand-in for the recurrences of `2Dfold.c`, which fill an entry of a
sparse family: the entry `idx` gets the k-range that starts at `k_min` and
has one k for each element of `ranges`, the l-range of that k.  For a
finite l-range `(lo, hi)` an inner array of `(hi - lo) / 2 + 1` values is
obtained and its pointer is stored moved down by `lo / 2`; the three arrays
over k are stored moved down by `k_min`. -/
def sample_fill_entry {R : Type} (K : Consts) (fam : SparseFam) (idx k_min : Int)
    (ranges : List (Int × Int)) : M R Unit := do
  let e ← vrna_alloc_ptr ranges.length
  let lmin ← vrna_alloc_int ranges.length
  let lmax ← vrna_alloc_int ranges.length
  forRange (fun c => do
    let r := ranges.getD c (K.INF, 0)
    store lmin (c : Int) (Cell.int r.1)
    store lmax (c : Int) (Cell.int r.2)
    if r.1 < K.INF then
      let inner ← vrna_alloc_int (Int.tdiv (r.2 - r.1) 2 + 1).toNat
      let p ← ptr_add inner (-(Int.tdiv r.1 2))
      store e (c : Int) (Cell.ptr p)) ranges.length 0
  let e ← ptr_add e (-k_min)
  let lmin ← ptr_add lmin (-k_min)
  let lmax ← ptr_add lmax (-k_min)
  store fam.E idx (Cell.ptr e)
  store fam.l_min idx (Cell.ptr lmin)
  store fam.l_max idx (Cell.ptr lmax)
  store fam.k_min idx (Cell.int k_min)
  store fam.k_max idx (Cell.int (k_min + (ranges.length : Int) - 1))

/-- A fold compound of length `n` with the index tables of `sampleExt` and
sparse MFE matrices for the bitmask `v`, as `set_fold_compound` makes
them. -/
def sample_sparse_vc (n v : Nat) : M ℚ (FoldCompound ℚ) := do
  let iindx ← ext_block (sampleExt.vrna_get_iindx n)
  let jindx ← ext_block (sampleExt.vrna_get_indx n)
  let m ← get_mfe_matrices_alloc viennaConsts n MxType.VRNA_MX_2DFOLD v
  pure { FoldCompound.zero Ptr.null with
           length := n, iindx := iindx, jindx := jindx, matrices := some m }

/-- A fold compound of length 1 whose family `E_F5` has, at position 1, the
k-range `[1, 1]` with the l-range `[2, 6]`. -/
def sample_filled_F5 : M ℚ (FoldCompound ℚ) := do
  let vc ← sample_sparse_vc 1 ALLOC_F5
  match vc.matrices with
  | some m => sample_fill_entry viennaConsts m.F5 1 1 [(2, 6)]
  | none => pure ()
  pure vc

/-- A fold compound of length 2 whose family `E_C` has the k-range `[0, 0]`
with the l-range `[0, 2]` at the intervals `(1, 2)` and `(2, 2)`, which are
the entries 2 and 1 with the index table of `sampleExt`. -/
def sample_filled_C : M ℚ (FoldCompound ℚ) := do
  let vc ← sample_sparse_vc 2 ALLOC_C
  match vc.matrices with
  | some m =>
    sample_fill_entry viennaConsts m.C 2 0 [(0, 2)]
    sample_fill_entry viennaConsts m.C 1 0 [(0, 2)]
  | none => pure ()
  pure vc

/-- A fold compound of length 6 whose family `E_M2` has the k-range `[0, 0]`
with the l-range `[0, 2]` at the positions 1 and 2. -/
def sample_filled_M2 : M ℚ (FoldCompound ℚ) := do
  let vc ← sample_sparse_vc 6 ALLOC_CIRC
  match vc.matrices with
  | some m =>
    sample_fill_entry viennaConsts m.M2 1 0 [(0, 2)]
    sample_fill_entry viennaConsts m.M2 2 0 [(0, 2)]
  | none => pure ()
  pure vc

/-- A stand-in for the recurrences of `2Dfold.c`, which fill a circular
exterior-loop family: the family gets the k-range that starts at `k_min`
and has one k for each element of `ranges`, the l-range of that k, stored
as `sample_fill_entry` stores an entry of a sparse family. -/
def sample_fill_circ {R : Type} (K : Consts) (k_min : Int) (ranges : List (Int × Int)) :
    M R CircFam := do
  let e ← vrna_alloc_ptr ranges.length
  let lmin ← vrna_alloc_int ranges.length
  let lmax ← vrna_alloc_int ranges.length
  forRange (fun c => do
    let r := ranges.getD c (K.INF, 0)
    store lmin (c : Int) (Cell.int r.1)
    store lmax (c : Int) (Cell.int r.2)
    if r.1 < K.INF then
      let inner ← vrna_alloc_int (Int.tdiv (r.2 - r.1) 2 + 1).toNat
      let p ← ptr_add inner (-(Int.tdiv r.1 2))
      store e (c : Int) (Cell.ptr p)) ranges.length 0
  let e ← ptr_add e (-k_min)
  let lmin ← ptr_add lmin (-k_min)
  let lmax ← ptr_add lmax (-k_min)
  pure { E := e, l_min := lmin, l_max := lmax, k_min := k_min,
         k_max := k_min + (ranges.length : Int) - 1 }

/-- The heap after `sample_fill_circ` has made a circular family with the
k-range `[1, 1]` and the l-range `[2, 6]`. -/
def sampleCircHeap : Heap ℚ :=
  (sample_fill_circ viennaConsts 1 [(2, 6)] Heap.empty).heap

/-- The circular family of `sampleCircHeap`. -/
def sampleFc : CircFam :=
  { E := Ptr.mk 0 (-1), l_min := Ptr.mk 1 (-1), l_max := Ptr.mk 2 (-1), k_min := 1, k_max := 1 }

/-- The nucleotide sequence `GGGAAACCC`. -/
def sampleSeq : List Char := "GGGAAACCC".toList

/-- The outer arrays of the family `E_F5` of `sample_filled_F5`. -/
def sampleF5 : SparseFam :=
  { E := Ptr.mk 3 0, l_min := Ptr.mk 4 0, l_max := Ptr.mk 5 0, k_min := Ptr.mk 6 0,
    k_max := Ptr.mk 7 0, rem := Ptr.mk 8 0 }

/-- Whether a run returned a value other than `NULL`. -/
def Outcome.returned {R α : Type} (o : Outcome R (Option α)) : Bool :=
  match o with
  | .ok (some _) _ => true
  | _ => false

/-! ## Teardown of a fold compound -/

/-- The number of entries of the block that a pointer of the returned fold
compound points to, in the heap the run left; `sel` selects the pointer. -/
def Outcome.extent_of {R : Type} (o : Outcome R (Option (FoldCompound R)))
    (sel : FoldCompound R → Ptr) : Option Nat :=
  match o with
  | .ok (some vc) h => h.extent (sel vc)
  | _ => none

/-- The pointer `p` is the start of a block of heap `h` that has not been
released and holds `len` entries, each of them `c`: what `vrna_alloc`
returns, with `c` for the zero of the element type. -/
def Heap.filled {R : Type} (h : Heap R) (p : Ptr) (len : Nat) (c : Cell R) : Prop :=
  ∃ b, p = Ptr.mk b 0
    ∧ h.blocks[b]? = some { cells := List.replicate len c, freed := false }

/-- The state of a sparse family that has been requested and not filled
yet: the arrays `E`, `l_min` and `l_max` hold `len` null pointers and the
arrays `k_min` and `k_max` hold `len` zeros. -/
def family_unfilled {R : Type} (h : Heap R) (fam : SparseFam) (len : Nat) : Prop :=
  h.filled fam.E len (Cell.ptr Ptr.null) ∧ h.filled fam.l_min len (Cell.ptr Ptr.null)
  ∧ h.filled fam.l_max len (Cell.ptr Ptr.null) ∧ h.filled fam.k_min len (Cell.int 0)
  ∧ h.filled fam.k_max len (Cell.int 0)

/-- The operations of `F` are the exact ones of the field `R`, for the
operations that `rescale_params` uses: the literal `1.`, the conversion of
the integer 1, the product, the quotient, and `pow` for an exponent that is
the conversion of a natural number. -/
def FltOps.exact {R : Type} [Field R] (F : FltOps R) : Prop :=
  F.lit 1 = 1 ∧ F.ofInt 1 = 1 ∧ (∀ a b : R, F.mul a b = a * b)
  ∧ (∀ a b : R, F.div a b = a / b)
  ∧ ∀ (a : R) (i : Nat), F.pow a (F.ofInt (i : Int)) = a ^ i

/-- The table entry `i` computed by repeated multiplication: entry 0 is 1
and entry `i + 1` is entry `i` times `x`, where `x` is entry 1. -/
def repeated_product {R : Type} [Field R] (x : R) : Nat → R
  | 0 => 1
  | i + 1 => repeated_product x i * x

/-- The fold compound that `vrna_get_fold_compound` passes to
`set_fold_compound` for the sequence `GGGAAACCC`, with the blocks of
`sampleSingleHeap`. -/
def sampleSingleVc : FoldCompound ℚ :=
  { FoldCompound.zero (Ptr.mk 0 0) with
      type := VcType.VRNA_VC_TYPE_SINGLE, length := 9,
      sequence := { ptr := Ptr.mk 1 0, val := sampleSeq } }

/-- A heap with the blocks of `sampleSingleVc`: the compound and the copy
of the sequence. -/
def sampleSingleHeap : Heap ℚ :=
  { blocks := [{ cells := [Cell.struct], freed := false },
               { cells := sampleSeq.map Cell.chr ++ [Cell.chr (Char.ofNat 0)],
                 freed := false }],
    released := [] }

/-- A fold compound for an alignment of two sequences of length 5, as
`vrna_get_fold_compound_ali` passes it to `set_fold_compound`, without the
blocks that hold it. -/
def sampleAliVc : FoldCompound ℚ :=
  { FoldCompound.zero Ptr.null with
      type := VcType.VRNA_VC_TYPE_ALIGNMENT, length := 5, n_seq := 2,
      sequences_val := [{ ptr := Ptr.null, val := "GGGAA".toList },
                        { ptr := Ptr.null, val := "GGCAA".toList }] }

/-- A fold compound for an alignment of one sequence of length 65536, as
`vrna_get_fold_compound_ali` passes it to `set_fold_compound`, without the
blocks that hold it. -/
def sampleLongAliVc : FoldCompound ℚ :=
  { FoldCompound.zero Ptr.null with
      type := VcType.VRNA_VC_TYPE_ALIGNMENT, length := 65536, n_seq := 1,
      sequences_val := [{ ptr := Ptr.null, val := List.replicate 65536 'A' }] }

/-- The table `md->pair` of the package for the default settings: rows and
columns are the codes of the nucleotides (`A` 1, `C` 2, `G` 3, `U` 4), the
entries the pair types (`CG` 1, `GC` 2, `GU` 3, `UG` 4, `AU` 5, `UA` 6). -/
def samplePairTable : List (List Int) :=
  [[0, 0, 0, 0, 0, 0, 0, 0], [0, 0, 0, 0, 5, 0, 0, 5], [0, 0, 0, 1, 0, 0, 0, 0],
   [0, 0, 2, 0, 3, 0, 0, 0], [0, 6, 0, 4, 0, 0, 0, 6], [0, 0, 0, 0, 0, 0, 2, 0],
   [0, 0, 0, 0, 0, 1, 0, 0], [0, 6, 0, 0, 5, 0, 0, 0]]

/-- The model details `sampleMd` with ribosum scoring (`md.ribo = 1`) and the
pair table `samplePairTable`. -/
def sampleRiboMd : ModelDetails ℚ :=
  { sampleMd with ribo := 1, pair := samplePairTable }

/-- The encoding `S` of an aligned sequence as the package makes it: the
length, the codes of the nucleotides, and the code of the first one
again. -/
def sample_encode (q : List Char) : List (Cell ℚ) :=
  let code : Char → Int := fun c =>
    if c = 'A' then 1 else if c = 'C' then 2 else if c = 'G' then 3
    else if c = 'U' then 4 else 0
  Cell.int (q.length : Int) :: (q.map (fun c => Cell.int (code c))
    ++ [Cell.int (code (q.headD 'A'))])

/-- The stand-ins `sampleExt` with the encoding `sample_encode`, the global
variable `RibosumFile` set to `file`, a ribosum file whose matrix holds 1
everywhere, and a matrix of `get_ribosum` that holds 0 everywhere. -/
def sampleRiboExt (file : Option (List Char)) : Ext ℚ :=
  { sampleExt with
      RibosumFile := file,
      vrna_ali_encode := fun q md =>
        { sampleExt.vrna_ali_encode q md with S := sample_encode q },
      readribosum := fun _ => List.replicate 7 (List.replicate 7 1),
      get_ribosum := fun _ _ _ => List.replicate 7 (List.replicate 7 0) }

/-- The element `sel vc [i]` of the fold compound `vc` that a constructor
returned, in the heap it left. -/
def Outcome.cell_of {R : Type} (o : Outcome R (Option (FoldCompound R)))
    (sel : FoldCompound R → Ptr) (i : Int) : Option (Cell R) :=
  match o with
  | .ok (some vc) h => h.cell (sel vc) i
  | _ => none

/-- The model details in the parameter block of the fold compound that a
constructor returned. -/
def Outcome.model_details_of {R : Type} (o : Outcome R (Option (FoldCompound R))) :
    Option (ModelDetails R) :=
  match o with
  | .ok (some vc) _ => vc.params.map (fun p => p.model_details)
  | _ => none

/-! ## Predicates used in the statements -/

/-- Heap `h2` has every block of `h1`, unchanged, and possibly more. -/
def Heap.le {R : Type} (h1 h2 : Heap R) : Prop :=
  ∀ (b : Nat) (blk : Block R), h1.blocks[b]? = some blk → h2.blocks[b]? = some blk

/-- The buffer `p` is non-null iff `present` holds, and a non-null `p` is
the start of a block of exactly `len` entries of heap `h`. -/
def buffer_ok {R : Type} (h : Heap R) (p : Ptr) (present : Bool) (len : Nat) : Prop :=
  (p ≠ Ptr.null ↔ present = true) ∧ (p ≠ Ptr.null → h.extent p = some len)

/-- The six outer arrays of a sparse family are non-null iff `present`
holds, and each non-null one is the start of a block of exactly `len`
entries. -/
def family_ok {R : Type} (h : Heap R) (fam : SparseFam) (present : Bool) (len : Nat) :
    Prop :=
  buffer_ok h fam.E present len ∧ buffer_ok h fam.l_min present len
  ∧ buffer_ok h fam.l_max present len ∧ buffer_ok h fam.k_min present len
  ∧ buffer_ok h fam.k_max present len ∧ buffer_ok h fam.rem present len

/-- The scale tables of `m` are two different live blocks of heap `h` with
at least `n + 2` entries each, which is how `get_pf_matrices_alloc` leaves
them for a sequence of length `n`. -/
def scale_tables_ready {R : Type} (h : Heap R) (m : PfMx R) (n : Nat) : Prop :=
  ∃ (bs be : Nat) (S E : List (Cell R)),
    m.scale = Ptr.mk bs 0 ∧ m.expMLbase = Ptr.mk be 0 ∧ bs ≠ be
    ∧ h.blocks[bs]? = some { cells := S, freed := false }
    ∧ h.blocks[be]? = some { cells := E, freed := false }
    ∧ n + 2 ≤ S.length ∧ n + 2 ≤ E.length

/-- Block `b` of heap `h` has not been released and has `len` entries. -/
def Heap.has {R : Type} (h : Heap R) (b len : Nat) : Prop :=
  ∃ cells, h.blocks[b]? = some { cells := cells, freed := false } ∧ cells.length = len

/-- The faults that are validation errors: the messages of the constructors
for an empty sequence and for lengths that differ, and the messages of
`make_pscores` for unbalanced brackets in a constraint string.  The
size-limit messages of the matrix allocators are resource-limit errors, and
the other faults are accesses that C leaves undefined. -/
def Fault.validation : Fault → Bool
  | .message msg =>
    [msg_fc_empty, msg_ali_empty, msg_ali_unequal, msg_2D_empty, msg_2D_s1, msg_2D_s2,
     msg_unbalanced, msg_unbalanced_string].contains msg
  | _ => false

/-- A computation that does not stop with a validation error, whatever the
heap it starts on. -/
def no_validation_error {R α : Type} (x : M R α) : Prop :=
  ∀ h f h2, x h = Outcome.fail f h2 → f.validation = false


/-- What a write to the blocks `bs` and `be` leaves alone: the number of
blocks, the log of releases, and every other block. -/
def Heap.frame {R : Type} (bs be : Nat) (h h2 : Heap R) : Prop :=
  h2.blocks.length = h.blocks.length ∧ h2.released = h.released
  ∧ ∀ b, b ≠ bs → b ≠ be → h2.blocks[b]? = h.blocks[b]?

/-- The fold compounds `a` and `b` agree on the fields that say what the
fold compound is and what it owns for the energy evaluation: type, number
of sequences, parameter blocks and matrices. -/
def FoldCompound.same_core {R : Type} (a b : FoldCompound R) : Prop :=
  b.type = a.type ∧ b.n_seq = a.n_seq ∧ b.params = a.params ∧ b.exp_params = a.exp_params
  ∧ b.matrices = a.matrices ∧ b.exp_matrices = a.exp_matrices

/-! ## Lemmas on the memory model and the building blocks -/

section lemmas
variable {R : Type}

theorem bind_apply {α β : Type} (x : M R α) (f : α → M R β) (h : Heap R) :
    (x >>= f) h = match x h with
      | .ok a h1 => f a h1
      | .fail e h1 => .fail e h1 := rfl

theorem pure_apply {α : Type} (a : α) (h : Heap R) : (pure a : M R α) h = .ok a h := rfl

theorem list_set_same {α : Type} {l : List α} {i : Nat} {a : α} (h : l[i]? = some a) :
    l.set i a = l := by
  apply List.ext_getElem?
  intro n
  rw [List.getElem?_set]
  by_cases hn : i = n
  · subst hn
    have : i < l.length := by
      by_contra hc
      rw [List.getElem?_eq_none (by omega)] at h
      cases h
    simp [this, h]
  · simp [hn]

theorem Heap.le.refl (h : Heap R) : h.le h := fun _ _ e => e

theorem Heap.le.trans {h1 h2 h3 : Heap R} (a : h1.le h2) (b : h2.le h3) : h1.le h3 :=
  fun i blk e => b i blk (a i blk e)

theorem Heap.extent_mono {h1 h2 : Heap R} (hle : h1.le h2) {p : Ptr} {len : Nat}
    (he : h1.extent p = some len) : h2.extent p = some len := by
  cases p with
  | null => simp [Heap.extent] at he
  | mk b off =>
    simp only [Heap.extent] at he ⊢
    split at he
    · rename_i h0
      simp only [h0, if_true]
      cases hb : h1.blocks[b]? with
      | none => simp [hb] at he
      | some blk =>
        rw [hle b blk hb]
        simpa [hb] using he
    · cases he

theorem Heap.cell_mono {h1 h2 : Heap R} (hle : h1.le h2) {p : Ptr} {i : Int} {c : Cell R}
    (he : h1.cell p i = some c) : h2.cell p i = some c := by
  cases p with
  | null => simp [Heap.cell] at he
  | mk b off =>
    simp only [Heap.cell] at he ⊢
    cases hb : h1.blocks[b]? with
    | none => simp [hb] at he
    | some blk =>
      rw [hle b blk hb]
      simpa [hb] using he

theorem buffer_ok_mono {h1 h2 : Heap R} (hle : h1.le h2) {p : Ptr} {b : Bool} {len : Nat}
    (hb : buffer_ok h1 p b len) : buffer_ok h2 p b len :=
  ⟨hb.1, fun hp => Heap.extent_mono hle (hb.2 hp)⟩

theorem family_ok_mono {h1 h2 : Heap R} (hle : h1.le h2) {fam : SparseFam} {b : Bool}
    {len : Nat} (hb : family_ok h1 fam b len) : family_ok h2 fam b len :=
  ⟨buffer_ok_mono hle hb.1, buffer_ok_mono hle hb.2.1, buffer_ok_mono hle hb.2.2.1,
    buffer_ok_mono hle hb.2.2.2.1, buffer_ok_mono hle hb.2.2.2.2.1,
    buffer_ok_mono hle hb.2.2.2.2.2⟩

theorem le_push (h : Heap R) (l : List (Block R)) (rel : List Nat) :
    h.le { blocks := h.blocks ++ l, released := rel } := by
  intro b blk e
  have hlt : b < h.blocks.length := by
    by_contra hc
    rw [List.getElem?_eq_none (by omega)] at e
    cases e
  show (h.blocks ++ l)[b]? = some blk
  rw [List.getElem?_append_left hlt, e]

theorem vrna_alloc_spec (cells : List (Cell R)) (h : Heap R) :
    ∃ p h2, vrna_alloc cells h = Outcome.ok p h2 ∧ h.le h2 ∧ p ≠ Ptr.null
      ∧ h2.extent p = some cells.length :=
  ⟨_, _, rfl, le_push h _ _, by simp, by simp [Heap.extent]⟩

theorem alloc_int_if_spec (present : Bool) (len : Nat) (h : Heap R) :
    ∃ p h2, alloc_int_if present len h = Outcome.ok p h2 ∧ h.le h2
      ∧ buffer_ok h2 p present len := by
  cases present with
  | false => exact ⟨Ptr.null, h, rfl, Heap.le.refl h, by simp [buffer_ok]⟩
  | true =>
    obtain ⟨p, h2, e, hle, hp, hx⟩ := vrna_alloc_spec (List.replicate len (Cell.int 0)) h
    refine ⟨p, h2, ?_, hle, ?_⟩
    · simpa [alloc_int_if, vrna_alloc_int] using e
    · simp [buffer_ok, hp]; simpa using hx

theorem alloc_flt_if_spec (z : R) (present : Bool) (len : Nat) (h : Heap R) :
    ∃ p h2, alloc_flt_if z present len h = Outcome.ok p h2 ∧ h.le h2
      ∧ buffer_ok h2 p present len := by
  cases present with
  | false => exact ⟨Ptr.null, h, rfl, Heap.le.refl h, by simp [buffer_ok]⟩
  | true =>
    obtain ⟨p, h2, e, hle, hp, hx⟩ := vrna_alloc_spec (List.replicate len (Cell.flt z)) h
    refine ⟨p, h2, ?_, hle, ?_⟩
    · simpa [alloc_flt_if, vrna_alloc_flt] using e
    · simp [buffer_ok, hp]; simpa using hx

theorem size_guard_of_sq {n : Nat} (hn : INT_MAX < n * n) : size_guard n = true := by
  unfold size_guard SQRT_INT_MAX
  unfold INT_MAX at hn
  by_contra hc
  simp at hc
  have : n * n ≤ 46339 * 46339 := Nat.mul_le_mul (by omega) (by omega)
  omega

theorem size_of_accepted {n : Nat} (hn : size_guard n = false) :
    ((n + 1) * (n + 2)) % UINT_MOD / 2 = (n + 1) * (n + 2) / 2
    ∧ (n + 2) % UINT_MOD = n + 2 := by
  unfold size_guard SQRT_INT_MAX at hn
  simp at hn
  have h1 : (n + 1) * (n + 2) ≤ 46340 * 46341 := Nat.mul_le_mul (by omega) (by omega)
  unfold UINT_MOD
  constructor
  · rw [Nat.mod_eq_of_lt (by omega)]
  · rw [Nat.mod_eq_of_lt (by omega)]

/-- The loop that stores one value in the entries `start .. start + count - 1`
of a live block that is long enough finishes and changes nothing else. -/
theorem forRange_store_fill (b : Nat) (c : Cell R) :
    ∀ (count start : Nat) (h : Heap R) (blk : Block R),
      h.blocks[b]? = some blk → blk.freed = false → start + count ≤ blk.cells.length →
      ∃ cells2, forRange (fun i => store (Ptr.mk b 0) (i : Int) c) count start h
          = Outcome.ok () { blocks := h.blocks.set b { cells := cells2, freed := false },
                            released := h.released }
        ∧ cells2.length = blk.cells.length
        ∧ ∀ i, cells2[i]? = if start ≤ i ∧ i < start + count then some c else blk.cells[i]? := by
  intro count
  induction count with
  | zero =>
    intro start h blk hb hf _
    refine ⟨blk.cells, ?_, rfl, ?_⟩
    · simp only [forRange, pure_apply]
      congr 1
      cases h with
      | mk blocks released =>
        simp only [Heap.mk.injEq, and_true]
        have : blk = { cells := blk.cells, freed := false } := by
          cases blk; simp_all
        rw [← this]
        exact (list_set_same hb).symm
    · intro i
      have : ¬ (start ≤ i ∧ i < start + 0) := by omega
      rw [if_neg this]
  | succ k ih =>
    intro start h blk hb hf hlen
    have hlt : start < blk.cells.length := by omega
    have hbl : b < h.blocks.length := by
      by_contra hc
      rw [List.getElem?_eq_none (by omega)] at hb
      cases hb
    have e1 : store (Ptr.mk b 0) (start : Int) c h = Outcome.ok ()
        { blocks := h.blocks.set b { blk with cells := blk.cells.set start c },
          released := h.released } := by
      simp only [store, hb, hf]
      have h1 : ¬ ((0 : Int) + (start : Int) < 0) := by omega
      have h2 : ((0 : Int) + (start : Int)).toNat = start := by omega
      have h3 : ¬ (blk.cells.length ≤ start) := by omega
      have h4 : ¬ ((start : Int) < 0) := by omega
      simp [h1, h2, h3, h4]
    obtain ⟨cells2, e2, l2, c2⟩ := ih (start + 1)
      { blocks := h.blocks.set b { blk with cells := blk.cells.set start c },
        released := h.released }
      { blk with cells := blk.cells.set start c }
      (by simp [List.getElem?_set, hbl]) hf (by simp; omega)
    refine ⟨cells2, ?_, by simpa using l2, ?_⟩
    · simp only [forRange, bind_apply, e1]
      rw [e2]
      simp [List.set_set]
    · intro i
      rw [c2 i]
      simp only [List.getElem?_set]
      by_cases h1 : start = i
      · subst h1
        simp [hlt]
      · by_cases h2 : start + 1 ≤ i ∧ i < start + 1 + k
        · have : start ≤ i ∧ i < start + (k + 1) := by omega
          simp [h2, this]
        · have : ¬ (start ≤ i ∧ i < start + (k + 1)) := by omega
          simp [h1, h2, this]


theorem getElem?_append_offset {α : Type} (l m : List α) (k : Nat) :
    (l ++ m)[l.length + k]? = m[k]? := by
  rw [List.getElem?_append_right (by omega)]
  congr 1
  omega

theorem buffer_at (blocks : List (Block R)) (rel : List Nat) (b len : Nat) (blk : Block R)
    (hb : blocks[b]? = some blk) (hl : blk.cells.length = len) :
    buffer_ok { blocks := blocks, released := rel } (Ptr.mk b 0) true len := by
  simp [buffer_ok, Heap.extent, hb, hl]

theorem alloc_sparse_mfe_spec (K : Consts) (present : Bool) (len fill : Nat) (h : Heap R)
    (hfill : fill ≤ len) :
    ∃ fam h2, alloc_sparse_mfe K present len fill h = Outcome.ok fam h2 ∧ h.le h2
      ∧ family_ok h2 fam present len
      ∧ (present = true → ∀ i : Nat, i < len →
          h2.cell fam.rem (i : Int) = some (Cell.int (if i < fill then K.INF else 0))) := by
  cases present with
  | false =>
    exact ⟨SparseFam.absent, h, rfl, Heap.le.refl h,
      by simp [family_ok, buffer_ok, SparseFam.absent], by simp⟩
  | true =>
    obtain ⟨B, hB⟩ : ∃ B : List (Block R), B = h.blocks ++
        [{ cells := List.replicate len (Cell.ptr Ptr.null), freed := false },
          { cells := List.replicate len (Cell.ptr Ptr.null), freed := false },
          { cells := List.replicate len (Cell.ptr Ptr.null), freed := false },
          { cells := List.replicate len (Cell.int 0), freed := false },
          { cells := List.replicate len (Cell.int 0), freed := false },
          { cells := List.replicate len (Cell.int 0), freed := false }] := ⟨_, rfl⟩
    have g0 : B[h.blocks.length + 0]? = some
        { cells := List.replicate len (Cell.ptr Ptr.null), freed := false } := by
      rw [hB, getElem?_append_offset]; rfl
    have g1 : B[h.blocks.length + 1]? = some
        { cells := List.replicate len (Cell.ptr Ptr.null), freed := false } := by
      rw [hB, getElem?_append_offset]; rfl
    have g2 : B[h.blocks.length + 2]? = some
        { cells := List.replicate len (Cell.ptr Ptr.null), freed := false } := by
      rw [hB, getElem?_append_offset]; rfl
    have g3 : B[h.blocks.length + 3]? = some
        { cells := List.replicate len (Cell.int 0), freed := false } := by
      rw [hB, getElem?_append_offset]; rfl
    have g4 : B[h.blocks.length + 4]? = some
        { cells := List.replicate len (Cell.int 0), freed := false } := by
      rw [hB, getElem?_append_offset]; rfl
    have g5 : B[h.blocks.length + 5]? = some
        { cells := List.replicate len (Cell.int 0), freed := false } := by
      rw [hB, getElem?_append_offset]; rfl
    have gl : h.blocks.length + 5 < B.length := by rw [hB]; simp
    obtain ⟨cells2, e2, l2, c2⟩ := forRange_store_fill (R := R) (h.blocks.length + 5)
      (Cell.int K.INF) fill 0 { blocks := B, released := h.released }
      { cells := List.replicate len (Cell.int 0), freed := false }
      g5 rfl (by simpa using hfill)
    refine ⟨{ E := Ptr.mk (h.blocks.length + 0) 0, l_min := Ptr.mk (h.blocks.length + 1) 0,
              l_max := Ptr.mk (h.blocks.length + 2) 0, k_min := Ptr.mk (h.blocks.length + 3) 0,
              k_max := Ptr.mk (h.blocks.length + 4) 0, rem := Ptr.mk (h.blocks.length + 5) 0 },
            { blocks := B.set (h.blocks.length + 5) { cells := cells2, freed := false },
              released := h.released }, ?_, ?_, ?_, ?_⟩
    · simp [alloc_sparse_mfe, bind_apply, pure_apply, vrna_alloc_ptr,
        vrna_alloc_int, vrna_alloc, ← hB]
      rw [e2]
    · intro b blk hb
      have hlt : b < h.blocks.length := by
        by_contra hc
        rw [List.getElem?_eq_none (by omega)] at hb
        cases hb
      show (List.set _ _ _)[b]? = some blk
      rw [List.getElem?_set_ne (by omega), hB, List.getElem?_append_left hlt, hb]
    · refine ⟨?_, ?_, ?_, ?_, ?_, ?_⟩
      · exact buffer_at _ _ _ _ _ (by rw [List.getElem?_set_ne (by omega)]; exact g0) (by simp)
      · exact buffer_at _ _ _ _ _ (by rw [List.getElem?_set_ne (by omega)]; exact g1) (by simp)
      · exact buffer_at _ _ _ _ _ (by rw [List.getElem?_set_ne (by omega)]; exact g2) (by simp)
      · exact buffer_at _ _ _ _ _ (by rw [List.getElem?_set_ne (by omega)]; exact g3) (by simp)
      · exact buffer_at _ _ _ _ _ (by rw [List.getElem?_set_ne (by omega)]; exact g4) (by simp)
      · exact buffer_at _ _ _ _ _ (by rw [List.getElem?_set_self gl]) (by simpa using l2)
    · intro _ i hi
      simp only [Heap.cell]
      rw [List.getElem?_set_self gl]
      have h1 : ¬ ((0 : Int) + (i : Int) < 0) := by omega
      have h2 : ((0 : Int) + (i : Int)).toNat = i := by omega
      simp only [h1, h2, if_false]
      rw [c2 i]
      by_cases hf : i < fill
      · simp [hf]
      · simp [hf, List.getElem?_replicate, hi]


theorem alloc_sparse_pf_spec (z : R) (present : Bool) (len : Nat) (h : Heap R) :
    ∃ fam h2, alloc_sparse_pf z present len h = Outcome.ok fam h2 ∧ h.le h2
      ∧ family_ok h2 fam present len := by
  cases present with
  | false =>
    exact ⟨SparseFam.absent, h, rfl, Heap.le.refl h,
      by simp [family_ok, buffer_ok, SparseFam.absent]⟩
  | true =>
    obtain ⟨B, hB⟩ : ∃ B : List (Block R), B = h.blocks ++
        [{ cells := List.replicate len (Cell.ptr Ptr.null), freed := false },
          { cells := List.replicate len (Cell.ptr Ptr.null), freed := false },
          { cells := List.replicate len (Cell.ptr Ptr.null), freed := false },
          { cells := List.replicate len (Cell.int 0), freed := false },
          { cells := List.replicate len (Cell.int 0), freed := false },
          { cells := List.replicate len (Cell.flt z), freed := false }] := ⟨_, rfl⟩
    have g0 : B[h.blocks.length + 0]? = some
        { cells := List.replicate len (Cell.ptr Ptr.null), freed := false } := by
      rw [hB, getElem?_append_offset]; rfl
    have g1 : B[h.blocks.length + 1]? = some
        { cells := List.replicate len (Cell.ptr Ptr.null), freed := false } := by
      rw [hB, getElem?_append_offset]; rfl
    have g2 : B[h.blocks.length + 2]? = some
        { cells := List.replicate len (Cell.ptr Ptr.null), freed := false } := by
      rw [hB, getElem?_append_offset]; rfl
    have g3 : B[h.blocks.length + 3]? = some
        { cells := List.replicate len (Cell.int 0), freed := false } := by
      rw [hB, getElem?_append_offset]; rfl
    have g4 : B[h.blocks.length + 4]? = some
        { cells := List.replicate len (Cell.int 0), freed := false } := by
      rw [hB, getElem?_append_offset]; rfl
    have g5 : B[h.blocks.length + 5]? = some
        { cells := List.replicate len (Cell.flt z), freed := false } := by
      rw [hB, getElem?_append_offset]; rfl
    refine ⟨{ E := Ptr.mk (h.blocks.length + 0) 0, l_min := Ptr.mk (h.blocks.length + 1) 0,
              l_max := Ptr.mk (h.blocks.length + 2) 0, k_min := Ptr.mk (h.blocks.length + 3) 0,
              k_max := Ptr.mk (h.blocks.length + 4) 0, rem := Ptr.mk (h.blocks.length + 5) 0 },
            { blocks := B, released := h.released }, ?_, ?_, ?_⟩
    · simp [alloc_sparse_pf, bind_apply, pure_apply, vrna_alloc_ptr,
        vrna_alloc_int, vrna_alloc_flt, vrna_alloc, ← hB]
    · rw [hB]
      exact le_push h _ _
    · exact ⟨buffer_at _ _ _ _ _ g0 (by simp), buffer_at _ _ _ _ _ g1 (by simp),
        buffer_at _ _ _ _ _ g2 (by simp), buffer_at _ _ _ _ _ g3 (by simp),
        buffer_at _ _ _ _ _ g4 (by simp), buffer_at _ _ _ _ _ g5 (by simp)⟩


theorem getElem?_lt {α : Type} {l : List α} {i : Nat} {a : α} (h : l[i]? = some a) :
    i < l.length := by
  by_contra hc
  rw [List.getElem?_eq_none (by omega)] at h
  cases h

theorem load_eq {h : Heap R} {b k : Nat} {blk : Block R} {c : Cell R}
    (hb : h.blocks[b]? = some blk) (hf : blk.freed = false) (hc : blk.cells[k]? = some c) :
    load (Ptr.mk b 0) (k : Int) h = Outcome.ok c h := by
  have h1 : ¬ ((0 : Int) + (k : Int) < 0) := by omega
  have h2 : ((0 : Int) + (k : Int)).toNat = k := by omega
  simp only [load, hb, hf, h1, h2, hc]
  simp

theorem loadFlt_eq {h : Heap R} {b k : Nat} {blk : Block R} {x : R}
    (hb : h.blocks[b]? = some blk) (hf : blk.freed = false)
    (hc : blk.cells[k]? = some (Cell.flt x)) :
    loadFlt (Ptr.mk b 0) (k : Int) h = Outcome.ok x h := by
  simp only [loadFlt, bind_apply, load_eq hb hf hc, pure_apply]

theorem store_eq {h : Heap R} {b k : Nat} {blk : Block R} (c : Cell R)
    (hb : h.blocks[b]? = some blk) (hf : blk.freed = false) (hk : k < blk.cells.length) :
    store (Ptr.mk b 0) (k : Int) c h = Outcome.ok ()
      { blocks := h.blocks.set b { cells := blk.cells.set k c, freed := false },
        released := h.released } := by
  have h1 : ¬ ((0 : Int) + (k : Int) < 0) := by omega
  have h2 : ((0 : Int) + (k : Int)).toNat = k := by omega
  have h3 : ¬ (blk.cells.length ≤ k) := by omega
  simp only [store, hb, hf, h1, h2, h3]
  simp [hf]

/-- The body of the loop of `rescale_params`. -/
theorem rescale_loop (F : FltOps R) (pf : ExpParams R) (bs be : Nat) (hne : bs ≠ be) :
    ∀ (count start : Nat) (h : Heap R) (S E : List (Cell R)),
      2 ≤ start →
      h.blocks[bs]? = some { cells := S, freed := false } →
      h.blocks[be]? = some { cells := E, freed := false } →
      start + count ≤ S.length → start + count ≤ E.length →
      (∀ j, j < start → ∃ x, S[j]? = some (Cell.flt x)) →
      ∃ h2 S2 E2,
        forRange (fun i => do
          let a ← loadFlt (Ptr.mk bs 0) ((i / 2 : Nat) : Int)
          let b ← loadFlt (Ptr.mk bs 0) ((i - i / 2 : Nat) : Int)
          store (Ptr.mk bs 0) (i : Int) (Cell.flt (F.mul a b))
          let si ← loadFlt (Ptr.mk bs 0) (i : Int)
          store (Ptr.mk be 0) (i : Int)
            (Cell.flt (F.mul (F.pow pf.expMLbase (F.ofInt (i : Int))) si))) count start h
          = Outcome.ok () h2
        ∧ h2.blocks[bs]? = some { cells := S2, freed := false }
        ∧ h2.blocks[be]? = some { cells := E2, freed := false }
        ∧ (∀ j, j < start → S2[j]? = S[j]?)
        ∧ (∀ i, start ≤ i → i < start + count → ∃ a b,
            S2[i / 2]? = some (Cell.flt a) ∧ S2[i - i / 2]? = some (Cell.flt b)
            ∧ S2[i]? = some (Cell.flt (F.mul a b))) := by
  intro count
  induction count with
  | zero =>
    intro start h S E _ hS hE _ _ _
    exact ⟨h, S, E, rfl, hS, hE, fun _ _ => rfl, fun i h1 h2 => by omega⟩
  | succ k ih =>
    intro start h S E h2le hS hE hSl hEl hflt
    obtain ⟨a, ha⟩ := hflt (start / 2) (by omega)
    obtain ⟨b, hb⟩ := hflt (start - start / 2) (by omega)
    have hbsl := getElem?_lt hS
    have hbel := getElem?_lt hE
    -- heap after the first store
    have hS1 : (h.blocks.set bs { cells := S.set start (Cell.flt (F.mul a b)), freed := false })[bs]?
        = some { cells := S.set start (Cell.flt (F.mul a b)), freed := false } :=
      List.getElem?_set_self hbsl
    have hE1 : (h.blocks.set bs { cells := S.set start (Cell.flt (F.mul a b)), freed := false })[be]?
        = some { cells := E, freed := false } := by
      rw [List.getElem?_set_ne hne]; exact hE
    have hSi : (S.set start (Cell.flt (F.mul a b)))[start]? = some (Cell.flt (F.mul a b)) :=
      List.getElem?_set_self (by omega)
    obtain ⟨h2, S2, E2, e2, hS2, hE2, hpre, hinv⟩ := ih (start + 1)
      { blocks := (h.blocks.set bs
            { cells := S.set start (Cell.flt (F.mul a b)), freed := false }).set be
            { cells := E.set start
                (Cell.flt (F.mul (F.pow pf.expMLbase (F.ofInt (start : Int))) (F.mul a b))),
              freed := false },
        released := h.released }
      (S.set start (Cell.flt (F.mul a b)))
      (E.set start (Cell.flt (F.mul (F.pow pf.expMLbase (F.ofInt (start : Int))) (F.mul a b))))
      (by omega)
      (by
        show (List.set _ _ _)[bs]? = _
        rw [List.getElem?_set_ne (Ne.symm hne)]; exact hS1)
      (by
        show (List.set _ _ _)[be]? = _
        exact List.getElem?_set_self (by simpa using hbel))
      (by simp; omega) (by simp; omega)
      (by
        intro j hj
        by_cases hjs : j = start
        · subst hjs; exact ⟨_, hSi⟩
        · rw [List.getElem?_set_ne (Ne.symm hjs)]
          exact hflt j (by omega))
    refine ⟨h2, S2, E2, ?_, hS2, hE2, ?_, ?_⟩
    · simp only [forRange, bind_apply]
      rw [loadFlt_eq hS rfl ha]
      simp only []
      rw [loadFlt_eq hS rfl hb]
      simp only []
      rw [store_eq _ hS rfl (by show start < S.length; omega)]
      simp only []
      rw [loadFlt_eq hS1 rfl hSi]
      simp only []
      rw [store_eq _ hE1 rfl (by show start < E.length; omega)]
      simp only []
      exact e2
    · intro j hj
      rw [hpre j (by omega), List.getElem?_set_ne (by omega)]
    · intro i hi1 hi2
      by_cases his : i = start
      · subst his
        refine ⟨a, b, ?_, ?_, ?_⟩
        · rw [hpre _ (by omega), List.getElem?_set_ne (by omega)]; exact ha
        · rw [hpre _ (by omega), List.getElem?_set_ne (by omega)]; exact hb
        · rw [hpre _ (by omega)]; exact hSi
      · exact hinv i (by omega) (by omega)


theorem mfe_alloc_refused (K : Consts) {n : Nat} (type : MxType) (v : Nat) (h : Heap R)
    (hg : size_guard n = true) :
    get_mfe_matrices_alloc K n type v h = Outcome.fail (Fault.message msg_mfe_range) h := by
  simp [get_mfe_matrices_alloc, hg, bind_apply, vrna_message_error, raise]

theorem pf_alloc_refused (F : FltOps R) {n : Nat} (type : MxType) (v : Nat) (h : Heap R)
    (hg : size_guard n = true) :
    get_pf_matrices_alloc F n type v h = Outcome.fail (Fault.message msg_pf_range) h := by
  simp [get_pf_matrices_alloc, hg, bind_apply, vrna_message_error, raise]

theorem add_params_ok (K : Consts) (E : Ext R) (vc : FoldCompound R) (md : ModelDetails R)
    (options : Nat) (h : Heap R) :
    ∃ vc2 h2, add_params K E vc md options h = Outcome.ok vc2 h2
      ∧ vc2.length = vc.length ∧ vc2.type = vc.type
      ∧ vc2.matrices = vc.matrices ∧ vc2.exp_matrices = vc.exp_matrices := by
  unfold add_params
  cases bitSet options K.VRNA_OPTION_MFE <;> cases bitSet options K.VRNA_OPTION_PF <;>
    simp [bind_apply, pure_apply, vrna_alloc_struct, vrna_alloc]

theorem set_fold_compound_refused (K : Consts) (F : FltOps R) (E : Ext R)
    (vc : FoldCompound R) (md : ModelDetails R) (mx_type : MxType) (v options : Nat)
    (h : Heap R) (r : FoldCompound R × ModelDetails R) (h1 : Heap R)
    (hpre : set_fold_compound_head K E vc md mx_type options h = Outcome.ok r h1)
    (he : bitSet options K.VRNA_OPTION_EVAL_ONLY = false)
    (hm : bitSet options K.VRNA_OPTION_MFE = true ∨ bitSet options K.VRNA_OPTION_PF = true)
    (hg : size_guard r.1.length = true) :
    ∃ f h2, set_fold_compound K F E vc md mx_type v options h = Outcome.fail f h2
      ∧ (f = Fault.message msg_mfe_range ∨ f = Fault.message msg_pf_range) := by
  obtain ⟨vc2, h2, e2, hl2, -, -, -⟩ := add_params_ok K E
    { r.1 with iindx := Ptr.mk h1.blocks.length 0,
               jindx := Ptr.mk (h1.blocks.length + 1) 0 } r.2 options
    { blocks := h1.blocks ++ [{ cells := E.vrna_get_iindx r.1.length, freed := false }]
        ++ [{ cells := E.vrna_get_indx r.1.length, freed := false }],
      released := h1.released }
  have hg2 : size_guard vc2.length = true := by rw [hl2]; exact hg
  simp only [set_fold_compound, bind_apply]
  rw [hpre]
  simp only [ext_block, vrna_alloc, List.length_append, List.length_singleton]
  rw [e2]
  simp only [he, Bool.not_false, if_true, bind_apply]
  by_cases hmfe : bitSet options K.VRNA_OPTION_MFE = true
  · refine ⟨_, h2, ?_, Or.inl rfl⟩
    simp only [hmfe, if_true, add_mfe_matrices, bind_apply, mfe_alloc_refused K _ _ _ hg2]
  · have hpf : bitSet options K.VRNA_OPTION_PF = true := by
      rcases hm with hm | hm
      · exact absurd hm hmfe
      · exact hm
    refine ⟨_, h2, ?_, Or.inr rfl⟩
    simp only [hmfe, hpf, if_true, if_false, Bool.false_eq_true, add_pf_matrices, bind_apply,
      pure_apply]
    rw [pf_alloc_refused F _ _ _ hg2]


theorem free_live (blk : Block R) {h : Heap R} {b : Nat}
    (hb : h.blocks[b]? = some blk) (hf : blk.freed = false) :
    free (Ptr.mk b 0) h = Outcome.ok ()
      { blocks := h.blocks.set b { blk with freed := true },
        released := h.released ++ [b] } := by
  simp [free, hb, hf]

theorem getElem?_set_append_length {α : Type} (l m : List α) (b : Nat) (x : α) :
    (l.set b x ++ m)[l.length]? = m[0]? := by
  rw [List.getElem?_append_right (by simp)]
  simp

theorem lookup_fresh {α : Type} (l : List α) (x : α) (m1 : List α) (b : Nat) (y : α)
    (m2 : List α) (hb : b < l.length) :
    (((l ++ (x :: m1)).set b y) ++ m2)[l.length]? = some x := by
  rw [List.getElem?_append_left (by simp), List.getElem?_set_ne (by omega),
    List.getElem?_append_right (Nat.le_refl _)]
  simp

theorem set_fold_compound_single_ok (K : Consts) (E : Ext R) (vc : FoldCompound R)
    (md : ModelDetails R) (mx_type : MxType) (options : Nat) (h : Heap R)
    (b : Nat) (blk : Block R) (hp : vc.sequence.ptr = Ptr.mk b 0)
    (hb : h.blocks[b]? = some blk) (hf : blk.freed = false) :
    ∃ r h2, set_fold_compound_single K E vc md mx_type options h = Outcome.ok r h2
      ∧ r.1.length = strlen_uint (E.vrna_cut_point_remove vc.sequence.val).1
      ∧ r.1.type = vc.type ∧ r.1.matrices = vc.matrices
      ∧ r.1.exp_matrices = vc.exp_matrices := by
  have hbl := getElem?_lt hb
  simp only [set_fold_compound_single, bind_apply, pure_apply, strdup, vrna_alloc, ext_block, hp]
  rw [free_live blk _ hf]
  · simp only []
    have hne : b ≠ h.blocks.length := by omega
    cases hE : bitSet options K.VRNA_OPTION_EVAL_ONLY
    · simp only [Bool.not_false, if_true, bind_apply, pure_apply, vrna_alloc]
      by_cases hc : bitSet options K.VRNA_OPTION_PF = true ∨ mx_type = MxType.VRNA_MX_2DFOLD
      · simp only [hc, if_true, vrna_alloc]
        rw [free_live (Block.mk (List.map Cell.chr vc.sequence.val
          ++ [Cell.chr (Char.ofNat 0)]) false) _ rfl]
        · exact ⟨_, _, rfl, rfl, rfl, rfl, rfl⟩
        · (simp only [List.append_assoc, List.singleton_append, List.cons_append, List.nil_append]; exact lookup_fresh _ _ _ _ _ _ hbl)
      · simp only [hc, if_false, pure_apply]
        rw [free_live (Block.mk (List.map Cell.chr vc.sequence.val
          ++ [Cell.chr (Char.ofNat 0)]) false) _ rfl]
        · exact ⟨_, _, rfl, rfl, rfl, rfl, rfl⟩
        · (simp only [List.append_assoc, List.singleton_append, List.cons_append, List.nil_append]; exact lookup_fresh _ _ _ _ _ _ hbl)
    · simp only [Bool.not_true, Bool.false_eq_true, if_false, bind_apply, pure_apply, vrna_alloc]
      rw [free_live (Block.mk (List.map Cell.chr vc.sequence.val
        ++ [Cell.chr (Char.ofNat 0)]) false) _ rfl]
      · exact ⟨_, _, rfl, rfl, rfl, rfl, rfl⟩
      · (simp only [List.append_assoc, List.singleton_append, List.cons_append, List.nil_append]; exact lookup_fresh _ _ _ _ _ _ hbl)
  · show (_ ++ _ ++ _)[b]? = some blk
    rw [List.append_assoc, List.getElem?_append_left hbl, hb]


theorem single_ctor_refused (K : Consts) (F : FltOps R) (E : Ext R) (sequence : List Char)
    (md_p : Option (ModelDetails R)) (options : Nat) (h : Heap R)
    (h0 : strlen_int sequence ≠ 0)
    (he : bitSet options K.VRNA_OPTION_EVAL_ONLY = false)
    (hm : bitSet options K.VRNA_OPTION_MFE = true ∨ bitSet options K.VRNA_OPTION_PF = true)
    (hg : size_guard (strlen_uint (E.vrna_cut_point_remove sequence).1) = true) :
    ∃ f h2, vrna_get_fold_compound K F E (some sequence) md_p options h = Outcome.fail f h2
      ∧ (f = Fault.message msg_mfe_range ∨ f = Fault.message msg_pf_range) := by
  simp only [vrna_get_fold_compound, h0, if_false, bind_apply, pure_apply, vrna_alloc_struct,
    strdup, vrna_alloc]
  generalize md_p.getD E.vrna_md_set_globals = md
  obtain ⟨r, h1, e1, hl, -, -, -⟩ := set_fold_compound_single_ok K E
    { (FoldCompound.zero (Ptr.mk h.blocks.length 0) : FoldCompound R) with
        type := VcType.VRNA_VC_TYPE_SINGLE,
        length := (strlen_int sequence % (UINT_MOD : Int)).toNat,
        sequence := { ptr := Ptr.mk (h.blocks.length + 1) 0, val := sequence },
        params := none, exp_params := none, matrices := none, exp_matrices := none,
        hc := Ptr.null }
    (get_mx_alloc_vector K md options).2 MxType.VRNA_MX_DEFAULT options
    { blocks := h.blocks ++ [{ cells := [Cell.struct], freed := false }] ++
        [{ cells := List.map Cell.chr sequence ++ [Cell.chr (Char.ofNat 0)], freed := false }],
      released := h.released }
    (h.blocks.length + 1) _ rfl
    (by rw [List.append_assoc, getElem?_append_offset]; rfl) rfl
  obtain ⟨f, h2, e2, hf⟩ := set_fold_compound_refused K F E
    { (FoldCompound.zero (Ptr.mk h.blocks.length 0) : FoldCompound R) with
        type := VcType.VRNA_VC_TYPE_SINGLE,
        length := (strlen_int sequence % (UINT_MOD : Int)).toNat,
        sequence := { ptr := Ptr.mk (h.blocks.length + 1) 0, val := sequence } }
    (get_mx_alloc_vector K md options).2 MxType.VRNA_MX_DEFAULT
    (get_mx_alloc_vector K md options).1 options
    { blocks := h.blocks ++ [{ cells := [Cell.struct], freed := false }] ++
        [{ cells := List.map Cell.chr sequence ++ [Cell.chr (Char.ofNat 0)], freed := false }],
      released := h.released } r h1
    (by simpa [set_fold_compound_head, FoldCompound.zero] using e1) he hm (by rw [hl]; exact hg)
  refine ⟨f, h2, ?_, hf⟩
  simp only [FoldCompound.zero, List.length_append, List.length_singleton] at e2 ⊢
  rw [e2]


theorem twoD_ctor_refused (K : Consts) (F : FltOps R) (E : Ext R) (sequence s1 s2 : List Char)
    (md_p : Option (ModelDetails R)) (options : Nat) (h : Heap R)
    (h0 : strlen_int sequence ≠ 0)
    (h1 : strlen_int s1 = strlen_int sequence) (h2 : strlen_int s2 = strlen_int sequence)
    (he : bitSet options K.VRNA_OPTION_EVAL_ONLY = false)
    (hm : bitSet options K.VRNA_OPTION_MFE = true ∨ bitSet options K.VRNA_OPTION_PF = true)
    (hg : size_guard (strlen_uint (E.vrna_cut_point_remove sequence).1) = true) :
    ∃ f h3, vrna_get_fold_compound_2D K F E (some sequence) (some s1) (some s2) md_p options h
        = Outcome.fail f h3
      ∧ (f = Fault.message msg_mfe_range ∨ f = Fault.message msg_pf_range) := by
  simp only [vrna_get_fold_compound_2D, h0, h1, h2, ne_eq, not_true_eq_false, if_false,
    bind_apply, pure_apply, vrna_alloc_struct, strdup, vrna_alloc]
  generalize md_p.getD E.vrna_md_set_globals = md
  obtain ⟨r, h1', e1, hl, -, -, -⟩ := set_fold_compound_single_ok K E
    { (FoldCompound.zero (Ptr.mk h.blocks.length 0) : FoldCompound R) with
        type := VcType.VRNA_VC_TYPE_SINGLE,
        length := (strlen_int sequence % (UINT_MOD : Int)).toNat,
        sequence := { ptr := Ptr.mk (h.blocks.length + 1) 0, val := sequence },
        params := none, exp_params := none, matrices := none, exp_matrices := none,
        hc := Ptr.null }
    (get_mx_alloc_vector K { md with uniq_ML := 1 } options).2 MxType.VRNA_MX_2DFOLD options
    { blocks := h.blocks ++ [{ cells := [Cell.struct], freed := false }] ++
        [{ cells := List.map Cell.chr sequence ++ [Cell.chr (Char.ofNat 0)], freed := false }],
      released := h.released }
    (h.blocks.length + 1) _ rfl
    (by rw [List.append_assoc, getElem?_append_offset]; rfl) rfl
  obtain ⟨f, h3, e2, hf⟩ := set_fold_compound_refused K F E
    { (FoldCompound.zero (Ptr.mk h.blocks.length 0) : FoldCompound R) with
        type := VcType.VRNA_VC_TYPE_SINGLE,
        length := (strlen_int sequence % (UINT_MOD : Int)).toNat,
        sequence := { ptr := Ptr.mk (h.blocks.length + 1) 0, val := sequence } }
    (get_mx_alloc_vector K { md with uniq_ML := 1 } options).2 MxType.VRNA_MX_2DFOLD
    (get_mx_alloc_vector K { md with uniq_ML := 1 } options).1 options
    { blocks := h.blocks ++ [{ cells := [Cell.struct], freed := false }] ++
        [{ cells := List.map Cell.chr sequence ++ [Cell.chr (Char.ofNat 0)], freed := false }],
      released := h.released } r h1'
    (by simpa [set_fold_compound_head, FoldCompound.zero] using e1) he hm (by rw [hl]; exact hg)
  refine ⟨f, h3, ?_, hf⟩
  simp only [FoldCompound.zero, List.length_append, List.length_singleton] at e2 ⊢
  rw [e2]


theorem has_alloc {h : Heap R} {b len : Nat} (cells : List (Cell R)) (hb : h.has b len) :
    Heap.has { blocks := h.blocks ++ [{ cells := cells, freed := false }],
               released := h.released } b len := by
  obtain ⟨c, hc, hl⟩ := hb
  exact ⟨c, by
    show (_ ++ _)[b]? = _
    rw [List.getElem?_append_left (getElem?_lt hc), hc], hl⟩

theorem has_fresh (h : Heap R) (cells : List (Cell R)) :
    Heap.has { blocks := h.blocks ++ [{ cells := cells, freed := false }],
               released := h.released } h.blocks.length cells.length :=
  ⟨cells, by
    show (_ ++ _)[h.blocks.length]? = _
    rw [List.getElem?_append_right (Nat.le_refl _)]; simp, rfl⟩

theorem store_has {h : Heap R} {b len k : Nat} (c : Cell R) (hb : h.has b len) (hk : k < len) :
    ∃ h2, store (Ptr.mk b 0) (k : Int) c h = Outcome.ok () h2
      ∧ h2.blocks.length = h.blocks.length
      ∧ ∀ b2 len2, h.has b2 len2 → h2.has b2 len2 := by
  obtain ⟨cells, hc, hl⟩ := hb
  refine ⟨_, store_eq c hc rfl (by show k < cells.length; omega), by simp, ?_⟩
  intro b2 len2 ⟨c2, hc2, hl2⟩
  by_cases hbb : b = b2
  · subst hbb
    rw [hc] at hc2
    cases hc2
    exact ⟨_, List.getElem?_set_self (getElem?_lt hc), by simpa using hl2⟩
  · exact ⟨c2, by
      show (List.set _ _ _)[b2]? = _
      rw [List.getElem?_set_ne hbb]; exact hc2, hl2⟩

theorem forRange_total (body : Nat → M R Unit) (Inv : Heap R → Prop) :
    ∀ (count start : Nat) (h : Heap R),
      (∀ i h1, start ≤ i → i < start + count → Inv h1 →
        ∃ h2, body i h1 = Outcome.ok () h2 ∧ Inv h2) →
      Inv h → ∃ h2, forRange body count start h = Outcome.ok () h2 ∧ Inv h2 := by
  intro count
  induction count with
  | zero => intro start h _ hi; exact ⟨h, rfl, hi⟩
  | succ k ih =>
    intro start h hbody hi
    obtain ⟨h1, e1, i1⟩ := hbody start h (Nat.le_refl _) (by omega) hi
    obtain ⟨h2, e2, i2⟩ := ih (start + 1) h1
      (fun i h' a b c => hbody i h' (by omega) (by omega) c) i1
    exact ⟨h2, by simp only [forRange, bind_apply, e1]; exact e2, i2⟩

theorem foldRange_total {σ : Type} (body : Nat → σ → M R σ) (Inv : Heap R → Prop) :
    ∀ (count start : Nat) (st : σ) (h : Heap R),
      (∀ i st1 h1, start ≤ i → i < start + count → Inv h1 →
        ∃ st2 h2, body i st1 h1 = Outcome.ok st2 h2 ∧ Inv h2) →
      Inv h → ∃ st2 h2, foldRange body count start st h = Outcome.ok st2 h2 ∧ Inv h2 := by
  intro count
  induction count with
  | zero => intro start st h _ hi; exact ⟨st, h, rfl, hi⟩
  | succ k ih =>
    intro start st h hbody hi
    obtain ⟨st1, h1, e1, i1⟩ := hbody start st h (Nat.le_refl _) (by omega) hi
    obtain ⟨st2, h2, e2, i2⟩ := ih (start + 1) st1 h1
      (fun i s' h' a b c => hbody i s' h' (by omega) (by omega) c) i1
    exact ⟨st2, h2, by simp only [foldRange, bind_apply, e1]; exact e2, i2⟩

theorem alloc_has_spec (cells : List (Cell R)) (h : Heap R) :
    ∃ b h2, vrna_alloc cells h = Outcome.ok (Ptr.mk b 0) h2 ∧ h2.has b cells.length
      ∧ ∀ b2 len2, h.has b2 len2 → h2.has b2 len2 :=
  ⟨_, _, rfl, has_fresh h cells, fun _ _ hb => has_alloc cells hb⟩

theorem store_has_spec {h : Heap R} {b len k : Nat} (c : Cell R) (hb : h.has b len)
    (hk : k < len) :
    ∃ h2, store (Ptr.mk b 0) (k : Int) c h = Outcome.ok () h2
      ∧ ∀ b2 len2, h.has b2 len2 → h2.has b2 len2 := by
  obtain ⟨h2, e, -, m⟩ := store_has c hb hk
  exact ⟨h2, e, m⟩

/-- One round of the loop of `set_fold_compound_ali`: a new block is stored
in an array of pointers. -/
theorem alloc_store_spec {h : Heap R} {b len k : Nat} (cells : List (Cell R))
    (hb : h.has b len) (hk : k < len) (Inv : Heap R → Prop)
    (hInv : ∀ h1 h2 : Heap R, (∀ b2 len2, h1.has b2 len2 → h2.has b2 len2) → Inv h1 → Inv h2)
    (hi : Inv h) :
    ∃ h2, (do let p ← vrna_alloc cells
              store (Ptr.mk b 0) (k : Int) (Cell.ptr p) : M R Unit) h = Outcome.ok () h2
      ∧ h2.has b len ∧ Inv h2 := by
  obtain ⟨b1, h1, e1, -, m1⟩ := alloc_has_spec cells h
  obtain ⟨h2, e2, m2⟩ := store_has_spec (Cell.ptr (Ptr.mk b1 0)) (m1 b len hb) hk
  refine ⟨h2, ?_, m2 _ _ (m1 _ _ hb), hInv h h2 (fun b2 len2 x => m2 _ _ (m1 _ _ x)) hi⟩
  simp only [bind_apply, e1]
  exact e2

theorem set_fold_compound_ali_ok (E : Ext R) (vc : FoldCompound R) (md : ModelDetails R)
    (h : Heap R) :
    ∃ vc2 h2, set_fold_compound_ali E vc md h = Outcome.ok vc2 h2
      ∧ vc2.length = vc.length ∧ vc2.type = vc.type := by
  obtain ⟨b1, h1, e1, -, -⟩ := alloc_has_spec
    (List.map Cell.chr (E.consensus (List.map (fun q => q.val) vc.sequences_val))
      ++ [Cell.chr (Char.ofNat 0)]) h
  obtain ⟨b2, h2, e2, -, -⟩ := alloc_has_spec (E.vrna_seq_encode_simple
    (E.consensus (List.map (fun q => q.val) vc.sequences_val)) md) h1
  obtain ⟨b3, h3, e3, -, -⟩ := alloc_has_spec (List.replicate
    ((vc.length * (vc.length + 1) % UINT_MOD / 2 + 2) % UINT_MOD) (Cell.int 0)) h2
  obtain ⟨b4, h4, e4, f4, m4⟩ := alloc_has_spec
    (List.replicate (vc.n_seq + 1) (Cell.ptr Ptr.null)) h3
  obtain ⟨b5, h5, e5, f5, m5⟩ := alloc_has_spec
    (List.replicate (vc.n_seq + 1) (Cell.ptr Ptr.null)) h4
  obtain ⟨b6, h6, e6, f6, m6⟩ := alloc_has_spec
    (List.replicate (vc.n_seq + 1) (Cell.ptr Ptr.null)) h5
  obtain ⟨b7, h7, e7, f7, m7⟩ := alloc_has_spec
    (List.replicate (vc.n_seq + 1) (Cell.ptr Ptr.null)) h6
  obtain ⟨b8, h8, e8, f8, m8⟩ := alloc_has_spec
    (List.replicate (vc.n_seq + 1) (Cell.ptr Ptr.null)) h7
  simp only [List.length_replicate] at f4 f5 f6 f7 f8
  -- S = b4, S5 = b5, S3 = b6, a2s = b7, Ss = b8
  have i8 : h8.has b4 (vc.n_seq + 1) ∧ h8.has b5 (vc.n_seq + 1) ∧ h8.has b6 (vc.n_seq + 1)
      ∧ h8.has b7 (vc.n_seq + 1) ∧ h8.has b8 (vc.n_seq + 1) :=
    ⟨m8 _ _ (m7 _ _ (m6 _ _ (m5 _ _ f4))), m8 _ _ (m7 _ _ (m6 _ _ f5)), m8 _ _ (m7 _ _ f6),
      m8 _ _ f7, f8⟩
  have hmono : ∀ h1 h2 : Heap R, (∀ b2 len2, h1.has b2 len2 → h2.has b2 len2) →
      (h1.has b4 (vc.n_seq + 1) ∧ h1.has b5 (vc.n_seq + 1) ∧ h1.has b6 (vc.n_seq + 1)
        ∧ h1.has b7 (vc.n_seq + 1) ∧ h1.has b8 (vc.n_seq + 1)) →
      (h2.has b4 (vc.n_seq + 1) ∧ h2.has b5 (vc.n_seq + 1) ∧ h2.has b6 (vc.n_seq + 1)
        ∧ h2.has b7 (vc.n_seq + 1) ∧ h2.has b8 (vc.n_seq + 1)) :=
    fun _ _ m x => ⟨m _ _ x.1, m _ _ x.2.1, m _ _ x.2.2.1, m _ _ x.2.2.2.1, m _ _ x.2.2.2.2⟩
  obtain ⟨h9, e9, i9⟩ := forRange_total (R := R) (fun s => do
      let enc := E.vrna_ali_encode ((vc.sequences_val.getD s { ptr := Ptr.null, val := [] }).val) md
      let p ← ext_block enc.S
      store (Ptr.mk b4 0) (s : Int) (Cell.ptr p)
      let p5 ← ext_block enc.S5
      store (Ptr.mk b5 0) (s : Int) (Cell.ptr p5)
      let p3 ← ext_block enc.S3
      store (Ptr.mk b6 0) (s : Int) (Cell.ptr p3)
      let ps ← ext_block enc.Ss
      store (Ptr.mk b8 0) (s : Int) (Cell.ptr ps)
      let pa ← ext_block enc.a2s
      store (Ptr.mk b7 0) (s : Int) (Cell.ptr pa))
    (fun hh => hh.has b4 (vc.n_seq + 1) ∧ hh.has b5 (vc.n_seq + 1) ∧ hh.has b6 (vc.n_seq + 1)
        ∧ hh.has b7 (vc.n_seq + 1) ∧ hh.has b8 (vc.n_seq + 1))
    vc.n_seq 0 h8
    (by
      intro i g0 _ hi hinv
      obtain ⟨g1, x1, -, j1⟩ := alloc_store_spec
        (E.vrna_ali_encode ((vc.sequences_val.getD i { ptr := Ptr.null, val := [] }).val) md).S
        hinv.1 (by omega : i < vc.n_seq + 1) _ hmono hinv
      obtain ⟨g2, x2, -, j2⟩ := alloc_store_spec
        (E.vrna_ali_encode ((vc.sequences_val.getD i { ptr := Ptr.null, val := [] }).val) md).S5
        j1.2.1 (by omega : i < vc.n_seq + 1) _ hmono j1
      obtain ⟨g3, x3, -, j3⟩ := alloc_store_spec
        (E.vrna_ali_encode ((vc.sequences_val.getD i { ptr := Ptr.null, val := [] }).val) md).S3
        j2.2.2.1 (by omega : i < vc.n_seq + 1) _ hmono j2
      obtain ⟨g4, x4, -, j4⟩ := alloc_store_spec
        (E.vrna_ali_encode ((vc.sequences_val.getD i { ptr := Ptr.null, val := [] }).val) md).Ss
        j3.2.2.2.2 (by omega : i < vc.n_seq + 1) _ hmono j3
      obtain ⟨g5, x5, -, j5⟩ := alloc_store_spec
        (E.vrna_ali_encode ((vc.sequences_val.getD i { ptr := Ptr.null, val := [] }).val) md).a2s
        j4.2.2.2.1 (by omega : i < vc.n_seq + 1) _ hmono j4
      refine ⟨g5, ?_, j5⟩
      simp only [bind_apply, ext_block] at x1 x2 x3 x4 x5 ⊢
      revert x1
      cases vrna_alloc (E.vrna_ali_encode ((vc.sequences_val.getD i { ptr := Ptr.null, val := [] }).val) md).S g0 with
      | fail f hh => intro x1; simp at x1
      | ok p hh =>
        intro x1
        simp only [] at x1 ⊢
        rw [x1]
        simp only []
        revert x2
        cases vrna_alloc (E.vrna_ali_encode ((vc.sequences_val.getD i { ptr := Ptr.null, val := [] }).val) md).S5 g1 with
        | fail f hh => intro x2; simp at x2
        | ok p hh =>
          intro x2
          simp only [] at x2 ⊢
          rw [x2]
          simp only []
          revert x3
          cases vrna_alloc (E.vrna_ali_encode ((vc.sequences_val.getD i { ptr := Ptr.null, val := [] }).val) md).S3 g2 with
          | fail f hh => intro x3; simp at x3
          | ok p hh =>
            intro x3
            simp only [] at x3 ⊢
            rw [x3]
            simp only []
            revert x4
            cases vrna_alloc (E.vrna_ali_encode ((vc.sequences_val.getD i { ptr := Ptr.null, val := [] }).val) md).Ss g3 with
            | fail f hh => intro x4; simp at x4
            | ok p hh =>
              intro x4
              simp only [] at x4 ⊢
              rw [x4]
              simp only []
              exact x5)
    i8
  obtain ⟨h10, e10, m10⟩ := store_has_spec (k := vc.n_seq) (Cell.ptr Ptr.null) i9.2.1 (by omega)
  obtain ⟨h11, e11, m11⟩ := store_has_spec (k := vc.n_seq) (Cell.ptr Ptr.null)
    (m10 _ _ i9.2.2.1) (by omega)
  obtain ⟨h12, e12, m12⟩ := store_has_spec (k := vc.n_seq) (Cell.ptr Ptr.null)
    (m11 _ _ (m10 _ _ i9.2.2.2.1)) (by omega)
  obtain ⟨h13, e13, m13⟩ := store_has_spec (k := vc.n_seq) (Cell.ptr Ptr.null)
    (m12 _ _ (m11 _ _ (m10 _ _ i9.2.2.2.2))) (by omega)
  obtain ⟨h14, e14, m14⟩ := store_has_spec (k := vc.n_seq) (Cell.ptr Ptr.null)
    (m13 _ _ (m12 _ _ (m11 _ _ (m10 _ _ i9.1)))) (by omega)
  have key : ∃ vc2, set_fold_compound_ali E vc md h = Outcome.ok vc2 h14
      ∧ vc2.length = vc.length ∧ vc2.type = vc.type := by
    simp only [set_fold_compound_ali, bind_apply, pure_apply, strdup, ext_block, vrna_alloc_int,
      vrna_alloc_ptr, e1, e2, e3, e4, e5, e6, e7, e8]
    simp only [ext_block] at e9
    rw [e9]
    simp only []
    rw [e10]
    simp only []
    rw [e11]
    simp only []
    rw [e12]
    simp only []
    rw [e13]
    simp only []
    rw [e14]
    exact ⟨_, rfl, rfl, rfl⟩
  obtain ⟨vc2, k1, k2, k3⟩ := key
  exact ⟨vc2, h14, k1, k2, k3⟩


theorem strlen_int_mod (s : List Char) :
    (strlen_int s % (UINT_MOD : Int)).toNat = strlen_uint s := by
  unfold strlen_int strlen_uint
  have hlt : s.length % UINT_MOD < UINT_MOD := Nat.mod_lt _ (by decide)
  unfold UINT_MOD at *
  split
  · omega
  · omega

theorem forRange_skip (body : Nat → M R Unit) :
    ∀ (count start : Nat) (h : Heap R),
      (∀ i, start ≤ i → i < start + count → body i h = Outcome.ok () h) →
      forRange body count start h = Outcome.ok () h := by
  intro count
  induction count with
  | zero => intro start h _; rfl
  | succ k ih =>
    intro start h hb
    simp only [forRange, bind_apply, hb start (Nat.le_refl _) (by omega)]
    exact ih (start + 1) h (fun i a b => hb i (by omega) (by omega))

theorem ali_ctor_refused (K : Consts) (F : FltOps R) (E : Ext R) (first : List Char)
    (rest : List (List Char)) (md_p : Option (ModelDetails R)) (options : Nat) (h : Heap R)
    (h0 : strlen_int first ≠ 0)
    (hall : ∀ q ∈ first :: rest, ((q.length : Nat) : Int) = to_size_t (strlen_int first))
    (he : bitSet options K.VRNA_OPTION_EVAL_ONLY = false)
    (hm : bitSet options K.VRNA_OPTION_MFE = true ∨ bitSet options K.VRNA_OPTION_PF = true)
    (hg : size_guard (strlen_uint first) = true) :
    ∃ f h2, vrna_get_fold_compound_ali K F E (some (first :: rest)) md_p options h
        = Outcome.fail f h2
      ∧ (f = Fault.message msg_mfe_range ∨ f = Fault.message msg_pf_range) := by
  -- the loop that compares the lengths
  have ec := forRange_skip (R := R) (fun s =>
      if (((List.getD (first :: rest) s []).length : Nat) : Int) ≠ to_size_t (strlen_int first) then
        vrna_message_error msg_ali_unequal
      else pure ()) (first :: rest).length 0 h
    (by
      intro i _ hi
      have hmem : List.getD (first :: rest) i [] ∈ first :: rest := by
        rw [List.getD_eq_getElem _ _ (by simpa using hi)]
        exact List.getElem_mem _
      simp only [hall _ hmem, ne_eq, not_true_eq_false, if_false, pure_apply])
  obtain ⟨b0, g0, e0, -, -⟩ := alloc_has_spec [Cell.struct] h
  obtain ⟨b1, g1, e1, f1, -⟩ := alloc_has_spec
    (List.replicate ((first :: rest).length + 1) (Cell.ptr Ptr.null)) g0
  simp only [List.length_replicate] at f1
  obtain ⟨vals, g2, e2, -⟩ := foldRange_total (R := R) (fun s (acc : List CStr) => do
      let q ← strdup (List.getD (first :: rest) s [])
      store (Ptr.mk b1 0) (s : Int) (Cell.ptr q.ptr)
      pure (acc ++ [q]))
    (fun hh => hh.has b1 ((first :: rest).length + 1)) (first :: rest).length 0 [] g1
    (by
      intro i st hh _ hi hinv
      obtain ⟨b, hh1, x1, -, y1⟩ := alloc_has_spec
        (List.map Cell.chr (List.getD (first :: rest) i []) ++ [Cell.chr (Char.ofNat 0)]) hh
      obtain ⟨hh2, x2, y2⟩ := store_has_spec (k := i) (Cell.ptr (Ptr.mk b 0))
        (y1 _ _ hinv) (by omega)
      refine ⟨st ++ [{ ptr := Ptr.mk b 0, val := List.getD (first :: rest) i [] }], hh2, ?_,
        y2 _ _ (y1 _ _ hinv)⟩
      simp only [bind_apply, pure_apply, strdup, x1, x2])
    f1
  generalize hmd : md_p.getD E.vrna_md_set_globals = md
  obtain ⟨vc2, g3, e3, hl3, -⟩ := set_fold_compound_ali_ok E
    { (FoldCompound.zero (Ptr.mk b0 0) : FoldCompound R) with
        type := VcType.VRNA_VC_TYPE_ALIGNMENT,
        n_seq := (first :: rest).length,
        length := (strlen_int first % (UINT_MOD : Int)).toNat,
        sequences := Ptr.mk b1 0, sequences_val := vals,
        params := none, exp_params := none, matrices := none, exp_matrices := none,
        hc := Ptr.null }
    (get_mx_alloc_vector K md options).2 g2
  obtain ⟨f, g4, e4, hf⟩ := set_fold_compound_refused K F E
    { (FoldCompound.zero (Ptr.mk b0 0) : FoldCompound R) with
        type := VcType.VRNA_VC_TYPE_ALIGNMENT,
        n_seq := (first :: rest).length,
        length := (strlen_int first % (UINT_MOD : Int)).toNat,
        sequences := Ptr.mk b1 0, sequences_val := vals }
    (get_mx_alloc_vector K md options).2 MxType.VRNA_MX_DEFAULT
    (get_mx_alloc_vector K md options).1 options g2 (vc2, (get_mx_alloc_vector K md options).2) g3
    (by
      simp only [set_fold_compound_head, bind_apply, pure_apply]
      simp only [FoldCompound.zero] at e3 ⊢
      rw [e3])
    he hm (by
      show size_guard vc2.length = true
      rw [hl3]
      show size_guard (strlen_int first % (UINT_MOD : Int)).toNat = true
      rw [strlen_int_mod]; exact hg)
  refine ⟨f, g4, ?_, hf⟩
  simp only [vrna_get_fold_compound_ali, List.getElem?_cons_zero, h0, if_false, bind_apply,
    pure_apply, vrna_alloc_struct, vrna_alloc_ptr, hmd]
  rw [ec]
  simp only [e0, e1]
  rw [e2]
  simp only [FoldCompound.zero] at e4 ⊢
  rw [e4]


theorem single_ctor_eval_only (K : Consts) (F : FltOps R) (E : Ext R) (sequence : List Char)
    (md_p : Option (ModelDetails R)) (options : Nat) (h : Heap R)
    (h0 : strlen_int sequence ≠ 0)
    (he : bitSet options K.VRNA_OPTION_EVAL_ONLY = true) :
    ∃ vc h2, vrna_get_fold_compound K F E (some sequence) md_p options h
        = Outcome.ok (some vc) h2
      ∧ vc.length = strlen_uint (E.vrna_cut_point_remove sequence).1
      ∧ vc.matrices = none ∧ vc.exp_matrices = none := by
  simp only [vrna_get_fold_compound, h0, if_false, bind_apply, pure_apply, vrna_alloc_struct,
    strdup, vrna_alloc]
  generalize md_p.getD E.vrna_md_set_globals = md
  obtain ⟨r, h1, e1, hl, ht, hm1, hm2⟩ := set_fold_compound_single_ok K E
    { (FoldCompound.zero (Ptr.mk h.blocks.length 0) : FoldCompound R) with
        type := VcType.VRNA_VC_TYPE_SINGLE,
        length := (strlen_int sequence % (UINT_MOD : Int)).toNat,
        sequence := { ptr := Ptr.mk (h.blocks.length + 1) 0, val := sequence },
        params := none, exp_params := none, matrices := none, exp_matrices := none,
        hc := Ptr.null }
    (get_mx_alloc_vector K md options).2 MxType.VRNA_MX_DEFAULT options
    { blocks := h.blocks ++ [{ cells := [Cell.struct], freed := false }] ++
        [{ cells := List.map Cell.chr sequence ++ [Cell.chr (Char.ofNat 0)], freed := false }],
      released := h.released }
    (h.blocks.length + 1) _ rfl
    (by rw [List.append_assoc, getElem?_append_offset]; rfl) rfl
  obtain ⟨vc2, h2, e2, hl2, ht2, hx2, hy2⟩ := add_params_ok K E
    { r.1 with iindx := Ptr.mk h1.blocks.length 0,
               jindx := Ptr.mk (h1.blocks.length + 1) 0 } r.2 options
    { blocks := h1.blocks ++ [{ cells := E.vrna_get_iindx r.1.length, freed := false }]
        ++ [{ cells := E.vrna_get_indx r.1.length, freed := false }],
      released := h1.released }
  have hty : vc2.type ≠ VcType.VRNA_VC_TYPE_ALIGNMENT := by
    rw [ht2]; show r.1.type ≠ _; rw [ht]; simp
  refine ⟨vc2, h2, ?_, ?_, ?_, ?_⟩
  · simp only [set_fold_compound, set_fold_compound_head, bind_apply, pure_apply]
    simp only [FoldCompound.zero, List.length_append, List.length_singleton] at e1 ⊢
    rw [e1]
    simp only [ext_block, vrna_alloc, List.length_append, List.length_singleton]
    rw [e2]
    simp only [he, hty, Bool.not_true, Bool.false_eq_true, if_false, pure_apply, bind_apply]
  · rw [hl2]; exact hl
  · rw [hx2]; exact hm1
  · rw [hy2]; exact hm2


theorem strlen_uint_of_length (q : List Char) (n : Nat) (hq : q.length = n)
    (hn : n < UINT_MOD) : strlen_uint q = n := by
  unfold strlen_uint
  rw [hq, Nat.mod_eq_of_lt hn]

theorem strlen_int_of_length (q : List Char) (n : Nat) (hq : q.length = n)
    (hn : n ≤ INT_MAX) : strlen_int q = (n : Int) := by
  have h1 : n % UINT_MOD = n := Nat.mod_eq_of_lt (by unfold INT_MAX at hn; unfold UINT_MOD; omega)
  unfold strlen_int
  rw [hq, h1, if_pos hn]


theorem cell_at {h : Heap R} {b k : Nat} {blk : Block R} (hb : h.blocks[b]? = some blk) :
    h.cell (Ptr.mk b 0) (k : Int) = blk.cells[k]? := by
  have h1 : ¬ ((0 : Int) + (k : Int) < 0) := by omega
  have h2 : ((0 : Int) + (k : Int)).toNat = k := by omega
  simp only [Heap.cell, hb, h1, h2, if_false]

/-- A successful sequence of two computations: both were successful. -/
theorem bind_ok {α β : Type} {x : M R α} {f : α → M R β} {h h2 : Heap R} {b : β}
    (e : (x >>= f) h = Outcome.ok b h2) :
    ∃ a h1, x h = Outcome.ok a h1 ∧ f a h1 = Outcome.ok b h2 := by
  rw [bind_apply] at e
  cases hx : x h with
  | ok a h1 => rw [hx] at e; exact ⟨a, h1, rfl, e⟩
  | fail f1 h1 => rw [hx] at e; cases e

/-- A failed sequence of two computations: the first one failed, or it was
successful and the second one failed. -/
theorem bind_fail {α β : Type} {x : M R α} {f : α → M R β} {h h2 : Heap R} {e : Fault}
    (hf : (x >>= f) h = Outcome.fail e h2) :
    x h = Outcome.fail e h2 ∨ ∃ a h1, x h = Outcome.ok a h1 ∧ f a h1 = Outcome.fail e h2 := by
  rw [bind_apply] at hf
  cases hx : x h with
  | ok a h1 => rw [hx] at hf; exact Or.inr ⟨a, h1, rfl, hf⟩
  | fail f1 h1 => rw [hx] at hf; cases hf; exact Or.inl rfl

/-- A relation between heaps that every round of a loop establishes holds
between the heaps before and after the loop. -/
theorem forRange_rel (body : Nat → M R Unit) (Rel : Heap R → Heap R → Prop)
    (hrefl : ∀ h, Rel h h) (htrans : ∀ a b c, Rel a b → Rel b c → Rel a c)
    (hbody : ∀ i h1 h2, body i h1 = Outcome.ok () h2 → Rel h1 h2) :
    ∀ (count start : Nat) (h h2 : Heap R),
      forRange body count start h = Outcome.ok () h2 → Rel h h2 := by
  intro count
  induction count with
  | zero =>
    intro start h h2 e
    simp only [forRange, pure_apply] at e
    cases e
    exact hrefl h
  | succ n ih =>
    intro start h h2 e
    simp only [forRange] at e
    obtain ⟨a, h1, e1, e2⟩ := bind_ok e
    exact htrans _ _ _ (hbody _ _ _ e1) (ih _ _ _ e2)

theorem Heap.frame_refl (bs be : Nat) (h : Heap R) : Heap.frame bs be h h :=
  ⟨rfl, rfl, fun _ _ _ => rfl⟩

theorem Heap.frame_trans (bs be : Nat) (a b c : Heap R) (x : Heap.frame bs be a b)
    (y : Heap.frame bs be b c) : Heap.frame bs be a c :=
  ⟨y.1.trans x.1, y.2.1.trans x.2.1, fun k h1 h2 => (y.2.2 k h1 h2).trans (x.2.2 k h1 h2)⟩

theorem load_heap {p : Ptr} {i : Int} {c : Cell R} {h h2 : Heap R}
    (e : load p i h = Outcome.ok c h2) : h2 = h := by
  unfold load at e
  split at e
  · cases e
  · split at e
    · cases e
    · split at e
      · cases e
      · split at e
        · cases e
        · split at e
          · cases e
          · cases e; rfl

theorem loadFlt_heap {p : Ptr} {i : Int} {x : R} {h h2 : Heap R}
    (e : loadFlt p i h = Outcome.ok x h2) : h2 = h := by
  unfold loadFlt at e
  obtain ⟨c, h1, e1, e2⟩ := bind_ok e
  have := load_heap e1
  subst this
  cases c <;> first | (cases e2; rfl) | cases e2

theorem loadInt_heap {p : Ptr} {i : Int} {x : Int} {h h2 : Heap R}
    (e : loadInt p i h = Outcome.ok x h2) : h2 = h := by
  unfold loadInt at e
  obtain ⟨c, h1, e1, e2⟩ := bind_ok e
  have := load_heap e1
  subst this
  cases c <;> first | (cases e2; rfl) | cases e2

theorem loadPtr_heap {p : Ptr} {i : Int} {x : Ptr} {h h2 : Heap R}
    (e : loadPtr p i h = Outcome.ok x h2) : h2 = h := by
  unfold loadPtr at e
  obtain ⟨c, h1, e1, e2⟩ := bind_ok e
  have := load_heap e1
  subst this
  cases c <;> first | (cases e2; rfl) | cases e2

theorem store_frame {b : Nat} {off i : Int} {c : Cell R} {h h2 : Heap R} (be : Nat)
    (e : store (Ptr.mk b off) i c h = Outcome.ok () h2) : Heap.frame b be h h2 := by
  unfold store at e
  simp only at e
  split at e
  · cases e
  · split at e
    · cases e
    · split at e
      · cases e
      · split at e
        · cases e
        · cases e
          refine ⟨by simp, rfl, ?_⟩
          intro k hk _
          simp only
          rw [List.getElem?_set_ne (Ne.symm hk)]

theorem store_keeps {b : Nat} {off i : Int} {c : Cell R} {h h2 : Heap R} (be : Nat)
    (e : store (Ptr.mk b off) i c h = Outcome.ok () h2) :
    Heap.frame b be h h2 ∧ ∀ b2 len2, h.has b2 len2 → h2.has b2 len2 := by
  refine ⟨store_frame be e, ?_⟩
  unfold store at e
  simp only at e
  split at e
  · cases e
  · rename_i blk hb
    split at e
    · cases e
    · rename_i hfr
      split at e
      · cases e
      · split at e
        · cases e
        · cases e
          intro b2 len2 ⟨cells, hc, hl⟩
          by_cases hbb : b2 = b
          · subst hbb
            rw [hb] at hc
            cases hc
            exact ⟨_, List.getElem?_set_self (getElem?_lt hb), by simpa using hl⟩
          · exact ⟨cells, by simp only; rw [List.getElem?_set_ne (Ne.symm hbb)]; exact hc, hl⟩

theorem Heap.frame_swap {bs be : Nat} {h h2 : Heap R} (x : Heap.frame bs be h h2) :
    Heap.frame be bs h h2 :=
  ⟨x.1, x.2.1, fun k h1 h2 => x.2.2 k h2 h1⟩

theorem rescale_params_ok (F : FltOps R) (vc : FoldCompound R) (m : PfMx R)
    (pf : ExpParams R) (h : Heap R)
    (hm : vc.exp_matrices = some m) (hp : vc.exp_params = some pf)
    (hr : scale_tables_ready h m vc.length) :
    ∃ h2 bs be, rescale_params F vc h = Outcome.ok () h2
      ∧ m.scale = Ptr.mk bs 0 ∧ m.expMLbase = Ptr.mk be 0
      ∧ scale_tables_ready h2 m vc.length
      ∧ Heap.frame bs be h h2
      ∧ h2.cell m.scale 0 = some (Cell.flt (F.lit 1))
      ∧ h2.cell m.scale 1 = some (Cell.flt (F.div (F.lit 1) pf.pf_scale)) := by
  obtain ⟨bs, be, S, E, hs, he, hne, hS, hE, hSl, hEl⟩ := hr
  have hbsl := getElem?_lt hS
  have hbel := getElem?_lt hE
  have e1 := store_eq (k := 0) (Cell.flt (F.lit 1)) hS rfl (by show 0 < S.length; omega)
  have hS1 : (h.blocks.set bs { cells := S.set 0 (Cell.flt (F.lit 1)), freed := false })[bs]?
      = some { cells := S.set 0 (Cell.flt (F.lit 1)), freed := false } :=
    List.getElem?_set_self hbsl
  have e2 := store_eq (k := 1) (Cell.flt (F.div (F.lit 1) pf.pf_scale))
    (h := { blocks := h.blocks.set bs { cells := S.set 0 (Cell.flt (F.lit 1)), freed := false },
            released := h.released }) hS1 rfl (by simp; omega)
  obtain ⟨S0, hS0⟩ : ∃ S0, S0 = (S.set 0 (Cell.flt (F.lit 1))).set 1
      (Cell.flt (F.div (F.lit 1) pf.pf_scale)) := ⟨_, rfl⟩
  obtain ⟨B2, hB2⟩ : ∃ B2, B2 = (h.blocks.set bs
      { cells := S.set 0 (Cell.flt (F.lit 1)), freed := false }).set bs
      { cells := S0, freed := false } := ⟨_, rfl⟩
  have hS2 : B2[bs]? = some { cells := S0, freed := false } := by
    rw [hB2]; exact List.getElem?_set_self (by simpa using hbsl)
  have hE2 : B2[be]? = some { cells := E, freed := false } := by
    rw [hB2, List.getElem?_set_ne hne, List.getElem?_set_ne hne]; exact hE
  have hB2l : be < B2.length := getElem?_lt hE2
  have e3 := store_eq (k := 0) (Cell.flt (F.ofInt 1))
    (h := { blocks := B2, released := h.released }) hE2 rfl (by show 0 < E.length; omega)
  have hE3 : (B2.set be { cells := E.set 0 (Cell.flt (F.ofInt 1)), freed := false })[be]?
      = some { cells := E.set 0 (Cell.flt (F.ofInt 1)), freed := false } :=
    List.getElem?_set_self hB2l
  have e4 := store_eq (k := 1) (Cell.flt (F.div pf.expMLbase pf.pf_scale))
    (h := { blocks := B2.set be { cells := E.set 0 (Cell.flt (F.ofInt 1)), freed := false },
            released := h.released }) hE3 rfl (by simp; omega)
  obtain ⟨E0, hE0⟩ : ∃ E0, E0 = (E.set 0 (Cell.flt (F.ofInt 1))).set 1
      (Cell.flt (F.div pf.expMLbase pf.pf_scale)) := ⟨_, rfl⟩
  obtain ⟨B4, hB4⟩ : ∃ B4, B4 = (B2.set be
      { cells := E.set 0 (Cell.flt (F.ofInt 1)), freed := false }).set be
      { cells := E0, freed := false } := ⟨_, rfl⟩
  have hS4 : B4[bs]? = some { cells := S0, freed := false } := by
    rw [hB4, List.getElem?_set_ne (Ne.symm hne), List.getElem?_set_ne (Ne.symm hne)]; exact hS2
  have hE4 : B4[be]? = some { cells := E0, freed := false } := by
    rw [hB4]; exact List.getElem?_set_self (by simpa using hB2l)
  have hS00 : S0[0]? = some (Cell.flt (F.lit 1)) := by
    rw [hS0, List.getElem?_set_ne (by omega)]; exact List.getElem?_set_self (by omega)
  have hS01 : S0[1]? = some (Cell.flt (F.div (F.lit 1) pf.pf_scale)) := by
    rw [hS0]; exact List.getElem?_set_self (by simp; omega)
  have hS0len : S0.length = S.length := by rw [hS0]; simp
  have hE0len : E0.length = E.length := by rw [hE0]; simp
  have hfr4 : Heap.frame bs be h { blocks := B4, released := h.released } := by
    refine ⟨by rw [hB4, hB2]; simp, rfl, ?_⟩
    intro k k1 k2
    show B4[k]? = h.blocks[k]?
    rw [hB4, List.getElem?_set_ne (Ne.symm k2), List.getElem?_set_ne (Ne.symm k2), hB2,
      List.getElem?_set_ne (Ne.symm k1), List.getElem?_set_ne (Ne.symm k1)]
  obtain ⟨h2, S2, E2, el, hS5, hE5, hpre, hinv⟩ := rescale_loop F pf bs be hne
    (vc.length - 1) 2 { blocks := B4, released := h.released } S0 E0 (by omega) hS4 hE4
    (by rw [hS0]; simp; omega) (by rw [hE0]; simp; omega)
    (by
      intro j hj
      have : j = 0 ∨ j = 1 := by omega
      rcases this with rfl | rfl
      · exact ⟨_, hS00⟩
      · exact ⟨_, hS01⟩)
  -- the loop writes to the two tables only, and keeps their sizes
  have hloop := forRange_rel _ (fun a b : Heap R => Heap.frame bs be a b
      ∧ ∀ b2 len2, a.has b2 len2 → b.has b2 len2)
    (fun a => ⟨Heap.frame_refl bs be a, fun _ _ x => x⟩)
    (fun a b c x y => ⟨Heap.frame_trans bs be a b c x.1 y.1,
      fun b2 len2 z => y.2 b2 len2 (x.2 b2 len2 z)⟩)
    (by
      intro i h1 h3 e0
      obtain ⟨a, g1, q1, e1⟩ := bind_ok e0
      have := loadFlt_heap q1; subst this
      obtain ⟨b, g2, q2, e2⟩ := bind_ok e1
      have := loadFlt_heap q2; subst this
      obtain ⟨u, g3, q3, e3⟩ := bind_ok e2
      obtain ⟨si, g4, q4, e4⟩ := bind_ok e3
      have := loadFlt_heap q4; subst this
      have f1 := store_keeps be q3
      have f2 := store_keeps bs e4
      exact ⟨Heap.frame_trans bs be _ _ _ f1.1 (Heap.frame_swap f2.1),
        fun b2 len2 z => f2.2 b2 len2 (f1.2 b2 len2 z)⟩)
    (vc.length - 1) 2 _ _ el
  have hasS : Heap.has { blocks := B4, released := h.released } bs S0.length := ⟨S0, hS4, rfl⟩
  have hasE : Heap.has { blocks := B4, released := h.released } be E0.length := ⟨E0, hE4, rfl⟩
  obtain ⟨S2x, hS2x, hS2l⟩ := hloop.2 _ _ hasS
  obtain ⟨E2x, hE2x, hE2l⟩ := hloop.2 _ _ hasE
  refine ⟨h2, bs, be, ?_, hs, he, ?_, Heap.frame_trans bs be _ _ _ hfr4 hloop.1, ?_, ?_⟩
  · simp only [rescale_params, hm, hp, hs, he, bind_apply]
    have e1x : store (Ptr.mk bs 0) 0 (Cell.flt (F.lit 1)) h = _ := e1
    rw [e1x]
    simp only []
    have e2x : store (Ptr.mk bs 0) 1 (Cell.flt (F.div (F.lit 1) pf.pf_scale)) _ = _ := e2
    rw [e2x]
    simp only []
    rw [← hS0, ← hB2]
    have e3x : store (Ptr.mk be 0) 0 (Cell.flt (F.ofInt 1)) _ = _ := e3
    rw [e3x]
    simp only []
    have e4x : store (Ptr.mk be 0) 1 (Cell.flt (F.div pf.expMLbase pf.pf_scale)) _ = _ := e4
    rw [e4x]
    simp only []
    rw [← hE0, ← hB4]
    exact el
  · exact ⟨bs, be, S2x, E2x, hs, he, hne, hS2x, hE2x, by omega, by omega⟩
  · rw [hs]
    have := cell_at (k := 0) hS5
    simp only [Nat.cast_zero] at this
    rw [this, hpre 0 (by omega)]; exact hS00
  · rw [hs]
    have := cell_at (k := 1) hS5
    simp only [Nat.cast_one] at this
    rw [this, hpre 1 (by omega)]; exact hS01

theorem ok_inj {α : Type} {a b : α} {h1 h2 : Heap R}
    (e : (Outcome.ok a h1 : Outcome R α) = Outcome.ok b h2) : a = b ∧ h1 = h2 := by
  cases e; exact ⟨rfl, rfl⟩

theorem alloc_sparse_mfe_res (K : Consts) {present : Bool} {len fill : Nat} {h h2 : Heap R}
    {fam : SparseFam} (hfill : fill ≤ len)
    (e : alloc_sparse_mfe K present len fill h = Outcome.ok fam h2) :
    present = true → fam.E ≠ Ptr.null := by
  obtain ⟨fam1, h1, e1, -, hok, -⟩ := alloc_sparse_mfe_spec K present len fill h hfill
  rw [e1] at e
  obtain ⟨rfl, rfl⟩ := ok_inj e
  intro hp
  exact hok.1.1.mpr hp

theorem alloc_sparse_pf_res (z : R) {present : Bool} {len : Nat} {h h2 : Heap R}
    {fam : SparseFam}
    (e : alloc_sparse_pf z present len h = Outcome.ok fam h2) :
    present = true → fam.E ≠ Ptr.null := by
  obtain ⟨fam1, h1, e1, -, hok⟩ := alloc_sparse_pf_spec z present len h
  rw [e1] at e
  obtain ⟨rfl, rfl⟩ := ok_inj e
  intro hp
  exact hok.1.1.mpr hp

theorem get_mfe_matrices_alloc_res (K : Consts) {n : Nat} {type : MxType} {v : Nat}
    {h h2 : Heap R} {m : MfeMx}
    (e : get_mfe_matrices_alloc K n type v h = Outcome.ok m h2) :
    m.type = type
    ∧ (type = MxType.VRNA_MX_2DFOLD → bitSet v ALLOC_UNIQ = true → m.M1.E ≠ Ptr.null) := by
  cases hg : size_guard n with
  | true => rw [mfe_alloc_refused K type v h hg] at e; cases e
  | false =>
    obtain ⟨hs, hl⟩ := size_of_accepted hg
    simp only [get_mfe_matrices_alloc, hg, Bool.false_eq_true, if_false, bind_apply, pure_apply,
      vrna_alloc_struct, vrna_alloc, hs, hl] at e
    cases type with
    | VRNA_MX_DEFAULT =>
      simp only [] at e
      obtain ⟨a1, g1, q1, e1⟩ := bind_ok e
      obtain ⟨a2, g2, q2, e2⟩ := bind_ok e1
      obtain ⟨a3, g3, q3, e3⟩ := bind_ok e2
      obtain ⟨a4, g4, q4, e4⟩ := bind_ok e3
      obtain ⟨a5, g5, q5, e5⟩ := bind_ok e4
      obtain ⟨a6, g6, q6, e6⟩ := bind_ok e5
      obtain ⟨a7, g7, q7, e7⟩ := bind_ok e6
      cases e7
      exact ⟨rfl, fun hq => by cases hq⟩
    | VRNA_MX_2DFOLD =>
      simp only [] at e
      obtain ⟨a1, g1, q1, e1⟩ := bind_ok e
      obtain ⟨a2, g2, q2, e2⟩ := bind_ok e1
      obtain ⟨a3, g3, q3, e3⟩ := bind_ok e2
      obtain ⟨a4, g4, q4, e4⟩ := bind_ok e3
      obtain ⟨a5, g5, q5, e5⟩ := bind_ok e4
      obtain ⟨a6, g6, q6, e6⟩ := bind_ok e5
      cases e6
      exact ⟨rfl, fun _ hu => alloc_sparse_mfe_res K (Nat.le_refl _) q5 hu⟩
    | other t =>
      simp only [] at e
      cases e
      exact ⟨rfl, fun hq => by cases hq⟩

theorem get_pf_matrices_alloc_res (F : FltOps R) {n : Nat} {type : MxType} {v : Nat}
    {h h2 : Heap R} {m : PfMx R}
    (e : get_pf_matrices_alloc F n type v h = Outcome.ok m h2) :
    m.type = type
    ∧ (type = MxType.VRNA_MX_2DFOLD → bitSet v ALLOC_UNIQ = true → m.Q_M1.E ≠ Ptr.null) := by
  cases hg : size_guard n with
  | true => rw [pf_alloc_refused F type v h hg] at e; cases e
  | false =>
    obtain ⟨hs, hl⟩ := size_of_accepted hg
    simp only [get_pf_matrices_alloc, hg, Bool.false_eq_true, if_false, vrna_alloc_struct,
      hs, hl] at e
    obtain ⟨a0, g0, q0, e0⟩ := bind_ok e
    obtain ⟨a0b, g0b, q0b, e0⟩ := bind_ok e0
    cases type with
    | VRNA_MX_DEFAULT =>
      simp only [] at e0
      obtain ⟨vars, gv, qv, ev⟩ := bind_ok e0
      obtain ⟨a1, g1, q1, e1⟩ := bind_ok qv
      obtain ⟨a2, g2, q2, e2⟩ := bind_ok e1
      obtain ⟨a3, g3, q3, e3⟩ := bind_ok e2
      obtain ⟨a4, g4, q4, e4⟩ := bind_ok e3
      obtain ⟨a5, g5, q5, e5⟩ := bind_ok e4
      obtain ⟨a6, g6, q6, e6⟩ := bind_ok e5
      obtain ⟨a7, g7, q7, e7⟩ := bind_ok e6
      obtain ⟨a8, g8, q8, e8⟩ := bind_ok e7
      cases e8
      obtain ⟨s1, k1, r1, ev1⟩ := bind_ok ev
      obtain ⟨s2, k2, r2, ev2⟩ := bind_ok ev1
      cases ev2
      exact ⟨rfl, fun hq => by cases hq⟩
    | VRNA_MX_2DFOLD =>
      simp only [] at e0
      obtain ⟨vars, gv, qv, ev⟩ := bind_ok e0
      obtain ⟨a1, g1, q1, e1⟩ := bind_ok qv
      obtain ⟨a2, g2, q2, e2⟩ := bind_ok e1
      obtain ⟨a3, g3, q3, e3⟩ := bind_ok e2
      obtain ⟨a4, g4, q4, e4⟩ := bind_ok e3
      obtain ⟨a5, g5, q5, e5⟩ := bind_ok e4
      cases e5
      obtain ⟨s1, k1, r1, ev1⟩ := bind_ok ev
      obtain ⟨s2, k2, r2, ev2⟩ := bind_ok ev1
      cases ev2
      exact ⟨rfl, fun _ hu => alloc_sparse_pf_res _ q4 hu⟩
    | other t =>
      simp only [] at e0
      obtain ⟨vars, gv, qv, ev⟩ := bind_ok e0
      cases qv
      obtain ⟨s1, k1, r1, ev1⟩ := bind_ok ev
      obtain ⟨s2, k2, r2, ev2⟩ := bind_ok ev1
      cases ev2
      exact ⟨rfl, fun hq => by cases hq⟩

theorem same_core_refl (a : FoldCompound R) : a.same_core a := ⟨rfl, rfl, rfl, rfl, rfl, rfl⟩

theorem set_fold_compound_single_res (K : Consts) (E : Ext R) {vc : FoldCompound R}
    {md : ModelDetails R} {mx_type : MxType} {options : Nat} {h h2 : Heap R}
    {r : FoldCompound R × ModelDetails R}
    (e : set_fold_compound_single K E vc md mx_type options h = Outcome.ok r h2) :
    vc.same_core r.1 := by
  unfold set_fold_compound_single at e
  obtain ⟨a1, g1, q1, e1⟩ := bind_ok e
  obtain ⟨a2, g2, q2, e2⟩ := bind_ok e1
  obtain ⟨a3, g3, q3, e3⟩ := bind_ok e2
  obtain ⟨a4, g4, q4, e4⟩ := bind_ok e3
  obtain ⟨a5, g5, q5, e5⟩ := bind_ok e4
  obtain ⟨a6, g6, q6, e6⟩ := bind_ok e5
  obtain ⟨a7, g7, q7, e7⟩ := bind_ok e6
  cases e7
  cases hE : bitSet options K.VRNA_OPTION_EVAL_ONLY
  · simp only [hE, Bool.not_false, if_true] at q6
    obtain ⟨b1, k1, r1, s1⟩ := bind_ok q6
    obtain ⟨b2, k2, r2, s2⟩ := bind_ok s1
    cases s2
    exact ⟨rfl, rfl, rfl, rfl, rfl, rfl⟩
  · simp only [hE, Bool.not_true, Bool.false_eq_true, if_false] at q6
    cases q6
    exact ⟨rfl, rfl, rfl, rfl, rfl, rfl⟩

theorem same_core_trans {a b c : FoldCompound R} (x : a.same_core b) (y : b.same_core c) :
    a.same_core c :=
  ⟨y.1.trans x.1, y.2.1.trans x.2.1, y.2.2.1.trans x.2.2.1, y.2.2.2.1.trans x.2.2.2.1,
    y.2.2.2.2.1.trans x.2.2.2.2.1, y.2.2.2.2.2.trans x.2.2.2.2.2⟩

theorem set_fold_compound_ali_res (E : Ext R) {vc vc2 : FoldCompound R}
    {md : ModelDetails R} {h h2 : Heap R}
    (e : set_fold_compound_ali E vc md h = Outcome.ok vc2 h2) :
    vc.same_core vc2 ∧ vc2.length = vc.length ∧ vc2.sequences_val = vc.sequences_val := by
  unfold set_fold_compound_ali at e
  obtain ⟨a1, g1, q1, e1⟩ := bind_ok e
  obtain ⟨a2, g2, q2, e2⟩ := bind_ok e1
  obtain ⟨a3, g3, q3, e3⟩ := bind_ok e2
  obtain ⟨a4, g4, q4, e4⟩ := bind_ok e3
  obtain ⟨a5, g5, q5, e5⟩ := bind_ok e4
  obtain ⟨a6, g6, q6, e6⟩ := bind_ok e5
  obtain ⟨a7, g7, q7, e7⟩ := bind_ok e6
  obtain ⟨a8, g8, q8, e8⟩ := bind_ok e7
  obtain ⟨a9, g9, q9, e9⟩ := bind_ok e8
  obtain ⟨a10, g10, q10, e10⟩ := bind_ok e9
  obtain ⟨a11, g11, q11, e11⟩ := bind_ok e10
  obtain ⟨a12, g12, q12, e12⟩ := bind_ok e11
  obtain ⟨a13, g13, q13, e13⟩ := bind_ok e12
  obtain ⟨a14, g14, q14, e14⟩ := bind_ok e13
  cases e14
  exact ⟨⟨rfl, rfl, rfl, rfl, rfl, rfl⟩, rfl, rfl⟩

theorem set_fold_compound_head_res (K : Consts) (E : Ext R) {vc : FoldCompound R}
    {md : ModelDetails R} {mx_type : MxType} {options : Nat} {h h2 : Heap R}
    {r : FoldCompound R × ModelDetails R}
    (e : set_fold_compound_head K E vc md mx_type options h = Outcome.ok r h2) :
    r.1.type = vc.type ∧ r.1.n_seq = vc.n_seq ∧ r.1.params = none ∧ r.1.exp_params = none
    ∧ r.1.matrices = none ∧ r.1.exp_matrices = none
    ∧ (vc.type = VcType.VRNA_VC_TYPE_ALIGNMENT → r.1.length = vc.length) := by
  unfold set_fold_compound_head at e
  simp only at e
  cases ht : vc.type with
  | VRNA_VC_TYPE_SINGLE =>
    simp only [ht] at e
    have := set_fold_compound_single_res K E e
    exact ⟨this.1, this.2.1, this.2.2.1, this.2.2.2.1, this.2.2.2.2.1, this.2.2.2.2.2,
      fun hq => by cases hq⟩
  | VRNA_VC_TYPE_ALIGNMENT =>
    simp only [ht] at e
    obtain ⟨a1, g1, q1, e1⟩ := bind_ok e
    cases e1
    have := set_fold_compound_ali_res E q1
    exact ⟨this.1.1, this.1.2.1, this.1.2.2.1, this.1.2.2.2.1, this.1.2.2.2.2.1,
      this.1.2.2.2.2.2, fun _ => this.2.1⟩
  | other t =>
    simp only [ht] at e
    cases e
    exact ⟨rfl, rfl, rfl, rfl, rfl, rfl, fun hq => by cases hq⟩

theorem add_params_res (K : Consts) (E : Ext R) (vc : FoldCompound R) (md : ModelDetails R)
    (options : Nat) (h : Heap R) :
    ∃ vc2 h2, add_params K E vc md options h = Outcome.ok vc2 h2
      ∧ h.le h2
      ∧ vc2.type = vc.type ∧ vc2.n_seq = vc.n_seq ∧ vc2.length = vc.length
      ∧ vc2.matrices = vc.matrices ∧ vc2.exp_matrices = vc.exp_matrices
      ∧ vc2.iindx = vc.iindx ∧ vc2.jindx = vc.jindx
      ∧ (bitSet options K.VRNA_OPTION_MFE = false → vc2.params = vc.params)
      ∧ (bitSet options K.VRNA_OPTION_PF = false → vc2.exp_params = vc.exp_params)
      ∧ (bitSet options K.VRNA_OPTION_MFE = true → vc2.params ≠ none)
      ∧ (bitSet options K.VRNA_OPTION_PF = true → vc2.exp_params ≠ none) := by
  unfold add_params
  cases h1 : bitSet options K.VRNA_OPTION_MFE <;> cases h2 : bitSet options K.VRNA_OPTION_PF <;>
    simp only [bind_apply, pure_apply, vrna_alloc_struct, vrna_alloc, if_true, if_false,
      Bool.false_eq_true] <;>
    refine ⟨_, _, rfl, ?_, rfl, rfl, rfl, rfl, rfl, rfl, rfl, ?_, ?_, ?_, ?_⟩ <;>
    first
    | exact Heap.le.refl _
    | exact le_push _ _ _
    | exact Heap.le.trans (le_push h [{ cells := [Cell.struct], freed := false }] h.released)
        (le_push { blocks := h.blocks ++ [{ cells := [Cell.struct], freed := false }],
                   released := h.released }
          [{ cells := [Cell.struct], freed := false }] h.released)
    | (intro _; rfl)
    | (intro hq; exact absurd hq (by decide))
    | (intro _ hq; cases hq)

theorem add_mfe_matrices_res (K : Consts) (E : Ext R) {vc vc2 : FoldCompound R}
    {type : MxType} {v : Nat} {h h2 : Heap R}
    (e : add_mfe_matrices K E vc type v h = Outcome.ok vc2 h2) :
    vc2.type = vc.type ∧ vc2.n_seq = vc.n_seq ∧ vc2.length = vc.length
    ∧ vc2.params = vc.params ∧ vc2.exp_params = vc.exp_params
    ∧ vc2.exp_matrices = vc.exp_matrices
    ∧ ∃ m, vc2.matrices = some m ∧ m.type = type
        ∧ (type = MxType.VRNA_MX_2DFOLD → bitSet v ALLOC_UNIQ = true → m.M1.E ≠ Ptr.null) := by
  unfold add_mfe_matrices at e
  obtain ⟨m, g1, q1, e1⟩ := bind_ok e
  obtain ⟨hm1, hm2⟩ := get_mfe_matrices_alloc_res K q1
  simp only at e1
  cases hp : vc.params with
  | none => rw [hp] at e1; cases e1
  | some params =>
    rw [hp] at e1
    simp only at e1
    by_cases hg : params.model_details.gquad ≠ 0
    · rw [if_pos hg] at e1
      cases ht : vc.type with
      | VRNA_VC_TYPE_SINGLE =>
        rw [ht] at e1
        simp only at e1
        obtain ⟨a2, g2, q2, e2⟩ := bind_ok e1
        obtain ⟨a3, g3, q3, e3⟩ := bind_ok e2
        cases e3
        exact ⟨rfl, rfl, rfl, rfl, rfl, rfl, _, rfl, hm1, hm2⟩
      | VRNA_VC_TYPE_ALIGNMENT =>
        rw [ht] at e1
        simp only at e1
        obtain ⟨a2, g2, q2, e2⟩ := bind_ok e1
        obtain ⟨a3, g3, q3, e3⟩ := bind_ok e2
        cases e3
        exact ⟨rfl, rfl, rfl, rfl, rfl, rfl, _, rfl, hm1, hm2⟩
      | other t =>
        rw [ht] at e1
        simp only at e1
        cases e1
        exact ⟨rfl, rfl, rfl, rfl, rfl, rfl, _, rfl, hm1, hm2⟩
    · rw [if_neg hg] at e1
      cases e1
      exact ⟨rfl, rfl, rfl, rfl, rfl, rfl, _, rfl, hm1, hm2⟩

theorem vrna_exp_params_rescale_res (F : FltOps R) {vc : FoldCompound R} {mfe : Option R}
    {r : Option (FoldCompound R)} {h h2 : Heap R}
    (e : vrna_exp_params_rescale F (some vc) mfe h = Outcome.ok r h2) :
    ∃ vc2, r = some vc2 ∧ vc2.type = vc.type ∧ vc2.n_seq = vc.n_seq ∧ vc2.length = vc.length
      ∧ vc2.params = vc.params ∧ vc2.matrices = vc.matrices
      ∧ vc2.exp_matrices = vc.exp_matrices
      ∧ (vc2.exp_params = none ↔ vc.exp_params = none) := by
  unfold vrna_exp_params_rescale at e
  simp only at e
  cases hp : vc.exp_params with
  | none =>
    rw [hp] at e
    cases e
    exact ⟨vc, rfl, rfl, rfl, rfl, rfl, rfl, rfl, by rw [hp]⟩
  | some pf =>
    rw [hp] at e
    simp only at e
    obtain ⟨a1, g1, q1, e1⟩ := bind_ok e
    cases e1
    exact ⟨_, rfl, rfl, rfl, rfl, rfl, rfl, rfl, by simp⟩

theorem add_pf_matrices_res (F : FltOps R) (E : Ext R) {vc vc2 : FoldCompound R}
    {type : MxType} {v : Nat} {h h2 : Heap R}
    (e : add_pf_matrices F E vc type v h = Outcome.ok vc2 h2) :
    vc2.type = vc.type ∧ vc2.n_seq = vc.n_seq ∧ vc2.length = vc.length
    ∧ vc2.params = vc.params ∧ vc2.matrices = vc.matrices
    ∧ (vc2.exp_params = none ↔ vc.exp_params = none)
    ∧ ∃ m, vc2.exp_matrices = some m ∧ m.type = type
        ∧ (type = MxType.VRNA_MX_2DFOLD → bitSet v ALLOC_UNIQ = true → m.Q_M1.E ≠ Ptr.null) := by
  unfold add_pf_matrices at e
  obtain ⟨m, g1, q1, e1⟩ := bind_ok e
  obtain ⟨hm1, hm2⟩ := get_pf_matrices_alloc_res F q1
  simp only at e1
  cases hp : vc.exp_params with
  | none => rw [hp] at e1; cases e1
  | some params =>
    rw [hp] at e1
    simp only at e1
    obtain ⟨vc3, g2, q2, e2⟩ := bind_ok e1
    have hvc3 : vc3.type = vc.type ∧ vc3.n_seq = vc.n_seq ∧ vc3.length = vc.length
        ∧ vc3.params = vc.params ∧ vc3.matrices = vc.matrices
        ∧ vc3.exp_params = some params
        ∧ ∃ m3, vc3.exp_matrices = some m3 ∧ m3.type = type
          ∧ (type = MxType.VRNA_MX_2DFOLD → bitSet v ALLOC_UNIQ = true →
              m3.Q_M1.E ≠ Ptr.null) := by
      by_cases hg : params.model_details.gquad ≠ 0
      · rw [if_pos hg] at q2
        cases ht : vc.type with
        | VRNA_VC_TYPE_SINGLE =>
          rw [ht] at q2
          simp only at q2
          obtain ⟨a2, k2, r2, s2⟩ := bind_ok q2
          obtain ⟨a3, k3, r3, s3⟩ := bind_ok s2
          cases s3
          exact ⟨rfl, rfl, rfl, rfl, rfl, rfl, _, rfl, hm1, hm2⟩
        | VRNA_VC_TYPE_ALIGNMENT =>
          rw [ht] at q2
          simp only at q2
          cases q2
          exact ⟨rfl, rfl, rfl, rfl, rfl, rfl, _, rfl, hm1, hm2⟩
        | other t =>
          rw [ht] at q2
          simp only at q2
          cases q2
          exact ⟨rfl, rfl, rfl, rfl, rfl, rfl, _, rfl, hm1, hm2⟩
      · rw [if_neg hg] at q2
        cases q2
        exact ⟨rfl, rfl, rfl, rfl, rfl, rfl, _, rfl, hm1, hm2⟩
    obtain ⟨t1, t2, t3, t4, t5, t6, m3, t7, t8, t9⟩ := hvc3
    obtain ⟨r, g3, q3, e3⟩ := bind_ok e2
    obtain ⟨vc4, hr, u1, u2, u3, u4, u5, u6, u7⟩ := vrna_exp_params_rescale_res F q3
    subst hr
    simp only at e3
    cases e3
    refine ⟨u1.trans t1, u2.trans t2, u3.trans t3, u4.trans t4, u5.trans t5, ?_,
      m3, u6.trans t7, t8, t9⟩
    rw [u7, t6]

theorem set_fold_compound_res (K : Consts) (F : FltOps R) (E : Ext R)
    {vc vc2 : FoldCompound R} {md : ModelDetails R} {mx_type : MxType} {v options : Nat}
    {h h2 : Heap R}
    (e : set_fold_compound K F E vc md mx_type v options h = Outcome.ok vc2 h2) :
    vc2.type = vc.type ∧ vc2.n_seq = vc.n_seq
    ∧ (vc.type = VcType.VRNA_VC_TYPE_ALIGNMENT → vc2.length = vc.length)
    ∧ (∀ m, vc2.matrices = some m → m.type = mx_type
        ∧ (mx_type = MxType.VRNA_MX_2DFOLD → bitSet v ALLOC_UNIQ = true → m.M1.E ≠ Ptr.null))
    ∧ (∀ m, vc2.exp_matrices = some m → m.type = mx_type
        ∧ (mx_type = MxType.VRNA_MX_2DFOLD → bitSet v ALLOC_UNIQ = true →
            m.Q_M1.E ≠ Ptr.null))
    ∧ (bitSet options K.VRNA_OPTION_EVAL_ONLY = false →
        bitSet options K.VRNA_OPTION_MFE = true → vc2.matrices ≠ none)
    ∧ (bitSet options K.VRNA_OPTION_EVAL_ONLY = false →
        bitSet options K.VRNA_OPTION_PF = true → vc2.exp_matrices ≠ none) := by
  unfold set_fold_compound at e
  obtain ⟨r, g0, q0, e0⟩ := bind_ok e
  obtain ⟨a1, a2, a3, a4, a5, a6, a7⟩ := set_fold_compound_head_res K E q0
  simp only at e0
  obtain ⟨iindx, g1, q1, e1⟩ := bind_ok e0
  obtain ⟨jindx, g2, q2, e2⟩ := bind_ok e1
  obtain ⟨vc4, g3, q3, e3⟩ := bind_ok e2
  obtain ⟨vc4b, g3b, p0, p1, p2, p3, p4, p5, p6, p7, p8, p9, p10, p11⟩ :=
    add_params_res K E { r.1 with iindx := iindx, jindx := jindx } r.2 options g2
  obtain ⟨pa, pb⟩ := ok_inj (q3.symm.trans p0)
  subst pa
  subst pb
  obtain ⟨vc5, g4, q4, e4⟩ := bind_ok e3
  have hmid : vc5.type = vc4.type ∧ vc5.n_seq = vc4.n_seq ∧ vc5.length = vc4.length
      ∧ (∀ m, vc5.matrices = some m → m.type = mx_type
          ∧ (mx_type = MxType.VRNA_MX_2DFOLD → bitSet v ALLOC_UNIQ = true →
              m.M1.E ≠ Ptr.null))
      ∧ (∀ m, vc5.exp_matrices = some m → m.type = mx_type
          ∧ (mx_type = MxType.VRNA_MX_2DFOLD → bitSet v ALLOC_UNIQ = true →
              m.Q_M1.E ≠ Ptr.null))
      ∧ (bitSet options K.VRNA_OPTION_EVAL_ONLY = false →
          bitSet options K.VRNA_OPTION_MFE = true → vc5.matrices ≠ none)
      ∧ (bitSet options K.VRNA_OPTION_EVAL_ONLY = false →
          bitSet options K.VRNA_OPTION_PF = true → vc5.exp_matrices ≠ none) := by
    have hm0 : vc4.matrices = none := p5.trans a5
    have hx0 : vc4.exp_matrices = none := p6.trans a6
    cases hev : bitSet options K.VRNA_OPTION_EVAL_ONLY with
    | true =>
      simp only [hev, Bool.not_true, Bool.false_eq_true, if_false] at q4
      cases q4
      refine ⟨rfl, rfl, rfl, ?_, ?_, ?_, ?_⟩
      · intro m hq; rw [hm0] at hq; cases hq
      · intro m hq; rw [hx0] at hq; cases hq
      · intro hq; cases hq
      · intro hq; cases hq
    | false =>
      simp only [hev, Bool.not_false, if_true] at q4
      obtain ⟨vc6, g5, q5, e5⟩ := bind_ok q4
      have h6 : vc6.type = vc4.type ∧ vc6.n_seq = vc4.n_seq ∧ vc6.length = vc4.length
          ∧ vc6.exp_matrices = none
          ∧ (∀ m, vc6.matrices = some m → m.type = mx_type
              ∧ (mx_type = MxType.VRNA_MX_2DFOLD → bitSet v ALLOC_UNIQ = true →
                  m.M1.E ≠ Ptr.null))
          ∧ (bitSet options K.VRNA_OPTION_MFE = true → vc6.matrices ≠ none) := by
        cases hmfe : bitSet options K.VRNA_OPTION_MFE with
        | true =>
          simp only [hmfe, if_true] at q5
          obtain ⟨b1, b2, b3, b4, b5, b6, m, b7, b8, b9⟩ := add_mfe_matrices_res K E q5
          refine ⟨b1, b2, b3, b6.trans hx0, ?_, ?_⟩
          · intro m2 hq
            rw [b7] at hq
            cases hq
            exact ⟨b8, b9⟩
          · intro _ hq; rw [b7] at hq; cases hq
        | false =>
          simp only [hmfe, Bool.false_eq_true, if_false] at q5
          cases q5
          refine ⟨rfl, rfl, rfl, hx0, ?_, ?_⟩
          · intro m hq; rw [hm0] at hq; cases hq
          · intro hq; cases hq
      obtain ⟨c1, c2, c3, c4, c5, c6⟩ := h6
      cases hpf : bitSet options K.VRNA_OPTION_PF with
      | true =>
        simp only [hpf, if_true] at e5
        obtain ⟨b1, b2, b3, b4, b5, b6, m, b7, b8, b9⟩ := add_pf_matrices_res F E e5
        refine ⟨b1.trans c1, b2.trans c2, b3.trans c3, ?_, ?_, ?_, ?_⟩
        · intro m2 hq; rw [b5] at hq; exact c5 m2 hq
        · intro m2 hq
          rw [b7] at hq
          cases hq
          exact ⟨b8, b9⟩
        · intro _ hq; rw [b5]; exact c6 hq
        · intro _ _ hq; rw [b7] at hq; cases hq
      | false =>
        simp only [hpf, Bool.false_eq_true, if_false] at e5
        cases e5
        refine ⟨c1, c2, c3, c5, ?_, ?_, ?_⟩
        · intro m hq; rw [c4] at hq; cases hq
        · intro _ hq; exact c6 hq
        · intro _ hq; cases hq
  obtain ⟨d1, d2, d3, d4, d5, d6, d7⟩ := hmid
  have hfin : vc2.type = vc5.type ∧ vc2.n_seq = vc5.n_seq ∧ vc2.length = vc5.length
      ∧ vc2.matrices = vc5.matrices ∧ vc2.exp_matrices = vc5.exp_matrices := by
    by_cases ht : vc5.type = VcType.VRNA_VC_TYPE_ALIGNMENT
    · rw [if_pos ht] at e4
      obtain ⟨u, g5, q5, e5⟩ := bind_ok e4
      cases hev : bitSet options K.VRNA_OPTION_EVAL_ONLY with
      | true =>
        simp only [hev, Bool.not_true, Bool.false_eq_true, if_false] at e5
        cases e5
        exact ⟨rfl, rfl, rfl, rfl, rfl⟩
      | false =>
        simp only [hev, Bool.not_false, if_true] at e5
        obtain ⟨hh, g6, q6, e6⟩ := bind_ok e5
        obtain ⟨hc, g7, q7, e7⟩ := bind_ok e6
        cases e7
        exact ⟨rfl, rfl, rfl, rfl, rfl⟩
    · rw [if_neg ht] at e4
      obtain ⟨u, g5, q5, e5⟩ := bind_ok e4
      cases hev : bitSet options K.VRNA_OPTION_EVAL_ONLY with
      | true =>
        simp only [hev, Bool.not_true, Bool.false_eq_true, if_false] at e5
        cases e5
        exact ⟨rfl, rfl, rfl, rfl, rfl⟩
      | false =>
        simp only [hev, Bool.not_false, if_true] at e5
        obtain ⟨hh, g6, q6, e6⟩ := bind_ok e5
        obtain ⟨hc, g7, q7, e7⟩ := bind_ok e6
        cases e7
        exact ⟨rfl, rfl, rfl, rfl, rfl⟩
  obtain ⟨f1, f2, f3, f4, f5⟩ := hfin
  refine ⟨((f1.trans d1).trans p2).trans a1, ((f2.trans d2).trans p3).trans a2, ?_, ?_, ?_,
    ?_, ?_⟩
  · intro hq
    exact ((f3.trans d3).trans p4).trans (a7 hq)
  · intro m hq; rw [f4] at hq; exact d4 m hq
  · intro m hq; rw [f5] at hq; exact d5 m hq
  · intro x y; rw [f4]; exact d6 x y
  · intro x y; rw [f5]; exact d7 x y

theorem bind_assoc_M {α β γ : Type} (x : M R α) (f : α → M R β) (g : β → M R γ) :
    (x >>= f) >>= g = x >>= fun a => f a >>= g := by
  funext h
  simp only [bind_apply]
  cases x h <;> rfl

theorem pure_bind_M {α β : Type} (a : α) (f : α → M R β) : (pure a >>= f) = f a := by
  funext h
  simp only [bind_apply, pure_apply]

theorem forEach_append {α : Type} (body : α → M R Unit) (l1 l2 : List α) :
    forEach body (l1 ++ l2) = (forEach body l1 >>= fun _ => forEach body l2) := by
  induction l1 with
  | nil => simp only [List.nil_append, forEach, pure_bind_M]
  | cons x xs ih =>
    rw [List.cons_append]
    simp only [forEach, ih, bind_assoc_M]

theorem forRange_eq_forEach (body : Nat → M R Unit) :
    ∀ (count start : Nat),
      forRange body count start = forEach body ((List.range count).map (fun k => start + k)) := by
  intro count
  induction count with
  | zero => intro start; rfl
  | succ n ih =>
    intro start
    rw [List.range_succ_eq_map, List.map_cons, List.map_map]
    show (body start >>= fun _ => forRange body n (start + 1)) = _
    rw [ih]
    show _ = (body (start + 0) >>= fun _ => forEach body _)
    have : (fun k => start + 1 + k) = ((fun k => start + k) ∘ Nat.succ) := by
      funext k
      simp only [Function.comp_apply]
      omega
    rw [this]
    rfl

theorem forEach_map {α β : Type} (body : β → M R Unit) (f : α → β) (l : List α) :
    forEach body (l.map f) = forEach (fun x => body (f x)) l := by
  induction l with
  | nil => rfl
  | cons x xs ih => simp only [List.map_cons, forEach, ih]

theorem forEach_flatMap {α β : Type} (body : β → M R Unit) (f : α → List β) (l : List α) :
    forEach body (l.flatMap f) = forEach (fun x => forEach body (f x)) l := by
  induction l with
  | nil => rfl
  | cons x xs ih =>
    rw [List.flatMap_cons, forEach_append, ih]
    rfl

theorem positions_eq (rounds : Nat) :
    positions rounds = (List.range rounds).map (fun k => 1 + k) := by
  unfold positions
  congr 1
  funext k
  omega

theorem free_linear_eq_sweep (K : Consts) (fam : SparseFam) (rounds : Nat) :
    free_linear (R := R) K fam rounds
      = sweep K fam ((positions rounds).map (fun i => pure ((i : Nat) : Int))) := by
  unfold free_linear sweep
  rw [forRange_eq_forEach, forEach_map, forEach_map, positions_eq, forEach_map]
  simp only [pure_bind_M]

theorem free_triangular_eq_sweep (K : Consts) (fam : SparseFam)
    (index : Nat → Nat → M R Int) (rows length : Nat) :
    free_triangular K fam index rows length
      = sweep K fam ((intervals rows length).map (fun p => index p.1 p.2)) := by
  unfold free_triangular sweep intervals
  rw [forRange_eq_forEach, forEach_map, forEach_map, forEach_flatMap, positions_eq, forEach_map]
  have hrow : (fun x => forRange (fun j => do
        let ij ← index (1 + x) j
        free_entry K fam ij) (length + 1 - (1 + x)) (1 + x))
      = (fun x => forEach (fun p : Nat × Nat => do
        let ij ← index p.1 p.2
        free_entry K fam ij)
        (List.map (fun d => (1 + x, 1 + x + d)) (List.range (length + 1 - (1 + x))))) := by
    funext x
    rw [forRange_eq_forEach, forEach_map, forEach_map]
  rw [hrow]

theorem mem_positions (rounds i : Nat) : i ∈ positions rounds ↔ 1 ≤ i ∧ i ≤ rounds := by
  unfold positions
  simp only [List.mem_map, List.mem_range]
  constructor
  · rintro ⟨k, hk, rfl⟩
    omega
  · intro hi
    exact ⟨i - 1, by omega, by omega⟩

theorem mem_intervals (rows length i j : Nat) :
    (i, j) ∈ intervals rows length ↔ 1 ≤ i ∧ i ≤ rows ∧ i ≤ j ∧ j ≤ length := by
  unfold intervals
  simp only [List.mem_flatMap, List.mem_map, List.mem_range, mem_positions, Prod.mk.injEq]
  constructor
  · rintro ⟨a, ha, d, hd, rfl, rfl⟩
    omega
  · intro hi
    exact ⟨i, by omega, j - i, by omega, rfl, by omega⟩

/-- Where a read is possible, a write is possible. -/
theorem store_of_load {p : Ptr} {i : Int} {c : Cell R} {h : Heap R} (c2 : Cell R)
    (e : load p i h = Outcome.ok c h) : ∃ h2, store p i c2 h = Outcome.ok () h2 := by
  unfold load at e
  unfold store
  cases p with
  | null => cases e
  | mk b off =>
    simp only at e ⊢
    cases hb : h.blocks[b]? with
    | none => rw [hb] at e; cases e
    | some blk =>
      rw [hb] at e
      simp only at e ⊢
      by_cases hf : blk.freed = true
      · rw [if_pos hf] at e; cases e
      · rw [if_neg hf] at e ⊢
        by_cases hn : off + i < 0
        · rw [if_pos hn] at e; cases e
        · rw [if_neg hn] at e ⊢
          cases hc : blk.cells[(off + i).toNat]? with
          | none => rw [hc] at e; cases e
          | some c1 =>
            have := getElem?_lt hc
            rw [if_neg (by omega)]
            exact ⟨_, rfl⟩

theorem loadPtr_load {p : Ptr} {i : Int} {q : Ptr} {h h2 : Heap R}
    (e : loadPtr p i h = Outcome.ok q h2) : load p i h = Outcome.ok (Cell.ptr q) h := by
  have hh := loadPtr_heap e
  subst hh
  unfold loadPtr at e
  obtain ⟨c, h1, e1, e2⟩ := bind_ok e
  have := load_heap e1
  subst this
  cases c <;> first | (cases e2; exact e1) | cases e2

theorem free_off (b : Nat) (off : Int) (h : Heap R) (hne : off ≠ 0) :
    free (Ptr.mk b off) h = Outcome.fail Fault.invalid_free h := by
  simp only [free, hne, ne_eq, not_false_eq_true, if_true]

theorem nv_pure {α : Type} (a : α) : no_validation_error (pure a : M R α) := by
  intro h f h2 e; cases e

theorem nv_bind {α β : Type} {x : M R α} {f : α → M R β} (hx : no_validation_error x)
    (hf : ∀ a, no_validation_error (f a)) : no_validation_error (x >>= f) := by
  intro h e h2 hq
  rcases bind_fail hq with q | ⟨a, h1, -, q⟩
  · exact hx _ _ _ q
  · exact hf a _ _ _ q

theorem nv_raise {α : Type} (f : Fault) (hf : f.validation = false) :
    no_validation_error (raise f : M R α) := by
  intro h e h2 hq; cases hq; exact hf

theorem nv_mfe_range {α : Type} :
    no_validation_error (vrna_message_error msg_mfe_range : M R α) :=
  nv_raise _ (by decide)

theorem nv_pf_range {α : Type} :
    no_validation_error (vrna_message_error msg_pf_range : M R α) :=
  nv_raise _ (by decide)

theorem nv_vrna_alloc (cells : List (Cell R)) : no_validation_error (vrna_alloc cells) := by
  intro h f h2 e; cases e

theorem nv_getHeap : no_validation_error (getHeap : M R (Heap R)) := by
  intro h f h2 e; cases e

theorem nv_free (p : Ptr) : no_validation_error (free p : M R Unit) := by
  intro h f h2 e
  unfold free at e
  split at e
  · cases e
  · split at e
    · cases e; rfl
    · split at e
      · cases e; rfl
      · split at e
        · cases e; rfl
        · cases e

theorem nv_load (p : Ptr) (i : Int) : no_validation_error (load p i : M R (Cell R)) := by
  intro h f h2 e
  unfold load at e
  split at e
  · cases e; rfl
  · split at e
    · cases e; rfl
    · split at e
      · cases e; rfl
      · split at e
        · cases e; rfl
        · split at e
          · cases e; rfl
          · cases e

theorem nv_store (p : Ptr) (i : Int) (c : Cell R) :
    no_validation_error (store p i c : M R Unit) := by
  intro h f h2 e
  unfold store at e
  split at e
  · cases e; rfl
  · split at e
    · cases e; rfl
    · split at e
      · cases e; rfl
      · split at e
        · cases e; rfl
        · split at e
          · cases e; rfl
          · cases e

theorem nv_forRange (body : Nat → M R Unit) (hb : ∀ i, no_validation_error (body i)) :
    ∀ count start, no_validation_error (forRange body count start) := by
  intro count
  induction count with
  | zero => intro start; exact nv_pure _
  | succ k ih =>
    intro start
    unfold forRange
    exact nv_bind (hb _) (fun _ => ih _)

theorem nv_foldRange {σ : Type} (body : Nat → σ → M R σ)
    (hb : ∀ i st, no_validation_error (body i st)) :
    ∀ count start st, no_validation_error (foldRange body count start st) := by
  intro count
  induction count with
  | zero => intro start st; exact nv_pure _
  | succ k ih =>
    intro start st
    unfold foldRange
    exact nv_bind (hb _ _) (fun _ => ih _ _)

theorem nv_foldlM {α σ : Type} (body : σ → α → M R σ)
    (hb : ∀ st a, no_validation_error (body st a)) :
    ∀ (l : List α) (st : σ), no_validation_error (l.foldlM body st) := by
  intro l
  induction l with
  | nil => intro st; exact nv_pure _
  | cons a l ih =>
    intro st
    rw [List.foldlM_cons]
    exact nv_bind (hb _ _) (fun _ => ih _)

theorem nv_loadInt (p : Ptr) (i : Int) : no_validation_error (loadInt p i : M R Int) := by
  unfold loadInt
  refine nv_bind (nv_load p i) (fun c => ?_)
  cases c <;> first | exact nv_pure _ | exact nv_raise _ rfl

theorem nv_loadPtr (p : Ptr) (i : Int) : no_validation_error (loadPtr p i : M R Ptr) := by
  unfold loadPtr
  refine nv_bind (nv_load p i) (fun c => ?_)
  cases c <;> first | exact nv_pure _ | exact nv_raise _ rfl

theorem nv_loadFlt (p : Ptr) (i : Int) : no_validation_error (loadFlt p i : M R R) := by
  unfold loadFlt
  refine nv_bind (nv_load p i) (fun c => ?_)
  cases c <;> first | exact nv_pure _ | exact nv_raise _ rfl

theorem nv_loadChr (p : Ptr) (i : Int) : no_validation_error (loadChr p i : M R Char) := by
  unfold loadChr
  refine nv_bind (nv_load p i) (fun c => ?_)
  cases c <;> first | exact nv_pure _ | exact nv_raise _ rfl

theorem nv_ptr_add (p : Ptr) (k : Int) : no_validation_error (ptr_add p k : M R Ptr) := by
  unfold ptr_add
  cases p with
  | null =>
    by_cases hk : k = 0
    · simp only [hk, if_true]; exact nv_pure _
    · simp only [hk, if_false]; exact nv_raise _ rfl
  | mk b off => exact nv_pure _

theorem nv_strdup (s : List Char) : no_validation_error (strdup s : M R CStr) := by
  unfold strdup
  exact nv_bind (nv_vrna_alloc _) (fun _ => nv_pure _)

theorem nv_set_pscore (pscore indx : Ptr) (i j value : Int) :
    no_validation_error (set_pscore pscore indx i j value : M R Unit) := by
  unfold set_pscore
  exact nv_bind (nv_loadInt _ _) (fun _ => nv_store _ _ _)

theorem nv_get_pscore (pscore indx : Ptr) (i j : Int) :
    no_validation_error (get_pscore pscore indx i j : M R Int) := by
  unfold get_pscore
  exact nv_bind (nv_loadInt _ _) (fun _ => nv_loadInt _ _)

theorem nv_pair_type (md : ModelDetails R) (S AS : Ptr) (s i j : Int) :
    no_validation_error (pair_type md S AS s i j) := by
  unfold pair_type
  repeat (first
    | with_reducible refine nv_bind ?_ (fun _ => ?_)
    | split
    | with_reducible exact nv_loadInt _ _
    | with_reducible exact nv_loadPtr _ _
    | with_reducible exact nv_loadChr _ _
    | with_reducible exact nv_pure _
    | ((with_reducible refine nv_raise _ ?_); rfl))

theorem nv_count_pair_types (md : ModelDetails R) (S AS : Ptr) (n_seq i j : Int) :
    no_validation_error (count_pair_types md S AS n_seq i j) := by
  unfold count_pair_types
  apply nv_foldRange
  intro s pfreq
  repeat (first
    | with_reducible refine nv_bind ?_ (fun _ => ?_)
    | split
    | with_reducible exact nv_pair_type _ _ _ _ _ _
    | with_reducible exact nv_pure _
    | ((with_reducible refine nv_raise _ ?_); rfl))

theorem nv_pair_score (F : FltOps R) (dm : Ptr) (pfreq : List Int) :
    no_validation_error (pair_score F dm pfreq) := by
  unfold pair_score
  apply nv_foldRange
  intro k score
  apply nv_foldRange
  intro l score2
  repeat (first
    | with_reducible refine nv_bind ?_ (fun _ => ?_)
    | with_reducible exact nv_loadFlt _ _
    | with_reducible exact nv_loadPtr _ _
    | with_reducible exact nv_pure _)

theorem nv_noLP_walk (K : Consts) (F : FltOps R) (md : ModelDetails R) (pscore indx : Ptr)
    (n : Int) : ∀ (rounds : Nat) (i j type ntype otype : Int),
      no_validation_error (noLP_walk K F md pscore indx n rounds i j type ntype otype) := by
  intro rounds
  induction rounds with
  | zero => intro i j type ntype otype; exact nv_pure _
  | succ k ih =>
    intro i j type ntype otype
    unfold noLP_walk
    repeat (first
      | with_reducible refine nv_bind ?_ (fun _ => ?_)
      | split
      | with_reducible exact ih _ _ _ _ _
      | with_reducible exact nv_get_pscore _ _ _ _
      | with_reducible exact nv_set_pscore _ _ _ _ _
      | with_reducible exact nv_pure _)

theorem nv_alloc_matrix (rows : List (List R)) :
    no_validation_error (alloc_matrix rows : M R Ptr) := by
  unfold alloc_matrix
  apply nv_bind
  · apply nv_foldlM
    intro st a
    exact nv_bind (nv_vrna_alloc _) (fun _ => nv_pure _)
  · intro _; exact nv_vrna_alloc _

theorem nv_vrna_alloc_int (len : Nat) : no_validation_error (vrna_alloc_int len : M R Ptr) :=
  nv_vrna_alloc _

theorem nv_vrna_alloc_ptr (len : Nat) : no_validation_error (vrna_alloc_ptr len : M R Ptr) :=
  nv_vrna_alloc _

theorem nv_vrna_alloc_flt (z : R) (len : Nat) :
    no_validation_error (vrna_alloc_flt z len : M R Ptr) :=
  nv_vrna_alloc _

theorem nv_vrna_alloc_struct : no_validation_error (vrna_alloc_struct : M R Ptr) :=
  nv_vrna_alloc _

theorem nv_ext_block (cells : List (Cell R)) : no_validation_error (ext_block cells) :=
  nv_vrna_alloc _

theorem nv_make_pscores (K : Consts) (F : FltOps R) (E : Ext R) (vc : FoldCompound R) :
    no_validation_error (make_pscores K F E vc) := by
  unfold make_pscores
  simp only
  repeat' (first
    | with_reducible refine nv_bind ?_ (fun _ => ?_)
    | (with_reducible refine nv_forRange _ (fun _ => ?_) _ _)
    | split
    | with_reducible exact nv_loadInt _ _
    | with_reducible exact nv_loadPtr _ _
    | with_reducible exact nv_store _ _ _
    | with_reducible exact nv_free _
    | with_reducible exact nv_vrna_alloc_ptr _
    | with_reducible exact nv_vrna_alloc_flt _ _
    | with_reducible exact nv_alloc_matrix _
    | with_reducible exact nv_set_pscore _ _ _ _ _
    | with_reducible exact nv_get_pscore _ _ _ _
    | with_reducible exact nv_count_pair_types _ _ _ _ _ _
    | with_reducible exact nv_pair_score _ _ _
    | with_reducible exact nv_noLP_walk _ _ _ _ _ _ _ _ _ _ _ _
    | with_reducible exact nv_pure _
    | ((with_reducible refine nv_raise _ ?_); rfl))

theorem nv_alloc_int_if (present : Bool) (len : Nat) :
    no_validation_error (alloc_int_if present len : M R Ptr) := by
  unfold alloc_int_if
  repeat' (first
    | with_reducible refine nv_bind ?_ (fun _ => ?_)
    | (with_reducible refine nv_forRange _ (fun _ => ?_) _ _)
    | split
    | with_reducible exact nv_loadInt _ _
    | with_reducible exact nv_loadPtr _ _
    | with_reducible exact nv_loadFlt _ _
    | with_reducible exact nv_store _ _ _
    | with_reducible exact nv_free _
    | with_reducible exact nv_getHeap
    | with_reducible exact nv_strdup _
    | with_reducible exact nv_ext_block _
    | with_reducible exact nv_vrna_alloc_int _
    | with_reducible exact nv_vrna_alloc_ptr _
    | with_reducible exact nv_vrna_alloc_flt _ _
    | with_reducible exact nv_vrna_alloc_struct
    | with_reducible exact nv_mfe_range
    | with_reducible exact nv_pf_range
    | with_reducible exact nv_pure _)

theorem nv_alloc_flt_if (z : R) (present : Bool) (len : Nat) :
    no_validation_error (alloc_flt_if z present len : M R Ptr) := by
  unfold alloc_flt_if
  repeat' (first
    | with_reducible refine nv_bind ?_ (fun _ => ?_)
    | (with_reducible refine nv_forRange _ (fun _ => ?_) _ _)
    | split
    | with_reducible exact nv_loadInt _ _
    | with_reducible exact nv_loadPtr _ _
    | with_reducible exact nv_loadFlt _ _
    | with_reducible exact nv_store _ _ _
    | with_reducible exact nv_free _
    | with_reducible exact nv_getHeap
    | with_reducible exact nv_strdup _
    | with_reducible exact nv_ext_block _
    | with_reducible exact nv_vrna_alloc_int _
    | with_reducible exact nv_vrna_alloc_ptr _
    | with_reducible exact nv_vrna_alloc_flt _ _
    | with_reducible exact nv_vrna_alloc_struct
    | with_reducible exact nv_mfe_range
    | with_reducible exact nv_pf_range
    | with_reducible exact nv_pure _)

theorem nv_alloc_sparse_mfe (K : Consts) (present : Bool) (len fill : Nat) :
    no_validation_error (alloc_sparse_mfe K present len fill : M R SparseFam) := by
  unfold alloc_sparse_mfe
  repeat' (first
    | with_reducible refine nv_bind ?_ (fun _ => ?_)
    | (with_reducible refine nv_forRange _ (fun _ => ?_) _ _)
    | split
    | with_reducible exact nv_loadInt _ _
    | with_reducible exact nv_loadPtr _ _
    | with_reducible exact nv_loadFlt _ _
    | with_reducible exact nv_store _ _ _
    | with_reducible exact nv_free _
    | with_reducible exact nv_getHeap
    | with_reducible exact nv_strdup _
    | with_reducible exact nv_ext_block _
    | with_reducible exact nv_vrna_alloc_int _
    | with_reducible exact nv_vrna_alloc_ptr _
    | with_reducible exact nv_vrna_alloc_flt _ _
    | with_reducible exact nv_vrna_alloc_struct
    | with_reducible exact nv_mfe_range
    | with_reducible exact nv_pf_range
    | with_reducible exact nv_pure _)

theorem nv_alloc_sparse_pf (z : R) (present : Bool) (len : Nat) :
    no_validation_error (alloc_sparse_pf z present len : M R SparseFam) := by
  unfold alloc_sparse_pf
  repeat' (first
    | with_reducible refine nv_bind ?_ (fun _ => ?_)
    | (with_reducible refine nv_forRange _ (fun _ => ?_) _ _)
    | split
    | with_reducible exact nv_loadInt _ _
    | with_reducible exact nv_loadPtr _ _
    | with_reducible exact nv_loadFlt _ _
    | with_reducible exact nv_store _ _ _
    | with_reducible exact nv_free _
    | with_reducible exact nv_getHeap
    | with_reducible exact nv_strdup _
    | with_reducible exact nv_ext_block _
    | with_reducible exact nv_vrna_alloc_int _
    | with_reducible exact nv_vrna_alloc_ptr _
    | with_reducible exact nv_vrna_alloc_flt _ _
    | with_reducible exact nv_vrna_alloc_struct
    | with_reducible exact nv_mfe_range
    | with_reducible exact nv_pf_range
    | with_reducible exact nv_pure _)

theorem nv_get_mfe_matrices_alloc (K : Consts) (n : Nat) (type : MxType) (v : Nat) :
    no_validation_error (get_mfe_matrices_alloc K n type v : M R MfeMx) := by
  unfold get_mfe_matrices_alloc
  simp only
  repeat' (first
    | with_reducible refine nv_bind ?_ (fun _ => ?_)
    | (with_reducible refine nv_forRange _ (fun _ => ?_) _ _)
    | split
    | with_reducible exact nv_loadInt _ _
    | with_reducible exact nv_loadPtr _ _
    | with_reducible exact nv_loadFlt _ _
    | with_reducible exact nv_store _ _ _
    | with_reducible exact nv_free _
    | with_reducible exact nv_getHeap
    | with_reducible exact nv_strdup _
    | with_reducible exact nv_ext_block _
    | with_reducible exact nv_vrna_alloc_int _
    | with_reducible exact nv_vrna_alloc_ptr _
    | with_reducible exact nv_vrna_alloc_flt _ _
    | with_reducible exact nv_vrna_alloc_struct
    | with_reducible exact nv_mfe_range
    | with_reducible exact nv_pf_range
    | with_reducible exact nv_alloc_int_if _ _
    | with_reducible exact nv_alloc_sparse_mfe _ _ _ _
    | with_reducible exact nv_pure _)

theorem nv_get_pf_matrices_alloc (F : FltOps R) (n : Nat) (type : MxType) (v : Nat) :
    no_validation_error (get_pf_matrices_alloc F n type v) := by
  unfold get_pf_matrices_alloc
  simp only
  repeat' (first
    | with_reducible refine nv_bind ?_ (fun _ => ?_)
    | (with_reducible refine nv_forRange _ (fun _ => ?_) _ _)
    | split
    | with_reducible exact nv_loadInt _ _
    | with_reducible exact nv_loadPtr _ _
    | with_reducible exact nv_loadFlt _ _
    | with_reducible exact nv_store _ _ _
    | with_reducible exact nv_free _
    | with_reducible exact nv_getHeap
    | with_reducible exact nv_strdup _
    | with_reducible exact nv_ext_block _
    | with_reducible exact nv_vrna_alloc_int _
    | with_reducible exact nv_vrna_alloc_ptr _
    | with_reducible exact nv_vrna_alloc_flt _ _
    | with_reducible exact nv_vrna_alloc_struct
    | with_reducible exact nv_mfe_range
    | with_reducible exact nv_pf_range
    | with_reducible exact nv_alloc_flt_if _ _ _
    | with_reducible exact nv_alloc_sparse_pf _ _ _
    | with_reducible exact nv_pure _)

theorem nv_rescale_params (F : FltOps R) (vc : FoldCompound R) :
    no_validation_error (rescale_params F vc) := by
  unfold rescale_params
  repeat' (first
    | with_reducible refine nv_bind ?_ (fun _ => ?_)
    | (with_reducible refine nv_forRange _ (fun _ => ?_) _ _)
    | split
    | with_reducible exact nv_loadInt _ _
    | with_reducible exact nv_loadPtr _ _
    | with_reducible exact nv_loadFlt _ _
    | with_reducible exact nv_store _ _ _
    | with_reducible exact nv_free _
    | with_reducible exact nv_getHeap
    | with_reducible exact nv_strdup _
    | with_reducible exact nv_ext_block _
    | with_reducible exact nv_vrna_alloc_int _
    | with_reducible exact nv_vrna_alloc_ptr _
    | with_reducible exact nv_vrna_alloc_flt _ _
    | with_reducible exact nv_vrna_alloc_struct
    | with_reducible exact nv_mfe_range
    | with_reducible exact nv_pf_range
    | with_reducible exact nv_pure _
    | ((with_reducible refine nv_raise _ ?_); rfl))

theorem nv_vrna_exp_params_rescale (F : FltOps R) (vc : Option (FoldCompound R))
    (mfe : Option R) : no_validation_error (vrna_exp_params_rescale F vc mfe) := by
  unfold vrna_exp_params_rescale
  simp only
  repeat' (first
    | with_reducible refine nv_bind ?_ (fun _ => ?_)
    | (with_reducible refine nv_forRange _ (fun _ => ?_) _ _)
    | split
    | with_reducible exact nv_loadInt _ _
    | with_reducible exact nv_loadPtr _ _
    | with_reducible exact nv_loadFlt _ _
    | with_reducible exact nv_store _ _ _
    | with_reducible exact nv_free _
    | with_reducible exact nv_getHeap
    | with_reducible exact nv_strdup _
    | with_reducible exact nv_ext_block _
    | with_reducible exact nv_vrna_alloc_int _
    | with_reducible exact nv_vrna_alloc_ptr _
    | with_reducible exact nv_vrna_alloc_flt _ _
    | with_reducible exact nv_vrna_alloc_struct
    | with_reducible exact nv_mfe_range
    | with_reducible exact nv_pf_range
    | with_reducible exact nv_rescale_params _ _
    | with_reducible exact nv_pure _)

theorem nv_add_params (K : Consts) (E : Ext R) (vc : FoldCompound R) (md : ModelDetails R)
    (options : Nat) : no_validation_error (add_params K E vc md options) := by
  unfold add_params
  repeat' (first
    | with_reducible refine nv_bind ?_ (fun _ => ?_)
    | (with_reducible refine nv_forRange _ (fun _ => ?_) _ _)
    | split
    | with_reducible exact nv_loadInt _ _
    | with_reducible exact nv_loadPtr _ _
    | with_reducible exact nv_loadFlt _ _
    | with_reducible exact nv_store _ _ _
    | with_reducible exact nv_free _
    | with_reducible exact nv_getHeap
    | with_reducible exact nv_strdup _
    | with_reducible exact nv_ext_block _
    | with_reducible exact nv_vrna_alloc_int _
    | with_reducible exact nv_vrna_alloc_ptr _
    | with_reducible exact nv_vrna_alloc_flt _ _
    | with_reducible exact nv_vrna_alloc_struct
    | with_reducible exact nv_mfe_range
    | with_reducible exact nv_pf_range
    | with_reducible exact nv_pure _)

theorem nv_add_mfe_matrices (K : Consts) (E : Ext R) (vc : FoldCompound R) (type : MxType)
    (v : Nat) : no_validation_error (add_mfe_matrices K E vc type v) := by
  unfold add_mfe_matrices
  simp only
  repeat' (first
    | with_reducible refine nv_bind ?_ (fun _ => ?_)
    | (with_reducible refine nv_forRange _ (fun _ => ?_) _ _)
    | split
    | with_reducible exact nv_loadInt _ _
    | with_reducible exact nv_loadPtr _ _
    | with_reducible exact nv_loadFlt _ _
    | with_reducible exact nv_store _ _ _
    | with_reducible exact nv_free _
    | with_reducible exact nv_getHeap
    | with_reducible exact nv_strdup _
    | with_reducible exact nv_ext_block _
    | with_reducible exact nv_vrna_alloc_int _
    | with_reducible exact nv_vrna_alloc_ptr _
    | with_reducible exact nv_vrna_alloc_flt _ _
    | with_reducible exact nv_vrna_alloc_struct
    | with_reducible exact nv_mfe_range
    | with_reducible exact nv_pf_range
    | with_reducible exact nv_get_mfe_matrices_alloc _ _ _ _
    | with_reducible exact nv_pure _
    | ((with_reducible refine nv_raise _ ?_); rfl))

theorem nv_add_pf_matrices (F : FltOps R) (E : Ext R) (vc : FoldCompound R) (type : MxType)
    (v : Nat) : no_validation_error (add_pf_matrices F E vc type v) := by
  unfold add_pf_matrices
  simp only
  repeat' (first
    | with_reducible refine nv_bind ?_ (fun _ => ?_)
    | (with_reducible refine nv_forRange _ (fun _ => ?_) _ _)
    | split
    | with_reducible exact nv_loadInt _ _
    | with_reducible exact nv_loadPtr _ _
    | with_reducible exact nv_loadFlt _ _
    | with_reducible exact nv_store _ _ _
    | with_reducible exact nv_free _
    | with_reducible exact nv_getHeap
    | with_reducible exact nv_strdup _
    | with_reducible exact nv_ext_block _
    | with_reducible exact nv_vrna_alloc_int _
    | with_reducible exact nv_vrna_alloc_ptr _
    | with_reducible exact nv_vrna_alloc_flt _ _
    | with_reducible exact nv_vrna_alloc_struct
    | with_reducible exact nv_mfe_range
    | with_reducible exact nv_pf_range
    | with_reducible exact nv_get_pf_matrices_alloc _ _ _ _
    | with_reducible exact nv_vrna_exp_params_rescale _ _ _
    | with_reducible exact nv_pure _
    | ((with_reducible refine nv_raise _ ?_); rfl))

theorem nv_set_fold_compound_single (K : Consts) (E : Ext R) (vc : FoldCompound R)
    (md : ModelDetails R) (mx_type : MxType) (options : Nat) :
    no_validation_error (set_fold_compound_single K E vc md mx_type options) := by
  unfold set_fold_compound_single
  simp only
  repeat' (first
    | with_reducible refine nv_bind ?_ (fun _ => ?_)
    | (with_reducible refine nv_forRange _ (fun _ => ?_) _ _)
    | split
    | with_reducible exact nv_loadInt _ _
    | with_reducible exact nv_loadPtr _ _
    | with_reducible exact nv_loadFlt _ _
    | with_reducible exact nv_store _ _ _
    | with_reducible exact nv_free _
    | with_reducible exact nv_getHeap
    | with_reducible exact nv_strdup _
    | with_reducible exact nv_ext_block _
    | with_reducible exact nv_vrna_alloc_int _
    | with_reducible exact nv_vrna_alloc_ptr _
    | with_reducible exact nv_vrna_alloc_flt _ _
    | with_reducible exact nv_vrna_alloc_struct
    | with_reducible exact nv_mfe_range
    | with_reducible exact nv_pf_range
    | with_reducible exact nv_pure _)

theorem nv_set_fold_compound_ali (E : Ext R) (vc : FoldCompound R) (md : ModelDetails R) :
    no_validation_error (set_fold_compound_ali E vc md) := by
  unfold set_fold_compound_ali
  simp only
  repeat' (first
    | with_reducible refine nv_bind ?_ (fun _ => ?_)
    | (with_reducible refine nv_forRange _ (fun _ => ?_) _ _)
    | split
    | with_reducible exact nv_loadInt _ _
    | with_reducible exact nv_loadPtr _ _
    | with_reducible exact nv_loadFlt _ _
    | with_reducible exact nv_store _ _ _
    | with_reducible exact nv_free _
    | with_reducible exact nv_getHeap
    | with_reducible exact nv_strdup _
    | with_reducible exact nv_ext_block _
    | with_reducible exact nv_vrna_alloc_int _
    | with_reducible exact nv_vrna_alloc_ptr _
    | with_reducible exact nv_vrna_alloc_flt _ _
    | with_reducible exact nv_vrna_alloc_struct
    | with_reducible exact nv_mfe_range
    | with_reducible exact nv_pf_range
    | with_reducible exact nv_pure _)

theorem nv_set_fold_compound_head (K : Consts) (E : Ext R) (vc : FoldCompound R)
    (md : ModelDetails R) (mx_type : MxType) (options : Nat) :
    no_validation_error (set_fold_compound_head K E vc md mx_type options) := by
  unfold set_fold_compound_head
  simp only
  repeat' (first
    | with_reducible refine nv_bind ?_ (fun _ => ?_)
    | (with_reducible refine nv_forRange _ (fun _ => ?_) _ _)
    | split
    | with_reducible exact nv_loadInt _ _
    | with_reducible exact nv_loadPtr _ _
    | with_reducible exact nv_loadFlt _ _
    | with_reducible exact nv_store _ _ _
    | with_reducible exact nv_free _
    | with_reducible exact nv_getHeap
    | with_reducible exact nv_strdup _
    | with_reducible exact nv_ext_block _
    | with_reducible exact nv_vrna_alloc_int _
    | with_reducible exact nv_vrna_alloc_ptr _
    | with_reducible exact nv_vrna_alloc_flt _ _
    | with_reducible exact nv_vrna_alloc_struct
    | with_reducible exact nv_mfe_range
    | with_reducible exact nv_pf_range
    | with_reducible exact nv_set_fold_compound_single _ _ _ _ _ _
    | with_reducible exact nv_set_fold_compound_ali _ _ _
    | with_reducible exact nv_pure _)

theorem nv_set_fold_compound (K : Consts) (F : FltOps R) (E : Ext R) (vc : FoldCompound R)
    (md : ModelDetails R) (mx_type : MxType) (v options : Nat) :
    no_validation_error (set_fold_compound K F E vc md mx_type v options) := by
  unfold set_fold_compound
  simp only
  repeat' (first
    | with_reducible refine nv_bind ?_ (fun _ => ?_)
    | (with_reducible refine nv_forRange _ (fun _ => ?_) _ _)
    | split
    | with_reducible exact nv_loadInt _ _
    | with_reducible exact nv_loadPtr _ _
    | with_reducible exact nv_loadFlt _ _
    | with_reducible exact nv_store _ _ _
    | with_reducible exact nv_free _
    | with_reducible exact nv_getHeap
    | with_reducible exact nv_strdup _
    | with_reducible exact nv_ext_block _
    | with_reducible exact nv_vrna_alloc_int _
    | with_reducible exact nv_vrna_alloc_ptr _
    | with_reducible exact nv_vrna_alloc_flt _ _
    | with_reducible exact nv_vrna_alloc_struct
    | with_reducible exact nv_mfe_range
    | with_reducible exact nv_pf_range
    | with_reducible exact nv_set_fold_compound_head _ _ _ _ _ _
    | with_reducible exact nv_add_params _ _ _ _ _
    | with_reducible exact nv_add_mfe_matrices _ _ _ _ _
    | with_reducible exact nv_add_pf_matrices _ _ _ _ _
    | with_reducible exact nv_make_pscores _ _ _ _
    | with_reducible exact nv_pure _)

theorem exists_ok_some {α : Type} {o : Outcome R (Option α)} (hq : o.returned = true) :
    ∃ a h2, o = Outcome.ok (some a) h2 := by
  cases o with
  | ok a h2 =>
    cases a with
    | none => cases hq
    | some a => exact ⟨a, h2, rfl⟩
  | fail f h2 => cases hq

theorem strlen_int_small (s : List Char) (hs : s.length ≤ INT_MAX) :
    strlen_int s = (s.length : Int) := by
  unfold strlen_int
  unfold INT_MAX at hs
  have hm : s.length % UINT_MOD = s.length := Nat.mod_eq_of_lt (by unfold UINT_MOD; omega)
  rw [hm, if_pos (by unfold INT_MAX; exact hs)]

theorem forRange_stop (body : Nat → M R Unit) (f : Fault) (h : Heap R) :
    ∀ count start,
      (∀ i, start ≤ i → i < start + count →
        body i h = Outcome.ok () h ∨ body i h = Outcome.fail f h) →
      (∃ i, start ≤ i ∧ i < start + count ∧ body i h = Outcome.fail f h) →
      forRange body count start h = Outcome.fail f h := by
  intro count
  induction count with
  | zero =>
    intro start _ hex
    obtain ⟨i, a, b, -⟩ := hex
    omega
  | succ k ih =>
    intro start hall hex
    rcases hall start (Nat.le_refl _) (by omega) with hs | hs
    · simp only [forRange, bind_apply, hs]
      apply ih (start + 1) (fun i a b => hall i (by omega) (by omega))
      obtain ⟨i, a, b, c⟩ := hex
      have hne : i ≠ start := by
        intro hq
        subst hq
        rw [hs] at c
        cases c
      exact ⟨i, by omega, by omega, c⟩
    · simp only [forRange, bind_apply, hs]

theorem alloc_vector_uniq {R : Type} (K : Consts) (md : ModelDetails R) (options : Nat)
    (hu : md.uniq_ML ≠ 0) :
    bitSet (get_mx_alloc_vector K md options).1 ALLOC_UNIQ = true := by
  have key : ∀ x : Nat, bitSet (x ||| ALLOC_UNIQ) ALLOC_UNIQ = true := by
    intro x
    have : (x ||| ALLOC_UNIQ) &&& ALLOC_UNIQ = ALLOC_UNIQ := by
      apply Nat.eq_of_testBit_eq
      intro i
      simp only [Nat.testBit_and, Nat.testBit_or]
      cases x.testBit i <;> cases ALLOC_UNIQ.testBit i <;> rfl
    unfold bitSet
    rw [this]
    decide
  unfold get_mx_alloc_vector
  simp only
  by_cases hc : md.circ ≠ 0
  · simp only [if_pos hc, ne_eq, one_ne_zero, not_false_eq_true, if_true]
    exact key _
  · simp only [if_neg hc, if_pos hu]
    exact key _

theorem set_fold_compound_owns (K : Consts) (F : FltOps R) (E : Ext R)
    {vc vc2 : FoldCompound R} {md : ModelDetails R} {mx_type : MxType} {v options : Nat}
    {h h2 : Heap R}
    (e : set_fold_compound K F E vc md mx_type v options h = Outcome.ok vc2 h2) :
    vc2.params.isSome = bitSet options K.VRNA_OPTION_MFE
    ∧ vc2.exp_params.isSome = bitSet options K.VRNA_OPTION_PF
    ∧ vc2.matrices.isSome
        = (bitSet options K.VRNA_OPTION_MFE && !bitSet options K.VRNA_OPTION_EVAL_ONLY)
    ∧ vc2.exp_matrices.isSome
        = (bitSet options K.VRNA_OPTION_PF && !bitSet options K.VRNA_OPTION_EVAL_ONLY) := by
  have isSome_of_ne : ∀ {α : Type} {o : Option α}, o ≠ none → o.isSome = true := by
    intro α o ho
    cases o with
    | none => exact absurd rfl ho
    | some a => rfl
  unfold set_fold_compound at e
  obtain ⟨r, g0, q0, e0⟩ := bind_ok e
  obtain ⟨-, -, a3, a4, a5, a6, -⟩ := set_fold_compound_head_res K E q0
  simp only at e0
  obtain ⟨iindx, g1, q1, e1⟩ := bind_ok e0
  obtain ⟨jindx, g2, q2, e2⟩ := bind_ok e1
  obtain ⟨vc4, g3, q3, e3⟩ := bind_ok e2
  obtain ⟨vc4b, g3b, p0, -, -, -, -, p5, p6, -, -, p8, p9, p10, p11⟩ :=
    add_params_res K E { r.1 with iindx := iindx, jindx := jindx } r.2 options g2
  obtain ⟨pa, pb⟩ := ok_inj (q3.symm.trans p0)
  subst pa
  subst pb
  have hm0 : vc4.matrices = none := p5.trans a5
  have hx0 : vc4.exp_matrices = none := p6.trans a6
  have hp4 : vc4.params.isSome = bitSet options K.VRNA_OPTION_MFE := by
    cases hb : bitSet options K.VRNA_OPTION_MFE with
    | true => exact isSome_of_ne (p10 hb)
    | false => rw [p8 hb]; show (r.1.params).isSome = false; rw [a3]; rfl
  have hq4 : vc4.exp_params.isSome = bitSet options K.VRNA_OPTION_PF := by
    cases hb : bitSet options K.VRNA_OPTION_PF with
    | true => exact isSome_of_ne (p11 hb)
    | false => rw [p9 hb]; show (r.1.exp_params).isSome = false; rw [a4]; rfl
  obtain ⟨vc5, g4, q4, e4⟩ := bind_ok e3
  have hmid : vc5.params = vc4.params
      ∧ vc5.exp_params.isSome = vc4.exp_params.isSome
      ∧ vc5.matrices.isSome
          = (bitSet options K.VRNA_OPTION_MFE && !bitSet options K.VRNA_OPTION_EVAL_ONLY)
      ∧ vc5.exp_matrices.isSome
          = (bitSet options K.VRNA_OPTION_PF && !bitSet options K.VRNA_OPTION_EVAL_ONLY) := by
    cases hev : bitSet options K.VRNA_OPTION_EVAL_ONLY with
    | true =>
      simp only [hev, Bool.not_true, Bool.false_eq_true, if_false] at q4
      cases q4
      refine ⟨rfl, rfl, ?_, ?_⟩
      · rw [hm0]; simp
      · rw [hx0]; simp
    | false =>
      simp only [hev, Bool.not_false, if_true] at q4
      obtain ⟨vc6, g5, q5, e5⟩ := bind_ok q4
      have h6 : vc6.params = vc4.params ∧ vc6.exp_params = vc4.exp_params
          ∧ vc6.exp_matrices = none
          ∧ vc6.matrices.isSome = bitSet options K.VRNA_OPTION_MFE := by
        cases hmfe : bitSet options K.VRNA_OPTION_MFE with
        | true =>
          simp only [hmfe, if_true] at q5
          obtain ⟨-, -, -, b4, b5, b6, m, b7, -, -⟩ := add_mfe_matrices_res K E q5
          exact ⟨b4, b5, b6.trans hx0, by rw [b7]; rfl⟩
        | false =>
          simp only [hmfe, Bool.false_eq_true, if_false] at q5
          cases q5
          exact ⟨rfl, rfl, hx0, by rw [hm0]; rfl⟩
      obtain ⟨c1, c2, c3, c4⟩ := h6
      cases hpf : bitSet options K.VRNA_OPTION_PF with
      | true =>
        simp only [hpf, if_true] at e5
        obtain ⟨-, -, -, b4, b5, b6, m, b7, -, -⟩ := add_pf_matrices_res F E e5
        refine ⟨b4.trans c1, ?_, ?_, ?_⟩
        · rw [← c2]
          cases hx : vc5.exp_params with
          | none => rw [b6.mp hx]
          | some a =>
            cases hy : vc6.exp_params with
            | none => rw [b6.mpr hy] at hx; cases hx
            | some b => rfl
        · rw [b5, c4]; simp
        · rw [b7]; rfl
      | false =>
        simp only [hpf, Bool.false_eq_true, if_false] at e5
        cases e5
        refine ⟨c1, by rw [c2], ?_, ?_⟩
        · rw [c4]; simp
        · rw [c3]; rfl
  obtain ⟨d1, d2, d3, d4⟩ := hmid
  have hfin : vc2.params = vc5.params ∧ vc2.exp_params = vc5.exp_params
      ∧ vc2.matrices = vc5.matrices ∧ vc2.exp_matrices = vc5.exp_matrices := by
    by_cases ht : vc5.type = VcType.VRNA_VC_TYPE_ALIGNMENT
    · rw [if_pos ht] at e4
      obtain ⟨u, g5, q5, e5⟩ := bind_ok e4
      cases hev : bitSet options K.VRNA_OPTION_EVAL_ONLY with
      | true =>
        simp only [hev, Bool.not_true, Bool.false_eq_true, if_false] at e5
        cases e5
        exact ⟨rfl, rfl, rfl, rfl⟩
      | false =>
        simp only [hev, Bool.not_false, if_true] at e5
        obtain ⟨hh, g6, q6, e6⟩ := bind_ok e5
        obtain ⟨hc, g7, q7, e7⟩ := bind_ok e6
        cases e7
        exact ⟨rfl, rfl, rfl, rfl⟩
    · rw [if_neg ht] at e4
      obtain ⟨u, g5, q5, e5⟩ := bind_ok e4
      cases hev : bitSet options K.VRNA_OPTION_EVAL_ONLY with
      | true =>
        simp only [hev, Bool.not_true, Bool.false_eq_true, if_false] at e5
        cases e5
        exact ⟨rfl, rfl, rfl, rfl⟩
      | false =>
        simp only [hev, Bool.not_false, if_true] at e5
        obtain ⟨hh, g6, q6, e6⟩ := bind_ok e5
        obtain ⟨hc, g7, q7, e7⟩ := bind_ok e6
        cases e7
        exact ⟨rfl, rfl, rfl, rfl⟩
  obtain ⟨f1, f2, f3, f4⟩ := hfin
  refine ⟨?_, ?_, ?_, ?_⟩
  · rw [f1, d1, hp4]
  · rw [f2, d2, hq4]
  · rw [f3, d3]
  · rw [f4, d4]

theorem exists_ok_of_no_fault {α : Type} {o : Outcome R α} (hq : o.fault = none) :
    ∃ a h2, o = Outcome.ok a h2 := by
  cases o with
  | ok a h2 => exact ⟨a, h2, rfl⟩
  | fail f h2 => cases hq

theorem isSome_eq_true_iff_ne {α : Type} (o : Option α) : o.isSome = true ↔ o ≠ none := by
  cases o <;> simp

theorem vrna_alloc_has {cells : List (Cell R)} {h h2 : Heap R} {p : Ptr}
    (e : vrna_alloc cells h = Outcome.ok p h2) :
    p = Ptr.mk h.blocks.length 0 ∧ h2.has h.blocks.length cells.length
    ∧ ∀ b len, h.has b len → h2.has b len := by
  cases e
  exact ⟨rfl, has_fresh h cells, fun _ _ hb => has_alloc cells hb⟩

theorem store_has_res {p : Ptr} {i : Int} {c : Cell R} {h h2 : Heap R}
    (e : store p i c h = Outcome.ok () h2) : ∀ b len, h.has b len → h2.has b len := by
  cases p with
  | null => unfold store at e; cases e
  | mk b off => exact (store_keeps 0 e).2

theorem has_extent {h : Heap R} {b len : Nat} (hb : h.has b len) :
    h.extent (Ptr.mk b 0) = some len := by
  obtain ⟨cells, hc, hl⟩ := hb
  simp [Heap.extent, hc, hl]

theorem set_fold_compound_ali_pscore_res (E : Ext R) {vc vc2 : FoldCompound R}
    {md : ModelDetails R} {h h2 : Heap R}
    (e : set_fold_compound_ali E vc md h = Outcome.ok vc2 h2) :
    h2.extent vc2.pscore
      = some ((vc.length * (vc.length + 1) % UINT_MOD / 2 + 2) % UINT_MOD) := by
  unfold set_fold_compound_ali at e
  simp only at e
  obtain ⟨cons, g1, q1, e1⟩ := bind_ok e
  obtain ⟨scons, g2, q2, e2⟩ := bind_ok e1
  obtain ⟨pscore, g3, q3, e3⟩ := bind_ok e2
  obtain ⟨hp, hf, -⟩ := vrna_alloc_has q3
  simp only [List.length_replicate] at hf
  obtain ⟨S, g4, q4, e4⟩ := bind_ok e3
  obtain ⟨S5, g5, q5, e5⟩ := bind_ok e4
  obtain ⟨S3, g6, q6, e6⟩ := bind_ok e5
  obtain ⟨a2s, g7, q7, e7⟩ := bind_ok e6
  obtain ⟨Ss, g8, q8, e8⟩ := bind_ok e7
  obtain ⟨u9, g9, q9, e9⟩ := bind_ok e8
  obtain ⟨u10, g10, q10, e10⟩ := bind_ok e9
  obtain ⟨u11, g11, q11, e11⟩ := bind_ok e10
  obtain ⟨u12, g12, q12, e12⟩ := bind_ok e11
  obtain ⟨u13, g13, q13, e13⟩ := bind_ok e12
  obtain ⟨u14, g14, q14, e14⟩ := bind_ok e13
  cases e14
  have k4 := (vrna_alloc_has q4).2.2
  have k5 := (vrna_alloc_has q5).2.2
  have k6 := (vrna_alloc_has q6).2.2
  have k7 := (vrna_alloc_has q7).2.2
  have k8 := (vrna_alloc_has q8).2.2
  have k9 := forRange_rel _ (fun a b : Heap R => ∀ b2 len2, a.has b2 len2 → b.has b2 len2)
    (fun _ _ _ x => x) (fun _ _ _ x y b2 len2 z => y b2 len2 (x b2 len2 z))
    (by
      intro i h1 h3 e0
      obtain ⟨p1, j1, r1, s1⟩ := bind_ok e0
      obtain ⟨p2, j2, r2, s2⟩ := bind_ok s1
      obtain ⟨p3, j3, r3, s3⟩ := bind_ok s2
      obtain ⟨p4, j4, r4, s4⟩ := bind_ok s3
      obtain ⟨p5, j5, r5, s5⟩ := bind_ok s4
      obtain ⟨p6, j6, r6, s6⟩ := bind_ok s5
      obtain ⟨p7, j7, r7, s7⟩ := bind_ok s6
      obtain ⟨p8, j8, r8, s8⟩ := bind_ok s7
      obtain ⟨p9, j9, r9, s9⟩ := bind_ok s8
      intro b2 len2 z
      exact store_has_res s9 _ _ ((vrna_alloc_has r9).2.2 _ _ (store_has_res r8 _ _
        ((vrna_alloc_has r7).2.2 _ _ (store_has_res r6 _ _ ((vrna_alloc_has r5).2.2 _ _
        (store_has_res r4 _ _ ((vrna_alloc_has r3).2.2 _ _ (store_has_res r2 _ _
        ((vrna_alloc_has r1).2.2 _ _ z))))))))))
    _ _ _ _ q9
  have hfin := store_has_res q14 _ _ (store_has_res q13 _ _ (store_has_res q12 _ _
    (store_has_res q11 _ _ (store_has_res q10 _ _ (k9 _ _ (k8 _ _ (k7 _ _ (k6 _ _
    (k5 _ _ (k4 _ _ hf))))))))))
  show h2.extent pscore = _
  rw [hp]
  exact has_extent hfin

theorem set_fold_compound_ali_pscore (E : Ext R) (vc : FoldCompound R) (md : ModelDetails R)
    (h : Heap R) :
    ∃ vc2 h2, set_fold_compound_ali E vc md h = Outcome.ok vc2 h2
      ∧ vc2.length = vc.length
      ∧ h2.extent vc2.pscore
          = some ((vc.length * (vc.length + 1) % UINT_MOD / 2 + 2) % UINT_MOD) := by
  obtain ⟨vc2, h2, e, hl, -⟩ := set_fold_compound_ali_ok E vc md h
  exact ⟨vc2, h2, e, hl, set_fold_compound_ali_pscore_res E e⟩

theorem vrna_alloc_filled {len : Nat} {c : Cell R} {h h2 : Heap R} {p : Ptr}
    (e : vrna_alloc (List.replicate len c) h = Outcome.ok p h2) :
    h2.filled p len c ∧ h.le h2 ∧ p = Ptr.mk h.blocks.length 0
    ∧ h2.blocks.length = h.blocks.length + 1 := by
  cases e
  refine ⟨⟨h.blocks.length, rfl, ?_⟩, le_push h _ _, rfl, by simp⟩
  show (_ ++ _)[h.blocks.length]? = _
  rw [List.getElem?_append_right (Nat.le_refl _)]
  simp

theorem filled_mono {h h2 : Heap R} (hle : h.le h2) {p : Ptr} {len : Nat} {c : Cell R}
    (x : h.filled p len c) : h2.filled p len c := by
  obtain ⟨b, hp, hb⟩ := x
  exact ⟨b, hp, hle _ _ hb⟩

theorem filled_frame {bs be : Nat} {h h2 : Heap R} (x : Heap.frame bs be h h2) {b len : Nat}
    {c : Cell R} (h1 : b ≠ bs) (h3 : b ≠ be) (y : h.filled (Ptr.mk b 0) len c) :
    h2.filled (Ptr.mk b 0) len c := by
  obtain ⟨b2, hp, hb⟩ := y
  cases hp
  exact ⟨b, rfl, by rw [x.2.2 b h1 h3]; exact hb⟩

theorem filled_cell {h : Heap R} {p : Ptr} {len i : Nat} {c : Cell R}
    (x : h.filled p len c) (hi : i < len) : h.cell p (i : Int) = some c := by
  obtain ⟨b, hp, hb⟩ := x
  subst hp
  rw [cell_at hb]
  simp [List.getElem?_replicate, hi]

theorem filled_load {h : Heap R} {p : Ptr} {len i : Nat} {c : Cell R}
    (x : h.filled p len c) (hi : i < len) : load p (i : Int) h = Outcome.ok c h := by
  obtain ⟨b, hp, hb⟩ := x
  subst hp
  exact load_eq hb rfl (by simp [List.getElem?_replicate, hi])

theorem alloc_sparse_mfe_unfilled (K : Consts) {len fill : Nat} {h h2 : Heap R}
    {fam : SparseFam} (e : alloc_sparse_mfe K true len fill h = Outcome.ok fam h2) :
    family_unfilled h2 fam len := by
  unfold alloc_sparse_mfe at e
  simp only [if_true] at e
  obtain ⟨E, g1, q1, e1⟩ := bind_ok e
  obtain ⟨l_min, g2, q2, e2⟩ := bind_ok e1
  obtain ⟨l_max, g3, q3, e3⟩ := bind_ok e2
  obtain ⟨k_min, g4, q4, e4⟩ := bind_ok e3
  obtain ⟨k_max, g5, q5, e5⟩ := bind_ok e4
  obtain ⟨rem, g6, q6, e6⟩ := bind_ok e5
  obtain ⟨u, g7, q7, e7⟩ := bind_ok e6
  cases e7
  obtain ⟨d1, c1, a1, b1⟩ := vrna_alloc_filled q1
  obtain ⟨d2, c2, a2, b2⟩ := vrna_alloc_filled q2
  obtain ⟨d3, c3, a3, b3⟩ := vrna_alloc_filled q3
  obtain ⟨d4, c4, a4, b4⟩ := vrna_alloc_filled q4
  obtain ⟨d5, c5, a5, b5⟩ := vrna_alloc_filled q5
  obtain ⟨d6, c6, a6, b6⟩ := vrna_alloc_filled q6
  subst a6
  have hfr := forRange_rel _ (fun a b : Heap R =>
      Heap.frame g5.blocks.length g5.blocks.length a b)
    (fun a => Heap.frame_refl _ _ a) (fun a b c x y => Heap.frame_trans _ _ a b c x y)
    (fun i h1 h3 e0 => store_frame g5.blocks.length e0) _ _ _ _ q7
  subst a1 a2 a3 a4 a5
  refine ⟨?_, ?_, ?_, ?_, ?_⟩
  · exact filled_frame hfr (by omega) (by omega)
      (filled_mono (c2.trans (c3.trans (c4.trans (c5.trans c6)))) d1)
  · exact filled_frame hfr (by omega) (by omega)
      (filled_mono (c3.trans (c4.trans (c5.trans c6))) d2)
  · exact filled_frame hfr (by omega) (by omega) (filled_mono (c4.trans (c5.trans c6)) d3)
  · exact filled_frame hfr (by omega) (by omega) (filled_mono (c5.trans c6) d4)
  · exact filled_frame hfr (by omega) (by omega) (filled_mono c6 d5)

theorem alloc_sparse_pf_unfilled (z : R) {len : Nat} {h h2 : Heap R}
    {fam : SparseFam} (e : alloc_sparse_pf z true len h = Outcome.ok fam h2) :
    family_unfilled h2 fam len := by
  unfold alloc_sparse_pf at e
  simp only [if_true] at e
  obtain ⟨E, g1, q1, e1⟩ := bind_ok e
  obtain ⟨l_min, g2, q2, e2⟩ := bind_ok e1
  obtain ⟨l_max, g3, q3, e3⟩ := bind_ok e2
  obtain ⟨k_min, g4, q4, e4⟩ := bind_ok e3
  obtain ⟨k_max, g5, q5, e5⟩ := bind_ok e4
  obtain ⟨rem, g6, q6, e6⟩ := bind_ok e5
  cases e6
  obtain ⟨d1, c1, -, -⟩ := vrna_alloc_filled q1
  obtain ⟨d2, c2, -, -⟩ := vrna_alloc_filled q2
  obtain ⟨d3, c3, -, -⟩ := vrna_alloc_filled q3
  obtain ⟨d4, c4, -, -⟩ := vrna_alloc_filled q4
  obtain ⟨d5, c5, -, -⟩ := vrna_alloc_filled q5
  obtain ⟨d6, c6, -, -⟩ := vrna_alloc_filled q6
  exact ⟨filled_mono (c2.trans (c3.trans (c4.trans (c5.trans c6)))) d1,
    filled_mono (c3.trans (c4.trans (c5.trans c6))) d2,
    filled_mono (c4.trans (c5.trans c6)) d3, filled_mono (c5.trans c6) d4,
    filled_mono c6 d5⟩

theorem family_unfilled_mono {h h2 : Heap R} (hle : h.le h2) {fam : SparseFam} {len : Nat}
    (x : family_unfilled h fam len) : family_unfilled h2 fam len :=
  ⟨filled_mono hle x.1, filled_mono hle x.2.1, filled_mono hle x.2.2.1,
    filled_mono hle x.2.2.2.1, filled_mono hle x.2.2.2.2⟩

/-- Teardown of an entry that has not been filled: the body of the loop
stops at `continue`. -/
theorem free_entry_unfilled (K : Consts) {h : Heap R} {fam : SparseFam} {len idx : Nat}
    (x : family_unfilled h fam len) (hi : idx < len) :
    free_entry K fam (idx : Int) h = Outcome.ok () h := by
  simp only [free_entry, loadPtr, bind_apply, filled_load x.1 hi, pure_apply, if_true]

theorem alloc_sparse_mfe_state (K : Consts) {present : Bool} {len fill : Nat} {h h2 : Heap R}
    {fam : SparseFam} (e : alloc_sparse_mfe K present len fill h = Outcome.ok fam h2) :
    (present = true → family_unfilled h2 fam len)
    ∧ (present = false → fam = SparseFam.absent) := by
  cases present with
  | true => exact ⟨fun _ => alloc_sparse_mfe_unfilled K e, fun hq => by cases hq⟩
  | false =>
    refine ⟨(fun hq => by cases hq), fun _ => ?_⟩
    cases e
    rfl

theorem alloc_sparse_pf_state (z : R) {present : Bool} {len : Nat} {h h2 : Heap R}
    {fam : SparseFam} (e : alloc_sparse_pf z present len h = Outcome.ok fam h2) :
    (present = true → family_unfilled h2 fam len)
    ∧ (present = false → fam = SparseFam.absent) := by
  cases present with
  | true => exact ⟨fun _ => alloc_sparse_pf_unfilled z e, fun hq => by cases hq⟩
  | false =>
    refine ⟨(fun hq => by cases hq), fun _ => ?_⟩
    cases e
    rfl

theorem triangular_succ (n : Nat) : (n + 1) * (n + 2) / 2 = n * (n + 1) / 2 + (n + 1) := by
  have : (n + 1) * (n + 2) = n * (n + 1) + 2 * (n + 1) := by ring
  rw [this, Nat.add_mul_div_left _ _ (by decide : 0 < 2)]

theorem set_fold_compound_head_ali (K : Consts) (E : Ext R) (vc : FoldCompound R)
    (md : ModelDetails R) (mx_type : MxType) (options : Nat) (h : Heap R)
    (ht : vc.type = VcType.VRNA_VC_TYPE_ALIGNMENT) :
    ∃ r h2, set_fold_compound_head K E vc md mx_type options h = Outcome.ok r h2
      ∧ r.1.length = vc.length
      ∧ h2.extent r.1.pscore
          = some ((vc.length * (vc.length + 1) % UINT_MOD / 2 + 2) % UINT_MOD) := by
  obtain ⟨vc2, h2, e, hl, hx⟩ := set_fold_compound_ali_pscore E
    { vc with params := none, exp_params := none, matrices := none, exp_matrices := none,
              hc := Ptr.null } md h
  refine ⟨(vc2, md), h2, ?_, hl, hx⟩
  simp only [ht] at e
  simp only [set_fold_compound_head, ht, bind_apply, pure_apply]
  rw [e]

/-- The loop of `rescale_params` fills both tables with the values that
its two assignments define. -/
theorem rescale_loop_values (F : FltOps R) (pf : ExpParams R) (bs be : Nat) (hne : bs ≠ be)
    (sv ev : Nat → R)
    (hs : ∀ i, 2 ≤ i → sv i = F.mul (sv (i / 2)) (sv (i - i / 2)))
    (he : ∀ i, 2 ≤ i → ev i = F.mul (F.pow pf.expMLbase (F.ofInt (i : Int))) (sv i)) :
    ∀ (count start : Nat) (h : Heap R) (S E : List (Cell R)),
      2 ≤ start →
      h.blocks[bs]? = some { cells := S, freed := false } →
      h.blocks[be]? = some { cells := E, freed := false } →
      start + count ≤ S.length → start + count ≤ E.length →
      (∀ j, j < start → S[j]? = some (Cell.flt (sv j))) →
      (∀ j, j < start → E[j]? = some (Cell.flt (ev j))) →
      ∃ h2 S2 E2,
        forRange (fun i => do
          let a ← loadFlt (Ptr.mk bs 0) ((i / 2 : Nat) : Int)
          let b ← loadFlt (Ptr.mk bs 0) ((i - i / 2 : Nat) : Int)
          store (Ptr.mk bs 0) (i : Int) (Cell.flt (F.mul a b))
          let si ← loadFlt (Ptr.mk bs 0) (i : Int)
          store (Ptr.mk be 0) (i : Int)
            (Cell.flt (F.mul (F.pow pf.expMLbase (F.ofInt (i : Int))) si))) count start h
          = Outcome.ok () h2
        ∧ h2.blocks[bs]? = some { cells := S2, freed := false }
        ∧ h2.blocks[be]? = some { cells := E2, freed := false }
        ∧ (∀ j, j < start + count → S2[j]? = some (Cell.flt (sv j)))
        ∧ (∀ j, j < start + count → E2[j]? = some (Cell.flt (ev j))) := by
  intro count
  induction count with
  | zero =>
    intro start h S E _ hS hE _ _ hfs hfe
    exact ⟨h, S, E, rfl, hS, hE, hfs, hfe⟩
  | succ k ih =>
    intro start h S E h2le hS hE hSl hEl hfs hfe
    have ha := hfs (start / 2) (by omega)
    have hb := hfs (start - start / 2) (by omega)
    have hbsl := getElem?_lt hS
    have hbel := getElem?_lt hE
    have hS1 : (h.blocks.set bs { cells := S.set start (Cell.flt (sv start)), freed := false })[bs]?
        = some { cells := S.set start (Cell.flt (sv start)), freed := false } :=
      List.getElem?_set_self hbsl
    have hE1 : (h.blocks.set bs { cells := S.set start (Cell.flt (sv start)), freed := false })[be]?
        = some { cells := E, freed := false } := by
      rw [List.getElem?_set_ne hne]; exact hE
    have hSi : (S.set start (Cell.flt (sv start)))[start]? = some (Cell.flt (sv start)) :=
      List.getElem?_set_self (by omega)
    obtain ⟨h2, S2, E2, e2, hS2, hE2, hinvs, hinve⟩ := ih (start + 1)
      { blocks := (h.blocks.set bs
            { cells := S.set start (Cell.flt (sv start)), freed := false }).set be
            { cells := E.set start (Cell.flt (ev start)), freed := false },
        released := h.released }
      (S.set start (Cell.flt (sv start)))
      (E.set start (Cell.flt (ev start)))
      (by omega)
      (by
        show (List.set _ _ _)[bs]? = _
        rw [List.getElem?_set_ne (Ne.symm hne)]; exact hS1)
      (by
        show (List.set _ _ _)[be]? = _
        exact List.getElem?_set_self (by simpa using hbel))
      (by simp; omega) (by simp; omega)
      (by
        intro j hj
        by_cases hjs : j = start
        · subst hjs; exact hSi
        · rw [List.getElem?_set_ne (Ne.symm hjs)]
          exact hfs j (by omega))
      (by
        intro j hj
        by_cases hjs : j = start
        · subst hjs; exact List.getElem?_set_self (by omega)
        · rw [List.getElem?_set_ne (Ne.symm hjs)]
          exact hfe j (by omega))
    refine ⟨h2, S2, E2, ?_, hS2, hE2, ?_, ?_⟩
    · simp only [forRange, bind_apply]
      rw [loadFlt_eq hS rfl ha]
      simp only []
      rw [loadFlt_eq hS rfl hb]
      simp only []
      rw [← hs start h2le]
      rw [store_eq _ hS rfl (by show start < S.length; omega)]
      simp only []
      rw [loadFlt_eq hS1 rfl hSi]
      simp only []
      rw [← he start h2le]
      rw [store_eq _ hE1 rfl (by show start < E.length; omega)]
      simp only []
      exact e2
    · intro j hj
      exact hinvs j (by omega)
    · intro j hj
      exact hinve j (by omega)

/-- The two tables after `rescale_params`, for values `sv` and `ev` that
satisfy the assignments of `rescale_params`. -/
theorem rescale_params_values (F : FltOps R) (vc : FoldCompound R) (m : PfMx R)
    (pf : ExpParams R) (h : Heap R) (sv ev : Nat → R)
    (hm : vc.exp_matrices = some m) (hp : vc.exp_params = some pf)
    (hr : scale_tables_ready h m vc.length)
    (s0 : sv 0 = F.lit 1) (s1 : sv 1 = F.div (F.lit 1) pf.pf_scale)
    (x0 : ev 0 = F.ofInt 1) (x1 : ev 1 = F.div pf.expMLbase pf.pf_scale)
    (hs : ∀ i, 2 ≤ i → sv i = F.mul (sv (i / 2)) (sv (i - i / 2)))
    (he : ∀ i, 2 ≤ i → ev i = F.mul (F.pow pf.expMLbase (F.ofInt (i : Int))) (sv i)) :
    ∃ h2, rescale_params F vc h = Outcome.ok () h2
      ∧ ∀ i : Nat, i ≤ vc.length →
          h2.cell m.scale (i : Int) = some (Cell.flt (sv i))
          ∧ h2.cell m.expMLbase (i : Int) = some (Cell.flt (ev i)) := by
  obtain ⟨bs, be, S, E, hsp, hep, hne, hS, hE, hSl, hEl⟩ := hr
  have hbsl := getElem?_lt hS
  have hbel := getElem?_lt hE
  have e1 := store_eq (k := 0) (Cell.flt (F.lit 1)) hS rfl (by show 0 < S.length; omega)
  have hS1 : (h.blocks.set bs { cells := S.set 0 (Cell.flt (F.lit 1)), freed := false })[bs]?
      = some { cells := S.set 0 (Cell.flt (F.lit 1)), freed := false } :=
    List.getElem?_set_self hbsl
  have e2 := store_eq (k := 1) (Cell.flt (F.div (F.lit 1) pf.pf_scale))
    (h := { blocks := h.blocks.set bs { cells := S.set 0 (Cell.flt (F.lit 1)), freed := false },
            released := h.released }) hS1 rfl (by simp; omega)
  obtain ⟨S0, hS0⟩ : ∃ S0, S0 = (S.set 0 (Cell.flt (F.lit 1))).set 1
      (Cell.flt (F.div (F.lit 1) pf.pf_scale)) := ⟨_, rfl⟩
  obtain ⟨B2, hB2⟩ : ∃ B2, B2 = (h.blocks.set bs
      { cells := S.set 0 (Cell.flt (F.lit 1)), freed := false }).set bs
      { cells := S0, freed := false } := ⟨_, rfl⟩
  have hS2 : B2[bs]? = some { cells := S0, freed := false } := by
    rw [hB2]; exact List.getElem?_set_self (by simpa using hbsl)
  have hE2 : B2[be]? = some { cells := E, freed := false } := by
    rw [hB2, List.getElem?_set_ne hne, List.getElem?_set_ne hne]; exact hE
  have hB2l : be < B2.length := getElem?_lt hE2
  have e3 := store_eq (k := 0) (Cell.flt (F.ofInt 1))
    (h := { blocks := B2, released := h.released }) hE2 rfl (by show 0 < E.length; omega)
  have hE3 : (B2.set be { cells := E.set 0 (Cell.flt (F.ofInt 1)), freed := false })[be]?
      = some { cells := E.set 0 (Cell.flt (F.ofInt 1)), freed := false } :=
    List.getElem?_set_self hB2l
  have e4 := store_eq (k := 1) (Cell.flt (F.div pf.expMLbase pf.pf_scale))
    (h := { blocks := B2.set be { cells := E.set 0 (Cell.flt (F.ofInt 1)), freed := false },
            released := h.released }) hE3 rfl (by simp; omega)
  obtain ⟨E0, hE0⟩ : ∃ E0, E0 = (E.set 0 (Cell.flt (F.ofInt 1))).set 1
      (Cell.flt (F.div pf.expMLbase pf.pf_scale)) := ⟨_, rfl⟩
  obtain ⟨B4, hB4⟩ : ∃ B4, B4 = (B2.set be
      { cells := E.set 0 (Cell.flt (F.ofInt 1)), freed := false }).set be
      { cells := E0, freed := false } := ⟨_, rfl⟩
  have hS4 : B4[bs]? = some { cells := S0, freed := false } := by
    rw [hB4, List.getElem?_set_ne (Ne.symm hne), List.getElem?_set_ne (Ne.symm hne)]; exact hS2
  have hE4 : B4[be]? = some { cells := E0, freed := false } := by
    rw [hB4]; exact List.getElem?_set_self (by simpa using hB2l)
  have hS00 : S0[0]? = some (Cell.flt (F.lit 1)) := by
    rw [hS0, List.getElem?_set_ne (by omega)]; exact List.getElem?_set_self (by omega)
  have hS01 : S0[1]? = some (Cell.flt (F.div (F.lit 1) pf.pf_scale)) := by
    rw [hS0]; exact List.getElem?_set_self (by simp; omega)
  have hE00 : E0[0]? = some (Cell.flt (F.ofInt 1)) := by
    rw [hE0, List.getElem?_set_ne (by omega)]; exact List.getElem?_set_self (by omega)
  have hE01 : E0[1]? = some (Cell.flt (F.div pf.expMLbase pf.pf_scale)) := by
    rw [hE0]; exact List.getElem?_set_self (by simp; omega)
  obtain ⟨h2, S2, E2, el, hS5, hE5, hvs, hve⟩ := rescale_loop_values F pf bs be hne sv ev hs he
    (vc.length - 1) 2 { blocks := B4, released := h.released } S0 E0 (by omega) hS4 hE4
    (by rw [hS0]; simp; omega) (by rw [hE0]; simp; omega)
    (by
      intro j hj
      have : j = 0 ∨ j = 1 := by omega
      rcases this with rfl | rfl
      · rw [s0]; exact hS00
      · rw [s1]; exact hS01)
    (by
      intro j hj
      have : j = 0 ∨ j = 1 := by omega
      rcases this with rfl | rfl
      · rw [x0]; exact hE00
      · rw [x1]; exact hE01)
  refine ⟨h2, ?_, ?_⟩
  · simp only [rescale_params, hm, hp, hsp, hep, bind_apply]
    have e1x : store (Ptr.mk bs 0) 0 (Cell.flt (F.lit 1)) h = _ := e1
    rw [e1x]
    simp only []
    have e2x : store (Ptr.mk bs 0) 1 (Cell.flt (F.div (F.lit 1) pf.pf_scale)) _ = _ := e2
    rw [e2x]
    simp only []
    rw [← hS0, ← hB2]
    have e3x : store (Ptr.mk be 0) 0 (Cell.flt (F.ofInt 1)) _ = _ := e3
    rw [e3x]
    simp only []
    have e4x : store (Ptr.mk be 0) 1 (Cell.flt (F.div pf.expMLbase pf.pf_scale)) _ = _ := e4
    rw [e4x]
    simp only []
    rw [← hE0, ← hB4]
    exact el
  · intro i hi
    rw [hsp, hep, cell_at hS5, cell_at hE5]
    exact ⟨hvs i (by omega), hve i (by omega)⟩

theorem repeated_product_eq_pow {R : Type} [Field R] (x : R) (i : Nat) :
    repeated_product x i = x ^ i := by
  induction i with
  | zero => simp [repeated_product]
  | succ k ih => rw [repeated_product, ih, pow_succ]

theorem sampleOps_exact : sampleOps.exact := by
  refine ⟨rfl, ?_, fun _ _ => rfl, fun _ _ => rfl, ?_⟩
  · show ((1 : Int) : ℚ) = 1
    simp
  · intro a i
    show a ^ (Int.toNat (Int.floor (((i : Int) : ℚ)))) = a ^ i
    simp

/-- The alignment constructor on a first sequence of `INT_MAX + 1` characters:
`length` is negative after the conversion to `int`, and the comparison with
`strlen` of the first sequence itself raises the error for unequal
lengths. -/
theorem ali_ctor_long_first (K : Consts) (F : FltOps R) (E : Ext R) (first : List Char)
    (rest : List (List Char)) (md_p : Option (ModelDetails R)) (options : Nat) (h : Heap R)
    (hl : first.length = 2147483648) :
    vrna_get_fold_compound_ali K F E (some (first :: rest)) md_p options h
      = Outcome.fail (Fault.message msg_ali_unequal) h := by
  have hs : strlen_int first = -2147483648 := by
    unfold strlen_int
    rw [hl]
    decide
  have hz : to_size_t (-2147483648) = 18446744071562067968 := by decide
  simp only [vrna_get_fold_compound_ali, List.getElem?_cons_zero, bind_apply, pure_apply, hs,
    List.length_cons, forRange, List.getD_cons_zero, hl, hz, vrna_message_error, raise]
  rfl

theorem ite_bind_M {α β : Type} (c : Prop) [Decidable c] (x y : M R α) (f : α → M R β) :
    ((if c then x else y) >>= f) = if c then x >>= f else y >>= f := by
  split <;> rfl

/-- The two-reference constructor is its first part followed by the
statements that set the fields of the distance classes. -/
theorem twoD_ctor_split (K : Consts) (F : FltOps R) (E : Ext R) (sequence : List Char)
    (s1 s2 : Option (List Char)) (md_p : Option (ModelDetails R)) (options : Nat) :
    vrna_get_fold_compound_2D K F E (some sequence) s1 s2 md_p options
      = (vrna_get_fold_compound_2D_head K F E sequence s1 s2 md_p options >>= fun p =>
          vrna_get_fold_compound_2D_fields E (strlen_int sequence) p.1 p.2.1 p.2.2) := by
  simp only [vrna_get_fold_compound_2D, vrna_get_fold_compound_2D_head,
    vrna_get_fold_compound_2D_fields, bind_assoc_M, pure_bind_M, ite_bind_M]

/-- What the first part of the two-reference constructor returns is what
`set_fold_compound` returned for the matrix type `VRNA_MX_2DFOLD` and a
bitmask with `ALLOC_UNIQ`. -/
theorem twoD_head_res (K : Consts) (F : FltOps R) (E : Ext R) {sequence : List Char}
    {s1 s2 : Option (List Char)} {md_p : Option (ModelDetails R)} {options : Nat}
    {h h2 : Heap R} {p : FoldCompound R × List Char × List Char}
    (e : vrna_get_fold_compound_2D_head K F E sequence s1 s2 md_p options h
          = Outcome.ok p h2) :
    ∃ (vc0 : FoldCompound R) (md : ModelDetails R) (v : Nat) (g : Heap R),
      bitSet v ALLOC_UNIQ = true
      ∧ set_fold_compound K F E vc0 md MxType.VRNA_MX_2DFOLD v options g = Outcome.ok p.1 h2 := by
  unfold vrna_get_fold_compound_2D_head at e
  simp only at e
  by_cases c0 : strlen_int sequence = 0
  · rw [if_pos c0] at e
    obtain ⟨u0, g0, q0, e0⟩ := bind_ok e
    cases q0
  · rw [if_neg c0] at e
    obtain ⟨u0, g0, q0, e0⟩ := bind_ok e
    obtain ⟨t1, g1, q1, e1⟩ := bind_ok e0
    by_cases c1 : strlen_int t1 ≠ strlen_int sequence
    · rw [if_pos c1] at e1
      obtain ⟨u2, g2, q2, e2⟩ := bind_ok e1
      cases q2
    · rw [if_neg c1] at e1
      obtain ⟨u2, g2, q2, e2⟩ := bind_ok e1
      obtain ⟨t2, g3, q3, e3⟩ := bind_ok e2
      by_cases c2 : strlen_int t2 ≠ strlen_int sequence
      · rw [if_pos c2] at e3
        obtain ⟨u4, g4, q4, e4⟩ := bind_ok e3
        cases q4
      · rw [if_neg c2] at e3
        obtain ⟨u4, g4, q4, e4⟩ := bind_ok e3
        obtain ⟨self, g5, q5, e5⟩ := bind_ok e4
        obtain ⟨seq, g6, q6, e6⟩ := bind_ok e5
        obtain ⟨vc1, g7, q7, e7⟩ := bind_ok e6
        cases e7
        exact ⟨_, _, _, _, alloc_vector_uniq K _ options (by simp), q7⟩

end lemmas

/-! ## Teardown after allocation -/

/-- C1, evaluated at a failing input: for a sequence of length 1 (accepted by
the size guard), matrix type 2DFOLD and the bitmask `ALLOC_CIRC`, teardown
right after allocation does not complete.  The loop bound
`vc->length - TURN - 1` of the `M2` family is computed in unsigned arithmetic
and wraps to 4294967293, so the loop reads entry 3 of the three-entry array
`E_M2` (`Q_M2` for the partition function family): an out-of-bounds read,
and no block has been released when it happens. -/
theorem teardown_short_circular_out_of_bounds :
    size_guard 1 = false
    ∧ m2_bound viennaConsts 1 = 4294967293
    ∧ (∃ h2, alloc_then_free_mfe (R := ℚ) viennaConsts
        { FoldCompound.zero Ptr.null with length := 1 } MxType.VRNA_MX_2DFOLD ALLOC_CIRC
        Heap.empty = Outcome.fail Fault.out_of_bounds h2 ∧ h2.released = [])
    ∧ (∃ h2, alloc_then_free_pf viennaConsts sampleOps
        { FoldCompound.zero Ptr.null with length := 1 } MxType.VRNA_MX_2DFOLD ALLOC_CIRC
        Heap.empty = Outcome.fail Fault.out_of_bounds h2 ∧ h2.released = []) :=
  ⟨rfl, by decide, ⟨_, rfl, rfl⟩, ⟨_, rfl, rfl⟩⟩

/-! ## Shape of the allocated families -/

/-- C2: for every length `n` the size guard accepts and every bitmask `v`,
dense allocation returns `f5`, `f3`, `fc`, `c`, `fML`, `fM1`, `fM2` non-null
iff the bit `ALLOC_F5`, `ALLOC_F3`, `ALLOC_HYBRID`, `ALLOC_C`, `ALLOC_FML`,
`ALLOC_UNIQ`, `ALLOC_CIRC` is in `v`, and `q`, `qb`, `qm`, `qm1`, `qm2`,
`probs`, `q1k`, `qln` non-null iff `ALLOC_F`, `ALLOC_C`, `ALLOC_FML`,
`ALLOC_UNIQ`, `ALLOC_CIRC`, `ALLOC_PROBS`, `ALLOC_AUX`, `ALLOC_AUX` is in `v`;
a non-null linear buffer has exactly `n + 2` entries, a non-null triangular
one exactly `(n + 1) * (n + 2) / 2`; `scale` and `expMLbase` are always
allocated with `n + 2` entries. -/
theorem dense_allocation_shape {R : Type} (K : Consts) (F : FltOps R) (n v : Nat) (h : Heap R)
    (hn : size_guard n = false) :
    (∃ m h2, get_mfe_matrices_alloc K n MxType.VRNA_MX_DEFAULT v h = Outcome.ok m h2
      ∧ buffer_ok h2 m.f5 (bitSet v ALLOC_F5) (n + 2)
      ∧ buffer_ok h2 m.f3 (bitSet v ALLOC_F3) (n + 2)
      ∧ buffer_ok h2 m.fc (bitSet v ALLOC_HYBRID) (n + 2)
      ∧ buffer_ok h2 m.c (bitSet v ALLOC_C) ((n + 1) * (n + 2) / 2)
      ∧ buffer_ok h2 m.fML (bitSet v ALLOC_FML) ((n + 1) * (n + 2) / 2)
      ∧ buffer_ok h2 m.fM1 (bitSet v ALLOC_UNIQ) ((n + 1) * (n + 2) / 2)
      ∧ buffer_ok h2 m.fM2 (bitSet v ALLOC_CIRC) (n + 2))
    ∧ (∃ m h2, get_pf_matrices_alloc F n MxType.VRNA_MX_DEFAULT v h = Outcome.ok m h2
      ∧ buffer_ok h2 m.q (bitSet v ALLOC_F) ((n + 1) * (n + 2) / 2)
      ∧ buffer_ok h2 m.qb (bitSet v ALLOC_C) ((n + 1) * (n + 2) / 2)
      ∧ buffer_ok h2 m.qm (bitSet v ALLOC_FML) ((n + 1) * (n + 2) / 2)
      ∧ buffer_ok h2 m.qm1 (bitSet v ALLOC_UNIQ) ((n + 1) * (n + 2) / 2)
      ∧ buffer_ok h2 m.qm2 (bitSet v ALLOC_CIRC) (n + 2)
      ∧ buffer_ok h2 m.probs (bitSet v ALLOC_PROBS) ((n + 1) * (n + 2) / 2)
      ∧ buffer_ok h2 m.q1k (bitSet v ALLOC_AUX) (n + 2)
      ∧ buffer_ok h2 m.qln (bitSet v ALLOC_AUX) (n + 2)
      ∧ buffer_ok h2 m.scale true (n + 2) ∧ buffer_ok h2 m.expMLbase true (n + 2)) := by
  obtain ⟨hs, hl⟩ := size_of_accepted hn
  constructor
  · obtain ⟨p0, h0, e0, l0, -, -⟩ := vrna_alloc_spec [Cell.struct] h
    obtain ⟨p1, h1, e1, l1, b1⟩ := alloc_int_if_spec (bitSet v ALLOC_F5) (n + 2) h0
    obtain ⟨p2, h2, e2, l2, b2⟩ := alloc_int_if_spec (bitSet v ALLOC_F3) (n + 2) h1
    obtain ⟨p3, h3, e3, l3, b3⟩ := alloc_int_if_spec (bitSet v ALLOC_HYBRID) (n + 2) h2
    obtain ⟨p4, h4, e4, l4, b4⟩ := alloc_int_if_spec (bitSet v ALLOC_C) ((n + 1) * (n + 2) / 2) h3
    obtain ⟨p5, h5, e5, l5, b5⟩ := alloc_int_if_spec (bitSet v ALLOC_FML) ((n + 1) * (n + 2) / 2) h4
    obtain ⟨p6, h6, e6, l6, b6⟩ := alloc_int_if_spec (bitSet v ALLOC_UNIQ) ((n + 1) * (n + 2) / 2) h5
    obtain ⟨p7, h7, e7, l7, b7⟩ := alloc_int_if_spec (bitSet v ALLOC_CIRC) (n + 2) h6
    have key : ∃ m, get_mfe_matrices_alloc K n MxType.VRNA_MX_DEFAULT v h = Outcome.ok m h7
        ∧ m.f5 = p1 ∧ m.f3 = p2 ∧ m.fc = p3 ∧ m.c = p4 ∧ m.fML = p5 ∧ m.fM1 = p6 ∧ m.fM2 = p7 := by
      simp only [get_mfe_matrices_alloc, hn, bind_apply, pure_apply, vrna_alloc_struct, hs, hl,
        Bool.false_eq_true, if_false, e0, e1, e2, e3, e4, e5, e6, e7]
      exact ⟨_, rfl, rfl, rfl, rfl, rfl, rfl, rfl, rfl⟩
    obtain ⟨m, em, q1, q2, q3, q4, q5, q6, q7⟩ := key
    refine ⟨m, h7, em, ?_⟩
    rw [q1, q2, q3, q4, q5, q6, q7]
    exact ⟨buffer_ok_mono (l2.trans (l3.trans (l4.trans (l5.trans (l6.trans l7))))) b1,
      buffer_ok_mono (l3.trans (l4.trans (l5.trans (l6.trans l7)))) b2,
      buffer_ok_mono (l4.trans (l5.trans (l6.trans l7))) b3,
      buffer_ok_mono (l5.trans (l6.trans l7)) b4,
      buffer_ok_mono (l6.trans l7) b5,
      buffer_ok_mono l7 b6,
      b7⟩
  · obtain ⟨p0, h0, e0, l0, -, -⟩ := vrna_alloc_spec [Cell.struct] h
    obtain ⟨p1, h1, e1, l1, b1⟩ := alloc_flt_if_spec (F.lit 0) (bitSet v ALLOC_F) ((n + 1) * (n + 2) / 2) h0
    obtain ⟨p2, h2, e2, l2, b2⟩ := alloc_flt_if_spec (F.lit 0) (bitSet v ALLOC_C) ((n + 1) * (n + 2) / 2) h1
    obtain ⟨p3, h3, e3, l3, b3⟩ := alloc_flt_if_spec (F.lit 0) (bitSet v ALLOC_FML) ((n + 1) * (n + 2) / 2) h2
    obtain ⟨p4, h4, e4, l4, b4⟩ := alloc_flt_if_spec (F.lit 0) (bitSet v ALLOC_UNIQ) ((n + 1) * (n + 2) / 2) h3
    obtain ⟨p5, h5, e5, l5, b5⟩ := alloc_flt_if_spec (F.lit 0) (bitSet v ALLOC_CIRC) (n + 2) h4
    obtain ⟨p6, h6, e6, l6, b6⟩ := alloc_flt_if_spec (F.lit 0) (bitSet v ALLOC_PROBS) ((n + 1) * (n + 2) / 2) h5
    obtain ⟨p7, h7, e7, l7, b7⟩ := alloc_flt_if_spec (F.lit 0) (bitSet v ALLOC_AUX) (n + 2) h6
    obtain ⟨p8, h8, e8, l8, b8⟩ := alloc_flt_if_spec (F.lit 0) (bitSet v ALLOC_AUX) (n + 2) h7
    obtain ⟨p9, h9, e9, l9, n9, x9⟩ := vrna_alloc_spec (List.replicate (n + 2) (Cell.flt (F.lit 0))) h8
    obtain ⟨p10, h10, e10, l10, n10, x10⟩ := vrna_alloc_spec (List.replicate (n + 2) (Cell.flt (F.lit 0))) h9
    have b9 : buffer_ok h9 p9 true (n + 2) := ⟨by simp [n9], fun _ => by simpa using x9⟩
    have b10 : buffer_ok h10 p10 true (n + 2) := ⟨by simp [n10], fun _ => by simpa using x10⟩
    have key : ∃ m, get_pf_matrices_alloc F n MxType.VRNA_MX_DEFAULT v h = Outcome.ok m h10
        ∧ m.q = p1 ∧ m.qb = p2 ∧ m.qm = p3 ∧ m.qm1 = p4 ∧ m.qm2 = p5 ∧ m.probs = p6 ∧ m.q1k = p7 ∧ m.qln = p8 ∧ m.scale = p9 ∧ m.expMLbase = p10 := by
      simp only [get_pf_matrices_alloc, hn, bind_apply, pure_apply, vrna_alloc_struct, vrna_alloc_flt, hs, hl,
        Bool.false_eq_true, if_false, e0, e1, e2, e3, e4, e5, e6, e7, e8, e9, e10]
      exact ⟨_, rfl, rfl, rfl, rfl, rfl, rfl, rfl, rfl, rfl, rfl, rfl⟩
    obtain ⟨m, em, q1, q2, q3, q4, q5, q6, q7, q8, q9, q10⟩ := key
    refine ⟨m, h10, em, ?_⟩
    rw [q1, q2, q3, q4, q5, q6, q7, q8, q9, q10]
    exact ⟨buffer_ok_mono (l2.trans (l3.trans (l4.trans (l5.trans (l6.trans (l7.trans (l8.trans (l9.trans l10)))))))) b1,
      buffer_ok_mono (l3.trans (l4.trans (l5.trans (l6.trans (l7.trans (l8.trans (l9.trans l10))))))) b2,
      buffer_ok_mono (l4.trans (l5.trans (l6.trans (l7.trans (l8.trans (l9.trans l10)))))) b3,
      buffer_ok_mono (l5.trans (l6.trans (l7.trans (l8.trans (l9.trans l10))))) b4,
      buffer_ok_mono (l6.trans (l7.trans (l8.trans (l9.trans l10)))) b5,
      buffer_ok_mono (l7.trans (l8.trans (l9.trans l10))) b6,
      buffer_ok_mono (l8.trans (l9.trans l10)) b7,
      buffer_ok_mono (l9.trans l10) b8,
      buffer_ok_mono l10 b9,
      b10⟩

/-- The dense shape at length 2 with the bitmask `ALLOC_PF_DEFAULT`. -/
theorem dense_allocation_shape_witness :
    size_guard 2 = false ∧
   ((∃ m h2, get_mfe_matrices_alloc viennaConsts 2 MxType.VRNA_MX_DEFAULT ALLOC_PF_DEFAULT (Heap.empty : Heap ℚ) = Outcome.ok m h2
      ∧ buffer_ok h2 m.f5 (bitSet ALLOC_PF_DEFAULT ALLOC_F5) (2 + 2)
      ∧ buffer_ok h2 m.f3 (bitSet ALLOC_PF_DEFAULT ALLOC_F3) (2 + 2)
      ∧ buffer_ok h2 m.fc (bitSet ALLOC_PF_DEFAULT ALLOC_HYBRID) (2 + 2)
      ∧ buffer_ok h2 m.c (bitSet ALLOC_PF_DEFAULT ALLOC_C) ((2 + 1) * (2 + 2) / 2)
      ∧ buffer_ok h2 m.fML (bitSet ALLOC_PF_DEFAULT ALLOC_FML) ((2 + 1) * (2 + 2) / 2)
      ∧ buffer_ok h2 m.fM1 (bitSet ALLOC_PF_DEFAULT ALLOC_UNIQ) ((2 + 1) * (2 + 2) / 2)
      ∧ buffer_ok h2 m.fM2 (bitSet ALLOC_PF_DEFAULT ALLOC_CIRC) (2 + 2))
    ∧ (∃ m h2, get_pf_matrices_alloc sampleOps 2 MxType.VRNA_MX_DEFAULT ALLOC_PF_DEFAULT (Heap.empty : Heap ℚ) = Outcome.ok m h2
      ∧ buffer_ok h2 m.q (bitSet ALLOC_PF_DEFAULT ALLOC_F) ((2 + 1) * (2 + 2) / 2)
      ∧ buffer_ok h2 m.qb (bitSet ALLOC_PF_DEFAULT ALLOC_C) ((2 + 1) * (2 + 2) / 2)
      ∧ buffer_ok h2 m.qm (bitSet ALLOC_PF_DEFAULT ALLOC_FML) ((2 + 1) * (2 + 2) / 2)
      ∧ buffer_ok h2 m.qm1 (bitSet ALLOC_PF_DEFAULT ALLOC_UNIQ) ((2 + 1) * (2 + 2) / 2)
      ∧ buffer_ok h2 m.qm2 (bitSet ALLOC_PF_DEFAULT ALLOC_CIRC) (2 + 2)
      ∧ buffer_ok h2 m.probs (bitSet ALLOC_PF_DEFAULT ALLOC_PROBS) ((2 + 1) * (2 + 2) / 2)
      ∧ buffer_ok h2 m.q1k (bitSet ALLOC_PF_DEFAULT ALLOC_AUX) (2 + 2)
      ∧ buffer_ok h2 m.qln (bitSet ALLOC_PF_DEFAULT ALLOC_AUX) (2 + 2)
      ∧ buffer_ok h2 m.scale true (2 + 2) ∧ buffer_ok h2 m.expMLbase true (2 + 2))) :=
  ⟨by decide,
    dense_allocation_shape viennaConsts sampleOps 2 ALLOC_PF_DEFAULT Heap.empty (by decide)⟩

/-- C3: for every length `n` the size guard accepts and every bitmask `v`,
with matrix type 2DFOLD the six outer arrays of a family (values, `l_min`,
`l_max`, `k_min`, `k_max`, remainder) are all non-null with one common length
or all null, and non-null iff the bit of the family is in `v`: `F5`
(`ALLOC_F5`), `F3` (`ALLOC_F3`) and `M2` (`ALLOC_CIRC`) with `n + 2` entries,
`C` (`ALLOC_C`), `M` (`ALLOC_FML`) and `M1` (`ALLOC_UNIQ`) with
`(n + 1) * (n + 2) / 2` entries, and likewise `Q` (`ALLOC_F`), `Q_B`
(`ALLOC_C`), `Q_M` (`ALLOC_FML`), `Q_M1` (`ALLOC_UNIQ`) and `Q_M2`
(`ALLOC_CIRC`). -/
theorem sparse_allocation_shape {R : Type} (K : Consts) (F : FltOps R) (n v : Nat) (h : Heap R)
    (hn : size_guard n = false) :
    (∃ m h2, get_mfe_matrices_alloc K n MxType.VRNA_MX_2DFOLD v h = Outcome.ok m h2
      ∧ family_ok h2 m.F5 (bitSet v ALLOC_F5) (n + 2)
      ∧ family_ok h2 m.F3 (bitSet v ALLOC_F3) (n + 2)
      ∧ family_ok h2 m.C (bitSet v ALLOC_C) ((n + 1) * (n + 2) / 2)
      ∧ family_ok h2 m.M (bitSet v ALLOC_FML) ((n + 1) * (n + 2) / 2)
      ∧ family_ok h2 m.M1 (bitSet v ALLOC_UNIQ) ((n + 1) * (n + 2) / 2)
      ∧ family_ok h2 m.M2 (bitSet v ALLOC_CIRC) (n + 2))
    ∧ (∃ m h2, get_pf_matrices_alloc F n MxType.VRNA_MX_2DFOLD v h = Outcome.ok m h2
      ∧ family_ok h2 m.Q (bitSet v ALLOC_F) ((n + 1) * (n + 2) / 2)
      ∧ family_ok h2 m.Q_B (bitSet v ALLOC_C) ((n + 1) * (n + 2) / 2)
      ∧ family_ok h2 m.Q_M (bitSet v ALLOC_FML) ((n + 1) * (n + 2) / 2)
      ∧ family_ok h2 m.Q_M1 (bitSet v ALLOC_UNIQ) ((n + 1) * (n + 2) / 2)
      ∧ family_ok h2 m.Q_M2 (bitSet v ALLOC_CIRC) (n + 2)) := by
  obtain ⟨hs, hl⟩ := size_of_accepted hn
  constructor
  · obtain ⟨p0, h0, e0, l0, -, -⟩ := vrna_alloc_spec [Cell.struct] h
    obtain ⟨p1, h1, e1, l1, b1, c1⟩ := alloc_sparse_mfe_spec K (bitSet v ALLOC_F5) (n + 2) (n + 1) h0 (by omega)
    obtain ⟨p2, h2, e2, l2, b2, c2⟩ := alloc_sparse_mfe_spec K (bitSet v ALLOC_F3) (n + 2) (n + 1) h1 (by omega)
    obtain ⟨p3, h3, e3, l3, b3, c3⟩ := alloc_sparse_mfe_spec K (bitSet v ALLOC_C) ((n + 1) * (n + 2) / 2) ((n + 1) * (n + 2) / 2) h2 (by omega)
    obtain ⟨p4, h4, e4, l4, b4, c4⟩ := alloc_sparse_mfe_spec K (bitSet v ALLOC_FML) ((n + 1) * (n + 2) / 2) ((n + 1) * (n + 2) / 2) h3 (by omega)
    obtain ⟨p5, h5, e5, l5, b5, c5⟩ := alloc_sparse_mfe_spec K (bitSet v ALLOC_UNIQ) ((n + 1) * (n + 2) / 2) ((n + 1) * (n + 2) / 2) h4 (by omega)
    obtain ⟨p6, h6, e6, l6, b6, c6⟩ := alloc_sparse_mfe_spec K (bitSet v ALLOC_CIRC) (n + 2) (n + 1) h5 (by omega)
    have key : ∃ m, get_mfe_matrices_alloc K n MxType.VRNA_MX_2DFOLD v h = Outcome.ok m h6
        ∧ m.F5 = p1 ∧ m.F3 = p2 ∧ m.C = p3 ∧ m.M = p4 ∧ m.M1 = p5 ∧ m.M2 = p6 := by
      simp only [get_mfe_matrices_alloc, hn, bind_apply, pure_apply, vrna_alloc_struct, hs, hl,
        Bool.false_eq_true, if_false, e0, e1, e2, e3, e4, e5, e6]
      exact ⟨_, rfl, rfl, rfl, rfl, rfl, rfl, rfl⟩
    obtain ⟨m, em, q1, q2, q3, q4, q5, q6⟩ := key
    refine ⟨m, h6, em, ?_⟩
    rw [q1, q2, q3, q4, q5, q6]
    exact ⟨family_ok_mono (l2.trans (l3.trans (l4.trans (l5.trans l6)))) b1,
      family_ok_mono (l3.trans (l4.trans (l5.trans l6))) b2,
      family_ok_mono (l4.trans (l5.trans l6)) b3,
      family_ok_mono (l5.trans l6) b4,
      family_ok_mono l6 b5,
      b6⟩
  · obtain ⟨p0, h0, e0, l0, -, -⟩ := vrna_alloc_spec [Cell.struct] h
    obtain ⟨p1, h1, e1, l1, b1⟩ := alloc_sparse_pf_spec (F.lit 0) (bitSet v ALLOC_F) ((n + 1) * (n + 2) / 2) h0
    obtain ⟨p2, h2, e2, l2, b2⟩ := alloc_sparse_pf_spec (F.lit 0) (bitSet v ALLOC_C) ((n + 1) * (n + 2) / 2) h1
    obtain ⟨p3, h3, e3, l3, b3⟩ := alloc_sparse_pf_spec (F.lit 0) (bitSet v ALLOC_FML) ((n + 1) * (n + 2) / 2) h2
    obtain ⟨p4, h4, e4, l4, b4⟩ := alloc_sparse_pf_spec (F.lit 0) (bitSet v ALLOC_UNIQ) ((n + 1) * (n + 2) / 2) h3
    obtain ⟨p5, h5, e5, l5, b5⟩ := alloc_sparse_pf_spec (F.lit 0) (bitSet v ALLOC_CIRC) (n + 2) h4
    obtain ⟨p6, h6, e6, l6, -, -⟩ := vrna_alloc_spec (List.replicate (n + 2) (Cell.flt (F.lit 0))) h5
    obtain ⟨p7, h7, e7, l7, -, -⟩ := vrna_alloc_spec (List.replicate (n + 2) (Cell.flt (F.lit 0))) h6
    have key : ∃ m, get_pf_matrices_alloc F n MxType.VRNA_MX_2DFOLD v h = Outcome.ok m h7
        ∧ m.Q = p1 ∧ m.Q_B = p2 ∧ m.Q_M = p3 ∧ m.Q_M1 = p4 ∧ m.Q_M2 = p5 := by
      simp only [get_pf_matrices_alloc, hn, bind_apply, pure_apply, vrna_alloc_struct, vrna_alloc_flt, hs, hl,
        Bool.false_eq_true, if_false, e0, e1, e2, e3, e4, e5, e6, e7]
      exact ⟨_, rfl, rfl, rfl, rfl, rfl, rfl⟩
    obtain ⟨m, em, q1, q2, q3, q4, q5⟩ := key
    refine ⟨m, h7, em, ?_⟩
    rw [q1, q2, q3, q4, q5]
    exact ⟨family_ok_mono (l2.trans (l3.trans (l4.trans (l5.trans (l6.trans l7))))) b1,
      family_ok_mono (l3.trans (l4.trans (l5.trans (l6.trans l7)))) b2,
      family_ok_mono (l4.trans (l5.trans (l6.trans l7))) b3,
      family_ok_mono (l5.trans (l6.trans l7)) b4,
      family_ok_mono (l6.trans l7) b5⟩

/-- The sparse shape at length 2 with the default MFE families and the
circular one. -/
theorem sparse_allocation_shape_witness :
    size_guard 2 = false ∧
   ((∃ m h2, get_mfe_matrices_alloc viennaConsts 2 MxType.VRNA_MX_2DFOLD (ALLOC_MFE_DEFAULT ||| ALLOC_CIRC) (Heap.empty : Heap ℚ) = Outcome.ok m h2
      ∧ family_ok h2 m.F5 (bitSet (ALLOC_MFE_DEFAULT ||| ALLOC_CIRC) ALLOC_F5) (2 + 2)
      ∧ family_ok h2 m.F3 (bitSet (ALLOC_MFE_DEFAULT ||| ALLOC_CIRC) ALLOC_F3) (2 + 2)
      ∧ family_ok h2 m.C (bitSet (ALLOC_MFE_DEFAULT ||| ALLOC_CIRC) ALLOC_C) ((2 + 1) * (2 + 2) / 2)
      ∧ family_ok h2 m.M (bitSet (ALLOC_MFE_DEFAULT ||| ALLOC_CIRC) ALLOC_FML) ((2 + 1) * (2 + 2) / 2)
      ∧ family_ok h2 m.M1 (bitSet (ALLOC_MFE_DEFAULT ||| ALLOC_CIRC) ALLOC_UNIQ) ((2 + 1) * (2 + 2) / 2)
      ∧ family_ok h2 m.M2 (bitSet (ALLOC_MFE_DEFAULT ||| ALLOC_CIRC) ALLOC_CIRC) (2 + 2))
    ∧ (∃ m h2, get_pf_matrices_alloc sampleOps 2 MxType.VRNA_MX_2DFOLD (ALLOC_MFE_DEFAULT ||| ALLOC_CIRC) (Heap.empty : Heap ℚ) = Outcome.ok m h2
      ∧ family_ok h2 m.Q (bitSet (ALLOC_MFE_DEFAULT ||| ALLOC_CIRC) ALLOC_F) ((2 + 1) * (2 + 2) / 2)
      ∧ family_ok h2 m.Q_B (bitSet (ALLOC_MFE_DEFAULT ||| ALLOC_CIRC) ALLOC_C) ((2 + 1) * (2 + 2) / 2)
      ∧ family_ok h2 m.Q_M (bitSet (ALLOC_MFE_DEFAULT ||| ALLOC_CIRC) ALLOC_FML) ((2 + 1) * (2 + 2) / 2)
      ∧ family_ok h2 m.Q_M1 (bitSet (ALLOC_MFE_DEFAULT ||| ALLOC_CIRC) ALLOC_UNIQ) ((2 + 1) * (2 + 2) / 2)
      ∧ family_ok h2 m.Q_M2 (bitSet (ALLOC_MFE_DEFAULT ||| ALLOC_CIRC) ALLOC_CIRC) (2 + 2))) :=
  ⟨by decide,
    sparse_allocation_shape viennaConsts sampleOps 2 (ALLOC_MFE_DEFAULT ||| ALLOC_CIRC)
      Heap.empty (by decide)⟩

/-! ## Remainder arrays of the sparse MFE families -/

/-- C4 fails as stated: at length 1 with the bit `ALLOC_F5`, the remainder array
`E_F5_rem` has 3 entries and its last one, at index 2, holds 0 and not `INF`:
the loop that fills it stops at index `n`. -/
theorem linear_remainder_last_entry_zero :
    ∃ m h2, get_mfe_matrices_alloc (R := ℚ) viennaConsts 1 MxType.VRNA_MX_2DFOLD ALLOC_F5
        Heap.empty = Outcome.ok m h2
      ∧ bitSet ALLOC_F5 ALLOC_F5 = true
      ∧ h2.extent m.F5.rem = some 3
      ∧ h2.cell m.F5.rem 2 = some (Cell.int 0)
      ∧ viennaConsts.INF ≠ 0 :=
  ⟨_, _, rfl, rfl, rfl, rfl, by decide⟩

/-- C4, amended: after sparse MFE allocation, for every `n` the size guard
accepts and every family whose bit is set, the remainder arrays of `C`, `M`
and `M1` have `(n + 1) * (n + 2) / 2` entries and all of them equal `INF`;
the linear remainder arrays of `F5`, `F3` and `M2` have `n + 2` entries, the
ones at the indices `0 .. n` equal `INF`, and the last one, at index
`n + 1`, is not written by the loop and holds 0. -/
theorem sparse_remainders_initialised {R : Type} (K : Consts) (n v : Nat) (h : Heap R)
    (hn : size_guard n = false) :
    ∃ m h2, get_mfe_matrices_alloc (R := R) K n MxType.VRNA_MX_2DFOLD v h = Outcome.ok m h2
      ∧ (bitSet v ALLOC_F5 = true →
          h2.extent m.F5.rem = some (n + 2)
          ∧ (∀ i : Nat, i ≤ n → h2.cell m.F5.rem (i : Int) = some (Cell.int K.INF))
          ∧ h2.cell m.F5.rem ((n + 1 : Nat) : Int) = some (Cell.int 0))
      ∧ (bitSet v ALLOC_F3 = true →
          h2.extent m.F3.rem = some (n + 2)
          ∧ (∀ i : Nat, i ≤ n → h2.cell m.F3.rem (i : Int) = some (Cell.int K.INF))
          ∧ h2.cell m.F3.rem ((n + 1 : Nat) : Int) = some (Cell.int 0))
      ∧ (bitSet v ALLOC_C = true →
          h2.extent m.C.rem = some ((n + 1) * (n + 2) / 2)
          ∧ ∀ i : Nat, i < (n + 1) * (n + 2) / 2 →
              h2.cell m.C.rem (i : Int) = some (Cell.int K.INF))
      ∧ (bitSet v ALLOC_FML = true →
          h2.extent m.M.rem = some ((n + 1) * (n + 2) / 2)
          ∧ ∀ i : Nat, i < (n + 1) * (n + 2) / 2 →
              h2.cell m.M.rem (i : Int) = some (Cell.int K.INF))
      ∧ (bitSet v ALLOC_UNIQ = true →
          h2.extent m.M1.rem = some ((n + 1) * (n + 2) / 2)
          ∧ ∀ i : Nat, i < (n + 1) * (n + 2) / 2 →
              h2.cell m.M1.rem (i : Int) = some (Cell.int K.INF))
      ∧ (bitSet v ALLOC_CIRC = true →
          h2.extent m.M2.rem = some (n + 2)
          ∧ (∀ i : Nat, i ≤ n → h2.cell m.M2.rem (i : Int) = some (Cell.int K.INF))
          ∧ h2.cell m.M2.rem ((n + 1 : Nat) : Int) = some (Cell.int 0)) := by
  obtain ⟨hs, hl⟩ := size_of_accepted hn
  obtain ⟨p0, h0, e0, l0, -, -⟩ := vrna_alloc_spec [Cell.struct] h
  obtain ⟨p1, h1, e1, l1, b1, c1⟩ := alloc_sparse_mfe_spec K (bitSet v ALLOC_F5) (n + 2) (n + 1) h0 (by omega)
  obtain ⟨p2, h2, e2, l2, b2, c2⟩ := alloc_sparse_mfe_spec K (bitSet v ALLOC_F3) (n + 2) (n + 1) h1 (by omega)
  obtain ⟨p3, h3, e3, l3, b3, c3⟩ := alloc_sparse_mfe_spec K (bitSet v ALLOC_C) ((n + 1) * (n + 2) / 2) ((n + 1) * (n + 2) / 2) h2 (by omega)
  obtain ⟨p4, h4, e4, l4, b4, c4⟩ := alloc_sparse_mfe_spec K (bitSet v ALLOC_FML) ((n + 1) * (n + 2) / 2) ((n + 1) * (n + 2) / 2) h3 (by omega)
  obtain ⟨p5, h5, e5, l5, b5, c5⟩ := alloc_sparse_mfe_spec K (bitSet v ALLOC_UNIQ) ((n + 1) * (n + 2) / 2) ((n + 1) * (n + 2) / 2) h4 (by omega)
  obtain ⟨p6, h6, e6, l6, b6, c6⟩ := alloc_sparse_mfe_spec K (bitSet v ALLOC_CIRC) (n + 2) (n + 1) h5 (by omega)
  have key : ∃ m, get_mfe_matrices_alloc K n MxType.VRNA_MX_2DFOLD v h = Outcome.ok m h6
      ∧ m.F5 = p1 ∧ m.F3 = p2 ∧ m.C = p3 ∧ m.M = p4 ∧ m.M1 = p5 ∧ m.M2 = p6 := by
    simp only [get_mfe_matrices_alloc, hn, bind_apply, pure_apply, vrna_alloc_struct, hs, hl,
      Bool.false_eq_true, if_false, e0, e1, e2, e3, e4, e5, e6]
    exact ⟨_, rfl, rfl, rfl, rfl, rfl, rfl, rfl⟩
  obtain ⟨m, em, q1, q2, q3, q4, q5, q6⟩ := key
  refine ⟨m, h6, em, ?_⟩
  rw [q1, q2, q3, q4, q5, q6]
  have lin : ∀ {g : Heap R} {fam : SparseFam} {present : Bool}, g.le h6 →
      family_ok g fam present (n + 2) →
      (present = true → ∀ i : Nat, i < n + 2 →
          g.cell fam.rem (i : Int) = some (Cell.int (if i < n + 1 then K.INF else 0))) →
      present = true →
        h6.extent fam.rem = some (n + 2)
        ∧ (∀ i : Nat, i ≤ n → h6.cell fam.rem (i : Int) = some (Cell.int K.INF))
        ∧ h6.cell fam.rem ((n + 1 : Nat) : Int) = some (Cell.int 0) := by
    intro g fam present hle hok hc hp
    refine ⟨Heap.extent_mono hle (hok.2.2.2.2.2.2 (hok.2.2.2.2.2.1.mpr hp)), ?_, ?_⟩
    · intro i hi
      have hx := hc hp i (by omega)
      rw [if_pos (by omega)] at hx
      exact Heap.cell_mono hle hx
    · have hx := hc hp (n + 1) (by omega)
      rw [if_neg (by omega)] at hx
      exact Heap.cell_mono hle hx
  have tri : ∀ {g : Heap R} {fam : SparseFam} {present : Bool}, g.le h6 →
      family_ok g fam present ((n + 1) * (n + 2) / 2) →
      (present = true → ∀ i : Nat, i < (n + 1) * (n + 2) / 2 →
          g.cell fam.rem (i : Int)
            = some (Cell.int (if i < (n + 1) * (n + 2) / 2 then K.INF else 0))) →
      present = true →
        h6.extent fam.rem = some ((n + 1) * (n + 2) / 2)
        ∧ ∀ i : Nat, i < (n + 1) * (n + 2) / 2 →
            h6.cell fam.rem (i : Int) = some (Cell.int K.INF) := by
    intro g fam present hle hok hc hp
    refine ⟨Heap.extent_mono hle (hok.2.2.2.2.2.2 (hok.2.2.2.2.2.1.mpr hp)), ?_⟩
    intro i hi
    have hx := hc hp i hi
    rw [if_pos hi] at hx
    exact Heap.cell_mono hle hx
  exact ⟨lin (l2.trans (l3.trans (l4.trans (l5.trans l6)))) b1 c1,
    lin (l3.trans (l4.trans (l5.trans l6))) b2 c2,
    tri (l4.trans (l5.trans l6)) b3 c3, tri (l5.trans l6) b4 c4, tri l6 b5 c5,
    lin (Heap.le.refl h6) b6 c6⟩

/-- The remainder arrays at length 2 with the default MFE families and the
circular one: `E_F5_rem` and `E_M2_rem` have 4 entries, the first three are
`INF` and the one at index 3 is 0; `E_C_rem` and `E_M_rem` have 6 entries,
all `INF`. -/
theorem sparse_remainders_initialised_witness :
    size_guard 2 = false
    ∧ ∃ m h2, get_mfe_matrices_alloc (R := ℚ) viennaConsts 2 MxType.VRNA_MX_2DFOLD
          (ALLOC_MFE_DEFAULT ||| ALLOC_CIRC) (Heap.empty : Heap ℚ) = Outcome.ok m h2
        ∧ h2.extent m.F5.rem = some 4
        ∧ (∀ i : Nat, i ≤ 2 → h2.cell m.F5.rem (i : Int) = some (Cell.int viennaConsts.INF))
        ∧ h2.cell m.F5.rem 3 = some (Cell.int 0)
        ∧ h2.extent m.C.rem = some 6
        ∧ (∀ i : Nat, i < 6 → h2.cell m.C.rem (i : Int) = some (Cell.int viennaConsts.INF))
        ∧ h2.extent m.M.rem = some 6
        ∧ (∀ i : Nat, i < 6 → h2.cell m.M.rem (i : Int) = some (Cell.int viennaConsts.INF))
        ∧ h2.extent m.M2.rem = some 4
        ∧ (∀ i : Nat, i ≤ 2 → h2.cell m.M2.rem (i : Int) = some (Cell.int viennaConsts.INF))
        ∧ h2.cell m.M2.rem 3 = some (Cell.int 0) := by
  refine ⟨by decide, ?_⟩
  obtain ⟨m, h2, e, a1, -, a3, a4, -, a6⟩ := sparse_remainders_initialised (R := ℚ)
    viennaConsts 2 (ALLOC_MFE_DEFAULT ||| ALLOC_CIRC) Heap.empty (by decide)
  obtain ⟨x1, x2, x3⟩ := a1 (by decide)
  obtain ⟨y1, y2⟩ := a3 (by decide)
  obtain ⟨z1, z2⟩ := a4 (by decide)
  obtain ⟨w1, w2, w3⟩ := a6 (by decide)
  exact ⟨m, h2, e, x1, x2, x3, y1, y2, z1, z2, w1, w2, w3⟩

/-! ## The allocation vector -/

/-- C5: for every model-details record and every options mask the bitmask of
`get_mx_alloc_vector` is the reference one: the bitwise OR of
`ALLOC_F5 | ALLOC_C | ALLOC_FML` if `VRNA_OPTION_MFE` is set, of
`ALLOC_F | ALLOC_C | ALLOC_FML` if `VRNA_OPTION_PF` is set, together with
`ALLOC_PROBS | ALLOC_AUX` exactly when `compute_bpp` is non-zero, of
`ALLOC_HYBRID` if `VRNA_OPTION_HYBRID` is set, of `ALLOC_CIRC` if `circ` is
non-zero and of `ALLOC_UNIQ` if `circ` or `uniq_ML` is non-zero.
`ALLOC_PROBS` is set iff partition function mode is requested with
probability output, and so is `ALLOC_AUX`; no bit other than the nine
`ALLOC_` bits is set. -/
theorem alloc_vector_matches_reference {R : Type} (K : Consts) (md : ModelDetails R)
    (options : Nat) :
    (get_mx_alloc_vector K md options).1 = alloc_vector_reference K md options
    ∧ (bitSet (get_mx_alloc_vector K md options).1 ALLOC_PROBS = true ↔
        (bitSet options K.VRNA_OPTION_PF = true ∧ md.compute_bpp ≠ 0))
    ∧ (bitSet (get_mx_alloc_vector K md options).1 ALLOC_AUX = true ↔
        (bitSet options K.VRNA_OPTION_PF = true ∧ md.compute_bpp ≠ 0))
    ∧ (get_mx_alloc_vector K md options).1 &&&
        (ALLOC_F ||| ALLOC_F5 ||| ALLOC_C ||| ALLOC_FML ||| ALLOC_PROBS ||| ALLOC_AUX
          ||| ALLOC_CIRC ||| ALLOC_HYBRID ||| ALLOC_UNIQ)
        = (get_mx_alloc_vector K md options).1 := by
  unfold get_mx_alloc_vector alloc_vector_reference
  by_cases h1 : bitSet options K.VRNA_OPTION_MFE = true <;>
  by_cases h2 : bitSet options K.VRNA_OPTION_PF = true <;>
  by_cases h3 : bitSet options K.VRNA_OPTION_HYBRID = true <;>
  by_cases h4 : md.compute_bpp = 0 <;>
  by_cases h5 : md.circ = 0 <;>
  by_cases h6 : md.uniq_ML = 0 <;>
  simp [h1, h2, h3, h4, h5, h6] <;> decide

/-- C6: for a model-details record with `circ` set, the bitmask of
`get_mx_alloc_vector` contains `ALLOC_CIRC` and `ALLOC_UNIQ` and the record
is left with `uniq_ML = 1`; for every record, no field other than `uniq_ML`
is changed; a record with `circ` not set is not changed at all. -/
theorem alloc_vector_circular_frame {R : Type} (K : Consts) (md : ModelDetails R)
    (options : Nat) :
    (md.circ ≠ 0 →
      bitSet (get_mx_alloc_vector K md options).1 ALLOC_CIRC = true
      ∧ bitSet (get_mx_alloc_vector K md options).1 ALLOC_UNIQ = true
      ∧ (get_mx_alloc_vector K md options).2.uniq_ML = 1)
    ∧ (get_mx_alloc_vector K md options).2
        = { md with uniq_ML := (get_mx_alloc_vector K md options).2.uniq_ML }
    ∧ (md.circ = 0 → (get_mx_alloc_vector K md options).2 = md) := by
  unfold get_mx_alloc_vector
  by_cases h1 : bitSet options K.VRNA_OPTION_MFE = true <;>
  by_cases h2 : bitSet options K.VRNA_OPTION_PF = true <;>
  by_cases h3 : bitSet options K.VRNA_OPTION_HYBRID = true <;>
  by_cases h4 : md.compute_bpp = 0 <;>
  by_cases h5 : md.circ = 0 <;>
  simp [h1, h2, h3, h4, h5] <;>
  first
  | decide
  | (cases md; simp_all)

/-- The circular case at `sampleMd` with `circ := 1`, and the linear case at
`sampleMd`, both with the options mask `VRNA_OPTION_MFE`. -/
theorem alloc_vector_circular_frame_witness :
    (({ sampleMd with circ := 1 } : ModelDetails ℚ).circ ≠ 0
      ∧ bitSet (get_mx_alloc_vector viennaConsts { sampleMd with circ := 1 } 1).1 ALLOC_CIRC
          = true
      ∧ bitSet (get_mx_alloc_vector viennaConsts { sampleMd with circ := 1 } 1).1 ALLOC_UNIQ
          = true
      ∧ (get_mx_alloc_vector viennaConsts { sampleMd with circ := 1 } 1).2.uniq_ML = 1)
    ∧ (sampleMd.circ = 0 ∧ (get_mx_alloc_vector viennaConsts sampleMd 1).2 = sampleMd) :=
  ⟨⟨by decide,
      (alloc_vector_circular_frame viennaConsts { sampleMd with circ := 1 } 1).1 (by decide)⟩,
    rfl, (alloc_vector_circular_frame viennaConsts sampleMd 1).2.2 rfl⟩

/-! ## The scale tables -/

/-- C7: on a fold compound of length `n` whose scale tables are allocated
(with at least `n + 2` entries, as `get_pf_matrices_alloc` does),
`rescale_params` returns and leaves `scale[0] = 1`, `scale[1] = 1 / pf_scale`
and `scale[i] = scale[i / 2] * scale[i - i / 2]` for every `i` with
`2 ≤ i ≤ n`; both indices read on the right-hand side are smaller than `i`.
It holds for every `pf_scale`, a non-zero one in particular. -/
theorem scale_table_invariant (F : FltOps R) (vc : FoldCompound R) (m : PfMx R)
    (pf : ExpParams R) (h : Heap R)
    (hm : vc.exp_matrices = some m) (hp : vc.exp_params = some pf)
    (hr : scale_tables_ready h m vc.length) :
    ∃ h2, rescale_params F vc h = Outcome.ok () h2
      ∧ h2.cell m.scale 0 = some (Cell.flt (F.lit 1))
      ∧ h2.cell m.scale 1 = some (Cell.flt (F.div (F.lit 1) pf.pf_scale))
      ∧ ∀ i : Nat, 2 ≤ i → i ≤ vc.length →
          i / 2 < i ∧ i - i / 2 < i
          ∧ ∃ a b, h2.cell m.scale ((i / 2 : Nat) : Int) = some (Cell.flt a)
              ∧ h2.cell m.scale ((i - i / 2 : Nat) : Int) = some (Cell.flt b)
              ∧ h2.cell m.scale (i : Int) = some (Cell.flt (F.mul a b)) := by
  obtain ⟨bs, be, S, E, hs, he, hne, hS, hE, hSl, hEl⟩ := hr
  have hbsl := getElem?_lt hS
  have hbel := getElem?_lt hE
  -- the four stores before the loop
  have e1 := store_eq (k := 0) (Cell.flt (F.lit 1)) hS rfl (by show 0 < S.length; omega)
  have hS1 : (h.blocks.set bs { cells := S.set 0 (Cell.flt (F.lit 1)), freed := false })[bs]?
      = some { cells := S.set 0 (Cell.flt (F.lit 1)), freed := false } :=
    List.getElem?_set_self hbsl
  have e2 := store_eq (k := 1) (Cell.flt (F.div (F.lit 1) pf.pf_scale))
    (h := { blocks := h.blocks.set bs { cells := S.set 0 (Cell.flt (F.lit 1)), freed := false },
            released := h.released }) hS1 rfl (by simp; omega)
  obtain ⟨S0, hS0⟩ : ∃ S0, S0 = (S.set 0 (Cell.flt (F.lit 1))).set 1
      (Cell.flt (F.div (F.lit 1) pf.pf_scale)) := ⟨_, rfl⟩
  obtain ⟨B2, hB2⟩ : ∃ B2, B2 = (h.blocks.set bs
      { cells := S.set 0 (Cell.flt (F.lit 1)), freed := false }).set bs
      { cells := S0, freed := false } := ⟨_, rfl⟩
  have hS2 : B2[bs]? = some { cells := S0, freed := false } := by
    rw [hB2]; exact List.getElem?_set_self (by simpa using hbsl)
  have hE2 : B2[be]? = some { cells := E, freed := false } := by
    rw [hB2, List.getElem?_set_ne hne, List.getElem?_set_ne hne]; exact hE
  have hB2l : be < B2.length := getElem?_lt hE2
  have e3 := store_eq (k := 0) (Cell.flt (F.ofInt 1))
    (h := { blocks := B2, released := h.released }) hE2 rfl (by show 0 < E.length; omega)
  have hE3 : (B2.set be { cells := E.set 0 (Cell.flt (F.ofInt 1)), freed := false })[be]?
      = some { cells := E.set 0 (Cell.flt (F.ofInt 1)), freed := false } :=
    List.getElem?_set_self hB2l
  have e4 := store_eq (k := 1) (Cell.flt (F.div pf.expMLbase pf.pf_scale))
    (h := { blocks := B2.set be { cells := E.set 0 (Cell.flt (F.ofInt 1)), freed := false },
            released := h.released }) hE3 rfl (by simp; omega)
  obtain ⟨E0, hE0⟩ : ∃ E0, E0 = (E.set 0 (Cell.flt (F.ofInt 1))).set 1
      (Cell.flt (F.div pf.expMLbase pf.pf_scale)) := ⟨_, rfl⟩
  obtain ⟨B4, hB4⟩ : ∃ B4, B4 = (B2.set be
      { cells := E.set 0 (Cell.flt (F.ofInt 1)), freed := false }).set be
      { cells := E0, freed := false } := ⟨_, rfl⟩
  have hS4 : B4[bs]? = some { cells := S0, freed := false } := by
    rw [hB4, List.getElem?_set_ne (Ne.symm hne), List.getElem?_set_ne (Ne.symm hne)]; exact hS2
  have hE4 : B4[be]? = some { cells := E0, freed := false } := by
    rw [hB4]; exact List.getElem?_set_self (by simpa using hB2l)
  have hS00 : S0[0]? = some (Cell.flt (F.lit 1)) := by
    rw [hS0, List.getElem?_set_ne (by omega)]; exact List.getElem?_set_self (by omega)
  have hS01 : S0[1]? = some (Cell.flt (F.div (F.lit 1) pf.pf_scale)) := by
    rw [hS0]; exact List.getElem?_set_self (by simp; omega)
  obtain ⟨h2, S2, E2, el, hS5, hE5, hpre, hinv⟩ := rescale_loop F pf bs be hne
    (vc.length - 1) 2 { blocks := B4, released := h.released } S0 E0 (by omega) hS4 hE4
    (by rw [hS0]; simp; omega) (by rw [hE0]; simp; omega)
    (by
      intro j hj
      have : j = 0 ∨ j = 1 := by omega
      rcases this with rfl | rfl
      · exact ⟨_, hS00⟩
      · exact ⟨_, hS01⟩)
  refine ⟨h2, ?_, ?_, ?_, ?_⟩
  · simp only [rescale_params, hm, hp, hs, he, bind_apply]
    have e1' : store (Ptr.mk bs 0) 0 (Cell.flt (F.lit 1)) h = _ := e1
    rw [e1']
    simp only []
    have e2' : store (Ptr.mk bs 0) 1 (Cell.flt (F.div (F.lit 1) pf.pf_scale)) _ = _ := e2
    rw [e2']
    simp only []
    rw [← hS0, ← hB2]
    have e3' : store (Ptr.mk be 0) 0 (Cell.flt (F.ofInt 1)) _ = _ := e3
    rw [e3']
    simp only []
    have e4' : store (Ptr.mk be 0) 1 (Cell.flt (F.div pf.expMLbase pf.pf_scale)) _ = _ := e4
    rw [e4']
    simp only []
    rw [← hE0, ← hB4]
    exact el
  · rw [hs]
    have := cell_at (k := 0) hS5
    simp only [Nat.cast_zero] at this
    rw [this, hpre 0 (by omega)]; exact hS00
  · rw [hs]
    have := cell_at (k := 1) hS5
    simp only [Nat.cast_one] at this
    rw [this, hpre 1 (by omega)]; exact hS01
  · intro i h1 h2'
    refine ⟨by omega, by omega, ?_⟩
    obtain ⟨a, b, ha, hb, hab⟩ := hinv i h1 (by omega)
    refine ⟨a, b, ?_, ?_, ?_⟩
    · rw [hs, cell_at hS5]; exact ha
    · rw [hs, cell_at hS5]; exact hb
    · rw [hs, cell_at hS5]; exact hab

/-- The invariant on `sampleScaleVc`, of length 3, with `pf_scale = 2`. -/
theorem scale_table_invariant_witness :
    sampleScaleVc.exp_matrices = some sampleScaleMx
    ∧ sampleScaleVc.exp_params = some sampleScaleParams
    ∧ sampleScaleParams.pf_scale ≠ 0
    ∧ scale_tables_ready sampleScaleHeap sampleScaleMx sampleScaleVc.length ∧
   (∃ h2, rescale_params sampleOps sampleScaleVc sampleScaleHeap = Outcome.ok () h2
      ∧ h2.cell sampleScaleMx.scale 0 = some (Cell.flt (sampleOps.lit 1))
      ∧ h2.cell sampleScaleMx.scale 1 = some (Cell.flt (sampleOps.div (sampleOps.lit 1) sampleScaleParams.pf_scale))
      ∧ ∀ i : Nat, 2 ≤ i → i ≤ sampleScaleVc.length →
          i / 2 < i ∧ i - i / 2 < i
          ∧ ∃ a b, h2.cell sampleScaleMx.scale ((i / 2 : Nat) : Int) = some (Cell.flt a)
              ∧ h2.cell sampleScaleMx.scale ((i - i / 2 : Nat) : Int) = some (Cell.flt b)
              ∧ h2.cell sampleScaleMx.scale (i : Int) = some (Cell.flt (sampleOps.mul a b))) :=
  ⟨rfl, rfl, by decide, ⟨2, 3, _, _, rfl, rfl, by decide, rfl, rfl, by decide, by decide⟩,
    scale_table_invariant sampleOps sampleScaleVc sampleScaleMx sampleScaleParams
      sampleScaleHeap rfl rfl
      ⟨2, 3, _, _, rfl, rfl, by decide, rfl, rfl, by decide, by decide⟩⟩

/-! ## The size guard -/

/-- C8: for every `n` with `n * n > INT_MAX`, every matrix type and every
bitmask, `get_mfe_matrices_alloc` and `get_pf_matrices_alloc` signal the
error "sequence length exceeds addressable range", and the heap is the one
they were called with: nothing has been allocated. -/
theorem allocators_overflow_guard {R : Type} (K : Consts) (F : FltOps R) (n : Nat) (type : MxType) (v : Nat)
    (h : Heap R) (hn : INT_MAX < n * n) :
    get_mfe_matrices_alloc K n type v h = Outcome.fail (Fault.message msg_mfe_range) h
    ∧ get_pf_matrices_alloc F n type v h = Outcome.fail (Fault.message msg_pf_range) h := by
  have hg := size_guard_of_sq hn
  constructor
  · simp [get_mfe_matrices_alloc, hg, bind_apply, vrna_message_error, raise]
  · simp [get_pf_matrices_alloc, hg, bind_apply, vrna_message_error, raise]

/-- The guard at `n = 46341`, the smallest length whose square exceeds
`INT_MAX`. -/
theorem allocators_overflow_guard_witness :
    INT_MAX < 46341 * 46341
    ∧ get_mfe_matrices_alloc viennaConsts 46341 MxType.VRNA_MX_2DFOLD ALLOC_MFE_DEFAULT
          (Heap.empty : Heap ℚ) = Outcome.fail (Fault.message msg_mfe_range) Heap.empty
    ∧ get_pf_matrices_alloc sampleOps 46341 MxType.VRNA_MX_2DFOLD ALLOC_MFE_DEFAULT
          (Heap.empty : Heap ℚ) = Outcome.fail (Fault.message msg_pf_range) Heap.empty :=
  ⟨by decide,
    allocators_overflow_guard viennaConsts sampleOps 46341 MxType.VRNA_MX_2DFOLD
      ALLOC_MFE_DEFAULT Heap.empty (by decide)⟩

/-! ## The constructors -/

/-- C9 fails as stated: with the options `VRNA_OPTION_MFE | VRNA_OPTION_EVAL_ONLY`
(mask 9), `vrna_get_fold_compound` on a sequence of length 46341, whose
square exceeds `INT_MAX`, returns a fold compound, without matrices: the
size guard is in the matrix allocators, which are not called. -/
theorem eval_only_constructor_accepts_long_sequence :
    ∃ vc h2, vrna_get_fold_compound viennaConsts sampleOps sampleExt
        (some (List.replicate 46341 'A')) (some sampleMd) 9 Heap.empty = Outcome.ok (some vc) h2
      ∧ vc.length = 46341 ∧ vc.matrices = none ∧ vc.exp_matrices = none
      ∧ INT_MAX < 46341 * 46341 := by
  have hlen : (List.replicate 46341 'A').length = 46341 := List.length_replicate _ _
  have h0 : strlen_int (List.replicate 46341 'A') ≠ 0 := by
    rw [strlen_int_of_length _ 46341 hlen (by decide)]
    decide
  have hc : ∀ q : List Char, (sampleExt.vrna_cut_point_remove q).1 = q := fun _ => rfl
  obtain ⟨vc, h2, e, hl, hm, hp⟩ := single_ctor_eval_only viennaConsts sampleOps sampleExt
    (List.replicate 46341 'A') (some sampleMd) 9 Heap.empty h0 (by decide)
  rw [hc, strlen_uint_of_length _ 46341 hlen (by decide)] at hl
  exact ⟨vc, h2, e, hl, hm, hp, by decide⟩

/-- C9, amended: when the options request MFE or partition function
matrices and not `VRNA_OPTION_EVAL_ONLY`, each of the three constructors,
called with a sequence of length `n` such that `n * n > INT_MAX` (for
`vrna_get_fold_compound` and `vrna_get_fold_compound_2D`: such that the
sequence without its cut point marker has such a length `m`, too), ends with
the error "sequence length exceeds addressable range" of a matrix allocator
and returns no fold compound. -/
theorem constructors_size_limit {R : Type} (K : Consts) (F : FltOps R) (E : Ext R)
    (sequence s1 s2 : List Char) (rest : List (List Char))
    (md_p : Option (ModelDetails R)) (options : Nat) (h : Heap R) (n m : Nat)
    (hlen : sequence.length = n) (hpos : 0 < n) (hfit : n ≤ INT_MAX) (hn : INT_MAX < n * n)
    (hcut : (E.vrna_cut_point_remove sequence).1.length = m) (hmfit : m ≤ INT_MAX)
    (hm : INT_MAX < m * m)
    (hs1 : s1.length = n) (hs2 : s2.length = n) (hrest : ∀ q ∈ rest, q.length = n)
    (he : bitSet options K.VRNA_OPTION_EVAL_ONLY = false)
    (hreq : bitSet options K.VRNA_OPTION_MFE = true ∨ bitSet options K.VRNA_OPTION_PF = true) :
    (∃ f h2, vrna_get_fold_compound K F E (some sequence) md_p options h = Outcome.fail f h2
        ∧ (f = Fault.message msg_mfe_range ∨ f = Fault.message msg_pf_range))
    ∧ (∃ f h2, vrna_get_fold_compound_ali K F E (some (sequence :: rest)) md_p options h
          = Outcome.fail f h2
        ∧ (f = Fault.message msg_mfe_range ∨ f = Fault.message msg_pf_range))
    ∧ (∃ f h2, vrna_get_fold_compound_2D K F E (some sequence) (some s1) (some s2) md_p
          options h = Outcome.fail f h2
        ∧ (f = Fault.message msg_mfe_range ∨ f = Fault.message msg_pf_range)) := by
  have hi : strlen_int sequence = (n : Int) := strlen_int_of_length _ n hlen hfit
  have h0 : strlen_int sequence ≠ 0 := by rw [hi]; omega
  have hgm : size_guard (strlen_uint (E.vrna_cut_point_remove sequence).1) = true := by
    rw [strlen_uint_of_length _ m hcut (by unfold INT_MAX at hmfit; unfold UINT_MOD; omega)]
    exact size_guard_of_sq hm
  have hgn : size_guard (strlen_uint sequence) = true := by
    rw [strlen_uint_of_length _ n hlen (by unfold INT_MAX at hfit; unfold UINT_MOD; omega)]
    exact size_guard_of_sq hn
  refine ⟨single_ctor_refused K F E sequence md_p options h h0 he hreq hgm,
    ali_ctor_refused K F E sequence rest md_p options h h0 ?_ he hreq hgn,
    twoD_ctor_refused K F E sequence s1 s2 md_p options h h0
      (by rw [hi]; exact strlen_int_of_length _ n hs1 hfit)
      (by rw [hi]; exact strlen_int_of_length _ n hs2 hfit) he hreq hgm⟩
  intro q hq
  have hql : q.length = n := by
    rcases List.mem_cons.mp hq with rfl | hq
    · exact hlen
    · exact hrest q hq
  rw [hi, hql]
  unfold to_size_t
  unfold INT_MAX at hfit
  omega

/-- The size limit for a sequence of 46341 nucleotides, with the options mask
`VRNA_OPTION_MFE`. -/
theorem constructors_size_limit_witness :
    (List.replicate 46341 'A').length = 46341
    ∧ INT_MAX < 46341 * 46341
    ∧ bitSet 1 viennaConsts.VRNA_OPTION_EVAL_ONLY = false
    ∧ bitSet 1 viennaConsts.VRNA_OPTION_MFE = true
    ∧ ((∃ f h2, vrna_get_fold_compound viennaConsts sampleOps sampleExt
            (some (List.replicate 46341 'A')) (some sampleMd) 1 Heap.empty
            = Outcome.fail f h2
          ∧ (f = Fault.message msg_mfe_range ∨ f = Fault.message msg_pf_range))
      ∧ (∃ f h2, vrna_get_fold_compound_ali viennaConsts sampleOps sampleExt
            (some (List.replicate 46341 'A' :: [])) (some sampleMd) 1 Heap.empty
            = Outcome.fail f h2
          ∧ (f = Fault.message msg_mfe_range ∨ f = Fault.message msg_pf_range))
      ∧ (∃ f h2, vrna_get_fold_compound_2D viennaConsts sampleOps sampleExt
            (some (List.replicate 46341 'A')) (some (List.replicate 46341 '.'))
            (some (List.replicate 46341 '.')) (some sampleMd) 1 Heap.empty
            = Outcome.fail f h2
          ∧ (f = Fault.message msg_mfe_range ∨ f = Fault.message msg_pf_range))) :=
  ⟨List.length_replicate _ _, by decide, by decide, by decide,
    constructors_size_limit viennaConsts sampleOps sampleExt (List.replicate 46341 'A')
      (List.replicate 46341 '.') (List.replicate 46341 '.') [] (some sampleMd) 1 Heap.empty
      46341 46341 (List.length_replicate _ _) (by decide) (by decide) (by decide)
      (List.length_replicate _ _) (by decide) (by decide)
      (List.length_replicate _ _) (List.length_replicate _ _)
      (fun _ hq => absurd hq (List.not_mem_nil _)) (by decide) (Or.inl (by decide))⟩

/-- C10: each of the three constructors, called with the empty string as
sequence (the alignment constructor: with an empty first sequence), ends with
its "sequence length must be greater 0" error, for every model-details
record and every options mask, and the heap is the one it was called with:
the fold compound has not been allocated. -/
theorem constructors_reject_empty_sequence {R : Type} (K : Consts) (F : FltOps R) (E : Ext R)
    (md_p : Option (ModelDetails R)) (options : Nat) (h : Heap R)
    (rest : List (List Char)) (s1 s2 : Option (List Char)) :
    vrna_get_fold_compound K F E (some []) md_p options h
        = Outcome.fail (Fault.message msg_fc_empty) h
    ∧ vrna_get_fold_compound_ali K F E (some ([] :: rest)) md_p options h
        = Outcome.fail (Fault.message msg_ali_empty) h
    ∧ vrna_get_fold_compound_2D K F E (some []) s1 s2 md_p options h
        = Outcome.fail (Fault.message msg_2D_empty) h := by
  have h0 : strlen_int [] = 0 := by decide
  refine ⟨?_, ?_, ?_⟩
  · simp [vrna_get_fold_compound, h0, bind_apply, vrna_message_error, raise]
  · simp [vrna_get_fold_compound_ali, h0, bind_apply, pure_apply, vrna_message_error, raise]
  · simp [vrna_get_fold_compound_2D, h0, bind_apply, vrna_message_error, raise]

/-! ## Validation in the alignment constructor -/

/-- C11 fails as stated: for an alignment of one sequence of 2147483648
characters, which is `INT_MAX + 1`, `vrna_get_fold_compound_ali` stops with
the validation error for unequal lengths, although the first sequence is
not empty and no sequence has a length different from the first one:
`int length = strlen(sequences[0])` is negative and differs from `strlen` of
the same sequence. -/
theorem alignment_of_long_sequence_refused :
    vrna_get_fold_compound_ali viennaConsts sampleOps sampleExt
        (some [List.replicate 2147483648 'A']) (some sampleMd) 0 Heap.empty
      = Outcome.fail (Fault.message msg_ali_unequal) Heap.empty
    ∧ (Fault.message msg_ali_unequal).validation = true
    ∧ List.replicate 2147483648 'A' ≠ []
    ∧ (∀ q ∈ [List.replicate 2147483648 'A'],
        q.length = (List.replicate 2147483648 'A').length)
    ∧ (List.replicate 2147483648 'A').length = INT_MAX + 1 := by
  refine ⟨ali_ctor_long_first _ _ _ _ _ _ _ _ (List.length_replicate _ _), by decide, ?_, ?_,
    ?_⟩
  · intro hq
    have hc := congrArg List.length hq
    rw [List.length_replicate] at hc
    exact absurd hc (by decide)
  · intro q hq
    rw [List.mem_singleton.mp hq]
  · rw [List.length_replicate]
    decide

/-- C11, amended: for a list of sequences whose first one has at most
`INT_MAX` characters, so that its length fits `int`,
`vrna_get_fold_compound_ali` stops with a validation error if and only if
the first sequence is empty or some sequence has a length different from
the first one: it stops with the message for an empty sequence in the first
case and with the message for unequal lengths in the second, before it has
obtained any memory.  When it returns, it returns a fold compound whose
`n_seq` is the number of sequences and whose `length` is the length of the
first sequence. -/
theorem alignment_validation {R : Type} (K : Consts) (F : FltOps R) (E : Ext R)
    (first : List Char) (rest : List (List Char)) (md_p : Option (ModelDetails R))
    (options : Nat) (h : Heap R) (hlen : first.length ≤ INT_MAX) :
    ((∃ f h2, vrna_get_fold_compound_ali K F E (some (first :: rest)) md_p options h
          = Outcome.fail f h2 ∧ f.validation = true)
      ↔ (first = [] ∨ ∃ q ∈ rest, q.length ≠ first.length))
    ∧ (first = [] →
        vrna_get_fold_compound_ali K F E (some (first :: rest)) md_p options h
          = Outcome.fail (Fault.message msg_ali_empty) h)
    ∧ (first ≠ [] → (∃ q ∈ rest, q.length ≠ first.length) →
        vrna_get_fold_compound_ali K F E (some (first :: rest)) md_p options h
          = Outcome.fail (Fault.message msg_ali_unequal) h)
    ∧ (∀ r h2, vrna_get_fold_compound_ali K F E (some (first :: rest)) md_p options h
          = Outcome.ok r h2 →
        ∃ vc, r = some vc ∧ vc.n_seq = (first :: rest).length
          ∧ vc.length = first.length) := by
  have hs : strlen_int first = (first.length : Int) := strlen_int_small first hlen
  have hz : to_size_t (strlen_int first) = (first.length : Int) := by
    rw [hs]
    unfold to_size_t
    unfold INT_MAX at hlen
    omega
  have h0 : first ≠ [] → strlen_int first ≠ 0 := by
    intro hne hq
    rw [hs] at hq
    have : first.length = 0 := by omega
    exact hne (List.length_eq_zero.mp this)
  have hget : ∀ i, i < (first :: rest).length →
      List.getD (first :: rest) i [] ∈ first :: rest := by
    intro i hi
    rw [List.getD_eq_getElem _ _ hi]
    exact List.getElem_mem _
  -- the loop that compares the lengths, when they agree
  have ec : (∀ q ∈ rest, q.length = first.length) →
      forRange (R := R) (fun s =>
        if (((List.getD (first :: rest) s []).length : Nat) : Int)
            ≠ to_size_t (strlen_int first) then
          vrna_message_error msg_ali_unequal
        else pure ()) (first :: rest).length 0 h = Outcome.ok () h := by
    intro hall
    apply forRange_skip
    intro i _ hi
    have hmem := hget i (by simpa using hi)
    have hl : (List.getD (first :: rest) i []).length = first.length := by
      rcases List.mem_cons.mp hmem with hq | hq
      · rw [hq]
      · exact hall _ hq
    simp only [hz, hl, ne_eq, not_true_eq_false, if_false, pure_apply]
  -- the same loop, when some length differs
  have ef : (∃ q ∈ rest, q.length ≠ first.length) →
      forRange (R := R) (fun s =>
        if (((List.getD (first :: rest) s []).length : Nat) : Int)
            ≠ to_size_t (strlen_int first) then
          vrna_message_error msg_ali_unequal
        else pure ()) (first :: rest).length 0 h
        = Outcome.fail (Fault.message msg_ali_unequal) h := by
    intro hex
    apply forRange_stop
    · intro i _ _
      by_cases hc : (((List.getD (first :: rest) i []).length : Nat) : Int)
          ≠ to_size_t (strlen_int first)
      · right; simp only [if_pos hc]; rfl
      · left; simp only [if_neg hc]; rfl
    · obtain ⟨q, hq, hne⟩ := hex
      obtain ⟨i, hi, hqi⟩ := List.getElem_of_mem hq
      refine ⟨i + 1, Nat.zero_le _, by simpa using hi, ?_⟩
      have hc : (((List.getD (first :: rest) (i + 1) []).length : Nat) : Int)
          ≠ to_size_t (strlen_int first) := by
        rw [hz, List.getD_eq_getElem _ _ (by simpa using hi)]
        simp only [List.getElem_cons_succ, hqi]
        omega
      simp only [if_pos hc]
      rfl
  have p1 : first = [] →
      vrna_get_fold_compound_ali K F E (some (first :: rest)) md_p options h
        = Outcome.fail (Fault.message msg_ali_empty) h := by
    intro hq
    subst hq
    have hz0 : strlen_int [] = 0 := by decide
    simp [vrna_get_fold_compound_ali, hz0, bind_apply, pure_apply, vrna_message_error, raise]
  have p2 : first ≠ [] → (∃ q ∈ rest, q.length ≠ first.length) →
      vrna_get_fold_compound_ali K F E (some (first :: rest)) md_p options h
        = Outcome.fail (Fault.message msg_ali_unequal) h := by
    intro hne hex
    simp only [vrna_get_fold_compound_ali, List.getElem?_cons_zero, h0 hne, if_false,
      bind_apply, pure_apply]
    rw [ef hex]
  have p3 : first ≠ [] → (∀ q ∈ rest, q.length = first.length) → ∀ f h2,
      vrna_get_fold_compound_ali K F E (some (first :: rest)) md_p options h
        = Outcome.fail f h2 → f.validation = false := by
    intro hne hall f h2 e
    unfold vrna_get_fold_compound_ali at e
    simp only [List.getElem?_cons_zero] at e
    rw [pure_bind_M] at e
    rw [if_neg (h0 hne)] at e
    rw [pure_bind_M] at e
    rcases bind_fail e with q | ⟨a, h1, -, q⟩
    · rw [ec hall] at q
      cases q
    · refine (show no_validation_error _ from ?_) h1 f h2 q
      repeat' (first
        | with_reducible refine nv_bind ?_ (fun _ => ?_)
        | (with_reducible refine nv_foldRange _ (fun _ _ => ?_) _ _ _)
        | with_reducible exact nv_store _ _ _
        | with_reducible exact nv_strdup _
        | with_reducible exact nv_vrna_alloc_ptr _
        | with_reducible exact nv_vrna_alloc_struct
        | with_reducible exact nv_set_fold_compound _ _ _ _ _ _ _ _
        | with_reducible exact nv_pure _)
  have p4 : ∀ r h2, vrna_get_fold_compound_ali K F E (some (first :: rest)) md_p options h
        = Outcome.ok r h2 →
      ∃ vc, r = some vc ∧ vc.n_seq = (first :: rest).length ∧ vc.length = first.length := by
    intro r h2 e
    unfold vrna_get_fold_compound_ali at e
    simp only [List.getElem?_cons_zero] at e
    rw [pure_bind_M] at e
    by_cases c0 : strlen_int first = 0
    · rw [if_pos c0] at e
      obtain ⟨u0, g0, q0, e0⟩ := bind_ok e
      cases q0
    · rw [if_neg c0, pure_bind_M] at e
      obtain ⟨u1, g1, q1, e1⟩ := bind_ok e
      obtain ⟨self, g2, q2, e2⟩ := bind_ok e1
      obtain ⟨seqs, g3, q3, e3⟩ := bind_ok e2
      obtain ⟨vals, g4, q4, e4⟩ := bind_ok e3
      obtain ⟨vc, g5, q5, e5⟩ := bind_ok e4
      cases e5
      obtain ⟨r1, r2, r3, -⟩ := set_fold_compound_res K F E q5
      refine ⟨vc, rfl, r2, ?_⟩
      rw [r3 rfl]
      show (strlen_int first % (UINT_MOD : Int)).toNat = first.length
      rw [strlen_int_mod]
      unfold strlen_uint
      exact Nat.mod_eq_of_lt (by unfold UINT_MOD; unfold INT_MAX at hlen; omega)
  refine ⟨⟨?_, ?_⟩, p1, p2, p4⟩
  · rintro ⟨f, h2, e, hv⟩
    by_cases hne : first = []
    · exact Or.inl hne
    · right
      by_contra hno
      have hall : ∀ q ∈ rest, q.length = first.length := by
        intro q hq
        by_contra hc
        exact hno ⟨q, hq, hc⟩
      rw [p3 hne hall f h2 e] at hv
      cases hv
  · intro hq
    by_cases hne : first = []
    · exact ⟨_, _, p1 hne, by decide⟩
    · rcases hq with hq | hq
      · exact absurd hq hne
      · exact ⟨_, _, p2 hne hq, by decide⟩

/-- Sequences of the lengths 5, 5 and 6 are refused with the message for
unequal lengths, and three sequences of length 5 give a fold compound with
`n_seq = 3` and `length = 5`. -/
theorem alignment_validation_witness :
    vrna_get_fold_compound_ali viennaConsts sampleOps sampleExt
        (some ["GGGAA".toList, "GGCAA".toList, "GGGAAA".toList]) (some sampleMd) 3 Heap.empty
      = Outcome.fail (Fault.message msg_ali_unequal) Heap.empty
    ∧ ∃ vc h2,
        vrna_get_fold_compound_ali viennaConsts sampleOps sampleExt
            (some ["GGGAA".toList, "GGCAA".toList, "GGGAA".toList]) (some sampleMd) 3
            Heap.empty
          = Outcome.ok (some vc) h2
        ∧ vc.n_seq = 3 ∧ vc.length = 5 := by
  refine ⟨(alignment_validation viennaConsts sampleOps sampleExt "GGGAA".toList
      ["GGCAA".toList, "GGGAAA".toList] (some sampleMd) 3 Heap.empty (by decide)).2.2.1
      (by decide) ⟨"GGGAAA".toList, by decide, by decide⟩, ?_⟩
  obtain ⟨vc, h2, e⟩ := exists_ok_some (o := vrna_get_fold_compound_ali viennaConsts sampleOps
    sampleExt (some ["GGGAA".toList, "GGCAA".toList, "GGGAA".toList]) (some sampleMd) 3
    Heap.empty) (by decide!)
  obtain ⟨vc2, hq, a, b⟩ := (alignment_validation viennaConsts sampleOps sampleExt
    "GGGAA".toList ["GGCAA".toList, "GGGAA".toList] (some sampleMd) 3 Heap.empty
    (by decide)).2.2.2 _ _ e
  cases hq
  exact ⟨vc, h2, e, a, b⟩

/-! ## A null sequence -/

/-- C12 fails as stated: each of the three constructors, called with `NULL`
for the sequence (for the list of sequences), returns normally: the run ends
without a fault. -/
theorem null_sequence_returns_normally :
    (vrna_get_fold_compound viennaConsts sampleOps sampleExt none (some sampleMd) 1
        Heap.empty).fault = none
    ∧ (vrna_get_fold_compound_ali viennaConsts sampleOps sampleExt none (some sampleMd) 1
        Heap.empty).fault = none
    ∧ (vrna_get_fold_compound_2D viennaConsts sampleOps sampleExt none (some sampleSeq)
        (some sampleSeq) (some sampleMd) 1 Heap.empty).fault = none :=
  ⟨rfl, rfl, rfl⟩

/-- C12, amended: each constructor called with a null sequence (or a null
list of sequences) returns `NULL` at once: there is no fold compound and no
error, and the heap is as it was. -/
theorem null_sequence_returns_null {R : Type} (K : Consts) (F : FltOps R) (E : Ext R)
    (md_p : Option (ModelDetails R)) (options : Nat) (s1 s2 : Option (List Char))
    (h : Heap R) :
    vrna_get_fold_compound K F E none md_p options h = Outcome.ok none h
    ∧ vrna_get_fold_compound_ali K F E none md_p options h = Outcome.ok none h
    ∧ vrna_get_fold_compound_2D K F E none s1 s2 md_p options h = Outcome.ok none h :=
  ⟨rfl, rfl, rfl⟩

/-! ## The two-reference constructor -/

/-- C13: for every model details record and every options mask, the
allocation vector that `vrna_get_fold_compound_2D` computes after it has
set `uniq_ML = 1` contains `ALLOC_UNIQ`.  The constructor is its first
part, which ends with the call of `set_fold_compound` for the matrix type
`VRNA_MX_2DFOLD` and that vector, followed by the statements that set the
fields of the distance classes.  Whenever the first part returns, for any
options mask, the MFE matrices of the fold compound, when there are some,
have the type `VRNA_MX_2DFOLD` and a non-null family `E_M1`, and the
partition function matrices, when there are some, have the type
`VRNA_MX_2DFOLD` and a non-null family `Q_M1`; there are some exactly when
the options ask for MFE (for PF) without `VRNA_OPTION_EVAL_ONLY`.  The same
holds in every fold compound that the constructor returns. -/
theorem two_reference_forces_unique_sparse {R : Type} (K : Consts) (F : FltOps R) (E : Ext R)
    (sequence : List Char) (s1 s2 : Option (List Char)) (md_p : Option (ModelDetails R))
    (options : Nat) :
    (∀ md : ModelDetails R,
        bitSet (get_mx_alloc_vector K { md with uniq_ML := 1 } options).1 ALLOC_UNIQ = true)
    ∧ vrna_get_fold_compound_2D K F E (some sequence) s1 s2 md_p options
        = (vrna_get_fold_compound_2D_head K F E sequence s1 s2 md_p options >>= fun p =>
            vrna_get_fold_compound_2D_fields E (strlen_int sequence) p.1 p.2.1 p.2.2)
    ∧ (∀ (h h2 : Heap R) (vc : FoldCompound R) (t1 t2 : List Char),
        vrna_get_fold_compound_2D_head K F E sequence s1 s2 md_p options h
            = Outcome.ok (vc, t1, t2) h2 →
          (∀ m, vc.matrices = some m → m.type = MxType.VRNA_MX_2DFOLD ∧ m.M1.E ≠ Ptr.null)
          ∧ (∀ m, vc.exp_matrices = some m →
              m.type = MxType.VRNA_MX_2DFOLD ∧ m.Q_M1.E ≠ Ptr.null)
          ∧ (vc.matrices ≠ none ↔ bitSet options K.VRNA_OPTION_MFE = true
              ∧ bitSet options K.VRNA_OPTION_EVAL_ONLY = false)
          ∧ (vc.exp_matrices ≠ none ↔ bitSet options K.VRNA_OPTION_PF = true
              ∧ bitSet options K.VRNA_OPTION_EVAL_ONLY = false))
    ∧ (∀ (h h2 : Heap R) (vc : FoldCompound R),
        vrna_get_fold_compound_2D K F E (some sequence) s1 s2 md_p options h
            = Outcome.ok (some vc) h2 →
          (∀ m, vc.matrices = some m → m.type = MxType.VRNA_MX_2DFOLD ∧ m.M1.E ≠ Ptr.null)
          ∧ (∀ m, vc.exp_matrices = some m →
              m.type = MxType.VRNA_MX_2DFOLD ∧ m.Q_M1.E ≠ Ptr.null)
          ∧ (bitSet options K.VRNA_OPTION_EVAL_ONLY = false →
              bitSet options K.VRNA_OPTION_MFE = true → vc.matrices ≠ none)
          ∧ (bitSet options K.VRNA_OPTION_EVAL_ONLY = false →
              bitSet options K.VRNA_OPTION_PF = true → vc.exp_matrices ≠ none)) := by
  have hv : ∀ md : ModelDetails R,
      bitSet (get_mx_alloc_vector K { md with uniq_ML := 1 } options).1 ALLOC_UNIQ = true :=
    fun md => alloc_vector_uniq K _ options (by simp)
  have hhead : ∀ (h h2 : Heap R) (vc : FoldCompound R) (t1 t2 : List Char),
      vrna_get_fold_compound_2D_head K F E sequence s1 s2 md_p options h
          = Outcome.ok (vc, t1, t2) h2 →
        (∀ m, vc.matrices = some m → m.type = MxType.VRNA_MX_2DFOLD ∧ m.M1.E ≠ Ptr.null)
        ∧ (∀ m, vc.exp_matrices = some m →
            m.type = MxType.VRNA_MX_2DFOLD ∧ m.Q_M1.E ≠ Ptr.null)
        ∧ (vc.matrices ≠ none ↔ bitSet options K.VRNA_OPTION_MFE = true
            ∧ bitSet options K.VRNA_OPTION_EVAL_ONLY = false)
        ∧ (vc.exp_matrices ≠ none ↔ bitSet options K.VRNA_OPTION_PF = true
            ∧ bitSet options K.VRNA_OPTION_EVAL_ONLY = false) := by
    intro h h2 vc t1 t2 e
    obtain ⟨vc0, md, v, g, hu, q⟩ := twoD_head_res K F E e
    obtain ⟨-, -, -, r4, r5, -, -⟩ := set_fold_compound_res K F E q
    obtain ⟨-, -, a3, a4⟩ := set_fold_compound_owns K F E q
    refine ⟨fun m hq => ⟨(r4 m hq).1, (r4 m hq).2 rfl hu⟩,
      fun m hq => ⟨(r5 m hq).1, (r5 m hq).2 rfl hu⟩, ?_, ?_⟩
    · rw [← isSome_eq_true_iff_ne]
      simp only at a3
      rw [a3]
      cases bitSet options K.VRNA_OPTION_MFE <;>
        cases bitSet options K.VRNA_OPTION_EVAL_ONLY <;> simp
    · rw [← isSome_eq_true_iff_ne]
      simp only at a4
      rw [a4]
      cases bitSet options K.VRNA_OPTION_PF <;>
        cases bitSet options K.VRNA_OPTION_EVAL_ONLY <;> simp
  refine ⟨hv, twoD_ctor_split K F E sequence s1 s2 md_p options, hhead, ?_⟩
  intro h h2 vc e
  rw [twoD_ctor_split] at e
  obtain ⟨p, g, q, e1⟩ := bind_ok e
  obtain ⟨b1, b2, b3, b4⟩ := hhead h g p.1 p.2.1 p.2.2 q
  unfold vrna_get_fold_compound_2D_fields at e1
  obtain ⟨params, g8, q8, e8⟩ := bind_ok e1
  obtain ⟨x1, k1, w1, e9⟩ := bind_ok e8
  obtain ⟨x2, k2, w2, e10⟩ := bind_ok e9
  obtain ⟨x3, k3, w3, e11⟩ := bind_ok e10
  obtain ⟨x4, k4, w4, e12⟩ := bind_ok e11
  obtain ⟨x5, k5, w5, e13⟩ := bind_ok e12
  obtain ⟨x6, k6, w6, e14⟩ := bind_ok e13
  obtain ⟨x7, k7, w7, e15⟩ := bind_ok e14
  obtain ⟨x8, k8, w8, e16⟩ := bind_ok e15
  obtain ⟨x9, k9, w9, e17⟩ := bind_ok e16
  obtain ⟨x10, k10, w10, e18⟩ := bind_ok e17
  obtain ⟨x11, k11, w11, e19⟩ := bind_ok e18
  obtain ⟨x12, k12, w12, e20⟩ := bind_ok e19
  obtain ⟨x13, k13, w13, e21⟩ := bind_ok e20
  cases e21
  exact ⟨b1, b2, fun x y => b3.mpr ⟨y, x⟩, fun x y => b4.mpr ⟨y, x⟩⟩

/-- The constructor for `GGGAAACCC` and two reference structures, with model
details that have `uniq_ML = 0` and `circ = 0`.  With the options
`VRNA_OPTION_MFE | VRNA_OPTION_PF` it returns a fold compound with both
matrices.  With the options `VRNA_OPTION_PF` alone its first part returns
partition function matrices of the type `VRNA_MX_2DFOLD` with a non-null
`Q_M1` and no MFE matrices; the statement that follows reads
`vc->params->model_details` (line 873), where `vc->params` is `NULL`. -/
theorem two_reference_forces_unique_sparse_witness :
    (∃ vc h2,
      vrna_get_fold_compound_2D viennaConsts sampleOps sampleExt (some sampleSeq)
          (some "(((...)))".toList) (some ".........".toList)
          (some sampleMd) 3 Heap.empty
        = Outcome.ok (some vc) h2
      ∧ (∀ m, vc.matrices = some m → m.type = MxType.VRNA_MX_2DFOLD ∧ m.M1.E ≠ Ptr.null)
      ∧ (∀ m, vc.exp_matrices = some m →
          m.type = MxType.VRNA_MX_2DFOLD ∧ m.Q_M1.E ≠ Ptr.null)
      ∧ vc.matrices ≠ none ∧ vc.exp_matrices ≠ none)
    ∧ (∃ p h2,
      vrna_get_fold_compound_2D_head viennaConsts sampleOps sampleExt sampleSeq
          (some "(((...)))".toList) (some ".........".toList)
          (some sampleMd) viennaConsts.VRNA_OPTION_PF Heap.empty
        = Outcome.ok p h2
      ∧ p.1.matrices = none ∧ p.1.exp_matrices ≠ none
      ∧ (∀ m, p.1.exp_matrices = some m →
          m.type = MxType.VRNA_MX_2DFOLD ∧ m.Q_M1.E ≠ Ptr.null))
    ∧ sampleMd.uniq_ML = 0 ∧ sampleMd.circ = 0
    ∧ (vrna_get_fold_compound_2D viennaConsts sampleOps sampleExt (some sampleSeq)
          (some "(((...)))".toList) (some ".........".toList)
          (some sampleMd) viennaConsts.VRNA_OPTION_PF Heap.empty).fault
        = some Fault.null_deref := by
  refine ⟨?_, ?_, by decide, by decide, by decide!⟩
  · obtain ⟨vc, h2, e⟩ := exists_ok_some (o := vrna_get_fold_compound_2D viennaConsts sampleOps
      sampleExt (some sampleSeq) (some "(((...)))".toList) (some ".........".toList)
      (some sampleMd) 3 Heap.empty) (by decide!)
    have t := (two_reference_forces_unique_sparse viennaConsts sampleOps sampleExt sampleSeq
      (some "(((...)))".toList) (some ".........".toList) (some sampleMd) 3).2.2.2 _ _ _ e
    exact ⟨vc, h2, e, t.1, t.2.1, t.2.2.1 (by decide) (by decide),
      t.2.2.2 (by decide) (by decide)⟩
  · obtain ⟨p, h2, e⟩ := exists_ok_of_no_fault (o := vrna_get_fold_compound_2D_head
      viennaConsts sampleOps sampleExt sampleSeq (some "(((...)))".toList)
      (some ".........".toList) (some sampleMd) viennaConsts.VRNA_OPTION_PF Heap.empty)
      (by decide!)
    have t := (two_reference_forces_unique_sparse viennaConsts sampleOps sampleExt sampleSeq
      (some "(((...)))".toList) (some ".........".toList) (some sampleMd)
      viennaConsts.VRNA_OPTION_PF).2.2.1 _ _ p.1 p.2.1 p.2.2 e
    refine ⟨p, h2, e, ?_, t.2.2.2.mpr ⟨by decide, by decide⟩, t.2.1⟩
    by_contra hc
    exact absurd (t.2.2.1.mp hc).1 (by decide)

/-! ## Teardown of the entries of a sparse family -/

/-- C16 fails as stated: in the family `E_F5` of a fold compound of length 1,
position 1 has the k-range `[1, 1]` and, for `k = 1`, the l-range `[2, 6]`
(blocks 10 and 11).  The pointer to the inner array, block 12, is stored
with the offset `-1`; teardown completes, and it has added `1`, which is
`l_min / 2`, before it released block 12, whereas `(l_max - l_min) / 2`
is `2`. -/
theorem inner_offset_is_half_l_min :
    (sample_filled_F5 Heap.empty).heap.cell (Ptr.mk 10 0) 0 = some (Cell.int 2)
    ∧ (sample_filled_F5 Heap.empty).heap.cell (Ptr.mk 11 0) 0 = some (Cell.int 6)
    ∧ (sample_filled_F5 Heap.empty).heap.cell (Ptr.mk 9 0) 0
        = some (Cell.ptr (Ptr.mk 12 (-1)))
    ∧ ((sample_filled_F5 >>= fun vc => vrna_free_mfe_matrices viennaConsts (some vc))
        Heap.empty).fault = none
    ∧ ((sample_filled_F5 >>= fun vc => vrna_free_mfe_matrices viennaConsts (some vc))
        Heap.empty).heap.cell (Ptr.mk 9 0) 0 = some (Cell.ptr (Ptr.mk 12 (-1 + 1)))
    ∧ 12 ∈ ((sample_filled_F5 >>= fun vc => vrna_free_mfe_matrices viennaConsts (some vc))
        Heap.empty).heap.released
    ∧ Int.tdiv 2 2 = 1 ∧ Int.tdiv (6 - 2) 2 = 2 := by
  decide!

/-- C16, amended: in every sparse family the offset added to the pointer to
an inner value array before it is released is `l_min / 2`.  For the families
with outer arrays (`free_inner_loop`, entry `idx`): in a round for a `cnt1`
up to `k_max[idx]` whose `l_min[idx][cnt1]` is `l`, below `INF`, the round
stores and releases the pointer `E[idx][cnt1]` moved by `l / 2` and goes on
with `cnt1 + 1`.  For the four circular exterior-loop families
(`free_circ_loop`), which have this inner level only, the same holds with
`k_max`, `l_min[cnt1]` and `E[cnt1]`.  In both the release is refused when
the moved pointer is not the start of a block. -/
theorem inner_release_offset {R : Type} (K : Consts) (cnt1 : Int) (r : Nat) (h : Heap R)
    (l : Int) (b : Nat) (off : Int) (hfin : l < K.INF) :
    (∀ (fam : SparseFam) (idx k_max : Int) (lm e : Ptr),
      loadInt fam.k_max idx h = Outcome.ok k_max h → cnt1 ≤ k_max →
      loadPtr fam.l_min idx h = Outcome.ok lm h →
      loadInt lm cnt1 h = Outcome.ok l h →
      loadPtr fam.E idx h = Outcome.ok e h →
      loadPtr e cnt1 h = Outcome.ok (Ptr.mk b off) h →
      free_inner_loop K fam idx (r + 1) cnt1 h
        = (do
            store e cnt1 (Cell.ptr (Ptr.mk b (off + Int.tdiv l 2)))
            free (Ptr.mk b (off + Int.tdiv l 2))
            if (INT_MAX : Int) < cnt1 + 1 then
              raise Fault.int_overflow
            free_inner_loop K fam idx r (cnt1 + 1) : M R Unit) h
      ∧ (off + Int.tdiv l 2 ≠ 0 →
          ∃ h2, free_inner_loop K fam idx (r + 1) cnt1 h
            = Outcome.fail Fault.invalid_free h2))
    ∧ (∀ (fam : CircFam), cnt1 ≤ fam.k_max →
      loadInt fam.l_min cnt1 h = Outcome.ok l h →
      loadPtr fam.E cnt1 h = Outcome.ok (Ptr.mk b off) h →
      free_circ_loop K fam (r + 1) cnt1 h
        = (do
            store fam.E cnt1 (Cell.ptr (Ptr.mk b (off + Int.tdiv l 2)))
            free (Ptr.mk b (off + Int.tdiv l 2))
            if (INT_MAX : Int) < cnt1 + 1 then
              raise Fault.int_overflow
            free_circ_loop K fam r (cnt1 + 1) : M R Unit) h
      ∧ (off + Int.tdiv l 2 ≠ 0 →
          ∃ h2, free_circ_loop K fam (r + 1) cnt1 h
            = Outcome.fail Fault.invalid_free h2)) := by
  constructor
  · intro fam idx k_max lm e hk hc hlm hl he hp
    have key : free_inner_loop K fam idx (r + 1) cnt1 h
        = (do
            store e cnt1 (Cell.ptr (Ptr.mk b (off + Int.tdiv l 2)))
            free (Ptr.mk b (off + Int.tdiv l 2))
            if (INT_MAX : Int) < cnt1 + 1 then
              raise Fault.int_overflow
            free_inner_loop K fam idx r (cnt1 + 1) : M R Unit) h := by
      simp only [free_inner_loop, bind_apply, hk, hc, if_true, hlm, hl, hfin, he, hp, ptr_add,
        pure_apply]
    refine ⟨key, ?_⟩
    intro hne
    obtain ⟨h2, e2⟩ := store_of_load (Cell.ptr (Ptr.mk b (off + Int.tdiv l 2)))
      (loadPtr_load hp)
    refine ⟨h2, ?_⟩
    rw [key]
    simp only [bind_apply, e2]
    rw [free_off _ _ _ hne]
  · intro fam hc hl hp
    have key : free_circ_loop K fam (r + 1) cnt1 h
        = (do
            store fam.E cnt1 (Cell.ptr (Ptr.mk b (off + Int.tdiv l 2)))
            free (Ptr.mk b (off + Int.tdiv l 2))
            if (INT_MAX : Int) < cnt1 + 1 then
              raise Fault.int_overflow
            free_circ_loop K fam r (cnt1 + 1) : M R Unit) h := by
      simp only [free_circ_loop, bind_apply, hc, if_true, hl, hfin, hp, ptr_add, pure_apply]
    refine ⟨key, ?_⟩
    intro hne
    obtain ⟨h2, e2⟩ := store_of_load (Cell.ptr (Ptr.mk b (off + Int.tdiv l 2)))
      (loadPtr_load hp)
    refine ⟨h2, ?_⟩
    rw [key]
    simp only [bind_apply, e2]
    rw [free_off _ _ _ hne]

/-- The round for `k = 1` at position 1 of the family `E_F5` of
`sample_filled_F5`, and the round for `k = 1` of the circular family of
`sampleCircHeap`; in both `l_min = 2`, the pointer is stored one entry below
the start of block 12 (block 3), and the round moves it by `2 / 2 = 1`.
Teardown of the circular family completes and releases block 3. -/
theorem inner_release_offset_witness :
    (2 : Int) < viennaConsts.INF
    ∧ free_inner_loop viennaConsts sampleF5 1 (UINT_MOD + 1) 1
        (sample_filled_F5 Heap.empty).heap
      = (do
          store (Ptr.mk 9 (-1)) 1 (Cell.ptr (Ptr.mk 12 (-1 + Int.tdiv 2 2)))
          free (Ptr.mk 12 (-1 + Int.tdiv 2 2))
          if (INT_MAX : Int) < 1 + 1 then
            raise Fault.int_overflow
          free_inner_loop viennaConsts sampleF5 1 UINT_MOD (1 + 1) : M ℚ Unit)
            (sample_filled_F5 Heap.empty).heap
    ∧ free_circ_loop viennaConsts sampleFc (UINT_MOD + 1) 1 sampleCircHeap
      = (do
          store (Ptr.mk 0 (-1)) 1 (Cell.ptr (Ptr.mk 3 (-1 + Int.tdiv 2 2)))
          free (Ptr.mk 3 (-1 + Int.tdiv 2 2))
          if (INT_MAX : Int) < 1 + 1 then
            raise Fault.int_overflow
          free_circ_loop viennaConsts sampleFc UINT_MOD (1 + 1) : M ℚ Unit) sampleCircHeap
    ∧ (sample_fill_circ (R := ℚ) viennaConsts 1 [(2, 6)] Heap.empty).value = some sampleFc
    ∧ (free_circ viennaConsts sampleFc sampleCircHeap).fault = none
    ∧ (free_circ viennaConsts sampleFc sampleCircHeap).heap.released = [3, 0, 1, 2] :=
  ⟨by decide,
    ((inner_release_offset viennaConsts 1 UINT_MOD (sample_filled_F5 Heap.empty).heap
      2 12 (-1) (by decide)).1 sampleF5 1 1 (Ptr.mk 10 (-1)) (Ptr.mk 9 (-1))
      (by decide!) (by decide) (by decide!) (by decide!) (by decide!) (by decide!)).1,
    ((inner_release_offset viennaConsts 1 UINT_MOD sampleCircHeap
      2 3 (-1) (by decide)).2 sampleFc (by decide) (by decide!) (by decide!)).1,
    by decide!, by decide!, by decide!⟩

/-- C17 fails as stated: at length 2, teardown of the family `E_C` completes
and releases the arrays stored at the interval `(1, 2)` (entry 2, block 9
and the blocks after it), but not those stored at the interval `(2, 2)`
(entry 1, blocks 13 to 16), which stay live: the loop over the rows stops
before row `n`.  At length 6, teardown of the family `E_M2` completes and
releases the arrays stored at position 1 but not those stored at position
2: the loop stops before position `n - TURN - 1 = 2`. -/
theorem teardown_skips_last_row_and_m2_tail :
    ((sample_filled_C >>= fun vc => vrna_free_mfe_matrices viennaConsts (some vc))
        Heap.empty).fault = none
    ∧ (sample_filled_C Heap.empty).heap.cell (Ptr.mk 3 0) 2 = some (Cell.ptr (Ptr.mk 9 0))
    ∧ (sample_filled_C Heap.empty).heap.cell (Ptr.mk 3 0) 1 = some (Cell.ptr (Ptr.mk 13 0))
    ∧ ((sample_filled_C >>= fun vc => vrna_free_mfe_matrices viennaConsts (some vc))
        Heap.empty).heap.live = [0, 1, 13, 14, 15, 16]
    ∧ ((sample_filled_M2 >>= fun vc => vrna_free_mfe_matrices viennaConsts (some vc))
        Heap.empty).fault = none
    ∧ (sample_filled_M2 Heap.empty).heap.cell (Ptr.mk 3 0) 1 = some (Cell.ptr (Ptr.mk 9 0))
    ∧ (sample_filled_M2 Heap.empty).heap.cell (Ptr.mk 3 0) 2 = some (Cell.ptr (Ptr.mk 13 0))
    ∧ ((sample_filled_M2 >>= fun vc => vrna_free_mfe_matrices viennaConsts (some vc))
        Heap.empty).heap.live = [0, 1, 13, 14, 15, 16] := by
  decide!

/-- C17, amended: for the type `VRNA_MX_2DFOLD`, teardown runs the same
two-level release on every sparse family, over these entries: for `Q` the
intervals `(i, j)` with `1 <= i <= j <= n`; for `E_C`, `E_M`, `E_M1`, `Q_B`,
`Q_M` and `Q_M1` the intervals with `1 <= i < n` and `i <= j <= n` (row `n`
is left out); for `E_F5` and `E_F3` the positions `1 .. n`; for `E_M2` and
`Q_M2` the positions `i >= 1` below the loop bound minus one, which for
`TURN + 1 <= n` are those with `i + TURN + 1 < n`.  After the families come
the circular entries, the remainder arrays and the structure itself. -/
theorem teardown_visits {R : Type} (K : Consts) (vc : FoldCompound R) :
    (∀ self, vc.matrices = some self → self.type = MxType.VRNA_MX_2DFOLD →
      vrna_free_mfe_matrices K (some vc) = (do
        sweep K self.F5 ((positions vc.length).map (fun i => pure ((i : Nat) : Int)))
        sweep K self.F3 ((positions vc.length).map (fun i => pure ((i : Nat) : Int)))
        sweep K self.C ((intervals (vc.length - 1) vc.length).map
          (fun p => index_iindx vc.iindx p.1 p.2))
        sweep K self.M ((intervals (vc.length - 1) vc.length).map
          (fun p => index_iindx vc.iindx p.1 p.2))
        sweep K self.M1 ((intervals (vc.length - 1) vc.length).map
          (fun p => index_iindx vc.iindx p.1 p.2))
        sweep K self.M2 ((positions (m2_bound K vc.length - 1)).map
          (fun i => pure ((i : Nat) : Int)))
        free_circ K self.E_Fc
        free_circ K self.E_FcI
        free_circ K self.E_FcH
        free_circ K self.E_FcM
        free self.F5.rem
        free self.F3.rem
        free self.C.rem
        free self.M.rem
        free self.M1.rem
        free self.M2.rem
        free self.self
        pure (some { vc with matrices := none })))
    ∧ (∀ self, vc.exp_matrices = some self → self.type = MxType.VRNA_MX_2DFOLD →
      vrna_free_pf_matrices K (some vc) = (do
        sweep K self.Q ((intervals vc.length vc.length).map
          (fun p => index_iindx vc.iindx p.1 p.2))
        sweep K self.Q_B ((intervals (vc.length - 1) vc.length).map
          (fun p => index_iindx vc.iindx p.1 p.2))
        sweep K self.Q_M ((intervals (vc.length - 1) vc.length).map
          (fun p => index_iindx vc.iindx p.1 p.2))
        sweep K self.Q_M1 ((intervals (vc.length - 1) vc.length).map
          (fun p => index_jindx vc.jindx p.1 p.2))
        sweep K self.Q_M2 ((positions (m2_bound K vc.length - 1)).map
          (fun i => pure ((i : Nat) : Int)))
        free_circ K self.Q_c
        free_circ K self.Q_cI
        free_circ K self.Q_cH
        free_circ K self.Q_cM
        free self.Q.rem
        free self.Q_B.rem
        free self.Q_M.rem
        free self.Q_M1.rem
        free self.Q_M2.rem
        free self.expMLbase
        free self.scale
        free self.self
        pure (some { vc with exp_matrices := none })))
    ∧ (∀ n i j : Nat, (i, j) ∈ intervals n n ↔ 1 ≤ i ∧ i ≤ j ∧ j ≤ n)
    ∧ (∀ n i j : Nat, (i, j) ∈ intervals (n - 1) n ↔ 1 ≤ i ∧ i < n ∧ i ≤ j ∧ j ≤ n)
    ∧ (∀ n i : Nat, i ∈ positions n ↔ 1 ≤ i ∧ i ≤ n)
    ∧ (∀ n i : Nat, K.TURN + 1 ≤ n → n < UINT_MOD →
        (i ∈ positions (m2_bound K n - 1) ↔ 1 ≤ i ∧ i + K.TURN + 1 < n)) := by
  refine ⟨?_, ?_, ?_, ?_, mem_positions, ?_⟩
  · intro self hm ht
    simp only [vrna_free_mfe_matrices, hm, ht, free_linear_eq_sweep, free_triangular_eq_sweep,
      bind_assoc_M]
  · intro self hm ht
    simp only [vrna_free_pf_matrices, hm, ht, free_linear_eq_sweep, free_triangular_eq_sweep,
      bind_assoc_M]
  · intro n i j
    rw [mem_intervals]
    omega
  · intro n i j
    rw [mem_intervals]
    omega
  · intro n i h1 h2
    rw [mem_positions]
    have : m2_bound K n = n - K.TURN - 1 := by
      unfold m2_bound
      unfold UINT_MOD at h2 ⊢
      have : ((n : Int) - (K.TURN : Int) - 1) % ((4294967296 : Nat) : Int)
          = (n : Int) - (K.TURN : Int) - 1 := by
        apply Int.emod_eq_of_lt <;> omega
      rw [this]
      omega
    rw [this]
    omega

/-! ## Rescaling and update of the parameters -/

/-- C18 fails as stated: for two fold compounds that differ in the prior
`pf_scale` only, `2` and `3`, `vrna_exp_params_rescale` without an MFE
estimate leaves `pf_scale` at `2` and at `3`: a prior value that is not
below `1` is kept, and the result is not one heuristic value. -/
theorem rescale_keeps_prior_scale :
    (vrna_exp_params_rescale sampleOps (some sampleScaleVc) none sampleScaleHeap).value.map
        FoldCompound.pf_scale = some (some 2)
    ∧ (vrna_exp_params_rescale sampleOps (some sampleScaleVc3) none sampleScaleHeap).value.map
        FoldCompound.pf_scale = some (some 3)
    ∧ FoldCompound.pf_scale (some sampleScaleVc) = some 2
    ∧ FoldCompound.pf_scale (some sampleScaleVc3) = some 3
    ∧ sampleScaleVc3 = { sampleScaleVc with
        exp_params := some { sampleScaleParams with pf_scale := 3 } } := by
  decide!

/-- C18, amended: on a fold compound with Boltzmann parameters and partition
function matrices whose scale tables are allocated,
`vrna_exp_params_rescale` without an MFE estimate completes and changes
`pf_scale` only: a prior value that is not below `1` is kept, and a prior
value below `1` is replaced by the heuristic value
`exp(-(-185 + (temperature - 37) * 7.27) / kT)` floored at `1` (`kT` divided
by `n_seq` for alignments).  Afterwards `pf_scale` is not below `1`. -/
theorem exp_params_rescale_heuristic {R : Type} (F : FltOps R) (vc : FoldCompound R)
    (pf : ExpParams R) (m : PfMx R) (h : Heap R)
    (hp : vc.exp_params = some pf) (hm : vc.exp_matrices = some m)
    (hr : scale_tables_ready h m vc.length) :
    ∃ vc2 h2 s, vrna_exp_params_rescale F (some vc) none h = Outcome.ok (some vc2) h2
      ∧ vc2 = { vc with exp_params := some { pf with pf_scale := s } }
      ∧ (F.lt pf.pf_scale (F.lit 1) = false → s = pf.pf_scale)
      ∧ (F.lt pf.pf_scale (F.lit 1) = true →
          let kT := if vc.type = VcType.VRNA_VC_TYPE_ALIGNMENT then
            F.div pf.kT (F.ofInt (vc.n_seq : Int)) else pf.kT
          let e := F.exp (F.div (F.neg (F.add (F.ofInt (-185))
            (F.mul (F.sub pf.temperature (F.lit 37)) (F.lit (727 / 100))))) kT)
          s = if F.lt e (F.lit 1) then F.lit 1 else e)
      ∧ (F.lt (F.lit 1) (F.lit 1) = false → F.lt s (F.lit 1) = false) := by
  obtain ⟨kT, hkT⟩ : ∃ kT : R, kT = (if vc.type = VcType.VRNA_VC_TYPE_ALIGNMENT then
      F.div pf.kT (F.ofInt (vc.n_seq : Int)) else pf.kT) := ⟨_, rfl⟩
  obtain ⟨x, hx⟩ : ∃ x : R, x = F.exp (F.div (F.neg (F.add (F.ofInt (-185))
      (F.mul (F.sub pf.temperature (F.lit 37)) (F.lit (727 / 100))))) kT) := ⟨_, rfl⟩
  obtain ⟨s, hs⟩ : ∃ s : R, s =
      (if F.lt pf.pf_scale (F.lit 1) then (if F.lt x (F.lit 1) then F.lit 1 else x)
       else pf.pf_scale) := ⟨_, rfl⟩
  obtain ⟨h2, bs, be, e, -⟩ := rescale_params_ok F
    { vc with exp_params := some { pf with pf_scale := s } } m { pf with pf_scale := s } h
    hm rfl hr
  refine ⟨_, h2, s, ?_, rfl, ?_, ?_, ?_⟩
  · simp only [vrna_exp_params_rescale, hp, bind_apply, pure_apply]
    rw [← hkT, ← hx, ← hs, e]
  · intro hlt
    rw [hs, hlt]
    simp
  · intro hlt
    simp only []
    rw [← hkT, ← hx, hs, hlt]
    simp
  · intro h1
    rw [hs]
    cases h3 : F.lt pf.pf_scale (F.lit 1)
    · simpa using h3
    · cases h4 : F.lt x (F.lit 1)
      · simpa using h4
      · simpa using h1

/-- The rescale of `sampleScaleVc`, whose prior `pf_scale` is `2`. -/
theorem exp_params_rescale_heuristic_witness :
    ∃ vc2 h2 s, vrna_exp_params_rescale sampleOps (some sampleScaleVc) none sampleScaleHeap
        = Outcome.ok (some vc2) h2
      ∧ vc2 = { sampleScaleVc with exp_params := some { sampleScaleParams with pf_scale := s } }
      ∧ sampleOps.lt s (sampleOps.lit 1) = false :=
  (exp_params_rescale_heuristic sampleOps sampleScaleVc sampleScaleParams sampleScaleMx
    sampleScaleHeap rfl rfl
    ⟨2, 3, _, _, rfl, rfl, by decide, rfl, rfl, by decide, by decide⟩).elim
    (fun vc2 x => x.elim (fun h2 y => y.elim (fun s z =>
      ⟨vc2, h2, s, z.1, z.2.1, z.2.2.2.2 (by decide)⟩)))

/-- C19, evaluated at failing inputs: `vrna_get_fold_compound` on the sequence
`GGGAAACCC` with the options `VRNA_OPTION_MFE` (and likewise with
`VRNA_OPTION_MFE | VRNA_OPTION_EVAL_ONLY`) returns a fold compound without
partition function matrices and without Boltzmann parameters.  On it,
`vrna_exp_params_update` with `NULL` or with a parameter block does not
complete: it sets the Boltzmann parameters and calls the rescale, and
`rescale_params` writes `scale[0]` through the null `exp_matrices`. -/
theorem exp_params_update_without_pf_matrices :
    ((do
        let vc ← vrna_get_fold_compound viennaConsts sampleOps sampleExt (some sampleSeq)
          (some sampleMd) viennaConsts.VRNA_OPTION_MFE
        vrna_exp_params_update sampleOps sampleExt vc none) Heap.empty).fault
      = some Fault.null_deref
    ∧ ((do
        let vc ← vrna_get_fold_compound viennaConsts sampleOps sampleExt (some sampleSeq)
          (some sampleMd) (viennaConsts.VRNA_OPTION_MFE ||| viennaConsts.VRNA_OPTION_EVAL_ONLY)
        vrna_exp_params_update sampleOps sampleExt vc none) Heap.empty).fault
      = some Fault.null_deref
    ∧ ((do
        let vc ← vrna_get_fold_compound viennaConsts sampleOps sampleExt (some sampleSeq)
          (some sampleMd) viennaConsts.VRNA_OPTION_MFE
        vrna_exp_params_update sampleOps sampleExt vc (some sampleScaleParams))
          Heap.empty).fault
      = some Fault.null_deref
    ∧ ((vrna_get_fold_compound viennaConsts sampleOps sampleExt (some sampleSeq)
          (some sampleMd) viennaConsts.VRNA_OPTION_MFE Heap.empty).value.map
        (fun vc => vc.map (fun c => (c.exp_matrices, c.exp_params))))
      = some (some (none, none)) := by
  decide!

/-- C20: on a fold compound for a single sequence or an alignment whose old
parameter block, if it has one, is a live block of the heap,
`vrna_params_update` releases the old block exactly once and then `params`
holds a new block: a copy of the supplied one, or the default one when none
is supplied.  Every other field of the fold compound is unchanged.  On a
null fold compound the call changes nothing. -/
theorem params_update_free_then_set {R : Type} (E : Ext R) (vc : FoldCompound R)
    (parameters : Option (Params R)) (h : Heap R)
    (ht : vc.type = VcType.VRNA_VC_TYPE_SINGLE ∨ vc.type = VcType.VRNA_VC_TYPE_ALIGNMENT)
    (hold : ∀ old, vc.params = some old →
      ∃ b blk, old.self = Ptr.mk b 0 ∧ h.blocks[b]? = some blk ∧ blk.freed = false) :
    (∃ vc2 h2 c, vrna_params_update E (some vc) parameters h = Outcome.ok (some vc2) h2
      ∧ vc2 = { vc with params := some c }
      ∧ (∀ p, parameters = some p → c = { p with self := Ptr.mk h.blocks.length 0 })
      ∧ (parameters = none →
          c = { self := Ptr.mk h.blocks.length 0, model_details := E.vrna_params_get none })
      ∧ h2.blocks[h.blocks.length]? = some { cells := [Cell.struct], freed := false }
      ∧ (∀ old b, vc.params = some old → old.self = Ptr.mk b 0 →
          h2.released = h.released ++ [b])
      ∧ (vc.params = none → h2.released = h.released))
    ∧ vrna_params_update E none parameters h = Outcome.ok none h := by
  refine ⟨?_, rfl⟩
  -- the block stored, and the heap before the new block is obtained
  obtain ⟨c, hc⟩ : ∃ c : Params R, c = (match parameters with
      | some p => { p with self := Ptr.mk h.blocks.length 0 }
      | none => { self := Ptr.mk h.blocks.length 0, model_details := E.vrna_params_get none }) :=
    ⟨_, rfl⟩
  have hc1 : ∀ p, parameters = some p → c = { p with self := Ptr.mk h.blocks.length 0 } := by
    intro p hq; rw [hc, hq]
  have hc2 : parameters = none →
      c = { self := Ptr.mk h.blocks.length 0, model_details := E.vrna_params_get none } := by
    intro hq; rw [hc, hq]
  cases hp : vc.params with
  | none =>
    have e : vrna_params_update E (some vc) parameters h = Outcome.ok
        (some { vc with params := some c })
        { blocks := h.blocks ++ [{ cells := [Cell.struct], freed := false }],
          released := h.released } := by
      cases parameters with
      | some p =>
        simp only [vrna_params_update, hp, vrna_params_copy, bind_apply, pure_apply,
          vrna_alloc_struct, vrna_alloc, hc]
      | none =>
        rcases ht with ht | ht <;>
          simp only [vrna_params_update, hp, ht, bind_apply, pure_apply,
            vrna_alloc_struct, vrna_alloc, hc]
    exact ⟨_, _, c, e, rfl, hc1, hc2, by simp, (fun old b ho => by cases ho), fun _ => rfl⟩
  | some old =>
    obtain ⟨b, blk, hs, hb, hf⟩ := hold old hp
    have hbl := getElem?_lt hb
    have hlen : (h.blocks.set b { blk with freed := true }).length = h.blocks.length := by simp
    have hnew : ((h.blocks.set b { blk with freed := true })
        ++ [({ cells := [Cell.struct], freed := false } : Block R)])[h.blocks.length]?
        = some { cells := [Cell.struct], freed := false } := by
      rw [← hlen, List.getElem?_append_right (Nat.le_refl _)]
      simp
    have hrel : ∀ (old2 : Params R) (b2 : Nat), some old = some old2 → old2.self = Ptr.mk b2 0 →
        h.released ++ [b] = h.released ++ [b2] := by
      intro old2 b2 ho hs2
      cases ho
      rw [hs] at hs2
      cases hs2
      rfl
    have e : vrna_params_update E (some vc) parameters h = Outcome.ok
        (some { vc with params := some c })
        { blocks := h.blocks.set b { blk with freed := true }
            ++ [{ cells := [Cell.struct], freed := false }],
          released := h.released ++ [b] } := by
      cases parameters with
      | some p =>
        simp only [vrna_params_update, hp, vrna_params_copy, bind_apply, pure_apply,
          vrna_alloc_struct, vrna_alloc, hs]
        rw [free_live blk hb hf]
        simp only [hlen, hc]
      | none =>
        rcases ht with ht | ht
        · simp only [vrna_params_update, hp, ht, bind_apply, pure_apply,
            vrna_alloc_struct, vrna_alloc, hs]
          rw [free_live blk hb hf]
          simp only [hlen, hc]
        · simp only [vrna_params_update, hp, ht, bind_apply, pure_apply,
            vrna_alloc_struct, vrna_alloc, hs]
          rw [free_live blk hb hf]
          simp only [hlen, hc]
    exact ⟨_, _, c, e, rfl, hc1, hc2, hnew, hrel, fun hq => by cases hq⟩

/-- The update of `sampleParamsVc` without a supplied block: the old block 1
is released and the default block is the new block 2. -/
theorem params_update_free_then_set_witness :
    ∃ vc2 h2 c, vrna_params_update sampleExt (some sampleParamsVc) none sampleParamsHeap
        = Outcome.ok (some vc2) h2
      ∧ vc2 = { sampleParamsVc with params := some c }
      ∧ c = { self := Ptr.mk 2 0, model_details := sampleExt.vrna_params_get none }
      ∧ h2.released = [1] :=
  (params_update_free_then_set sampleExt sampleParamsVc none sampleParamsHeap
    (Or.inl rfl)
    (fun old ho => ⟨1, { cells := [Cell.struct], freed := false },
      by cases ho; rfl, rfl, rfl⟩)).1.elim
    (fun vc2 x => x.elim (fun h2 y => y.elim (fun c z =>
      ⟨vc2, h2, c, z.1, z.2.1, z.2.2.2.1 rfl, z.2.2.2.2.2.1 _ 1 rfl rfl⟩)))

/-! ## Teardown on a null handle and repeated teardown -/

/-- C22 fails as stated: for an alignment of two sequences of length 5 and the
options `VRNA_OPTION_MFE`, the array `pscore` of the fold compound that
`vrna_get_fold_compound_ali` returns has 17 entries and the dense array `c`
has 21, which is `(5 + 1) * (5 + 2) / 2`. -/
theorem pscore_shorter_than_closed_pair_array :
    (vrna_get_fold_compound_ali viennaConsts sampleOps sampleExt
        (some ["GGGAA".toList, "GGCAA".toList]) (some sampleMd) viennaConsts.VRNA_OPTION_MFE
        Heap.empty).extent_of (fun vc => vc.pscore) = some 17
    ∧ (vrna_get_fold_compound_ali viennaConsts sampleOps sampleExt
        (some ["GGGAA".toList, "GGCAA".toList]) (some sampleMd) viennaConsts.VRNA_OPTION_MFE
        Heap.empty).extent_of
          (fun vc => match vc.matrices with
            | some m => m.c
            | none => Ptr.null) = some 21
    ∧ (5 + 1) * (5 + 2) / 2 = 21 ∧ 5 * (5 + 1) / 2 + 2 = 17 := by
  decide!

/-- C22, amended: for an alignment length `n` that the size guard accepts, the
array `pscore` that `set_fold_compound` allocates for an alignment has
`n * (n + 1) / 2 + 2` entries.  That is the number of entries of the dense
array `c`, `(n + 1) * (n + 2) / 2`, for `n = 1` only, and it is smaller for
every `n >= 2`. -/
theorem pscore_entry_count {R : Type} (E : Ext R) (vc : FoldCompound R)
    (md : ModelDetails R) (h : Heap R) (hn : size_guard vc.length = false) :
    (∃ vc2 h2, set_fold_compound_ali E vc md h = Outcome.ok vc2 h2
      ∧ vc2.length = vc.length
      ∧ h2.extent vc2.pscore = some (vc.length * (vc.length + 1) / 2 + 2))
    ∧ (vc.length * (vc.length + 1) / 2 + 2 = (vc.length + 1) * (vc.length + 2) / 2
        ↔ vc.length = 1)
    ∧ (2 ≤ vc.length →
        vc.length * (vc.length + 1) / 2 + 2 < (vc.length + 1) * (vc.length + 2) / 2) := by
  obtain ⟨vc2, h2, e, hl, hx⟩ := set_fold_compound_ali_pscore E vc md h
  have hsz : (vc.length * (vc.length + 1) % UINT_MOD / 2 + 2) % UINT_MOD
      = vc.length * (vc.length + 1) / 2 + 2 := by
    unfold size_guard SQRT_INT_MAX at hn
    simp at hn
    have h1 : vc.length * (vc.length + 1) ≤ 46340 * 46341 :=
      Nat.mul_le_mul (by omega) (by omega)
    unfold UINT_MOD
    rw [Nat.mod_eq_of_lt (by omega), Nat.mod_eq_of_lt (by omega)]
  rw [hsz] at hx
  refine ⟨⟨vc2, h2, e, hl, hx⟩, ?_, ?_⟩
  · rw [triangular_succ]
    omega
  · intro h2
    rw [triangular_succ]
    omega

/-- The array `pscore` for an alignment of length 5. -/
theorem pscore_entry_count_witness :
    size_guard sampleAliVc.length = false
    ∧ ∃ vc2 h2, set_fold_compound_ali sampleExt sampleAliVc sampleMd Heap.empty
          = Outcome.ok vc2 h2
        ∧ vc2.length = 5 ∧ h2.extent vc2.pscore = some 17 :=
  ⟨by decide, (pscore_entry_count sampleExt sampleAliVc sampleMd Heap.empty (by decide)).1⟩

/-! ## The state of a sparse family after allocation -/

/-- C23 fails as stated: right after `get_mfe_matrices_alloc` for length 1, the
type 2DFOLD and the bit `ALLOC_F5`, position 1 of the family `E_F5` is in
none of the three states: the family is requested (its outer arrays are
not null), `k_min[1]` and `k_max[1]` are 0 and not `INF`, and the
per-position arrays `E_F5[1]` and `l_min_F5[1]` are null. -/
theorem fresh_entry_in_none_of_three_states :
    ∃ m h2, get_mfe_matrices_alloc (R := ℚ) viennaConsts 1 MxType.VRNA_MX_2DFOLD ALLOC_F5
        Heap.empty = Outcome.ok m h2
      ∧ bitSet ALLOC_F5 ALLOC_F5 = true
      ∧ m.F5.E ≠ Ptr.null ∧ m.F5.k_min ≠ Ptr.null ∧ m.F5.k_max ≠ Ptr.null
      ∧ h2.cell m.F5.k_min 1 = some (Cell.int 0)
      ∧ h2.cell m.F5.k_max 1 = some (Cell.int 0)
      ∧ viennaConsts.INF ≠ 0
      ∧ h2.cell m.F5.E 1 = some (Cell.ptr Ptr.null)
      ∧ h2.cell m.F5.l_min 1 = some (Cell.ptr Ptr.null) :=
  ⟨_, _, rfl, rfl, by decide, by decide, by decide, rfl, rfl, by decide, rfl, rfl⟩

/-- C23, amended: right after allocation, for every `n` the size guard
accepts and every bitmask, each sparse family of `get_mfe_matrices_alloc`
and `get_pf_matrices_alloc` is in one of two states.  A family whose bit is
not set has six null outer pointers.  A family whose bit is set has live
outer arrays, and every entry of it is requested and not filled: the
per-entry arrays `E`, `l_min` and `l_max` are null and `k_min` and `k_max`
are 0.  Teardown of such an entry does nothing (`continue`). -/
theorem sparse_entries_after_allocation {R : Type} (K : Consts) (F : FltOps R) (n v : Nat)
    (h : Heap R) (hn : size_guard n = false) :
    (∃ m h2, get_mfe_matrices_alloc K n MxType.VRNA_MX_2DFOLD v h = Outcome.ok m h2
      ∧ (bitSet v ALLOC_F5 = true → family_unfilled h2 m.F5 (n + 2))
      ∧ (bitSet v ALLOC_F5 = false → m.F5 = SparseFam.absent)
      ∧ (bitSet v ALLOC_F3 = true → family_unfilled h2 m.F3 (n + 2))
      ∧ (bitSet v ALLOC_F3 = false → m.F3 = SparseFam.absent)
      ∧ (bitSet v ALLOC_C = true → family_unfilled h2 m.C ((n + 1) * (n + 2) / 2))
      ∧ (bitSet v ALLOC_C = false → m.C = SparseFam.absent)
      ∧ (bitSet v ALLOC_FML = true → family_unfilled h2 m.M ((n + 1) * (n + 2) / 2))
      ∧ (bitSet v ALLOC_FML = false → m.M = SparseFam.absent)
      ∧ (bitSet v ALLOC_UNIQ = true → family_unfilled h2 m.M1 ((n + 1) * (n + 2) / 2))
      ∧ (bitSet v ALLOC_UNIQ = false → m.M1 = SparseFam.absent)
      ∧ (bitSet v ALLOC_CIRC = true → family_unfilled h2 m.M2 (n + 2))
      ∧ (bitSet v ALLOC_CIRC = false → m.M2 = SparseFam.absent))
    ∧ (∃ m h2, get_pf_matrices_alloc F n MxType.VRNA_MX_2DFOLD v h = Outcome.ok m h2
      ∧ (bitSet v ALLOC_F = true → family_unfilled h2 m.Q ((n + 1) * (n + 2) / 2))
      ∧ (bitSet v ALLOC_F = false → m.Q = SparseFam.absent)
      ∧ (bitSet v ALLOC_C = true → family_unfilled h2 m.Q_B ((n + 1) * (n + 2) / 2))
      ∧ (bitSet v ALLOC_C = false → m.Q_B = SparseFam.absent)
      ∧ (bitSet v ALLOC_FML = true → family_unfilled h2 m.Q_M ((n + 1) * (n + 2) / 2))
      ∧ (bitSet v ALLOC_FML = false → m.Q_M = SparseFam.absent)
      ∧ (bitSet v ALLOC_UNIQ = true → family_unfilled h2 m.Q_M1 ((n + 1) * (n + 2) / 2))
      ∧ (bitSet v ALLOC_UNIQ = false → m.Q_M1 = SparseFam.absent)
      ∧ (bitSet v ALLOC_CIRC = true → family_unfilled h2 m.Q_M2 (n + 2))
      ∧ (bitSet v ALLOC_CIRC = false → m.Q_M2 = SparseFam.absent))
    ∧ (∀ (g : Heap R) (fam : SparseFam) (len idx : Nat),
        family_unfilled g fam len → idx < len →
        fam.E ≠ Ptr.null
        ∧ g.cell fam.E (idx : Int) = some (Cell.ptr Ptr.null)
        ∧ g.cell fam.l_min (idx : Int) = some (Cell.ptr Ptr.null)
        ∧ g.cell fam.l_max (idx : Int) = some (Cell.ptr Ptr.null)
        ∧ g.cell fam.k_min (idx : Int) = some (Cell.int 0)
        ∧ g.cell fam.k_max (idx : Int) = some (Cell.int 0)
        ∧ free_entry K fam (idx : Int) g = Outcome.ok () g) := by
  obtain ⟨hs, hl⟩ := size_of_accepted hn
  obtain ⟨p0, h0, e0, -, -, -⟩ := vrna_alloc_spec [Cell.struct] h
  refine ⟨?_, ?_, ?_⟩
  · obtain ⟨p1, h1, e1, l1, -, -⟩ := alloc_sparse_mfe_spec K (bitSet v ALLOC_F5) (n + 2) (n + 1)
      h0 (by omega)
    obtain ⟨p2, h2, e2, l2, -, -⟩ := alloc_sparse_mfe_spec K (bitSet v ALLOC_F3) (n + 2) (n + 1)
      h1 (by omega)
    obtain ⟨p3, h3, e3, l3, -, -⟩ := alloc_sparse_mfe_spec K (bitSet v ALLOC_C)
      ((n + 1) * (n + 2) / 2) ((n + 1) * (n + 2) / 2) h2 (by omega)
    obtain ⟨p4, h4, e4, l4, -, -⟩ := alloc_sparse_mfe_spec K (bitSet v ALLOC_FML)
      ((n + 1) * (n + 2) / 2) ((n + 1) * (n + 2) / 2) h3 (by omega)
    obtain ⟨p5, h5, e5, l5, -, -⟩ := alloc_sparse_mfe_spec K (bitSet v ALLOC_UNIQ)
      ((n + 1) * (n + 2) / 2) ((n + 1) * (n + 2) / 2) h4 (by omega)
    obtain ⟨p6, h6, e6, l6, -, -⟩ := alloc_sparse_mfe_spec K (bitSet v ALLOC_CIRC) (n + 2) (n + 1)
      h5 (by omega)
    have key : ∃ m, get_mfe_matrices_alloc K n MxType.VRNA_MX_2DFOLD v h = Outcome.ok m h6
        ∧ m.F5 = p1 ∧ m.F3 = p2 ∧ m.C = p3 ∧ m.M = p4 ∧ m.M1 = p5 ∧ m.M2 = p6 := by
      simp only [get_mfe_matrices_alloc, hn, bind_apply, pure_apply, vrna_alloc_struct, hs, hl,
        Bool.false_eq_true, if_false, e0, e1, e2, e3, e4, e5, e6]
      exact ⟨_, rfl, rfl, rfl, rfl, rfl, rfl, rfl⟩
    obtain ⟨m, em, q1, q2, q3, q4, q5, q6⟩ := key
    obtain ⟨s1, t1⟩ := alloc_sparse_mfe_state K e1
    obtain ⟨s2, t2⟩ := alloc_sparse_mfe_state K e2
    obtain ⟨s3, t3⟩ := alloc_sparse_mfe_state K e3
    obtain ⟨s4, t4⟩ := alloc_sparse_mfe_state K e4
    obtain ⟨s5, t5⟩ := alloc_sparse_mfe_state K e5
    obtain ⟨s6, t6⟩ := alloc_sparse_mfe_state K e6
    refine ⟨m, h6, em, ?_⟩
    rw [q1, q2, q3, q4, q5, q6]
    exact ⟨fun x => family_unfilled_mono (l2.trans (l3.trans (l4.trans (l5.trans l6)))) (s1 x),
      t1, fun x => family_unfilled_mono (l3.trans (l4.trans (l5.trans l6))) (s2 x), t2,
      fun x => family_unfilled_mono (l4.trans (l5.trans l6)) (s3 x), t3,
      fun x => family_unfilled_mono (l5.trans l6) (s4 x), t4,
      fun x => family_unfilled_mono l6 (s5 x), t5, s6, t6⟩
  · obtain ⟨p1, h1, e1, l1, -⟩ := alloc_sparse_pf_spec (F.lit 0) (bitSet v ALLOC_F)
      ((n + 1) * (n + 2) / 2) h0
    obtain ⟨p2, h2, e2, l2, -⟩ := alloc_sparse_pf_spec (F.lit 0) (bitSet v ALLOC_C)
      ((n + 1) * (n + 2) / 2) h1
    obtain ⟨p3, h3, e3, l3, -⟩ := alloc_sparse_pf_spec (F.lit 0) (bitSet v ALLOC_FML)
      ((n + 1) * (n + 2) / 2) h2
    obtain ⟨p4, h4, e4, l4, -⟩ := alloc_sparse_pf_spec (F.lit 0) (bitSet v ALLOC_UNIQ)
      ((n + 1) * (n + 2) / 2) h3
    obtain ⟨p5, h5, e5, l5, -⟩ := alloc_sparse_pf_spec (F.lit 0) (bitSet v ALLOC_CIRC)
      (n + 2) h4
    obtain ⟨p6, h6, e6, l6, -, -⟩ := vrna_alloc_spec (List.replicate (n + 2) (Cell.flt (F.lit 0)))
      h5
    obtain ⟨p7, h7, e7, l7, -, -⟩ := vrna_alloc_spec (List.replicate (n + 2) (Cell.flt (F.lit 0)))
      h6
    have key : ∃ m, get_pf_matrices_alloc F n MxType.VRNA_MX_2DFOLD v h = Outcome.ok m h7
        ∧ m.Q = p1 ∧ m.Q_B = p2 ∧ m.Q_M = p3 ∧ m.Q_M1 = p4 ∧ m.Q_M2 = p5 := by
      simp only [get_pf_matrices_alloc, hn, bind_apply, pure_apply, vrna_alloc_struct, hs, hl,
        Bool.false_eq_true, if_false, vrna_alloc_flt, e0, e1, e2, e3, e4, e5, e6, e7]
      exact ⟨_, rfl, rfl, rfl, rfl, rfl, rfl⟩
    obtain ⟨m, em, q1, q2, q3, q4, q5⟩ := key
    obtain ⟨s1, t1⟩ := alloc_sparse_pf_state (F.lit 0) e1
    obtain ⟨s2, t2⟩ := alloc_sparse_pf_state (F.lit 0) e2
    obtain ⟨s3, t3⟩ := alloc_sparse_pf_state (F.lit 0) e3
    obtain ⟨s4, t4⟩ := alloc_sparse_pf_state (F.lit 0) e4
    obtain ⟨s5, t5⟩ := alloc_sparse_pf_state (F.lit 0) e5
    refine ⟨m, h7, em, ?_⟩
    rw [q1, q2, q3, q4, q5]
    exact ⟨fun x => family_unfilled_mono
        (l2.trans (l3.trans (l4.trans (l5.trans (l6.trans l7))))) (s1 x), t1,
      fun x => family_unfilled_mono (l3.trans (l4.trans (l5.trans (l6.trans l7)))) (s2 x), t2,
      fun x => family_unfilled_mono (l4.trans (l5.trans (l6.trans l7))) (s3 x), t3,
      fun x => family_unfilled_mono (l5.trans (l6.trans l7)) (s4 x), t4,
      fun x => family_unfilled_mono (l6.trans l7) (s5 x), t5⟩
  · intro g fam len idx x hi
    refine ⟨?_, filled_cell x.1 hi, filled_cell x.2.1 hi, filled_cell x.2.2.1 hi,
      filled_cell x.2.2.2.1 hi, filled_cell x.2.2.2.2 hi, free_entry_unfilled K x hi⟩
    obtain ⟨b, hb, -⟩ := x.1
    rw [hb]
    intro hq
    cases hq

/-- The sparse MFE families at length 2 with the default families. -/
theorem sparse_entries_after_allocation_witness :
    size_guard 2 = false
    ∧ ∃ m h2, get_mfe_matrices_alloc (R := ℚ) viennaConsts 2 MxType.VRNA_MX_2DFOLD
          ALLOC_MFE_DEFAULT Heap.empty = Outcome.ok m h2
        ∧ family_unfilled h2 m.F5 4 ∧ family_unfilled h2 m.C 6
        ∧ family_unfilled h2 m.M 6 ∧ m.F3 = SparseFam.absent ∧ m.M1 = SparseFam.absent
        ∧ m.M2 = SparseFam.absent
        ∧ free_entry viennaConsts m.C 3 h2 = Outcome.ok () h2 := by
  refine ⟨by decide, ?_⟩
  have t := sparse_entries_after_allocation viennaConsts sampleOps 2 ALLOC_MFE_DEFAULT
    (Heap.empty : Heap ℚ) (by decide)
  obtain ⟨⟨m, h2, e, a1, -, -, a4, a5, -, a7, -, -, a10, -, a12⟩, -, t3⟩ := t
  exact ⟨m, h2, e, a1 (by decide), a5 (by decide), a7 (by decide), a4 (by decide),
    a10 (by decide), a12 (by decide),
    (t3 h2 m.C 6 3 (a5 (by decide)) (by decide)).2.2.2.2.2.2⟩

/-! ## The circular exterior-loop scalars -/

/-- C24: for every `n` the size guard accepts and every bitmask,
`get_mfe_matrices_alloc` returns matrices whose circular exterior-loop
scalars are `INF`: `Fc`, `FcH`, `FcI` and `FcM` for the dense type, and
`E_Fc_rem`, `E_FcH_rem`, `E_FcI_rem` and `E_FcM_rem` for the sparse type,
where the arrays `E_Fc`, `E_FcH`, `E_FcI` and `E_FcM` are null. -/
theorem circular_scalars_start_infeasible {R : Type} (K : Consts) (n v : Nat) (h : Heap R)
    (hn : size_guard n = false) :
    (∃ m h2, get_mfe_matrices_alloc K n MxType.VRNA_MX_DEFAULT v h = Outcome.ok m h2
      ∧ m.Fc = K.INF ∧ m.FcH = K.INF ∧ m.FcI = K.INF ∧ m.FcM = K.INF)
    ∧ (∃ m h2, get_mfe_matrices_alloc K n MxType.VRNA_MX_2DFOLD v h = Outcome.ok m h2
      ∧ m.E_Fc_rem = K.INF ∧ m.E_FcH_rem = K.INF ∧ m.E_FcI_rem = K.INF
      ∧ m.E_FcM_rem = K.INF
      ∧ m.E_Fc.E = Ptr.null ∧ m.E_FcH.E = Ptr.null ∧ m.E_FcI.E = Ptr.null
      ∧ m.E_FcM.E = Ptr.null) := by
  obtain ⟨hs, hl⟩ := size_of_accepted hn
  obtain ⟨p0, h0, e0, -, -, -⟩ := vrna_alloc_spec [Cell.struct] h
  constructor
  · obtain ⟨p1, h1, e1, -, -⟩ := alloc_int_if_spec (bitSet v ALLOC_F5) (n + 2) h0
    obtain ⟨p2, h2, e2, -, -⟩ := alloc_int_if_spec (bitSet v ALLOC_F3) (n + 2) h1
    obtain ⟨p3, h3, e3, -, -⟩ := alloc_int_if_spec (bitSet v ALLOC_HYBRID) (n + 2) h2
    obtain ⟨p4, h4, e4, -, -⟩ := alloc_int_if_spec (bitSet v ALLOC_C) ((n + 1) * (n + 2) / 2) h3
    obtain ⟨p5, h5, e5, -, -⟩ := alloc_int_if_spec (bitSet v ALLOC_FML)
      ((n + 1) * (n + 2) / 2) h4
    obtain ⟨p6, h6, e6, -, -⟩ := alloc_int_if_spec (bitSet v ALLOC_UNIQ)
      ((n + 1) * (n + 2) / 2) h5
    obtain ⟨p7, h7, e7, -, -⟩ := alloc_int_if_spec (bitSet v ALLOC_CIRC) (n + 2) h6
    simp only [get_mfe_matrices_alloc, hn, bind_apply, pure_apply, vrna_alloc_struct, hs, hl,
      Bool.false_eq_true, if_false, e0, e1, e2, e3, e4, e5, e6, e7]
    exact ⟨_, _, rfl, rfl, rfl, rfl, rfl⟩
  · obtain ⟨p1, h1, e1, -, -, -⟩ := alloc_sparse_mfe_spec K (bitSet v ALLOC_F5) (n + 2) (n + 1)
      h0 (by omega)
    obtain ⟨p2, h2, e2, -, -, -⟩ := alloc_sparse_mfe_spec K (bitSet v ALLOC_F3) (n + 2) (n + 1)
      h1 (by omega)
    obtain ⟨p3, h3, e3, -, -, -⟩ := alloc_sparse_mfe_spec K (bitSet v ALLOC_C)
      ((n + 1) * (n + 2) / 2) ((n + 1) * (n + 2) / 2) h2 (by omega)
    obtain ⟨p4, h4, e4, -, -, -⟩ := alloc_sparse_mfe_spec K (bitSet v ALLOC_FML)
      ((n + 1) * (n + 2) / 2) ((n + 1) * (n + 2) / 2) h3 (by omega)
    obtain ⟨p5, h5, e5, -, -, -⟩ := alloc_sparse_mfe_spec K (bitSet v ALLOC_UNIQ)
      ((n + 1) * (n + 2) / 2) ((n + 1) * (n + 2) / 2) h4 (by omega)
    obtain ⟨p6, h6, e6, -, -, -⟩ := alloc_sparse_mfe_spec K (bitSet v ALLOC_CIRC) (n + 2) (n + 1)
      h5 (by omega)
    simp only [get_mfe_matrices_alloc, hn, bind_apply, pure_apply, vrna_alloc_struct, hs, hl,
      Bool.false_eq_true, if_false, e0, e1, e2, e3, e4, e5, e6]
    exact ⟨_, _, rfl, rfl, rfl, rfl, rfl, rfl, rfl, rfl, rfl⟩

/-- The scalars at length 9 with the default MFE families, without the
circular bit. -/
theorem circular_scalars_start_infeasible_witness :
    size_guard 9 = false
    ∧ (∃ m h2, get_mfe_matrices_alloc (R := ℚ) viennaConsts 9 MxType.VRNA_MX_DEFAULT
          ALLOC_MFE_DEFAULT Heap.empty = Outcome.ok m h2
        ∧ m.Fc = viennaConsts.INF ∧ m.FcH = viennaConsts.INF ∧ m.FcI = viennaConsts.INF
        ∧ m.FcM = viennaConsts.INF)
    ∧ (∃ m h2, get_mfe_matrices_alloc (R := ℚ) viennaConsts 9 MxType.VRNA_MX_2DFOLD
          ALLOC_MFE_DEFAULT Heap.empty = Outcome.ok m h2
        ∧ m.E_Fc_rem = viennaConsts.INF ∧ m.E_FcH_rem = viennaConsts.INF
        ∧ m.E_FcI_rem = viennaConsts.INF ∧ m.E_FcM_rem = viennaConsts.INF
        ∧ m.E_Fc.E = Ptr.null ∧ m.E_FcH.E = Ptr.null ∧ m.E_FcI.E = Ptr.null
        ∧ m.E_FcM.E = Ptr.null) :=
  ⟨by decide, circular_scalars_start_infeasible viennaConsts 9 ALLOC_MFE_DEFAULT Heap.empty
    (by decide)⟩

/-! ## Idempotence of the allocation vector -/

/-- C25: for every model details record and every options mask, a second call
of `get_mx_alloc_vector` on the record that the first call left returns the
bitmask of the first call and leaves that record as it is. -/
theorem alloc_vector_idempotent {R : Type} (K : Consts) (md : ModelDetails R)
    (options : Nat) :
    (get_mx_alloc_vector K (get_mx_alloc_vector K md options).2 options).1
      = (get_mx_alloc_vector K md options).1
    ∧ (get_mx_alloc_vector K (get_mx_alloc_vector K md options).2 options).2
      = (get_mx_alloc_vector K md options).2 := by
  unfold get_mx_alloc_vector
  by_cases hc : md.circ ≠ 0
  · simp only [if_pos hc, ne_eq, one_ne_zero, not_false_eq_true, if_true, and_self]
  · simp only [if_neg hc, and_self]

/-! ## The size products -/

/-- C26, evaluated at a failing input: for an alignment of length 65536, which
the size guard of the matrix allocators refuses, the first part of
`set_fold_compound` returns for every options mask, so no guard has been
evaluated before `length * (length + 1)`, and it has allocated `pscore` with
32770 entries: the product, 4295032832, has wrapped to 65536 in `unsigned
int` arithmetic, where the exact size is 2147516418. -/
theorem alignment_score_size_wraps :
    size_guard 65536 = true
    ∧ 65536 * (65536 + 1) = 4295032832
    ∧ UINT_MOD ≤ 65536 * (65536 + 1)
    ∧ 65536 * (65536 + 1) % UINT_MOD = 65536
    ∧ 65536 * (65536 + 1) / 2 + 2 = 2147516418
    ∧ sampleLongAliVc.length = 65536
    ∧ ∀ options : Nat, ∃ r h2,
        set_fold_compound_head viennaConsts sampleExt sampleLongAliVc sampleMd
            MxType.VRNA_MX_DEFAULT options Heap.empty = Outcome.ok r h2
        ∧ r.1.length = 65536
        ∧ h2.extent r.1.pscore = some 32770 := by
  refine ⟨by decide, by decide, by decide, by decide, by decide, rfl, ?_⟩
  intro options
  obtain ⟨r, h2, e, hl, hx⟩ := set_fold_compound_head_ali viennaConsts sampleExt
    sampleLongAliVc sampleMd MxType.VRNA_MX_DEFAULT options Heap.empty rfl
  exact ⟨r, h2, e, hl, hx⟩

/-! ## What a fold compound owns -/

/-- C27: in the fold compound that `set_fold_compound` leaves (for a single
sequence, and for the other types as well), `params` is present iff
`VRNA_OPTION_MFE` is set, `exp_params` is present iff `VRNA_OPTION_PF` is
set, the MFE matrices are present iff `VRNA_OPTION_MFE` is set and
`VRNA_OPTION_EVAL_ONLY` is not, and the partition function matrices are
present iff `VRNA_OPTION_PF` is set and `VRNA_OPTION_EVAL_ONLY` is not; with
`VRNA_OPTION_EVAL_ONLY` there are no matrices. -/
theorem ownership_decided_by_options {R : Type} (K : Consts) (F : FltOps R) (E : Ext R)
    (vc vc2 : FoldCompound R) (md : ModelDetails R) (mx_type : MxType) (v options : Nat)
    (h h2 : Heap R)
    (e : set_fold_compound K F E vc md mx_type v options h = Outcome.ok vc2 h2) :
    (vc2.params ≠ none ↔ bitSet options K.VRNA_OPTION_MFE = true)
    ∧ (vc2.exp_params ≠ none ↔ bitSet options K.VRNA_OPTION_PF = true)
    ∧ (vc2.matrices ≠ none ↔ bitSet options K.VRNA_OPTION_MFE = true
        ∧ bitSet options K.VRNA_OPTION_EVAL_ONLY = false)
    ∧ (vc2.exp_matrices ≠ none ↔ bitSet options K.VRNA_OPTION_PF = true
        ∧ bitSet options K.VRNA_OPTION_EVAL_ONLY = false)
    ∧ (bitSet options K.VRNA_OPTION_EVAL_ONLY = true →
        vc2.matrices = none ∧ vc2.exp_matrices = none) := by
  obtain ⟨a1, a2, a3, a4⟩ := set_fold_compound_owns K F E e
  refine ⟨?_, ?_, ?_, ?_, ?_⟩
  · rw [← isSome_eq_true_iff_ne, a1]
  · rw [← isSome_eq_true_iff_ne, a2]
  · rw [← isSome_eq_true_iff_ne, a3]
    cases bitSet options K.VRNA_OPTION_MFE <;> cases bitSet options K.VRNA_OPTION_EVAL_ONLY <;>
      simp
  · rw [← isSome_eq_true_iff_ne, a4]
    cases bitSet options K.VRNA_OPTION_PF <;> cases bitSet options K.VRNA_OPTION_EVAL_ONLY <;>
      simp
  · intro hev
    rw [hev] at a3 a4
    simp only [Bool.not_true, Bool.and_false] at a3 a4
    exact ⟨by simpa using a3, by simpa using a4⟩

/-- The fold compound for `GGGAAACCC` with the options `VRNA_OPTION_MFE`. -/
theorem ownership_decided_by_options_witness :
    ∃ vc2 h2,
      set_fold_compound viennaConsts sampleOps sampleExt sampleSingleVc sampleMd
          MxType.VRNA_MX_DEFAULT ALLOC_MFE_DEFAULT viennaConsts.VRNA_OPTION_MFE
          sampleSingleHeap = Outcome.ok vc2 h2
      ∧ vc2.params ≠ none ∧ vc2.exp_params = none
      ∧ vc2.matrices ≠ none ∧ vc2.exp_matrices = none := by
  obtain ⟨vc2, h2, e⟩ := exists_ok_of_no_fault (o := set_fold_compound viennaConsts sampleOps
    sampleExt sampleSingleVc sampleMd MxType.VRNA_MX_DEFAULT ALLOC_MFE_DEFAULT
    viennaConsts.VRNA_OPTION_MFE sampleSingleHeap) (by decide!)
  have t := ownership_decided_by_options viennaConsts sampleOps sampleExt _ _ _ _ _ _ _ _ e
  refine ⟨vc2, h2, e, t.1.mpr (by decide), ?_, t.2.2.1.mpr ⟨by decide, by decide⟩, ?_⟩
  · by_contra hc
    exact absurd (t.2.1.mp hc) (by decide)
  · by_contra hc
    exact absurd (t.2.2.2.1.mp hc).1 (by decide)

/-! ## The teardown loop of the circular multiloop family -/

/-- C28, evaluated at failing inputs: for the lengths 2 and 3 the bound
`vc->length - TURN - 1` is 4294967294 and 4294967295 in `unsigned int`
arithmetic (it is 0 for length 4).  At length 2 with the bit `ALLOC_CIRC`
the array `E_M2` has 4 entries; the loop body runs, it completes for the
positions 1 to 3, and at position 4, which is `n + 2`, it reads outside the
array.  Teardown right after allocation ends in that out-of-bounds read,
for the MFE family at length 2 and for the partition function family at
length 3. -/
theorem m2_teardown_reads_past_allocation :
    size_guard 2 = false
    ∧ m2_bound viennaConsts 2 = 4294967294
    ∧ m2_bound viennaConsts 3 = 4294967295
    ∧ m2_bound viennaConsts 4 = 0
    ∧ (get_mfe_matrices_alloc (R := ℚ) viennaConsts 2 MxType.VRNA_MX_2DFOLD ALLOC_CIRC
        Heap.empty).value.map (fun m => m.M2.E) = some (Ptr.mk 1 0)
    ∧ (get_mfe_matrices_alloc (R := ℚ) viennaConsts 2 MxType.VRNA_MX_2DFOLD ALLOC_CIRC
        Heap.empty).heap.extent (Ptr.mk 1 0) = some 4
    ∧ ((get_mfe_matrices_alloc (R := ℚ) viennaConsts 2 MxType.VRNA_MX_2DFOLD ALLOC_CIRC
          >>= fun m => forRange (fun i => free_entry viennaConsts m.M2 (i : Int)) 3 1)
        Heap.empty).fault = none
    ∧ ((get_mfe_matrices_alloc (R := ℚ) viennaConsts 2 MxType.VRNA_MX_2DFOLD ALLOC_CIRC
          >>= fun m => free_entry viennaConsts m.M2 ((2 + 2 : Nat) : Int))
        Heap.empty).fault = some Fault.out_of_bounds
    ∧ ((get_mfe_matrices_alloc (R := ℚ) viennaConsts 2 MxType.VRNA_MX_2DFOLD ALLOC_CIRC
          >>= fun m => free_linear viennaConsts m.M2 (m2_bound viennaConsts 2 - 1))
        Heap.empty).fault = some Fault.out_of_bounds
    ∧ (alloc_then_free_mfe (R := ℚ) viennaConsts
        { FoldCompound.zero Ptr.null with length := 2 } MxType.VRNA_MX_2DFOLD ALLOC_CIRC
        Heap.empty).fault = some Fault.out_of_bounds
    ∧ (alloc_then_free_pf viennaConsts sampleOps
        { FoldCompound.zero Ptr.null with length := 3 } MxType.VRNA_MX_2DFOLD ALLOC_CIRC
        Heap.empty).fault = some Fault.out_of_bounds := by
  decide!

/-! ## Closed form of the scale tables -/

/-- C29: in exact arithmetic on a field, on a fold compound of length `n` whose
scale tables are allocated and whose `pf_scale` is not zero, `rescale_params`
returns and leaves `scale[i] = (1 / pf_scale) ^ i` and
`expMLbase[i] = (expMLbase / pf_scale) ^ i` for every `i` with `0 <= i <= n`.
These are the entries that repeated multiplication by `scale[1]`
(by `expMLbase[1]`) computes. -/
theorem scale_tables_closed_form {R : Type} [Field R] (F : FltOps R) (vc : FoldCompound R)
    (m : PfMx R) (pf : ExpParams R) (h : Heap R) (hF : F.exact)
    (hm : vc.exp_matrices = some m) (hp : vc.exp_params = some pf)
    (hr : scale_tables_ready h m vc.length) (hnz : pf.pf_scale ≠ 0) :
    ∃ h2, rescale_params F vc h = Outcome.ok () h2
      ∧ (1 / pf.pf_scale) * pf.pf_scale = 1
      ∧ ∀ i : Nat, i ≤ vc.length →
          h2.cell m.scale (i : Int) = some (Cell.flt ((1 / pf.pf_scale) ^ i))
          ∧ h2.cell m.expMLbase (i : Int)
              = some (Cell.flt ((pf.expMLbase / pf.pf_scale) ^ i))
          ∧ h2.cell m.scale (i : Int)
              = some (Cell.flt (repeated_product (F.div (F.lit 1) pf.pf_scale) i))
          ∧ h2.cell m.expMLbase (i : Int)
              = some (Cell.flt (repeated_product (F.div pf.expMLbase pf.pf_scale) i)) := by
  obtain ⟨f1, f2, f3, f4, f5⟩ := hF
  obtain ⟨h2, e, hv⟩ := rescale_params_values F vc m pf h
    (fun i => (1 / pf.pf_scale) ^ i) (fun i => (pf.expMLbase / pf.pf_scale) ^ i) hm hp hr
    (by rw [f1]; simp) (by rw [f4, f1]; simp) (by rw [f2]; simp) (by rw [f4]; simp)
    (by
      intro i hi
      simp only
      rw [f3, ← pow_add]
      congr 1
      omega)
    (by
      intro i hi
      simp only
      rw [f3, f5, ← mul_pow, mul_one_div])
  refine ⟨h2, e, one_div_mul_cancel hnz, ?_⟩
  intro i hi
  obtain ⟨a, b⟩ := hv i hi
  refine ⟨a, b, ?_, ?_⟩
  · rw [repeated_product_eq_pow, f4, f1]; exact a
  · rw [repeated_product_eq_pow, f4]; exact b

/-- The tables of `sampleScaleVc`, with `pf_scale = 2` and `expMLbase = 3`,
at index 3. -/
theorem scale_tables_closed_form_witness :
    ∃ h2, rescale_params sampleOps sampleScaleVc sampleScaleHeap = Outcome.ok () h2
      ∧ h2.cell sampleScaleMx.scale 3 = some (Cell.flt ((1 / 2 : ℚ) ^ 3))
      ∧ h2.cell sampleScaleMx.expMLbase 3 = some (Cell.flt ((3 / 2 : ℚ) ^ 3)) := by
  obtain ⟨h2, e, -, hv⟩ := scale_tables_closed_form sampleOps sampleScaleVc sampleScaleMx
    sampleScaleParams sampleScaleHeap sampleOps_exact rfl rfl
    ⟨2, 3, _, _, rfl, rfl, by decide, rfl, rfl, by decide, by decide⟩ (by decide)
  exact ⟨h2, e, (hv 3 (by decide)).1, (hv 3 (by decide)).2.1⟩

/-! ## Constraints in `make_pscores` -/

/-- C30 fails as stated: for the alignment of the one sequence `GAAAC` and the
model details `sampleRiboMd`, which ask for ribosum scoring, the score of
the pair `(1, 5)`, which is `pscore[jindx[5] + 1] = pscore[11]`, is 0 when
the global variable `RibosumFile` is `NULL` and 100 when it names a file
whose matrix holds 1: the alignment and the model details are the same in
both runs. -/
theorem pscores_depend_on_ribosum_file :
    (vrna_get_fold_compound_ali viennaConsts sampleOps (sampleRiboExt none)
        (some ["GAAAC".toList]) (some sampleRiboMd) 9 Heap.empty).cell_of
          (fun vc => vc.pscore) 11 = some (Cell.int 0)
    ∧ (vrna_get_fold_compound_ali viennaConsts sampleOps
        (sampleRiboExt (some "ribosum.mat".toList))
        (some ["GAAAC".toList]) (some sampleRiboMd) 9 Heap.empty).cell_of
          (fun vc => vc.pscore) 11 = some (Cell.int 100)
    ∧ (vrna_get_fold_compound_ali viennaConsts sampleOps (sampleRiboExt none)
        (some ["GAAAC".toList]) (some sampleRiboMd) 9 Heap.empty).cell_of
          (fun vc => vc.jindx) 5 = some (Cell.int 10)
    ∧ (vrna_get_fold_compound_ali viennaConsts sampleOps (sampleRiboExt none)
        (some ["GAAAC".toList]) (some sampleRiboMd) 9 Heap.empty).model_details_of
        = some sampleRiboMd
    ∧ (vrna_get_fold_compound_ali viennaConsts sampleOps
        (sampleRiboExt (some "ribosum.mat".toList))
        (some ["GAAAC".toList]) (some sampleRiboMd) 9 Heap.empty).model_details_of
        = some sampleRiboMd
    ∧ sampleRiboExt none
        = { sampleRiboExt (some "ribosum.mat".toList) with RibosumFile := none } := by
  refine ⟨by decide!, by decide!, by decide!, by decide!, by decide!, rfl⟩

/-- C30, amended: for every fold compound and every value of the global
`fold_constrained`, `make_pscores` is the same computation: the local
constraint string is null, so the block that applies a constraint is not
executed, and `make_pscores` never stops with one of the errors for
unbalanced brackets.  Besides the fold compound (the alignment and the
model details), `make_pscores` depends on the sources of the ribosum matrix
only: the global `RibosumFile` and what `readribosum` and `get_ribosum`
return; with `md.ribo = 0` it depends on the fold compound alone. -/
theorem pscores_ignore_constraints {R : Type} (K : Consts) (F : FltOps R) (E E2 : Ext R)
    (vc : FoldCompound R) :
    (∀ c : Int, make_pscores K F { E with fold_constrained := c } vc = make_pscores K F E vc)
    ∧ make_pscores K F { E2 with RibosumFile := E.RibosumFile, readribosum := E.readribosum,
                                 get_ribosum := E.get_ribosum } vc
        = make_pscores K F E vc
    ∧ (∀ p, vc.params = some p → p.model_details.ribo = 0 →
        make_pscores K F E2 vc = make_pscores K F E vc)
    ∧ (∀ p, vc.params = none → vc.exp_params = some p → p.model_details.ribo = 0 →
        make_pscores K F E2 vc = make_pscores K F E vc)
    ∧ (∀ h f h2, make_pscores K F E vc h = Outcome.fail f h2 →
        f ≠ Fault.message msg_unbalanced ∧ f ≠ Fault.message msg_unbalanced_string) := by
  refine ⟨?_, ?_, ?_, ?_, ?_⟩
  · intro c
    unfold make_pscores
    simp only [ite_self]
  · unfold make_pscores
    simp only [ite_self]
  · intro p hp hr
    unfold make_pscores
    simp only [hp, pure_bind_M, hr, ne_eq, not_true_eq_false, if_false, ite_self]
  · intro p hn hp hr
    unfold make_pscores
    simp only [hn, hp, pure_bind_M, hr, ne_eq, not_true_eq_false, if_false, ite_self]
  · intro h f h2 e
    have hv := nv_make_pscores K F E vc h f h2 e
    constructor
    · intro hq
      rw [hq] at hv
      exact absurd hv (by decide)
    · intro hq
      rw [hq] at hv
      exact absurd hv (by decide)

/-- The alignment `sampleAliVc` with the model details `sampleMd`, which have
`ribo = 0`: the stand-ins with a ribosum file give the same computation as
the stand-ins without one. -/
theorem pscores_ignore_constraints_witness :
    make_pscores viennaConsts sampleOps (sampleRiboExt (some "ribosum.mat".toList))
        { sampleAliVc with params := some { self := Ptr.null, model_details := sampleMd } }
      = make_pscores viennaConsts sampleOps sampleExt
        { sampleAliVc with params := some { self := Ptr.null, model_details := sampleMd } } :=
  (pscores_ignore_constraints viennaConsts sampleOps sampleExt
    (sampleRiboExt (some "ribosum.mat".toList))
    { sampleAliVc with params := some { self := Ptr.null, model_details := sampleMd } }).2.2.1
    { self := Ptr.null, model_details := sampleMd } rfl rfl

end ViennaRNA
